import Mathlib

/-! Rockchip ISP1 subdevice.

A shallow embedding of `drivers/media/platform/rockchip-isp1/rkisp1.c`: the pad
format / crop negotiation (format catalog lookup, `try_fmt`, `set_fmt`,
`get_fmt`, `try_crop`, `set_selection`, `get_selection`, default
initialisation), the pipeline configuration, stream start and stop, and the
interrupt handler; and of `set_scale` of `regs.c`; together with theorems about
them.

Machine integers are natural numbers / integers with explicit reduction
modulo `2 ^ 32`: a `u32` is a `Nat` below `2 ^ 32`, an `s32` is an `Int`
in `[-2 ^ 31, 2 ^ 31)`.
-/

namespace Rkisp1

/-! ## Machine integers -/

/-- Conversion of a C integer value to `u32` (reduction modulo `2 ^ 32`). -/
def toU32 (x : Int) : Nat := (x % 4294967296).toNat

/-- Conversion of a `u32` bit pattern to `s32` (two's complement). -/
def toS32 (n : Nat) : Int :=
  if n % 4294967296 < 2147483648 then ((n % 4294967296 : Nat) : Int)
  else ((n % 4294967296 : Nat) : Int) - 4294967296

/-- Kernel helper `__ALIGN_KERNEL_MASK(x, mask)` of `include/uapi/linux/kernel.h`,
`(((x) + (mask)) & ~(mask))`, evaluated on 32-bit patterns: `~mask` is the
32-bit complement of `mask`. -/
def __ALIGN_KERNEL_MASK (x mask : Nat) : Nat :=
  ((x + mask) % 4294967296) &&& (4294967295 - mask % 4294967296)

/-- Kernel macro `ALIGN(x, a)` of `include/linux/kernel.h`, which expands to
`__ALIGN_KERNEL_MASK(x, (typeof(x))(a) - 1)`, at type `u32`. -/
def ALIGN_u32 (x a : Nat) : Nat := __ALIGN_KERNEL_MASK (x % 4294967296) (a - 1)

/-- Kernel macro `ALIGN(x, a)` at type `s32`: the same bit operations on the
two's complement pattern of `x`. -/
def ALIGN_s32 (x : Int) (a : Nat) : Int := toS32 (__ALIGN_KERNEL_MASK (toU32 x) (a - 1))

/-- Kernel macro `clamp_t(u32, val, lo, hi)` of `include/linux/kernel.h`:
`min_t(u32, max_t(u32, val, lo), hi)`, every operand first converted to `u32`. -/
def clamp_t_u32 (val lo hi : Int) : Nat := min (max (toU32 val) (toU32 lo)) (toU32 hi)

/-! ## Constants

`rkisp1.c` lines 46-53, `rkisp1.h` (pad enumeration), `common.h` (format
families, Bayer patterns, default size).  The `MEDIA_BUS_FMT_*`, `V4L2_*`
and `EINVAL` values are those of the kernel UAPI headers
(`media-bus-format.h`, `videodev2.h`, `v4l2-common.h`, `v4l2-subdev.h`,
`errno-base.h`); `MI_CTRL_SP_INPUT_YUV422` is the driver's `regs.h` value. -/

def CIF_ISP_INPUT_W_MAX : Nat := 4032
def CIF_ISP_INPUT_H_MAX : Nat := 3024
def CIF_ISP_INPUT_W_MIN : Nat := 32
def CIF_ISP_INPUT_H_MIN : Nat := 32
def CIF_ISP_OUTPUT_W_MAX : Nat := CIF_ISP_INPUT_W_MAX
def CIF_ISP_OUTPUT_H_MAX : Nat := CIF_ISP_INPUT_H_MAX
def CIF_ISP_OUTPUT_W_MIN : Nat := CIF_ISP_INPUT_W_MIN
def CIF_ISP_OUTPUT_H_MIN : Nat := CIF_ISP_INPUT_H_MIN

def RKISP1_DEFAULT_WIDTH : Nat := 800
def RKISP1_DEFAULT_HEIGHT : Nat := 600

def RKISP1_ISP_PAD_SINK : Nat := 0
def RKISP1_ISP_PAD_SINK_PARAMS : Nat := 1
def RKISP1_ISP_PAD_SOURCE_PATH : Nat := 2
def RKISP1_ISP_PAD_SOURCE_STATS : Nat := 3
def RKISP1_ISP_PAD_MAX : Nat := 4

def FMT_YUV : Nat := 0
def FMT_RGB : Nat := 1
def FMT_BAYER : Nat := 2
def FMT_JPEG : Nat := 3

def RAW_BGGR : Nat := 0
def RAW_GBRG : Nat := 1
def RAW_GRBG : Nat := 2
def RAW_RGGB : Nat := 3

def MEDIA_BUS_FMT_YUYV8_2X8 : Nat := 0x2008
def MEDIA_BUS_FMT_UYVY8_1X16 : Nat := 0x200f
def MEDIA_BUS_FMT_VYUY8_1X16 : Nat := 0x2010
def MEDIA_BUS_FMT_YUYV8_1X16 : Nat := 0x2011
def MEDIA_BUS_FMT_YVYU8_1X16 : Nat := 0x2012
def MEDIA_BUS_FMT_SBGGR8_1X8 : Nat := 0x3001
def MEDIA_BUS_FMT_SGRBG8_1X8 : Nat := 0x3002
def MEDIA_BUS_FMT_SGBRG8_1X8 : Nat := 0x3013
def MEDIA_BUS_FMT_SRGGB8_1X8 : Nat := 0x3014
def MEDIA_BUS_FMT_SBGGR10_1X10 : Nat := 0x3007
def MEDIA_BUS_FMT_SGRBG10_1X10 : Nat := 0x300a
def MEDIA_BUS_FMT_SGBRG10_1X10 : Nat := 0x300e
def MEDIA_BUS_FMT_SRGGB10_1X10 : Nat := 0x300f
def MEDIA_BUS_FMT_SBGGR12_1X12 : Nat := 0x3008
def MEDIA_BUS_FMT_SGBRG12_1X12 : Nat := 0x3010
def MEDIA_BUS_FMT_SGRBG12_1X12 : Nat := 0x3011
def MEDIA_BUS_FMT_SRGGB12_1X12 : Nat := 0x3012

def V4L2_COLORSPACE_JPEG : Nat := 7
def V4L2_COLORSPACE_SRGB : Nat := 8
def V4L2_FIELD_NONE : Nat := 1
def V4L2_SUBDEV_FORMAT_TRY : Nat := 0
def V4L2_SUBDEV_FORMAT_ACTIVE : Nat := 1
def V4L2_SEL_TGT_CROP : Nat := 0
def V4L2_SEL_TGT_CROP_BOUNDS : Nat := 2
def EINVAL : Int := 22

def MI_CTRL_SP_INPUT_YUV422 : Nat := 2 * 2 ^ 12

/-! ## Data model -/

/-- Kernel `struct v4l2_rect`: `__s32 left, top; __u32 width, height`. -/
structure v4l2_rect where
  left : Int
  top : Int
  width : Nat
  height : Nat
deriving DecidableEq, Repr

/-- Kernel `struct v4l2_mbus_framefmt`: `width`, `height`, `code`, `field` and
`colorspace` are `u32`, the three encoding members `u16`; the reserved
padding is left out. -/
structure v4l2_mbus_framefmt where
  width : Nat
  height : Nat
  code : Nat
  field : Nat
  colorspace : Nat
  ycbcr_enc : Nat := 0
  quantization : Nat := 0
  xfer_func : Nat := 0
deriving DecidableEq, Repr

/-- Kernel `struct v4l2_subdev_format`. -/
structure v4l2_subdev_format where
  which : Nat
  pad : Nat
  format : v4l2_mbus_framefmt
deriving DecidableEq, Repr

/-- Kernel `struct v4l2_subdev_selection`. -/
structure v4l2_subdev_selection where
  which : Nat
  pad : Nat
  target : Nat
  flags : Nat
  r : v4l2_rect
deriving DecidableEq, Repr

/-- Kernel `struct v4l2_subdev_pad_config`: the per-file-handle TRY state of
one pad. -/
structure v4l2_subdev_pad_config where
  try_fmt : v4l2_mbus_framefmt
  try_crop : v4l2_rect
  try_compose : v4l2_rect
deriving DecidableEq, Repr

/-- Driver `struct rkisp1_fmt` (`common.h`); members a table entry does not
name are zero, as for a C designated initialiser.  `bpp` lists the leading
planes the initialiser gives. -/
structure rkisp1_fmt where
  fourcc : Nat := 0
  mbus_code : Nat := 0
  colorspace : Nat := 0
  fmt_type : Nat := 0
  xsubs : Nat := 0
  ysubs : Nat := 0
  bayer_pat : Nat := 0
  cplanes : Nat := 0
  mplanes : Nat := 0
  uv_swap : Nat := 0
  yc_swap : Nat := 0
  write_format : Nat := 0
  input_format : Nat := 0
  output_format : Nat := 0
  mipi_data_type : Nat := 0
  bpp : List Nat := []
deriving DecidableEq, Repr

/-- Driver `struct rkisp1_isp_subdev` (`rkisp1.h`): the negotiated pad state
and the frame-sync counter. -/
structure rkisp1_isp_subdev where
  in_fmt : rkisp1_fmt
  in_win : v4l2_rect
  in_crop : v4l2_rect
  out_fmt : rkisp1_fmt
  out_win : v4l2_rect
  frm_sync_seq : Int
deriving DecidableEq, Repr

/-- Outcome of a pad operation on a format: return value, subdevice state
after the call, and the caller's `struct v4l2_subdev_format` after the call. -/
structure FmtResult where
  ret : Int
  isp_sd : rkisp1_isp_subdev
  fmt : v4l2_subdev_format
deriving DecidableEq, Repr

/-- Outcome of a pad operation on a selection: return value, subdevice state
after the call, and the caller's `struct v4l2_subdev_selection` after the call. -/
structure SelResult where
  ret : Int
  isp_sd : rkisp1_isp_subdev
  sel : v4l2_subdev_selection
deriving DecidableEq, Repr

/-! ## Format catalog (`rkisp1.c` lines 533-729) -/

def rkisp1_isp_output_formats : List rkisp1_fmt := [
  { mbus_code := MEDIA_BUS_FMT_YUYV8_2X8, fmt_type := FMT_YUV, bpp := [16],
    uv_swap := 0, yc_swap := 0, xsubs := 2, ysubs := 1,
    colorspace := V4L2_COLORSPACE_JPEG, input_format := MI_CTRL_SP_INPUT_YUV422 },
  { mbus_code := MEDIA_BUS_FMT_SRGGB12_1X12, fmt_type := FMT_BAYER, bayer_pat := RAW_RGGB,
    bpp := [12], colorspace := V4L2_COLORSPACE_SRGB },
  { mbus_code := MEDIA_BUS_FMT_SBGGR12_1X12, fmt_type := FMT_BAYER, bayer_pat := RAW_BGGR,
    bpp := [12], colorspace := V4L2_COLORSPACE_SRGB },
  { mbus_code := MEDIA_BUS_FMT_SGBRG12_1X12, fmt_type := FMT_BAYER, bayer_pat := RAW_GBRG,
    bpp := [12], colorspace := V4L2_COLORSPACE_SRGB },
  { mbus_code := MEDIA_BUS_FMT_SGRBG12_1X12, fmt_type := FMT_BAYER, bayer_pat := RAW_GRBG,
    bpp := [12], colorspace := V4L2_COLORSPACE_SRGB },
  { mbus_code := MEDIA_BUS_FMT_SRGGB10_1X10, fmt_type := FMT_BAYER, bayer_pat := RAW_RGGB,
    bpp := [10], colorspace := V4L2_COLORSPACE_SRGB },
  { mbus_code := MEDIA_BUS_FMT_SBGGR10_1X10, fmt_type := FMT_BAYER, bayer_pat := RAW_BGGR,
    bpp := [10], colorspace := V4L2_COLORSPACE_SRGB },
  { mbus_code := MEDIA_BUS_FMT_SGBRG10_1X10, fmt_type := FMT_BAYER, bayer_pat := RAW_GBRG,
    bpp := [10], colorspace := V4L2_COLORSPACE_SRGB },
  { mbus_code := MEDIA_BUS_FMT_SGRBG10_1X10, fmt_type := FMT_BAYER, bayer_pat := RAW_GRBG,
    bpp := [10], colorspace := V4L2_COLORSPACE_SRGB },
  { mbus_code := MEDIA_BUS_FMT_SRGGB8_1X8, fmt_type := FMT_BAYER, bayer_pat := RAW_RGGB,
    bpp := [8], colorspace := V4L2_COLORSPACE_SRGB },
  { mbus_code := MEDIA_BUS_FMT_SBGGR8_1X8, fmt_type := FMT_BAYER, bayer_pat := RAW_BGGR,
    bpp := [8], colorspace := V4L2_COLORSPACE_SRGB },
  { mbus_code := MEDIA_BUS_FMT_SGBRG8_1X8, fmt_type := FMT_BAYER, bayer_pat := RAW_GBRG,
    bpp := [8], colorspace := V4L2_COLORSPACE_SRGB },
  { mbus_code := MEDIA_BUS_FMT_SGRBG8_1X8, fmt_type := FMT_BAYER, bayer_pat := RAW_GRBG,
    bpp := [8], colorspace := V4L2_COLORSPACE_SRGB } ]

def rkisp1_isp_input_formats : List rkisp1_fmt := [
  { mbus_code := MEDIA_BUS_FMT_SBGGR10_1X10, fmt_type := FMT_BAYER, bayer_pat := RAW_BGGR,
    bpp := [10], colorspace := V4L2_COLORSPACE_SRGB },
  { mbus_code := MEDIA_BUS_FMT_SRGGB12_1X12, fmt_type := FMT_BAYER, bayer_pat := RAW_RGGB,
    bpp := [12], colorspace := V4L2_COLORSPACE_SRGB },
  { mbus_code := MEDIA_BUS_FMT_SBGGR12_1X12, fmt_type := FMT_BAYER, bayer_pat := RAW_BGGR,
    bpp := [12], colorspace := V4L2_COLORSPACE_SRGB },
  { mbus_code := MEDIA_BUS_FMT_SGBRG12_1X12, fmt_type := FMT_BAYER, bayer_pat := RAW_GBRG,
    bpp := [12], colorspace := V4L2_COLORSPACE_SRGB },
  { mbus_code := MEDIA_BUS_FMT_SGRBG12_1X12, fmt_type := FMT_BAYER, bayer_pat := RAW_GRBG,
    bpp := [12], colorspace := V4L2_COLORSPACE_SRGB },
  { mbus_code := MEDIA_BUS_FMT_SRGGB10_1X10, fmt_type := FMT_BAYER, bayer_pat := RAW_RGGB,
    bpp := [10], colorspace := V4L2_COLORSPACE_SRGB },
  { mbus_code := MEDIA_BUS_FMT_SGBRG10_1X10, fmt_type := FMT_BAYER, bayer_pat := RAW_GBRG,
    bpp := [10], colorspace := V4L2_COLORSPACE_SRGB },
  { mbus_code := MEDIA_BUS_FMT_SGRBG10_1X10, fmt_type := FMT_BAYER, bayer_pat := RAW_GRBG,
    bpp := [10], colorspace := V4L2_COLORSPACE_SRGB },
  { mbus_code := MEDIA_BUS_FMT_SRGGB8_1X8, fmt_type := FMT_BAYER, bayer_pat := RAW_RGGB,
    bpp := [8], colorspace := V4L2_COLORSPACE_SRGB },
  { mbus_code := MEDIA_BUS_FMT_SBGGR8_1X8, fmt_type := FMT_BAYER, bayer_pat := RAW_BGGR,
    bpp := [8], colorspace := V4L2_COLORSPACE_SRGB },
  { mbus_code := MEDIA_BUS_FMT_SGBRG8_1X8, fmt_type := FMT_BAYER, bayer_pat := RAW_GBRG,
    bpp := [8], colorspace := V4L2_COLORSPACE_SRGB },
  { mbus_code := MEDIA_BUS_FMT_SGRBG8_1X8, fmt_type := FMT_BAYER, bayer_pat := RAW_GRBG,
    bpp := [8], colorspace := V4L2_COLORSPACE_SRGB },
  { mbus_code := MEDIA_BUS_FMT_YUYV8_1X16, fmt_type := FMT_YUV, bpp := [16],
    uv_swap := 0, yc_swap := 0, xsubs := 2, ysubs := 1, colorspace := V4L2_COLORSPACE_JPEG },
  { mbus_code := MEDIA_BUS_FMT_YVYU8_1X16, fmt_type := FMT_YUV, bpp := [16],
    uv_swap := 1, yc_swap := 0, xsubs := 2, ysubs := 1, colorspace := V4L2_COLORSPACE_JPEG },
  { mbus_code := MEDIA_BUS_FMT_UYVY8_1X16, fmt_type := FMT_YUV, bpp := [16],
    uv_swap := 0, yc_swap := 1, xsubs := 2, ysubs := 1, colorspace := V4L2_COLORSPACE_JPEG },
  { mbus_code := MEDIA_BUS_FMT_VYUY8_1X16, fmt_type := FMT_YUV, bpp := [16],
    uv_swap := 1, yc_swap := 1, xsubs := 2, ysubs := 1, colorspace := V4L2_COLORSPACE_JPEG } ]

/-- The `for` loop of `rkisp1_isp_sd_find_fmt` (lines 752-756), `i` being the
position of the head of the remaining table. -/
def find_fmt_loop : List rkisp1_fmt → Nat → Int → Int → Option rkisp1_fmt
  | [], _, _, _ => none
  | fmt :: rest, mbus_code, index, i =>
    if fmt.mbus_code = mbus_code ∨ index = i then some fmt
    else find_fmt_loop rest mbus_code index (i + 1)

/-- Function `rkisp1_isp_sd_find_fmt` (lines 731-759); `none` is the `NULL` result. -/
def rkisp1_isp_sd_find_fmt (pad : Nat) (mbus_code : Nat) (index : Int) : Option rkisp1_fmt :=
  if pad ≠ RKISP1_ISP_PAD_SINK ∧ pad ≠ RKISP1_ISP_PAD_SOURCE_PATH then none
  else
    let array_fmt :=
      if pad = RKISP1_ISP_PAD_SINK then rkisp1_isp_input_formats else rkisp1_isp_output_formats
    let array_size : Int := array_fmt.length
    if index ≥ array_size then none
    else find_fmt_loop array_fmt mbus_code index 0

/-! ## Pad negotiation (`rkisp1.c` lines 776-1001, 1106-1124) -/

/-- Kernel accessor `v4l2_subdev_get_try_format(sd, cfg, pad)`: the TRY format
stored for `pad` in the file handle's pad configuration. -/
def v4l2_subdev_get_try_format (cfg : Nat → v4l2_subdev_pad_config) (pad : Nat) :
    v4l2_mbus_framefmt :=
  (cfg pad).try_fmt

/-- Kernel accessor `v4l2_subdev_get_try_crop(sd, cfg, pad)`. -/
def v4l2_subdev_get_try_crop (cfg : Nat → v4l2_subdev_pad_config) (pad : Nat) : v4l2_rect :=
  (cfg pad).try_crop

/-- Function `rkisp1_isp_sd_get_fmt` (lines 776-807). -/
def rkisp1_isp_sd_get_fmt (isp_sd : rkisp1_isp_subdev) (cfg : Nat → v4l2_subdev_pad_config)
    (fmt : v4l2_subdev_format) : FmtResult :=
  if fmt.pad ≠ RKISP1_ISP_PAD_SINK ∧ fmt.pad ≠ RKISP1_ISP_PAD_SOURCE_PATH then
    { ret := -EINVAL, isp_sd := isp_sd, fmt := fmt }
  else if fmt.which = V4L2_SUBDEV_FORMAT_TRY then
    { ret := 0, isp_sd := isp_sd,
      fmt := { fmt with format := v4l2_subdev_get_try_format cfg fmt.pad } }
  else
    let mf := fmt.format
    let mf :=
      if fmt.pad = RKISP1_ISP_PAD_SINK then
        { mf with width := isp_sd.in_win.width, height := isp_sd.in_win.height,
                  colorspace := isp_sd.in_fmt.colorspace, code := isp_sd.in_fmt.mbus_code }
      else if fmt.pad = RKISP1_ISP_PAD_SOURCE_PATH then
        { mf with width := isp_sd.out_win.width, height := isp_sd.out_win.height,
                  colorspace := isp_sd.out_fmt.colorspace, code := isp_sd.out_fmt.mbus_code }
      else mf
    let mf := { mf with field := V4L2_FIELD_NONE }
    { ret := 0, isp_sd := isp_sd, fmt := { fmt with format := mf } }

/-- Function `rkisp1_isp_sd_try_fmt` (lines 809-846): the subdevice state is
handed through untouched, the format is rewritten in place. -/
def rkisp1_isp_sd_try_fmt (isp_sd : rkisp1_isp_subdev) (pad : Nat) (fmt : v4l2_mbus_framefmt) :
    rkisp1_isp_subdev × v4l2_mbus_framefmt :=
  let cif_fmt := rkisp1_isp_sd_find_fmt pad fmt.code (-1)
  let fmt :=
    if pad = RKISP1_ISP_PAD_SINK then
      let fmt :=
        match cif_fmt with
        | some c => { fmt with code := c.mbus_code, colorspace := c.colorspace }
        | none => { fmt with code := MEDIA_BUS_FMT_SRGGB10_1X10,
                             colorspace := V4L2_COLORSPACE_SRGB }
      { fmt with
        width := clamp_t_u32 fmt.width CIF_ISP_INPUT_W_MIN CIF_ISP_INPUT_W_MAX,
        height := clamp_t_u32 fmt.height CIF_ISP_INPUT_H_MIN CIF_ISP_INPUT_H_MAX }
    else if pad = RKISP1_ISP_PAD_SOURCE_PATH then
      let fmt :=
        match cif_fmt with
        | some c => { fmt with code := c.mbus_code, colorspace := c.colorspace }
        | none => { fmt with code := MEDIA_BUS_FMT_YUYV8_2X8,
                             colorspace := V4L2_COLORSPACE_JPEG }
      { fmt with
        width := clamp_t_u32 fmt.width CIF_ISP_OUTPUT_W_MIN CIF_ISP_OUTPUT_W_MAX,
        height := clamp_t_u32 fmt.height CIF_ISP_OUTPUT_H_MIN CIF_ISP_OUTPUT_H_MAX }
    else fmt
  (isp_sd, { fmt with field := V4L2_FIELD_NONE })

/-- Function `rkisp1_isp_sd_set_fmt` (lines 848-890).  The result is `none`
when the C code would dereference the `NULL` returned by the second catalog
lookup (`*in_fmt = *cif_fmt`). -/
def rkisp1_isp_sd_set_fmt (isp_sd : rkisp1_isp_subdev) (cfg : Nat → v4l2_subdev_pad_config)
    (fmt : v4l2_subdev_format) : Option FmtResult :=
  if fmt.pad ≠ RKISP1_ISP_PAD_SINK ∧ fmt.pad ≠ RKISP1_ISP_PAD_SOURCE_PATH then
    some { ret := -EINVAL, isp_sd := isp_sd, fmt := fmt }
  else if fmt.which = V4L2_SUBDEV_FORMAT_TRY then
    some { ret := 0, isp_sd := isp_sd,
           fmt := { fmt with format := v4l2_subdev_get_try_format cfg fmt.pad } }
  else
    let tried := rkisp1_isp_sd_try_fmt isp_sd fmt.pad fmt.format
    let isp_sd := tried.1
    let mf := tried.2
    let cif_fmt := rkisp1_isp_sd_find_fmt fmt.pad mf.code (-1)
    if fmt.pad = RKISP1_ISP_PAD_SINK then
      match cif_fmt with
      | none => none
      | some c =>
        let in_win : v4l2_rect := { isp_sd.in_win with
          top := 0, left := 0, width := mf.width, height := mf.height }
        some { ret := 0,
               isp_sd := { isp_sd with in_win := in_win, in_fmt := c, in_crop := in_win },
               fmt := { fmt with format := mf } }
    else if fmt.pad = RKISP1_ISP_PAD_SOURCE_PATH then
      match cif_fmt with
      | none => none
      | some c =>
        let out_win : v4l2_rect := { isp_sd.out_win with
          top := 0, left := 0, width := mf.width, height := mf.height }
        some { ret := 0,
               isp_sd := { isp_sd with out_win := out_win, out_fmt := c },
               fmt := { fmt with format := mf } }
    else some { ret := 0, isp_sd := isp_sd, fmt := { fmt with format := mf } }

/-- Function `rkisp1_isp_sd_try_crop` (lines 892-930): reads the subdevice
state, rewrites the caller's rectangle in place. -/
def rkisp1_isp_sd_try_crop (isp_sd : rkisp1_isp_subdev) (sel : v4l2_subdev_selection) :
    SelResult :=
  let in_ := isp_sd.in_win
  let in_crop := isp_sd.in_crop
  if sel.target ≠ V4L2_SEL_TGT_CROP then
    { ret := -EINVAL, isp_sd := isp_sd, sel := sel }
  else
    let input := sel.r
    let input := { input with left := ALIGN_s32 input.left 2 }
    let input := { input with width := ALIGN_u32 input.width 2 }
    let input :=
      if sel.pad = RKISP1_ISP_PAD_SINK then
        let input := { input with left := toS32 (clamp_t_u32 input.left 0 in_.width) }
        let input := { input with top := toS32 (clamp_t_u32 input.top 0 in_.height) }
        let input := { input with
          width := clamp_t_u32 input.width CIF_ISP_INPUT_W_MIN (in_.width - input.left) }
        { input with
          height := clamp_t_u32 input.height CIF_ISP_INPUT_H_MIN (in_.height - input.top) }
      else if sel.pad = RKISP1_ISP_PAD_SOURCE_PATH then
        let input := { input with left := toS32 (clamp_t_u32 input.left 0 in_crop.width) }
        let input := { input with top := toS32 (clamp_t_u32 input.top 0 in_crop.height) }
        let input := { input with
          width := clamp_t_u32 input.width CIF_ISP_OUTPUT_W_MIN (in_crop.width - input.left) }
        { input with
          height := clamp_t_u32 input.height CIF_ISP_OUTPUT_H_MIN (in_crop.height - input.top) }
      else input
    { ret := 0, isp_sd := isp_sd, sel := { sel with r := input } }

/-- Function `rkisp1_isp_sd_get_selection` (lines 932-968). -/
def rkisp1_isp_sd_get_selection (isp_sd : rkisp1_isp_subdev)
    (cfg : Nat → v4l2_subdev_pad_config) (sel : v4l2_subdev_selection) : SelResult :=
  if sel.pad ≠ RKISP1_ISP_PAD_SOURCE_PATH ∧ sel.pad ≠ RKISP1_ISP_PAD_SINK then
    { ret := -EINVAL, isp_sd := isp_sd, sel := sel }
  else if sel.which = V4L2_SUBDEV_FORMAT_TRY then
    let _unused := v4l2_subdev_get_try_crop cfg sel.pad
    { ret := 0, isp_sd := isp_sd, sel := sel }
  else if sel.target = V4L2_SEL_TGT_CROP_BOUNDS then
    if sel.pad = RKISP1_ISP_PAD_SINK then
      { ret := 0, isp_sd := isp_sd, sel := { sel with r := isp_sd.in_win } }
    else
      { ret := 0, isp_sd := isp_sd, sel := { sel with r := isp_sd.in_crop } }
  else if sel.target = V4L2_SEL_TGT_CROP then
    if sel.pad = RKISP1_ISP_PAD_SINK then
      { ret := 0, isp_sd := isp_sd, sel := { sel with r := isp_sd.in_crop } }
    else
      { ret := 0, isp_sd := isp_sd, sel := { sel with r := isp_sd.out_win } }
  else
    { ret := -EINVAL, isp_sd := isp_sd, sel := sel }

/-- Function `rkisp1_isp_sd_set_selection` (lines 970-1001); the return value
of the inner `rkisp1_isp_sd_try_crop` call is dropped, as in the C code. -/
def rkisp1_isp_sd_set_selection (isp_sd : rkisp1_isp_subdev)
    (cfg : Nat → v4l2_subdev_pad_config) (sel : v4l2_subdev_selection) : SelResult :=
  if sel.pad ≠ RKISP1_ISP_PAD_SOURCE_PATH ∧ sel.pad ≠ RKISP1_ISP_PAD_SINK then
    { ret := -EINVAL, isp_sd := isp_sd, sel := sel }
  else if sel.which = V4L2_SUBDEV_FORMAT_TRY then
    let _unused := v4l2_subdev_get_try_crop cfg sel.pad
    { ret := 0, isp_sd := isp_sd, sel := sel }
  else
    let tried := rkisp1_isp_sd_try_crop isp_sd sel
    let isp_sd := tried.isp_sd
    let sel := tried.sel
    if sel.target = V4L2_SEL_TGT_CROP then
      if sel.pad = RKISP1_ISP_PAD_SINK then
        { ret := 0, isp_sd := { isp_sd with in_crop := sel.r }, sel := sel }
      else
        { ret := 0, isp_sd := { isp_sd with out_win := sel.r }, sel := sel }
    else
      { ret := -EINVAL, isp_sd := isp_sd, sel := sel }

/-- Function `rkisp1_isp_sd_init_default_fmt` (lines 1106-1124). -/
def rkisp1_isp_sd_init_default_fmt (isp_sd : rkisp1_isp_subdev) : rkisp1_isp_subdev :=
  let in_win : v4l2_rect := { isp_sd.in_win with
    top := 0, left := 0, width := RKISP1_DEFAULT_WIDTH, height := RKISP1_DEFAULT_HEIGHT }
  let in_crop := in_win
  { isp_sd with
    in_win := in_win
    in_crop := in_crop
    in_fmt := rkisp1_isp_input_formats.get ⟨0, by decide⟩
    out_win := in_crop
    out_fmt := rkisp1_isp_output_formats.get ⟨0, by decide⟩ }

/-! ## Specification-level vocabulary -/

/-- Bounding box of a pad's crop rectangle: `in_win` for the sink pad,
`in_crop` for the source path (what `rkisp1_isp_sd_get_selection` reports for
`V4L2_SEL_TGT_CROP_BOUNDS`). -/
def crop_bounds (isp_sd : rkisp1_isp_subdev) (pad : Nat) : v4l2_rect :=
  if pad = RKISP1_ISP_PAD_SINK then isp_sd.in_win else isp_sd.in_crop

/-- A zero-filled `struct rkisp1_isp_subdev`, as the device structure is
before `rkisp1_register_isp_subdev` runs. -/
def isp_sd_zeroed : rkisp1_isp_subdev :=
  { in_fmt := {}, in_win := ⟨0, 0, 0, 0⟩, in_crop := ⟨0, 0, 0, 0⟩,
    out_fmt := {}, out_win := ⟨0, 0, 0, 0⟩, frm_sync_seq := 0 }

/-- The subdevice state right after registration. -/
def isp_sd_default : rkisp1_isp_subdev := rkisp1_isp_sd_init_default_fmt isp_sd_zeroed

/-- A zero-filled pad configuration array. -/
def cfg_zeroed : Nat → v4l2_subdev_pad_config :=
  fun _ => { try_fmt := { width := 0, height := 0, code := 0, field := 0, colorspace := 0 },
             try_crop := ⟨0, 0, 0, 0⟩, try_compose := ⟨0, 0, 0, 0⟩ }

/-- An ACTIVE crop request on `pad` for the rectangle `r`. -/
def crop_request (pad : Nat) (r : v4l2_rect) : v4l2_subdev_selection :=
  { which := V4L2_SUBDEV_FORMAT_ACTIVE, pad := pad, target := V4L2_SEL_TGT_CROP, flags := 0, r := r }

/-- An ACTIVE format request on `pad` for a `width` x `height` frame with bus
code `code`. -/
def fmt_request (pad width height code : Nat) : v4l2_subdev_format :=
  { which := V4L2_SUBDEV_FORMAT_ACTIVE, pad := pad,
    format := { width := width, height := height, code := code, field := 0, colorspace := 0 } }

/-- One negotiation call that can change the pad state. -/
inductive PadOp where
  | set_fmt (cfg : Nat → v4l2_subdev_pad_config) (fmt : v4l2_subdev_format)
  | set_selection (cfg : Nat → v4l2_subdev_pad_config) (sel : v4l2_subdev_selection)

/-- State after one negotiation call (`none`: the call faults). -/
def apply_op (isp_sd : rkisp1_isp_subdev) : PadOp → Option rkisp1_isp_subdev
  | .set_fmt cfg fmt => (rkisp1_isp_sd_set_fmt isp_sd cfg fmt).map (fun r => r.isp_sd)
  | .set_selection cfg sel => some (rkisp1_isp_sd_set_selection isp_sd cfg sel).isp_sd

/-- State after a sequence of negotiation calls, left to right. -/
def run_ops (isp_sd : rkisp1_isp_subdev) : List PadOp → Option rkisp1_isp_subdev
  | [] => some isp_sd
  | op :: rest => (apply_op isp_sd op).bind (fun s => run_ops s rest)

/-- Predicate: `r` is the largest even number `<= x`. -/
def IsLargestEvenLE (r x : Int) : Prop :=
  r % 2 = 0 ∧ r ≤ x ∧ ∀ e : Int, e % 2 = 0 → e ≤ x → e ≤ r

/-- Predicate: `r` is the smallest even number `>= x`. -/
def IsSmallestEvenGE (r x : Int) : Prop :=
  r % 2 = 0 ∧ x ≤ r ∧ ∀ e : Int, e % 2 = 0 → x ≤ e → r ≤ e

/-- Invariant of the sink pad: the sensor window is at most 4032x3024 and the
acquisition crop `in_crop` lies inside the sensor window `in_win`. -/
def SinkCropInside (s : rkisp1_isp_subdev) : Prop :=
  s.in_win.width ≤ 4032 ∧ s.in_win.height ≤ 3024 ∧
  0 ≤ s.in_crop.left ∧ 0 ≤ s.in_crop.top ∧
  s.in_crop.left + s.in_crop.width ≤ s.in_win.width ∧
  s.in_crop.top + s.in_crop.height ≤ s.in_win.height

/-- Agreement of two frame formats on width, height, bus code, colorspace and
field. -/
def SameFrameFormat (a b : v4l2_mbus_framefmt) : Prop :=
  a.width = b.width ∧ a.height = b.height ∧ a.code = b.code ∧
  a.colorspace = b.colorspace ∧ a.field = b.field

/-- Catalog table of a pad: the sink table for the sink pad, the source table
for the source path. -/
def pad_catalog (pad : Nat) : List rkisp1_fmt :=
  if pad = RKISP1_ISP_PAD_SINK then rkisp1_isp_input_formats else rkisp1_isp_output_formats

/-- Fallback bus code of a pad. -/
def pad_default_code (pad : Nat) : Nat :=
  if pad = RKISP1_ISP_PAD_SINK then MEDIA_BUS_FMT_SRGGB10_1X10 else MEDIA_BUS_FMT_YUYV8_2X8

/-- Mathematical clamp of `v` into `[lo, hi]`. -/
def clamp (v lo hi : Nat) : Nat := min (max v lo) hi

/-- Reference for `try_format`, written from its description: the proposed code
if the pad's catalog has it and the pad default otherwise, the colorspace of
the catalog entry of that code, width clamped to `[32, 4032]`, height clamped
to `[32, 3024]`, progressive field, everything else as proposed. -/
def try_fmt_reference (pad : Nat) (p : v4l2_mbus_framefmt) : v4l2_mbus_framefmt :=
  let code :=
    if p.code ∈ (pad_catalog pad).map (fun e => e.mbus_code) then p.code
    else pad_default_code pad
  let colorspace :=
    match (pad_catalog pad).find? (fun e => e.mbus_code = code) with
    | some e => e.colorspace
    | none => 0
  { p with
    code := code
    colorspace := colorspace
    width := clamp p.width 32 4032
    height := clamp p.height 32 3024
    field := V4L2_FIELD_NONE }

/-! ## Hardware model (`rkisp1.c` lines 76-532, 1003-1063, 1187-1360)

The register header `regs.h` is not among the driver files at hand.  Its bit
and field macros are taken as parameters (the record `regs_h`); its register
offsets are represented by the macro names themselves. -/

/-- 32-bit complement `~x` of a `u32`. -/
def not32 (x : Nat) : Nat := 4294967295 - x % 4294967296

/-- Reduction of a C `int` result to the 32-bit two's complement range (the
kernel is built with wrapping signed arithmetic). -/
def wrap_s32 (x : Int) : Int := toS32 (toU32 x)

/-- Modelled from the spec: the Register Interface is a memory-mapped block of
32-bit registers read and written by offset.  The offsets are the macros of
`regs.h`, which is missing here; a register is identified by the name of its
macro, different names being different registers. -/
inductive Reg where
  | CIF_ICCL | CIF_IRCL | CIF_VI_ID | CIF_VI_DPCL
  | CIF_ISP_CTRL | CIF_ISP_ACQ_PROP | CIF_ISP_ACQ_NR_FRAMES
  | CIF_ISP_ACQ_H_OFFS | CIF_ISP_ACQ_V_OFFS | CIF_ISP_ACQ_H_SIZE | CIF_ISP_ACQ_V_SIZE
  | CIF_ISP_OUT_H_OFFS | CIF_ISP_OUT_V_OFFS | CIF_ISP_OUT_H_SIZE | CIF_ISP_OUT_V_SIZE
  | CIF_ISP_DEMOSAIC
  | CIF_ISP_IMSC | CIF_ISP_RIS | CIF_ISP_MIS | CIF_ISP_ICR | CIF_ISP_ERR | CIF_ISP_ERR_CLR
  | CIF_ISP_IS_RECENTER | CIF_ISP_IS_MAX_DX | CIF_ISP_IS_MAX_DY | CIF_ISP_IS_DISPLACE
  | CIF_ISP_IS_H_OFFS | CIF_ISP_IS_V_OFFS | CIF_ISP_IS_H_SIZE | CIF_ISP_IS_V_SIZE
  | CIF_ISP_IS_CTRL
  | CIF_MIPI_CTRL | CIF_MIPI_STATUS | CIF_MIPI_IMSC | CIF_MIPI_MIS | CIF_MIPI_ICR
  | CIF_MIPI_IMG_DATA_SEL
  | CIF_MI_CTRL | CIF_MI_IMSC | CIF_MI_ISR | CIF_MI_ICR
  | CIF_MI_MP_Y_OFFS_CNT_INIT | CIF_MI_MP_CB_OFFS_CNT_INIT | CIF_MI_MP_CR_OFFS_CNT_INIT
  | CIF_MI_SP_Y_OFFS_CNT_INIT | CIF_MI_SP_CB_OFFS_CNT_INIT | CIF_MI_SP_CR_OFFS_CNT_INIT
deriving DecidableEq, Repr

/-- Bit and field macros of `regs.h` used by `rkisp1.c` and `regs.c`, taken as
parameters.  A macro with an argument is a function. -/
structure regs_h where
  CIF_ICCL_ISP_CLK : Nat
  CIF_ICCL_MIPI_CLK : Nat
  CIF_IRCL_ISP_SW_RST : Nat
  CIF_IRCL_MIPI_SW_RST : Nat
  CIF_IRCL_MI_SW_RST : Nat
  CIF_VI_DPCL_IF_SEL_PARALLEL : Nat
  CIF_VI_DPCL_IF_SEL_MIPI : Nat
  CIF_ISP_CTRL_ISP_ENABLE : Nat
  CIF_ISP_CTRL_ISP_INFORM_ENABLE : Nat
  CIF_ISP_CTRL_ISP_CFG_UPD : Nat
  CIF_ISP_CTRL_ISP_GEN_CFG_UPD : Nat
  CIF_ISP_CTRL_ISP_MODE_RAW_PICT : Nat
  CIF_ISP_CTRL_ISP_MODE_RAW_PICT_ITU656 : Nat
  CIF_ISP_CTRL_ISP_MODE_BAYER_ITU601 : Nat
  CIF_ISP_CTRL_ISP_MODE_BAYER_ITU656 : Nat
  CIF_ISP_CTRL_ISP_MODE_ITU601 : Nat
  CIF_ISP_CTRL_ISP_MODE_ITU656 : Nat
  CIF_ISP_DEMOSAIC_TH : Nat → Nat
  CIF_ISP_ACQ_PROP_IN_SEL_8B_MSB : Nat
  CIF_ISP_ACQ_PROP_IN_SEL_10B_MSB : Nat
  CIF_ISP_ACQ_PROP_IN_SEL_12B : Nat
  CIF_ISP_ACQ_PROP_IN_SEL_8B_ZERO : Nat
  CIF_ISP_ACQ_PROP_IN_SEL_10B_ZERO : Nat
  CIF_ISP_ACQ_PROP_BAYER_PAT_BGGR : Nat
  CIF_ISP_ACQ_PROP_BAYER_PAT_GBRG : Nat
  CIF_ISP_ACQ_PROP_BAYER_PAT_GRBG : Nat
  CIF_ISP_ACQ_PROP_BAYER_PAT_RGGB : Nat
  CIF_ISP_ACQ_PROP_CBYCRY : Nat
  CIF_ISP_ACQ_PROP_YCRYCB : Nat
  CIF_ISP_ACQ_PROP_YCBYCR : Nat
  CIF_ISP_ACQ_PROP_POS_EDGE : Nat
  CIF_ISP_ACQ_PROP_VSYNC_LOW : Nat
  CIF_ISP_ACQ_PROP_HSYNC_LOW : Nat
  CIF_ISP_ACQ_PROP_FIELD_SEL_ALL : Nat
  CIF_ISP_OFF : Nat
  CIF_ISP_FRAME : Nat
  CIF_ISP_DATA_LOSS : Nat
  CIF_ISP_PIC_SIZE_ERROR : Nat
  CIF_ISP_FRAME_IN : Nat
  CIF_ISP_V_START : Nat
  CIF_MIPI_CTRL_OUTPUT_ENA : Nat
  CIF_MIPI_CTRL_NUM_LANES : Int → Nat
  CIF_MIPI_CTRL_SHUTDOWNLANES : Nat → Nat
  CIF_MIPI_CTRL_ERR_SOT_SYNC_HS_SKIP : Nat
  CIF_MIPI_CTRL_CLOCKLANE_ENA : Nat
  CIF_MIPI_DATA_SEL_DT : Nat → Nat
  CIF_MIPI_DATA_SEL_VC : Nat → Nat
  CIF_MIPI_FRAME_END : Nat
  CIF_MIPI_ERR_CSI : Nat
  CIF_MIPI_ERR_DPHY : Nat
  CIF_MIPI_ERR_CTRL : Nat → Nat
  CIF_MIPI_SYNC_FIFO_OVFLW : Nat → Nat
  CIF_MIPI_ADD_DATA_OVFLW : Nat
  CIF_CSI2_DT_YUV420_8b : Nat
  CIF_CSI2_DT_YUV420_10b : Nat
  CIF_CSI2_DT_YUV422_8b : Nat
  CIF_CSI2_DT_YUV422_10b : Nat
  CIF_CSI2_DT_RGB565 : Nat
  CIF_CSI2_DT_RGB666 : Nat
  CIF_CSI2_DT_RGB888 : Nat
  CIF_CSI2_DT_RAW8 : Nat
  CIF_CSI2_DT_RAW10 : Nat
  CIF_CSI2_DT_RAW12 : Nat
  CIF_MI_CTRL_INIT_OFFSET_EN : Nat
  CIF_MI_SP_FRAME : Nat
  CIF_MI_MP_FRAME : Nat
  CIF_RSZ_SCALER_FACTOR : Int
  CIF_RSZ_CTRL_SCALE_HY_ENABLE : Nat
  CIF_RSZ_CTRL_SCALE_HC_ENABLE : Nat
  CIF_RSZ_CTRL_SCALE_VY_ENABLE : Nat
  CIF_RSZ_CTRL_SCALE_VC_ENABLE : Nat
  CIF_RSZ_CTRL_SCALE_HY_UP : Nat
  CIF_RSZ_CTRL_SCALE_HC_UP : Nat
  CIF_RSZ_CTRL_SCALE_VY_UP : Nat
  CIF_RSZ_CTRL_SCALE_VC_UP : Nat

/-- An example assignment of values to the `regs.h` names, with one bit or
field per flag, for evaluating the model on concrete inputs.  The theorems
about the driver hold for every assignment that meets their hypotheses. -/
def regs_h_example : regs_h where
  CIF_ICCL_ISP_CLK := 1
  CIF_ICCL_MIPI_CLK := 2048
  CIF_IRCL_ISP_SW_RST := 1
  CIF_IRCL_MIPI_SW_RST := 2048
  CIF_IRCL_MI_SW_RST := 64
  CIF_VI_DPCL_IF_SEL_PARALLEL := 0
  CIF_VI_DPCL_IF_SEL_MIPI := 256
  CIF_ISP_CTRL_ISP_ENABLE := 1
  CIF_ISP_CTRL_ISP_INFORM_ENABLE := 16
  CIF_ISP_CTRL_ISP_CFG_UPD := 512
  CIF_ISP_CTRL_ISP_GEN_CFG_UPD := 1024
  CIF_ISP_CTRL_ISP_MODE_RAW_PICT := 0
  CIF_ISP_CTRL_ISP_MODE_RAW_PICT_ITU656 := 10
  CIF_ISP_CTRL_ISP_MODE_BAYER_ITU601 := 4
  CIF_ISP_CTRL_ISP_MODE_BAYER_ITU656 := 8
  CIF_ISP_CTRL_ISP_MODE_ITU601 := 6
  CIF_ISP_CTRL_ISP_MODE_ITU656 := 2
  CIF_ISP_DEMOSAIC_TH := fun x => x % 256
  CIF_ISP_ACQ_PROP_IN_SEL_8B_MSB := 16384
  CIF_ISP_ACQ_PROP_IN_SEL_10B_MSB := 8192
  CIF_ISP_ACQ_PROP_IN_SEL_12B := 0
  CIF_ISP_ACQ_PROP_IN_SEL_8B_ZERO := 12288
  CIF_ISP_ACQ_PROP_IN_SEL_10B_ZERO := 4096
  CIF_ISP_ACQ_PROP_BAYER_PAT_BGGR := 24
  CIF_ISP_ACQ_PROP_BAYER_PAT_GBRG := 16
  CIF_ISP_ACQ_PROP_BAYER_PAT_GRBG := 8
  CIF_ISP_ACQ_PROP_BAYER_PAT_RGGB := 0
  CIF_ISP_ACQ_PROP_CBYCRY := 256
  CIF_ISP_ACQ_PROP_YCRYCB := 128
  CIF_ISP_ACQ_PROP_YCBYCR := 0
  CIF_ISP_ACQ_PROP_POS_EDGE := 1
  CIF_ISP_ACQ_PROP_VSYNC_LOW := 4
  CIF_ISP_ACQ_PROP_HSYNC_LOW := 2
  CIF_ISP_ACQ_PROP_FIELD_SEL_ALL := 0
  CIF_ISP_OFF := 1
  CIF_ISP_FRAME := 2
  CIF_ISP_DATA_LOSS := 4
  CIF_ISP_PIC_SIZE_ERROR := 8
  CIF_ISP_FRAME_IN := 32
  CIF_ISP_V_START := 64
  CIF_MIPI_CTRL_OUTPUT_ENA := 1
  CIF_MIPI_CTRL_NUM_LANES := fun a => toU32 a % 4 * 4096
  CIF_MIPI_CTRL_SHUTDOWNLANES := fun a => a % 16 * 256
  CIF_MIPI_CTRL_ERR_SOT_SYNC_HS_SKIP := 131072
  CIF_MIPI_CTRL_CLOCKLANE_ENA := 262144
  CIF_MIPI_DATA_SEL_DT := fun a => a % 64
  CIF_MIPI_DATA_SEL_VC := fun a => a % 4 * 64
  CIF_MIPI_FRAME_END := 16777216
  CIF_MIPI_ERR_CSI := 983040
  CIF_MIPI_ERR_DPHY := 4080
  CIF_MIPI_ERR_CTRL := fun a => a % 16 * 4096
  CIF_MIPI_SYNC_FIFO_OVFLW := fun a => a % 16
  CIF_MIPI_ADD_DATA_OVFLW := 33554432
  CIF_CSI2_DT_YUV420_8b := 24
  CIF_CSI2_DT_YUV420_10b := 25
  CIF_CSI2_DT_YUV422_8b := 30
  CIF_CSI2_DT_YUV422_10b := 31
  CIF_CSI2_DT_RGB565 := 34
  CIF_CSI2_DT_RGB666 := 35
  CIF_CSI2_DT_RGB888 := 36
  CIF_CSI2_DT_RAW8 := 42
  CIF_CSI2_DT_RAW10 := 43
  CIF_CSI2_DT_RAW12 := 44
  CIF_MI_CTRL_INIT_OFFSET_EN := 8192
  CIF_MI_SP_FRAME := 2
  CIF_MI_MP_FRAME := 1
  CIF_RSZ_SCALER_FACTOR := 65536
  CIF_RSZ_CTRL_SCALE_HY_ENABLE := 1
  CIF_RSZ_CTRL_SCALE_HC_ENABLE := 2
  CIF_RSZ_CTRL_SCALE_VY_ENABLE := 4
  CIF_RSZ_CTRL_SCALE_VC_ENABLE := 8
  CIF_RSZ_CTRL_SCALE_HY_UP := 16
  CIF_RSZ_CTRL_SCALE_HC_UP := 32
  CIF_RSZ_CTRL_SCALE_VY_UP := 64
  CIF_RSZ_CTRL_SCALE_VC_UP := 128

/-! Kernel constants of `media/v4l2-mediabus.h`, `videodev2.h`,
`media-bus-format.h` and `errno.h`. -/

def V4L2_MBUS_PARALLEL : Nat := 0
def V4L2_MBUS_BT656 : Nat := 1
def V4L2_MBUS_CSI2 : Nat := 2
def V4L2_MBUS_HSYNC_ACTIVE_LOW : Nat := 8
def V4L2_MBUS_VSYNC_ACTIVE_LOW : Nat := 32
def V4L2_MBUS_PCLK_SAMPLE_RISING : Nat := 64
def V4L2_QUANTIZATION_FULL_RANGE : Nat := 1
def V4L2_EVENT_FRAME_SYNC : Nat := 4
def MEDIA_BUS_FMT_RGB565_1X16 : Nat := 0x1017
def MEDIA_BUS_FMT_RGB666_1X18 : Nat := 0x1009
def MEDIA_BUS_FMT_RGB888_1X24 : Nat := 0x100a
def ETIMEDOUT : Int := 110

def RKISP1_STREAM_SP : Nat := 0
def RKISP1_STREAM_MP : Nat := 1
def RKISP1_STATE_DISABLED : Nat := 0
def RKISP1_STATE_READY : Nat := 1
def RKISP1_STATE_STREAMING : Nat := 2

/-- Kernel `struct v4l2_fwnode_bus_parallel`, the members the driver reads. -/
structure v4l2_fwnode_bus_parallel where
  flags : Nat
  bus_width : Nat
deriving DecidableEq, Repr

/-- Kernel `struct v4l2_fwnode_bus_mipi_csi2`, the member the driver reads. -/
structure v4l2_fwnode_bus_mipi_csi2 where
  num_data_lanes : Nat
deriving DecidableEq, Repr

/-- The `bus` union of `struct v4l2_fwnode_endpoint`; the driver reads the
member that matches the bus type. -/
structure v4l2_fwnode_bus where
  parallel : v4l2_fwnode_bus_parallel
  mipi_csi2 : v4l2_fwnode_bus_mipi_csi2
deriving DecidableEq, Repr

/-- Kernel `struct v4l2_fwnode_endpoint`, the members the driver reads. -/
structure v4l2_fwnode_endpoint where
  bus_type : Nat
  bus : v4l2_fwnode_bus
  link_frequencies : List Nat
  nr_of_link_frequencies : Nat
deriving DecidableEq, Repr

/-- Driver `struct rkisp1_sensor_info` (`rkisp1.h`), the endpoint description. -/
structure rkisp1_sensor_info where
  ep : v4l2_fwnode_endpoint
deriving DecidableEq, Repr

/-- Driver `struct rkisp1_stream` (`common.h`), the members `rkisp1.c` reads:
the path state and whether a `next_buf` is queued (`none` is `NULL`). -/
structure rkisp1_stream where
  state : Nat
  next_buf : Option Nat
deriving DecidableEq, Repr

/-- Modelled from the spec: what the driver does to the outside, in order.  A
register write is `writel`; the other constructors are the calls into the
collaborators whose code is not at hand (PHY subdevice, statistics and
parameter video nodes, V4L2 event queue), which per their contract receive
the arguments shown and are taken not to touch the state of
`struct rkisp1_device` modelled here. -/
inductive Event where
  | writel (val : Nat) (reg : Reg)
  | rkisp1_set_mipi_dphy_sy_lanes (lanes : Int)
  | rkisp1_set_mipi_dphy_data_rate (rate : Nat)
  | rkisp1_disable_isp
  | rkisp1_configure_isp (in_fmt : rkisp1_fmt) (quantization : Nat)
  | rkisp1_stats_v_start
  | rkisp1_params_v_start
  | rkisp1_stats_frame_in
  | rkisp1_stats_isr (isp_mis : Nat)
  | rkisp1_params_isr (isp_mis : Nat)
  | v4l2_event_queue (type : Nat) (frame_sequence : Nat)
deriving DecidableEq, Repr

/-- The hardware side of the device: the register block behind `base_addr`
(plain memory) and the record of register writes and collaborator calls made
so far, oldest first. -/
structure Hw where
  base : Reg → Nat
  log : List Event

/-- Driver `struct rkisp1_device` (`rkisp1.h`), the members `rkisp1.c` works on:
`hw` is the register block with its log, `sensor` the result of
`get_active_sensor_info`, `stream` the two output paths, and `stats_frame_id`
is `stats_vdev.frame_id`. -/
structure rkisp1_device where
  hw : Hw
  isp_sdev : rkisp1_isp_subdev
  sensor : rkisp1_sensor_info
  stream : Nat → rkisp1_stream
  stats_frame_id : Nat
  cif_streamon_cnt : Int

/-- Values of the local variables of `rkisp1_config_isp` and
`rkisp1_config_mipi` that the C code declares without an initialiser: whatever
the stack holds when the function is entered. -/
structure uninit_locals where
  isp_input_sel : Nat
  isp_ctrl : Nat
  data_type : Nat
deriving DecidableEq, Repr

/-- Outcome of a function that only reads the device and drives the hardware:
return value and hardware state after the call. -/
structure HwResult where
  ret : Int
  hw : Hw

/-- Outcome of a function that also changes members of the device: return
value and device after the call. -/
structure DevResult where
  ret : Int
  dev : rkisp1_device

/-- Kernel accessor `readl(base + reg)`. -/
def readl (hw : Hw) (reg : Reg) : Nat := hw.base reg

/-- Kernel accessor `writel(val, base + reg)`; `val` is a `u32` expression. -/
def writel (val : Nat) (reg : Reg) (hw : Hw) : Hw :=
  { base := fun r => if r = reg then val else hw.base r
    log := hw.log ++ [Event.writel val reg] }

/-- A call into a collaborator, recorded in the log. -/
def call (e : Event) (hw : Hw) : Hw :=
  { hw with log := hw.log ++ [e] }

/-- Truth value of the C expression `a & b`. -/
def c_and (a b : Nat) : Bool := (a &&& b) != 0

/-- Function `get_active_sensor_info` (lines 76-91): the sensor linked to the
PHY; the media graph walk is outside the model. -/
def get_active_sensor_info (dev : rkisp1_device) : rkisp1_sensor_info := dev.sensor

/-- Function `rkisp1_config_ism` (lines 97-117). -/
def rkisp1_config_ism (K : regs_h) (dev : rkisp1_device) : Hw :=
  let win := dev.isp_sdev.out_win
  let hw := dev.hw
  let hw := writel 0 .CIF_ISP_IS_RECENTER hw
  let hw := writel 0 .CIF_ISP_IS_MAX_DX hw
  let hw := writel 0 .CIF_ISP_IS_MAX_DY hw
  let hw := writel 0 .CIF_ISP_IS_DISPLACE hw
  let hw := writel (toU32 win.left) .CIF_ISP_IS_H_OFFS hw
  let hw := writel (toU32 win.top) .CIF_ISP_IS_V_OFFS hw
  let hw := writel (win.width % 4294967296) .CIF_ISP_IS_H_SIZE hw
  let hw := writel (win.height % 4294967296) .CIF_ISP_IS_V_SIZE hw
  let hw := writel 1 .CIF_ISP_IS_CTRL hw
  let val := readl hw .CIF_ISP_CTRL
  let val := val ||| K.CIF_ISP_CTRL_ISP_CFG_UPD
  writel val .CIF_ISP_CTRL hw

/-- First element of `bpp`, `bpp[0]`; members a table entry does not name are
zero. -/
def bpp0 (f : rkisp1_fmt) : Nat := f.bpp.headD 0

/-- Values `rkisp1_config_isp` settles in its first block (lines 142-222). -/
structure isp_selection where
  isp_ctrl : Nat
  isp_input_sel : Nat
  isp_bayer_pat : Nat
  yuv_seq : Nat
  irq_mask : Nat
  acq_mult : Nat
deriving DecidableEq, Repr

/-- The `switch (in_fmt->bpp[0])` of `rkisp1_config_isp` (lines 157-171);
`none` is the `default:` case, which returns `-EINVAL`. -/
def isp_input_sel_bayer (K : regs_h) (bpp : Nat) : Option Nat :=
  if bpp = 8 then some K.CIF_ISP_ACQ_PROP_IN_SEL_8B_MSB
  else if bpp = 10 then some K.CIF_ISP_ACQ_PROP_IN_SEL_10B_MSB
  else if bpp = 12 then some K.CIF_ISP_ACQ_PROP_IN_SEL_12B
  else none

/-- The `switch (in_fmt->bayer_pat)` of `rkisp1_config_isp` (lines 173-186);
`isp_bayer_pat` keeps its initial 0 when no case matches. -/
def isp_bayer_pat_of (K : regs_h) (bayer_pat : Nat) : Nat :=
  if bayer_pat = RAW_BGGR then K.CIF_ISP_ACQ_PROP_BAYER_PAT_BGGR
  else if bayer_pat = RAW_GBRG then K.CIF_ISP_ACQ_PROP_BAYER_PAT_GBRG
  else if bayer_pat = RAW_GRBG then K.CIF_ISP_ACQ_PROP_BAYER_PAT_GRBG
  else if bayer_pat = RAW_RGGB then K.CIF_ISP_ACQ_PROP_BAYER_PAT_RGGB
  else 0

/-- First block of `rkisp1_config_isp` (lines 142-222): the mode, input
selection, Bayer pattern, YUV sequence, interrupt mask and horizontal
multiplier; `none` is the `return -EINVAL` of line 170.  `u` gives the values
the uninitialised locals `isp_input_sel` and `isp_ctrl` start with. -/
def isp_select (K : regs_h) (u : uninit_locals) (dev : rkisp1_device) : Option isp_selection :=
  let sensor := get_active_sensor_info dev
  let in_fmt := dev.isp_sdev.in_fmt
  let out_fmt := dev.isp_sdev.out_fmt
  if in_fmt.fmt_type = FMT_BAYER then
    let isp_ctrl :=
      if out_fmt.fmt_type = FMT_BAYER then
        if sensor.ep.bus_type = V4L2_MBUS_BT656 then K.CIF_ISP_CTRL_ISP_MODE_RAW_PICT_ITU656
        else K.CIF_ISP_CTRL_ISP_MODE_RAW_PICT
      else
        if sensor.ep.bus_type = V4L2_MBUS_BT656 then K.CIF_ISP_CTRL_ISP_MODE_BAYER_ITU656
        else K.CIF_ISP_CTRL_ISP_MODE_BAYER_ITU601
    match isp_input_sel_bayer K (bpp0 in_fmt) with
    | none => none
    | some isp_input_sel =>
      some { isp_ctrl := isp_ctrl, isp_input_sel := isp_input_sel,
             isp_bayer_pat := isp_bayer_pat_of K in_fmt.bayer_pat,
             yuv_seq := 0, irq_mask := 0, acq_mult := 1 }
  else if in_fmt.fmt_type = FMT_YUV then
    let isp_input_sel :=
      if sensor.ep.bus_type = V4L2_MBUS_CSI2 then K.CIF_ISP_ACQ_PROP_IN_SEL_12B
      else if sensor.ep.bus.parallel.bus_width = 8 then K.CIF_ISP_ACQ_PROP_IN_SEL_8B_ZERO
      else if sensor.ep.bus.parallel.bus_width = 10 then K.CIF_ISP_ACQ_PROP_IN_SEL_10B_ZERO
      else if sensor.ep.bus.parallel.bus_width = 12 then K.CIF_ISP_ACQ_PROP_IN_SEL_12B
      else u.isp_input_sel
    let isp_ctrl :=
      if sensor.ep.bus_type = V4L2_MBUS_CSI2 then K.CIF_ISP_CTRL_ISP_MODE_ITU601
      else if sensor.ep.bus_type = V4L2_MBUS_BT656 then K.CIF_ISP_CTRL_ISP_MODE_ITU656
      else K.CIF_ISP_CTRL_ISP_MODE_ITU601
    let yuv_seq :=
      if in_fmt.yc_swap ≠ 0 then K.CIF_ISP_ACQ_PROP_CBYCRY
      else if in_fmt.uv_swap ≠ 0 then K.CIF_ISP_ACQ_PROP_YCRYCB
      else K.CIF_ISP_ACQ_PROP_YCBYCR
    some { isp_ctrl := isp_ctrl, isp_input_sel := isp_input_sel, isp_bayer_pat := 0,
           yuv_seq := yuv_seq, irq_mask := 0 ||| K.CIF_ISP_DATA_LOSS, acq_mult := 2 }
  else
    some { isp_ctrl := u.isp_ctrl, isp_input_sel := u.isp_input_sel, isp_bayer_pat := 0,
           yuv_seq := 0, irq_mask := 0, acq_mult := 1 }

/-- The `signal` bits of `rkisp1_config_isp` (lines 224-240). -/
def isp_signal (K : regs_h) (sensor : rkisp1_sensor_info) : Nat :=
  if sensor.ep.bus_type = V4L2_MBUS_BT656 ∨ sensor.ep.bus_type = V4L2_MBUS_PARALLEL then
    let signal :=
      if c_and sensor.ep.bus.parallel.flags V4L2_MBUS_PCLK_SAMPLE_RISING then
        K.CIF_ISP_ACQ_PROP_POS_EDGE
      else 0
    if sensor.ep.bus_type = V4L2_MBUS_PARALLEL then
      let signal :=
        if c_and sensor.ep.bus.parallel.flags V4L2_MBUS_VSYNC_ACTIVE_LOW then
          signal ||| K.CIF_ISP_ACQ_PROP_VSYNC_LOW
        else signal
      if c_and sensor.ep.bus.parallel.flags V4L2_MBUS_HSYNC_ACTIVE_LOW then
        signal ||| K.CIF_ISP_ACQ_PROP_HSYNC_LOW
      else signal
    else signal
  else 0

/-- Function `rkisp1_config_isp` (lines 119-271): the clock write, the demosaic
write of the Bayer-to-YUV case (line 149), the first block `isp_select`, then
the register writes of lines 242-268. -/
def rkisp1_config_isp (K : regs_h) (u : uninit_locals) (dev : rkisp1_device) : HwResult :=
  let sensor := get_active_sensor_info dev
  let in_fmt := dev.isp_sdev.in_fmt
  let out_fmt := dev.isp_sdev.out_fmt
  let in_crop := dev.isp_sdev.in_crop
  let hw := dev.hw
  let hw := writel (K.CIF_ICCL_ISP_CLK ||| readl hw .CIF_ICCL) .CIF_ICCL hw
  let hw :=
    if in_fmt.fmt_type = FMT_BAYER ∧ out_fmt.fmt_type ≠ FMT_BAYER then
      writel (K.CIF_ISP_DEMOSAIC_TH 0xc) .CIF_ISP_DEMOSAIC hw
    else hw
  match isp_select K u dev with
  | none => { ret := -EINVAL, hw := hw }
  | some s =>
    let signal := isp_signal K sensor
    let hw := writel s.isp_ctrl .CIF_ISP_CTRL hw
    let hw := writel (signal ||| s.yuv_seq ||| s.isp_input_sel ||| s.isp_bayer_pat |||
      K.CIF_ISP_ACQ_PROP_FIELD_SEL_ALL) .CIF_ISP_ACQ_PROP hw
    let hw := writel 0 .CIF_ISP_ACQ_NR_FRAMES hw
    let hw := writel (toU32 (s.acq_mult * in_crop.left)) .CIF_ISP_ACQ_H_OFFS hw
    let hw := writel (toU32 in_crop.top) .CIF_ISP_ACQ_V_OFFS hw
    let hw := writel ((s.acq_mult * in_crop.width) % 4294967296) .CIF_ISP_ACQ_H_SIZE hw
    let hw := writel (in_crop.height % 4294967296) .CIF_ISP_ACQ_V_SIZE hw
    let hw := writel 0 .CIF_ISP_OUT_V_OFFS hw
    let hw := writel 0 .CIF_ISP_OUT_H_OFFS hw
    let hw := writel (in_crop.width % 4294967296) .CIF_ISP_OUT_H_SIZE hw
    let hw := writel (in_crop.height % 4294967296) .CIF_ISP_OUT_V_SIZE hw
    let irq_mask := s.irq_mask ||| (K.CIF_ISP_FRAME ||| K.CIF_ISP_PIC_SIZE_ERROR |||
      K.CIF_ISP_FRAME_IN ||| K.CIF_ISP_V_START)
    let hw := writel irq_mask .CIF_ISP_IMSC hw
    let hw :=
      if out_fmt.fmt_type = FMT_BAYER then call .rkisp1_disable_isp hw
      else call (.rkisp1_configure_isp in_fmt V4L2_QUANTIZATION_FULL_RANGE) hw
    { ret := 0, hw := hw }

/-- The data-type selection of `rkisp1_config_mipi` (lines 302-330);
`uninit` is the value the uninitialised local `data_type` starts with and
keeps when no branch assigns it. -/
def mipi_data_type (K : regs_h) (uninit : Nat) (in_fmt : rkisp1_fmt) : Nat :=
  if in_fmt.fmt_type = FMT_YUV then
    if in_fmt.xsubs = 2 ∧ in_fmt.ysubs = 2 ∧ bpp0 in_fmt = 12 then K.CIF_CSI2_DT_YUV420_8b
    else if in_fmt.xsubs = 2 ∧ in_fmt.ysubs = 2 ∧ bpp0 in_fmt = 15 then
      K.CIF_CSI2_DT_YUV420_10b
    else if in_fmt.xsubs = 2 ∧ in_fmt.ysubs = 1 ∧ bpp0 in_fmt = 16 then
      K.CIF_CSI2_DT_YUV422_8b
    else if in_fmt.xsubs = 2 ∧ in_fmt.ysubs = 1 ∧ bpp0 in_fmt = 20 then
      K.CIF_CSI2_DT_YUV422_10b
    else uninit
  else if in_fmt.fmt_type = FMT_BAYER then
    if bpp0 in_fmt = 8 then K.CIF_CSI2_DT_RAW8
    else if bpp0 in_fmt = 10 then K.CIF_CSI2_DT_RAW10
    else if bpp0 in_fmt = 12 then K.CIF_CSI2_DT_RAW12
    else uninit
  else if in_fmt.mbus_code = MEDIA_BUS_FMT_RGB565_1X16 then K.CIF_CSI2_DT_RGB565
  else if in_fmt.mbus_code = MEDIA_BUS_FMT_RGB666_1X18 then K.CIF_CSI2_DT_RGB666
  else if in_fmt.mbus_code = MEDIA_BUS_FMT_RGB888_1X24 then K.CIF_CSI2_DT_RGB888
  else uninit

/-- Function `rkisp1_config_mipi` (lines 273-365). -/
def rkisp1_config_mipi (K : regs_h) (u : uninit_locals) (dev : rkisp1_device) : HwResult :=
  let in_fmt := dev.isp_sdev.in_fmt
  let sensor := get_active_sensor_info dev
  let lanes : Int := sensor.ep.bus.mipi_csi2.num_data_lanes
  let hw := dev.hw
  let hw := call (.rkisp1_set_mipi_dphy_sy_lanes lanes) hw
  let hw :=
    if sensor.ep.nr_of_link_frequencies ≠ 0 then
      call (.rkisp1_set_mipi_dphy_data_rate (sensor.ep.link_frequencies.headD 0)) hw
    else hw
  let hw := writel (K.CIF_ICCL_MIPI_CLK ||| readl hw .CIF_ICCL) .CIF_ICCL hw
  let mipi_ctrl := K.CIF_MIPI_CTRL_NUM_LANES (lanes - 1) |||
    K.CIF_MIPI_CTRL_SHUTDOWNLANES 0xf |||
    K.CIF_MIPI_CTRL_ERR_SOT_SYNC_HS_SKIP |||
    K.CIF_MIPI_CTRL_CLOCKLANE_ENA
  let hw := writel mipi_ctrl .CIF_MIPI_CTRL hw
  let data_type := mipi_data_type K u.data_type in_fmt
  if data_type = 0 then
    { ret := -EINVAL, hw := hw }
  else
    let hw := writel (K.CIF_MIPI_DATA_SEL_DT data_type ||| K.CIF_MIPI_DATA_SEL_VC 0)
      .CIF_MIPI_IMG_DATA_SEL hw
    let hw := writel 4294967295 .CIF_MIPI_ICR hw
    let hw := writel (K.CIF_MIPI_FRAME_END ||| K.CIF_MIPI_ERR_CSI ||| K.CIF_MIPI_ERR_DPHY |||
      K.CIF_MIPI_SYNC_FIFO_OVFLW 0x03 ||| K.CIF_MIPI_ADD_DATA_OVFLW) .CIF_MIPI_IMSC hw
    { ret := 0, hw := hw }

/-- Function `rkisp1_config_path` (lines 367-384). -/
def rkisp1_config_path (K : regs_h) (u : uninit_locals) (dev : rkisp1_device) : HwResult :=
  let sensor := get_active_sensor_info dev
  let dpcl := readl dev.hw .CIF_VI_DPCL
  if sensor.ep.bus_type = V4L2_MBUS_BT656 ∨ sensor.ep.bus_type = V4L2_MBUS_PARALLEL then
    let dpcl := dpcl ||| K.CIF_VI_DPCL_IF_SEL_PARALLEL
    { ret := 0, hw := writel dpcl .CIF_VI_DPCL dev.hw }
  else if sensor.ep.bus_type = V4L2_MBUS_CSI2 then
    let m := rkisp1_config_mipi K u dev
    let dpcl := dpcl ||| K.CIF_VI_DPCL_IF_SEL_MIPI
    { ret := m.ret, hw := writel dpcl .CIF_VI_DPCL m.hw }
  else
    { ret := 0, hw := writel dpcl .CIF_VI_DPCL dev.hw }

/-- Function `rkisp1_config_cif` (lines 397-430). -/
def rkisp1_config_cif (K : regs_h) (u : uninit_locals) (dev : rkisp1_device) : DevResult :=
  let p := rkisp1_config_path K u dev
  let dev := { dev with hw := p.hw }
  if p.ret < 0 then { ret := p.ret, dev := dev }
  else
    let i := rkisp1_config_isp K u dev
    let dev := { dev with hw := i.hw }
    if i.ret < 0 then { ret := i.ret, dev := dev }
    else
      let dev := { dev with hw := rkisp1_config_ism K dev }
      { ret := 0, dev := { dev with cif_streamon_cnt := 0 } }

/-- Kernel helper `readx_poll_timeout(readl, addr, val, val & bit, ...)`: reads
the register until the bit shows or the time is up; `polls` is the number of
further reads the time allows.  Returns 0 or `-ETIMEDOUT`, and the last value
read. -/
def readx_poll_timeout (hw : Hw) (reg : Reg) (bit : Nat) : Nat → Int × Nat
  | 0 => (if c_and (readl hw reg) bit then 0 else -ETIMEDOUT, readl hw reg)
  | polls + 1 =>
    if c_and (readl hw reg) bit then (0, readl hw reg)
    else readx_poll_timeout hw reg bit polls

/-- The register sequence of `rkisp1_isp_stop` after the count check (lines
450-483); `polls` bounds the status poll, whose result the C code drops. -/
def isp_stop_hw (K : regs_h) (polls : Nat) (hw : Hw) : Hw :=
  let hw := writel 0 .CIF_MIPI_IMSC hw
  let hw := writel 4294967295 .CIF_MIPI_ICR hw
  let hw := writel 0 .CIF_ISP_IMSC hw
  let hw := writel 4294967295 .CIF_ISP_ICR hw
  let hw := writel 0 .CIF_MI_IMSC hw
  let hw := writel 4294967295 .CIF_MI_ICR hw
  let hw := writel (not32 K.CIF_MIPI_CTRL_OUTPUT_ENA &&& readl hw .CIF_MIPI_CTRL)
    .CIF_MIPI_CTRL hw
  let val := K.CIF_ISP_CTRL_ISP_INFORM_ENABLE ||| K.CIF_ISP_CTRL_ISP_ENABLE
  let hw := writel (not32 val &&& readl hw .CIF_ISP_CTRL) .CIF_ISP_CTRL hw
  let val := K.CIF_ISP_CTRL_ISP_CFG_UPD
  let hw := writel (val ||| readl hw .CIF_ISP_CTRL) .CIF_ISP_CTRL hw
  let _polled := readx_poll_timeout hw .CIF_ISP_RIS K.CIF_ISP_OFF polls
  let hw := writel (K.CIF_IRCL_MIPI_SW_RST ||| K.CIF_IRCL_ISP_SW_RST) .CIF_IRCL hw
  writel 0 .CIF_IRCL hw

/-- Function `rkisp1_isp_stop` (lines 432-486). -/
def rkisp1_isp_stop (K : regs_h) (polls : Nat) (dev : rkisp1_device) : DevResult :=
  let dev := { dev with cif_streamon_cnt := wrap_s32 (dev.cif_streamon_cnt - 1) }
  if dev.cif_streamon_cnt > 0 then { ret := 0, dev := dev }
  else { ret := 0, dev := { dev with hw := isp_stop_hw K polls dev.hw } }

/-- The register sequence of `rkisp1_isp_start` after the count check (lines
502-512). -/
def isp_start_hw (K : regs_h) (sensor : rkisp1_sensor_info) (hw : Hw) : Hw :=
  let hw :=
    if sensor.ep.bus_type = V4L2_MBUS_CSI2 then
      writel (K.CIF_MIPI_CTRL_OUTPUT_ENA ||| readl hw .CIF_MIPI_CTRL) .CIF_MIPI_CTRL hw
    else hw
  let val := K.CIF_ISP_CTRL_ISP_CFG_UPD ||| K.CIF_ISP_CTRL_ISP_INFORM_ENABLE |||
    K.CIF_ISP_CTRL_ISP_ENABLE
  writel (val ||| readl hw .CIF_ISP_CTRL) .CIF_ISP_CTRL hw

/-- Function `rkisp1_isp_start` (lines 488-532). -/
def rkisp1_isp_start (K : regs_h) (dev : rkisp1_device) : DevResult :=
  let sensor := get_active_sensor_info dev
  let before := dev.cif_streamon_cnt
  let dev := { dev with cif_streamon_cnt := wrap_s32 (dev.cif_streamon_cnt + 1) }
  if before > 0 then { ret := 0, dev := dev }
  else
    { ret := 0,
      dev := { dev with hw := isp_start_hw K sensor dev.hw, stats_frame_id := 0 } }

/-- Function `rkisp1_isp_sd_s_stream` (lines 1003-1017); `on_` is the C
parameter `on`. -/
def rkisp1_isp_sd_s_stream (K : regs_h) (u : uninit_locals) (polls : Nat)
    (dev : rkisp1_device) (on_ : Int) : DevResult :=
  if on_ = 0 then rkisp1_isp_stop K polls dev
  else
    let dev := { dev with isp_sdev := { dev.isp_sdev with frm_sync_seq := 0 } }
    let c := rkisp1_config_cif K u dev
    if c.ret < 0 then { ret := c.ret, dev := c.dev }
    else rkisp1_isp_start K c.dev

/-- Function `riksp1_isp_queue_event_sof` (lines 1054-1063):
`atomic_inc_return` wraps, `frame_sequence` is a `u32`. -/
def riksp1_isp_queue_event_sof (dev : rkisp1_device) : rkisp1_device :=
  let seq := wrap_s32 (dev.isp_sdev.frm_sync_seq + 1)
  { dev with
    isp_sdev := { dev.isp_sdev with frm_sync_seq := seq }
    hw := call (.v4l2_event_queue V4L2_EVENT_FRAME_SYNC (toU32 (seq - 1))) dev.hw }

/-- Function `rkisp1_hw_restart` (lines 1187-1219). -/
def rkisp1_hw_restart (K : regs_h) (hw : Hw) : Hw :=
  let hw := writel (K.CIF_IRCL_MIPI_SW_RST ||| K.CIF_IRCL_ISP_SW_RST ||| K.CIF_IRCL_MI_SW_RST)
    .CIF_IRCL hw
  let hw := writel 0 .CIF_IRCL hw
  let hw := writel (K.CIF_MIPI_FRAME_END ||| K.CIF_MIPI_ERR_CSI ||| K.CIF_MIPI_ERR_DPHY |||
    K.CIF_MIPI_SYNC_FIFO_OVFLW 0x03 ||| K.CIF_MIPI_ADD_DATA_OVFLW) .CIF_MIPI_IMSC hw
  let hw := writel 0 .CIF_MI_MP_Y_OFFS_CNT_INIT hw
  let hw := writel 0 .CIF_MI_MP_CR_OFFS_CNT_INIT hw
  let hw := writel 0 .CIF_MI_MP_CB_OFFS_CNT_INIT hw
  let hw := writel 0 .CIF_MI_SP_Y_OFFS_CNT_INIT hw
  let hw := writel 0 .CIF_MI_SP_CR_OFFS_CNT_INIT hw
  let hw := writel 0 .CIF_MI_SP_CB_OFFS_CNT_INIT hw
  let hw := writel (K.CIF_MI_CTRL_INIT_OFFSET_EN ||| readl hw .CIF_MI_CTRL) .CIF_MI_CTRL hw
  let val := K.CIF_ISP_CTRL_ISP_CFG_UPD ||| K.CIF_ISP_CTRL_ISP_ENABLE |||
    K.CIF_ISP_CTRL_ISP_INFORM_ENABLE
  let hw := writel (val ||| readl hw .CIF_ISP_CTRL) .CIF_ISP_CTRL hw
  writel (K.CIF_MIPI_CTRL_OUTPUT_ENA ||| readl hw .CIF_MIPI_CTRL) .CIF_MIPI_CTRL hw

/-- Function `rkisp1_mipi_isr` (lines 1221-1258); the argument `mis` is
overwritten by the register read. -/
def rkisp1_mipi_isr (K : regs_h) (_mis : Nat) (hw : Hw) : Hw :=
  let mis := readl hw .CIF_MIPI_MIS
  let hw := writel 4294967295 .CIF_MIPI_ICR hw
  let hw :=
    if c_and mis (K.CIF_MIPI_ERR_CTRL 3) then
      let val := not32 (K.CIF_MIPI_ERR_CTRL 0x03)
      writel (val ||| readl hw .CIF_MIPI_IMSC) .CIF_MIPI_IMSC hw
    else hw
  if mis = K.CIF_MIPI_FRAME_END then
    let val := K.CIF_MIPI_ERR_CTRL 0x03
    writel (val ||| readl hw .CIF_MIPI_IMSC) .CIF_MIPI_IMSC hw
  else hw

/-- The vertical-sync block of `rkisp1_isp_isr` (lines 1269-1284). -/
def isp_isr_v_start (K : regs_h) (dev : rkisp1_device) : rkisp1_device :=
  let dev := { dev with hw := call .rkisp1_params_v_start (call .rkisp1_stats_v_start dev.hw) }
  let dev := riksp1_isp_queue_event_sof dev
  let hw := writel K.CIF_ISP_V_START .CIF_ISP_ICR dev.hw
  let _isp_mis_tmp := readl hw .CIF_ISP_MIS
  let hw := writel (K.CIF_ISP_CTRL_ISP_GEN_CFG_UPD ||| readl hw .CIF_ISP_CTRL) .CIF_ISP_CTRL hw
  { dev with hw := hw }

/-- The part of `rkisp1_isp_isr` after the vertical-sync block (lines
1286-1359), which only drives the hardware and the collaborators. -/
def isp_isr_rest (K : regs_h) (isp_mis : Nat) (stream : Nat → rkisp1_stream) (hw : Hw) : Hw :=
  let hw :=
    if c_and isp_mis K.CIF_ISP_FRAME_IN then
      let hw := writel K.CIF_ISP_FRAME_IN .CIF_ISP_ICR hw
      call .rkisp1_stats_frame_in hw
    else hw
  let hw :=
    if c_and isp_mis (K.CIF_ISP_DATA_LOSS ||| K.CIF_ISP_PIC_SIZE_ERROR) then
      let hw :=
        if c_and isp_mis K.CIF_ISP_PIC_SIZE_ERROR then
          let hw := writel K.CIF_ISP_PIC_SIZE_ERROR .CIF_ISP_ICR hw
          let isp_err := readl hw .CIF_ISP_ERR
          writel isp_err .CIF_ISP_ERR_CLR hw
        else if c_and isp_mis K.CIF_ISP_DATA_LOSS then
          let hw := writel K.CIF_ISP_DATA_LOSS .CIF_ISP_ICR hw
          writel K.CIF_ISP_DATA_LOSS .CIF_ISP_ICR hw
        else hw
      let val := not32 (K.CIF_ISP_CTRL_ISP_INFORM_ENABLE &&& K.CIF_ISP_CTRL_ISP_ENABLE)
      let hw := writel (val &&& readl hw .CIF_ISP_CTRL) .CIF_ISP_CTRL hw
      let hw := writel (K.CIF_ISP_CTRL_ISP_CFG_UPD ||| readl hw .CIF_ISP_CTRL) .CIF_ISP_CTRL hw
      rkisp1_hw_restart K hw
    else hw
  let hw :=
    if c_and isp_mis K.CIF_ISP_FRAME_IN then
      let hw := writel K.CIF_ISP_FRAME_IN .CIF_ISP_ICR hw
      let _isp_mis_tmp := readl hw .CIF_ISP_MIS
      if (stream RKISP1_STREAM_SP).next_buf.isNone ∧
          (stream RKISP1_STREAM_MP).next_buf.isNone then
        let mi_isr := 0
        let mi_isr :=
          if (stream RKISP1_STREAM_SP).state = RKISP1_STATE_STREAMING then
            mi_isr ||| K.CIF_MI_SP_FRAME
          else mi_isr
        let mi_isr :=
          if (stream RKISP1_STREAM_MP).state = RKISP1_STATE_STREAMING then
            mi_isr ||| K.CIF_MI_MP_FRAME
          else mi_isr
        writel mi_isr .CIF_MI_ISR hw
      else hw
    else hw
  let hw :=
    if c_and isp_mis K.CIF_ISP_FRAME then
      let hw := writel K.CIF_ISP_FRAME .CIF_ISP_ICR hw
      let _isp_mis_tmp := readl hw .CIF_ISP_MIS
      hw
    else hw
  let hw := call (.rkisp1_stats_isr isp_mis) hw
  call (.rkisp1_params_isr isp_mis) hw

/-- Function `rkisp1_isp_isr` (lines 1260-1360). -/
def rkisp1_isp_isr (K : regs_h) (isp_mis : Nat) (dev : rkisp1_device) : rkisp1_device :=
  let dev := if c_and isp_mis K.CIF_ISP_V_START then isp_isr_v_start K dev else dev
  { dev with hw := isp_isr_rest K isp_mis dev.stream dev.hw }

/-! ## Resizer scale factors (`regs.c` lines 139-206) -/

/-- Driver `struct rkisp1_win` (`common.h`): `int w, h`. -/
structure rkisp1_win where
  w : Int
  h : Int
deriving DecidableEq, Repr

/-- Driver `struct streams_regs` (declared in the missing `regs.h`): the
register offsets of one output path that `set_scale` uses. -/
structure streams_regs where
  rsz_ctrl : Nat
  scale_hy : Nat
  scale_hcr : Nat
  scale_hcb : Nat
  scale_vy : Nat
  scale_vc : Nat
deriving DecidableEq, Repr

/-- The part of `struct rkisp1_stream` that `regs.c` works on: the mapped
register block `base_addr` and the offsets `regs`. -/
structure rsz_stream where
  base_addr : Nat
  regs : streams_regs
deriving DecidableEq, Repr

/-- The register block as `regs.c` sees it: plain memory by address, and the
writes made so far, oldest first, as (value, address). -/
structure Mmio where
  mem : Nat → Nat
  log : List (Nat × Nat)

/-- Kernel accessor `writel(val, addr)` on an address. -/
def Mmio.writel (val addr : Nat) (io : Mmio) : Mmio :=
  { mem := fun a => if a = addr then val else io.mem a
    log := io.log ++ [(val, addr)] }

/-- C `int` division `a / b`: truncation toward zero; `none` when `b` is 0. -/
def c_div (a b : Int) : Option Int :=
  if b = 0 then none else some (wrap_s32 (Int.tdiv a b))

/-- C `int` product `a * b`. -/
def c_mul (a b : Int) : Int := wrap_s32 (a * b)

/-- One axis block of `set_scale` (lines 152-163 for luma width, repeated for
the other axes): the bits it ORs into `rsz_ctrl` and the factor it writes, if
any.  `none` is a division by zero. -/
def scale_axis (K : regs_h) (enable up : Nat) (in_ out : Int) : Option (Nat × Option Nat) :=
  if in_ < out then
    (c_div (c_mul (wrap_s32 (in_ - 1)) K.CIF_RSZ_SCALER_FACTOR) (wrap_s32 (out - 1))).map
      (fun q => (enable ||| up, some (toU32 q)))
  else if in_ > out then
    (c_div (c_mul (wrap_s32 (out - 1)) K.CIF_RSZ_SCALER_FACTOR) (wrap_s32 (in_ - 1))).map
      (fun q => (enable, some (toU32 (wrap_s32 (q + 1)))))
  else some (0, none)

/-- The `writel` of one factor to a list of registers, when the axis block
computed a factor. -/
def write_factor (factor : Option Nat) (addrs : List Nat) (io : Mmio) : Mmio :=
  match factor with
  | none => io
  | some f => addrs.foldl (fun io a => io.writel f a) io

/-- Function `set_scale` (`regs.c` lines 139-206); `none` when the C code
divides by zero. -/
def set_scale (K : regs_h) (io : Mmio) (stream : rsz_stream)
    (in_y in_c out_y out_c : rkisp1_win) : Option Mmio := do
  let scale_hy_addr := stream.base_addr + stream.regs.scale_hy
  let scale_hcr_addr := stream.base_addr + stream.regs.scale_hcr
  let scale_hcb_addr := stream.base_addr + stream.regs.scale_hcb
  let scale_vy_addr := stream.base_addr + stream.regs.scale_vy
  let scale_vc_addr := stream.base_addr + stream.regs.scale_vc
  let rsz_ctrl_addr := stream.base_addr + stream.regs.rsz_ctrl
  let rsz_ctrl := 0
  let hy ← scale_axis K K.CIF_RSZ_CTRL_SCALE_HY_ENABLE K.CIF_RSZ_CTRL_SCALE_HY_UP in_y.w out_y.w
  let rsz_ctrl := rsz_ctrl ||| hy.1
  let io := write_factor hy.2 [scale_hy_addr] io
  let hc ← scale_axis K K.CIF_RSZ_CTRL_SCALE_HC_ENABLE K.CIF_RSZ_CTRL_SCALE_HC_UP in_c.w out_c.w
  let rsz_ctrl := rsz_ctrl ||| hc.1
  let io := write_factor hc.2 [scale_hcb_addr, scale_hcr_addr] io
  let vy ← scale_axis K K.CIF_RSZ_CTRL_SCALE_VY_ENABLE K.CIF_RSZ_CTRL_SCALE_VY_UP in_y.h out_y.h
  let rsz_ctrl := rsz_ctrl ||| vy.1
  let io := write_factor vy.2 [scale_vy_addr] io
  let vc ← scale_axis K K.CIF_RSZ_CTRL_SCALE_VC_ENABLE K.CIF_RSZ_CTRL_SCALE_VC_UP in_c.h out_c.h
  let rsz_ctrl := rsz_ctrl ||| vc.1
  let io := write_factor vc.2 [scale_vc_addr] io
  pure (io.writel rsz_ctrl rsz_ctrl_addr)

/-! ## Example inputs -/

/-- A sensor on a parallel bus of the given width, no polarity flags. -/
def sensor_parallel (bus_width : Nat) : rkisp1_sensor_info :=
  { ep := { bus_type := V4L2_MBUS_PARALLEL,
            bus := { parallel := { flags := 0, bus_width := bus_width },
                     mipi_csi2 := { num_data_lanes := 0 } },
            link_frequencies := [], nr_of_link_frequencies := 0 } }

/-- A sensor on a CSI2 bus with the given number of data lanes. -/
def sensor_csi2 (lanes : Nat) : rkisp1_sensor_info :=
  { ep := { bus_type := V4L2_MBUS_CSI2,
            bus := { parallel := { flags := 0, bus_width := 0 },
                     mipi_csi2 := { num_data_lanes := lanes } },
            link_frequencies := [], nr_of_link_frequencies := 0 } }

/-- A freshly registered device: all registers zero, default pad state, both
output paths disabled with no buffer queued, stream count 0, nothing logged. -/
def dev_fresh (sensor : rkisp1_sensor_info) : rkisp1_device :=
  { hw := { base := fun _ => 0, log := [] }
    isp_sdev := isp_sd_default
    sensor := sensor
    stream := fun _ => { state := RKISP1_STATE_DISABLED, next_buf := none }
    stats_frame_id := 0
    cif_streamon_cnt := 0 }

/-- Stack contents of all zeros for the uninitialised locals. -/
def uninit_zero : uninit_locals := { isp_input_sel := 0, isp_ctrl := 0, data_type := 0 }

/-- The device after a sequence of `rkisp1_isp_sd_s_stream` calls with the given
`on` arguments, left to right. -/
def run_s_stream (K : regs_h) (u : uninit_locals) (polls : Nat) (dev : rkisp1_device) :
    List Int → rkisp1_device
  | [] => dev
  | on_ :: rest => run_s_stream K u polls (rkisp1_isp_sd_s_stream K u polls dev on_).dev rest

/-- The device after a sequence of `rkisp1_isp_isr` invocations with the given
status words, left to right. -/
def run_isp_isr (K : regs_h) (dev : rkisp1_device) : List Nat → rkisp1_device
  | [] => dev
  | isp_mis :: rest => run_isp_isr K (rkisp1_isp_isr K isp_mis dev) rest

/-- The frame-sync events in a log, as their `frame_sequence` numbers. -/
def frame_sync_events : List Event → List Nat
  | [] => []
  | Event.v4l2_event_queue type seq :: rest =>
    if type = V4L2_EVENT_FRAME_SYNC then seq :: frame_sync_events rest
    else frame_sync_events rest
  | _ :: rest => frame_sync_events rest

/-- The register writes in a log, as (value, register). -/
def reg_writes : List Event → List (Nat × Reg)
  | [] => []
  | Event.writel val reg :: rest => (val, reg) :: reg_writes rest
  | _ :: rest => reg_writes rest

/-- Reference for `find_format`, written from its description: a lookup by bus
code when one is given, else by position in the table, in the sink table for
the sink pad and the source table for the source path; not found for any other
pad and when neither a code nor a position is given. -/
def find_fmt_reference (pad : Nat) (code : Option Nat) (index : Option Nat) :
    Option rkisp1_fmt :=
  if pad = RKISP1_ISP_PAD_SINK ∨ pad = RKISP1_ISP_PAD_SOURCE_PATH then
    match code, index with
    | some c, _ => (pad_catalog pad).find? (fun e => e.mbus_code = c)
    | none, some i => (pad_catalog pad)[i]?
    | none, none => none
  else none

/-- Return value and stream count after each call of a sequence of
`rkisp1_isp_sd_s_stream` calls with the given `on` arguments, left to right. -/
def s_stream_history (K : regs_h) (u : uninit_locals) (polls : Nat) :
    rkisp1_device → List Int → List (Int × Int)
  | _, [] => []
  | dev, on_ :: rest =>
    ((rkisp1_isp_sd_s_stream K u polls dev on_).ret,
      (rkisp1_isp_sd_s_stream K u polls dev on_).dev.cif_streamon_cnt) ::
      s_stream_history K u polls (rkisp1_isp_sd_s_stream K u polls dev on_).dev rest

/-- Number of writes to `reg` in a log. -/
def count_writes (reg : Reg) (log : List Event) : Nat :=
  ((reg_writes log).filter (fun w => w.2 = reg)).length

/-- A device whose sink format is of the JPEG family (not a catalog entry),
with a sensor on a CSI2 bus. -/
def dev_jpeg_csi2 : rkisp1_device :=
  { dev_fresh (sensor_csi2 2) with
    isp_sdev := { isp_sd_default with in_fmt := { fmt_type := FMT_JPEG, bpp := [8] } } }

/-- The values written to `reg` in a log, oldest first. -/
def writes_to (reg : Reg) (log : List Event) : List Nat :=
  ((reg_writes log).filter (fun w => w.2 = reg)).map (fun w => w.1)

/-- A device whose stream count is the least C `int` and whose MIPI interrupt
mask register holds 7. -/
def dev_count_int_min : rkisp1_device :=
  { dev_fresh (sensor_csi2 2) with
    cif_streamon_cnt := -2147483648
    hw := { base := fun r => if r = Reg.CIF_MIPI_IMSC then 7 else 0, log := [] } }

/-- Number of status words of a list that have `CIF_ISP_V_START` set. -/
def v_start_count (K : regs_h) (words : List Nat) : Nat :=
  (words.filter (fun w => c_and w K.CIF_ISP_V_START)).length

/-- The flag macros of `rsz_ctrl` that `set_scale` uses. -/
def rsz_ctrl_flags (K : regs_h) : List Nat :=
  [K.CIF_RSZ_CTRL_SCALE_HY_ENABLE, K.CIF_RSZ_CTRL_SCALE_HY_UP,
   K.CIF_RSZ_CTRL_SCALE_HC_ENABLE, K.CIF_RSZ_CTRL_SCALE_HC_UP,
   K.CIF_RSZ_CTRL_SCALE_VY_ENABLE, K.CIF_RSZ_CTRL_SCALE_VY_UP,
   K.CIF_RSZ_CTRL_SCALE_VC_ENABLE, K.CIF_RSZ_CTRL_SCALE_VC_UP]

/-- The register offsets of one output path that `set_scale` uses. -/
def rsz_offsets (regs : streams_regs) : List Nat :=
  [regs.rsz_ctrl, regs.scale_hy, regs.scale_hcb, regs.scale_hcr, regs.scale_vy, regs.scale_vc]

/-- The eight sizes `set_scale` is given. -/
def scale_sizes (in_y in_c out_y out_c : rkisp1_win) : List Int :=
  [in_y.w, in_y.h, in_c.w, in_c.h, out_y.w, out_y.h, out_c.w, out_c.h]

/-- The bits one axis block of `set_scale` ORs into `rsz_ctrl`. -/
def axis_flags (enable up : Nat) (in_ out : Int) : Nat :=
  if in_ < out then enable ||| up else if in_ > out then enable else 0

/-- Reference for the factor of one axis of `compute_scale`, written from its
description: the up-scale factor `((in - 1) * F) / (out - 1)` when `in < out`,
the down-scale factor `((out - 1) * F) / (in - 1) + 1` when `in > out`, and
none when the sizes are equal.  The division truncates. -/
def scale_factor_reference (F in_ out : Int) : Option Nat :=
  if in_ < out then some (((in_ - 1) * F).tdiv (out - 1)).toNat
  else if in_ > out then some (((out - 1) * F).tdiv (in_ - 1) + 1).toNat
  else none

/-- The writes of one factor, if there is one, to a list of registers in
order, as (value, address). -/
def factor_writes (factor : Option Nat) (addrs : List Nat) : List (Nat × Nat) :=
  match factor with
  | none => []
  | some f => addrs.map (fun a => (f, a))

/-- The register block after a list of writes, oldest first. -/
def Mmio.replay (io : Mmio) (ws : List (Nat × Nat)) : Mmio :=
  ws.foldl (fun io w => io.writel w.1 w.2) io

/-- Sizes of one axis on which `set_scale` returns: equal sizes, for which it
does not divide, or two C `int` sizes of at least 2. -/
def sizes_divide (in_ out : Int) : Prop :=
  in_ = out ∨ (2 ≤ in_ ∧ in_ ≤ 2147483647 ∧ 2 ≤ out ∧ out ≤ 2147483647)

/-- A register block with every register 0 and nothing written. -/
def io_zero : Mmio := { mem := fun _ => 0, log := [] }

/-- An output path whose register block is mapped at 0x1000. -/
def stream_example : rsz_stream :=
  { base_addr := 0x1000
    regs := { rsz_ctrl := 0, scale_hy := 4, scale_hcb := 8, scale_hcr := 12, scale_vy := 16,
              scale_vc := 20 } }

/-- A register block with the given contents and nothing logged. -/
def hw_of (base : Reg → Nat) : Hw := { base := base, log := [] }

/-- A freshly registered device whose sink format is the catalog entry of
`MEDIA_BUS_FMT_YUYV8_1X16`, with a sensor on a parallel bus of the given
width. -/
def dev_yuv_parallel (bus_width : Nat) : rkisp1_device :=
  { dev_fresh (sensor_parallel bus_width) with
    isp_sdev := { isp_sd_default with
      in_fmt := { mbus_code := MEDIA_BUS_FMT_YUYV8_1X16, fmt_type := FMT_YUV, bpp := [16],
                  uv_swap := 0, yc_swap := 0, xsubs := 2, ysubs := 1,
                  colorspace := V4L2_COLORSPACE_JPEG } } }

/-- The pad state after an active `set_fmt` on the sink pad of the default
state with `MEDIA_BUS_FMT_SRGGB10_1X10` at 1280x720: the catalog entry of that
code, `in_win` and `in_crop` at (0, 0, 1280, 720), the source pad as it was. -/
def isp_sd_rggb10_720p : rkisp1_isp_subdev :=
  { isp_sd_default with
    in_fmt := { mbus_code := MEDIA_BUS_FMT_SRGGB10_1X10, fmt_type := FMT_BAYER,
                bayer_pat := RAW_RGGB, bpp := [10], colorspace := V4L2_COLORSPACE_SRGB }
    in_win := ⟨0, 0, 1280, 720⟩
    in_crop := ⟨0, 0, 1280, 720⟩ }

/-- The register writes of `rkisp1_config_ism`, in order, as (value,
register). -/
def config_ism_writes (K : regs_h) (dev : rkisp1_device) : List (Nat × Reg) :=
  [(0, .CIF_ISP_IS_RECENTER), (0, .CIF_ISP_IS_MAX_DX), (0, .CIF_ISP_IS_MAX_DY),
   (0, .CIF_ISP_IS_DISPLACE),
   (toU32 dev.isp_sdev.out_win.left, .CIF_ISP_IS_H_OFFS),
   (toU32 dev.isp_sdev.out_win.top, .CIF_ISP_IS_V_OFFS),
   (dev.isp_sdev.out_win.width % 4294967296, .CIF_ISP_IS_H_SIZE),
   (dev.isp_sdev.out_win.height % 4294967296, .CIF_ISP_IS_V_SIZE),
   (1, .CIF_ISP_IS_CTRL),
   (readl dev.hw .CIF_ISP_CTRL ||| K.CIF_ISP_CTRL_ISP_CFG_UPD, .CIF_ISP_CTRL)]

/-- The register writes of `rkisp1_config_isp` before its first block (lines
140 and 149), in order. -/
def config_isp_head_writes (K : regs_h) (dev : rkisp1_device) : List (Nat × Reg) :=
  (K.CIF_ICCL_ISP_CLK ||| readl dev.hw .CIF_ICCL, .CIF_ICCL) ::
    if dev.isp_sdev.in_fmt.fmt_type = FMT_BAYER ∧ dev.isp_sdev.out_fmt.fmt_type ≠ FMT_BAYER then
      [(K.CIF_ISP_DEMOSAIC_TH 0xc, .CIF_ISP_DEMOSAIC)]
    else []

/-- The register writes of `rkisp1_config_isp` after its first block (lines
242-262), in order, for the values `s` the first block settled. -/
def config_isp_tail_writes (K : regs_h) (dev : rkisp1_device) (s : isp_selection) :
    List (Nat × Reg) :=
  [(s.isp_ctrl, .CIF_ISP_CTRL),
   (isp_signal K dev.sensor ||| s.yuv_seq ||| s.isp_input_sel ||| s.isp_bayer_pat |||
      K.CIF_ISP_ACQ_PROP_FIELD_SEL_ALL, .CIF_ISP_ACQ_PROP),
   (0, .CIF_ISP_ACQ_NR_FRAMES),
   (toU32 (s.acq_mult * dev.isp_sdev.in_crop.left), .CIF_ISP_ACQ_H_OFFS),
   (toU32 dev.isp_sdev.in_crop.top, .CIF_ISP_ACQ_V_OFFS),
   ((s.acq_mult * dev.isp_sdev.in_crop.width) % 4294967296, .CIF_ISP_ACQ_H_SIZE),
   (dev.isp_sdev.in_crop.height % 4294967296, .CIF_ISP_ACQ_V_SIZE),
   (0, .CIF_ISP_OUT_V_OFFS), (0, .CIF_ISP_OUT_H_OFFS),
   (dev.isp_sdev.in_crop.width % 4294967296, .CIF_ISP_OUT_H_SIZE),
   (dev.isp_sdev.in_crop.height % 4294967296, .CIF_ISP_OUT_V_SIZE),
   (s.irq_mask ||| (K.CIF_ISP_FRAME ||| K.CIF_ISP_PIC_SIZE_ERROR ||| K.CIF_ISP_FRAME_IN |||
      K.CIF_ISP_V_START), .CIF_ISP_IMSC)]

/-- The register writes of `rkisp1_config_mipi` up to the data-type check
(lines 288-295), in order. -/
def config_mipi_head_writes (K : regs_h) (dev : rkisp1_device) : List (Nat × Reg) :=
  [(K.CIF_ICCL_MIPI_CLK ||| readl dev.hw .CIF_ICCL, .CIF_ICCL),
   (K.CIF_MIPI_CTRL_NUM_LANES ((dev.sensor.ep.bus.mipi_csi2.num_data_lanes : Int) - 1) |||
      K.CIF_MIPI_CTRL_SHUTDOWNLANES 0xf ||| K.CIF_MIPI_CTRL_ERR_SOT_SYNC_HS_SKIP |||
      K.CIF_MIPI_CTRL_CLOCKLANE_ENA, .CIF_MIPI_CTRL)]

/-- The register writes of `rkisp1_config_mipi` after the data-type check
(lines 338-352), in order, for the data type `dt`. -/
def config_mipi_tail_writes (K : regs_h) (dt : Nat) : List (Nat × Reg) :=
  [(K.CIF_MIPI_DATA_SEL_DT dt ||| K.CIF_MIPI_DATA_SEL_VC 0, .CIF_MIPI_IMG_DATA_SEL),
   (4294967295, .CIF_MIPI_ICR),
   (K.CIF_MIPI_FRAME_END ||| K.CIF_MIPI_ERR_CSI ||| K.CIF_MIPI_ERR_DPHY |||
      K.CIF_MIPI_SYNC_FIFO_OVFLW 0x03 ||| K.CIF_MIPI_ADD_DATA_OVFLW, .CIF_MIPI_IMSC)]

/-- A sensor on a BT.656 bus of the given width with the given bus flags. -/
def sensor_bt656 (flags bus_width : Nat) : rkisp1_sensor_info :=
  { ep := { bus_type := V4L2_MBUS_BT656,
            bus := { parallel := { flags := flags, bus_width := bus_width },
                     mipi_csi2 := { num_data_lanes := 0 } },
            link_frequencies := [], nr_of_link_frequencies := 0 } }

/-- A sensor on a parallel bus of the given width with the given bus flags. -/
def sensor_parallel_flags (flags bus_width : Nat) : rkisp1_sensor_info :=
  { ep := { bus_type := V4L2_MBUS_PARALLEL,
            bus := { parallel := { flags := flags, bus_width := bus_width },
                     mipi_csi2 := { num_data_lanes := 0 } },
            link_frequencies := [], nr_of_link_frequencies := 0 } }

/-- A device whose stream count is negative: count -3, frame counter at 7,
default pad state, sensor on a 10-bit parallel bus. -/
def dev_count_negative : rkisp1_device :=
  { dev_fresh (sensor_parallel 10) with
    isp_sdev := { isp_sd_default with frm_sync_seq := 7 }
    cif_streamon_cnt := -3 }

/-- Reference for the data type of a sink-table entry, in the words of the
catalog: `RAW8`, `RAW10` or `RAW12` by `bpp[0]` for a Bayer entry, `YUV422_8b`
for a YUV entry. -/
def catalog_data_type (K : regs_h) (in_fmt : rkisp1_fmt) : Nat :=
  if in_fmt.fmt_type = FMT_BAYER then
    if bpp0 in_fmt = 8 then K.CIF_CSI2_DT_RAW8
    else if bpp0 in_fmt = 10 then K.CIF_CSI2_DT_RAW10
    else K.CIF_CSI2_DT_RAW12
  else K.CIF_CSI2_DT_YUV422_8b

/-! ## Arithmetic of the kernel helpers -/

theorem land_clear_bit0 (n : Nat) (h : n < 4294967296) : n &&& 4294967294 = 2 * (n / 2) := by
  have h1 : n = Nat.bit (n.bodd) (n / 2) := by
    have := Nat.bit_decomp n
    rw [Nat.div2_val] at this
    exact this.symm
  have h2 : (4294967294 : Nat) = Nat.bit false 2147483647 := by
    simp [Nat.bit]
  have h3 : n / 2 &&& 2147483647 = n / 2 := by
    have := Nat.and_pow_two_sub_one_eq_mod (n / 2) 31
    norm_num at this
    rw [this]
    omega
  calc n &&& 4294967294 = Nat.bit (n.bodd) (n / 2) &&& Nat.bit false 2147483647 := by
        rw [← h1, ← h2]
    _ = Nat.bit (n.bodd && false) (n / 2 &&& 2147483647) := Nat.land_bit _ _ _ _
    _ = 2 * (n / 2) := by
        rw [h3]; simp [Nat.bit]

theorem ALIGN_u32_two (x : Nat) :
    ALIGN_u32 x 2 = 2 * (((x % 4294967296 + 1) % 4294967296) / 2) := by
  unfold ALIGN_u32 __ALIGN_KERNEL_MASK
  have : (4294967295 - (2 - 1) % 4294967296 : Nat) = 4294967294 := by norm_num
  rw [this]
  exact land_clear_bit0 _ (Nat.mod_lt _ (by norm_num))

theorem ALIGN_s32_two (x : Int) :
    ALIGN_s32 x 2 = toS32 (2 * (((toU32 x + 1) % 4294967296) / 2)) := by
  unfold ALIGN_s32 __ALIGN_KERNEL_MASK
  have : (4294967295 - (2 - 1) % 4294967296 : Nat) = 4294967294 := by norm_num
  rw [this]
  rw [land_clear_bit0 _ (Nat.mod_lt _ (by norm_num))]

theorem clamp_origin_bounds (x : Int) (B : Nat) (hB : B < 2147483648) :
    0 ≤ toS32 (clamp_t_u32 x 0 B) ∧ toS32 (clamp_t_u32 x 0 B) ≤ B := by
  unfold toS32 clamp_t_u32 toU32
  split <;> omega

theorem clamp_extent_bound (v : Int) (lo B : Nat) (o : Int) (h0 : 0 ≤ o) (h1 : o ≤ B)
    (hB : B < 2147483648) :
    o + (clamp_t_u32 v lo (B - o) : Int) ≤ B := by
  unfold clamp_t_u32 toU32
  omega

/-! ## Unfolding `rkisp1_isp_sd_try_crop` -/

/-- The rectangle the clamping block of `rkisp1_isp_sd_try_crop` produces for a
bounding box of size `W` x `H`. -/
theorem try_crop_r (isp_sd : rkisp1_isp_subdev) (sel : v4l2_subdev_selection)
    (hpad : sel.pad = RKISP1_ISP_PAD_SINK ∨ sel.pad = RKISP1_ISP_PAD_SOURCE_PATH)
    (htgt : sel.target = V4L2_SEL_TGT_CROP) :
    (rkisp1_isp_sd_try_crop isp_sd sel).sel.r =
      { left := toS32 (clamp_t_u32 (ALIGN_s32 sel.r.left 2) 0 (crop_bounds isp_sd sel.pad).width),
        top := toS32 (clamp_t_u32 sel.r.top 0 (crop_bounds isp_sd sel.pad).height),
        width := clamp_t_u32 (ALIGN_u32 sel.r.width 2) 32
          ((crop_bounds isp_sd sel.pad).width -
            toS32 (clamp_t_u32 (ALIGN_s32 sel.r.left 2) 0 (crop_bounds isp_sd sel.pad).width)),
        height := clamp_t_u32 sel.r.height 32
          ((crop_bounds isp_sd sel.pad).height -
            toS32 (clamp_t_u32 sel.r.top 0 (crop_bounds isp_sd sel.pad).height)) } := by
  rcases hpad with hpad | hpad <;>
  simp [rkisp1_isp_sd_try_crop, crop_bounds, hpad, htgt, CIF_ISP_OUTPUT_W_MIN,
    CIF_ISP_OUTPUT_H_MIN, CIF_ISP_INPUT_W_MIN, CIF_ISP_INPUT_H_MIN,
    RKISP1_ISP_PAD_SOURCE_PATH, RKISP1_ISP_PAD_SINK]

theorem try_crop_ret (isp_sd : rkisp1_isp_subdev) (sel : v4l2_subdev_selection)
    (htgt : sel.target = V4L2_SEL_TGT_CROP) :
    (rkisp1_isp_sd_try_crop isp_sd sel).ret = 0 := by
  simp [rkisp1_isp_sd_try_crop, htgt]

/-- C1: for the sink pad and the source path, a bounding box (in_win for the
sink pad, in_crop for the source path) of width at most 4032 and height at
most 3024, and any proposed rectangle with target CROP,
`rkisp1_isp_sd_try_crop` returns 0 and leaves a rectangle with `left >= 0`,
`top >= 0`, `left + width <= bound.width` and `top + height <= bound.height`. -/
theorem try_crop_inside_bounds (isp_sd : rkisp1_isp_subdev) (sel : v4l2_subdev_selection)
    (hpad : sel.pad = RKISP1_ISP_PAD_SINK ∨ sel.pad = RKISP1_ISP_PAD_SOURCE_PATH)
    (htgt : sel.target = V4L2_SEL_TGT_CROP)
    (hw : (crop_bounds isp_sd sel.pad).width ≤ 4032)
    (hh : (crop_bounds isp_sd sel.pad).height ≤ 3024) :
    (rkisp1_isp_sd_try_crop isp_sd sel).ret = 0 ∧
    0 ≤ (rkisp1_isp_sd_try_crop isp_sd sel).sel.r.left ∧
    0 ≤ (rkisp1_isp_sd_try_crop isp_sd sel).sel.r.top ∧
    (rkisp1_isp_sd_try_crop isp_sd sel).sel.r.left +
      (rkisp1_isp_sd_try_crop isp_sd sel).sel.r.width ≤ (crop_bounds isp_sd sel.pad).width ∧
    (rkisp1_isp_sd_try_crop isp_sd sel).sel.r.top +
      (rkisp1_isp_sd_try_crop isp_sd sel).sel.r.height ≤ (crop_bounds isp_sd sel.pad).height := by
  rw [try_crop_r isp_sd sel hpad htgt]
  have hl := clamp_origin_bounds (ALIGN_s32 sel.r.left 2) (crop_bounds isp_sd sel.pad).width
    (by omega)
  have ht := clamp_origin_bounds sel.r.top (crop_bounds isp_sd sel.pad).height (by omega)
  refine ⟨try_crop_ret isp_sd sel htgt, hl.1, ht.1, ?_, ?_⟩
  · exact clamp_extent_bound _ 32 _ _ hl.1 hl.2 (by omega)
  · exact clamp_extent_bound _ 32 _ _ ht.1 ht.2 (by omega)

theorem try_crop_inside_bounds_witness :
    ((crop_bounds isp_sd_default RKISP1_ISP_PAD_SINK).width ≤ 4032 ∧
     (crop_bounds isp_sd_default RKISP1_ISP_PAD_SINK).height ≤ 3024 ∧
     (rkisp1_isp_sd_try_crop isp_sd_default
       (crop_request RKISP1_ISP_PAD_SINK ⟨-5, 7, 4294967295, 9000⟩)).sel.r = ⟨800, 7, 0, 593⟩) ∧
    ((rkisp1_isp_sd_try_crop isp_sd_default
        (crop_request RKISP1_ISP_PAD_SINK ⟨-5, 7, 4294967295, 9000⟩)).ret = 0 ∧
     0 ≤ (rkisp1_isp_sd_try_crop isp_sd_default
        (crop_request RKISP1_ISP_PAD_SINK ⟨-5, 7, 4294967295, 9000⟩)).sel.r.left ∧
     0 ≤ (rkisp1_isp_sd_try_crop isp_sd_default
        (crop_request RKISP1_ISP_PAD_SINK ⟨-5, 7, 4294967295, 9000⟩)).sel.r.top ∧
     (rkisp1_isp_sd_try_crop isp_sd_default
        (crop_request RKISP1_ISP_PAD_SINK ⟨-5, 7, 4294967295, 9000⟩)).sel.r.left +
       (rkisp1_isp_sd_try_crop isp_sd_default
         (crop_request RKISP1_ISP_PAD_SINK ⟨-5, 7, 4294967295, 9000⟩)).sel.r.width ≤
       (crop_bounds isp_sd_default
         (crop_request RKISP1_ISP_PAD_SINK ⟨-5, 7, 4294967295, 9000⟩).pad).width ∧
     (rkisp1_isp_sd_try_crop isp_sd_default
        (crop_request RKISP1_ISP_PAD_SINK ⟨-5, 7, 4294967295, 9000⟩)).sel.r.top +
       (rkisp1_isp_sd_try_crop isp_sd_default
         (crop_request RKISP1_ISP_PAD_SINK ⟨-5, 7, 4294967295, 9000⟩)).sel.r.height ≤
       (crop_bounds isp_sd_default
         (crop_request RKISP1_ISP_PAD_SINK ⟨-5, 7, 4294967295, 9000⟩).pad).height) :=
  ⟨by decide,
   try_crop_inside_bounds isp_sd_default
     (crop_request RKISP1_ISP_PAD_SINK ⟨-5, 7, 4294967295, 9000⟩)
     (by decide) (by decide) (by decide) (by decide)⟩

/-! ## Catalog lookup -/

theorem find_fmt_loop_by_code (tbl : List rkisp1_fmt) (code : Nat) (i : Int) (hi : 0 ≤ i) :
    find_fmt_loop tbl code (-1) i = tbl.find? (fun e => decide (e.mbus_code = code)) := by
  induction tbl generalizing i with
  | nil => rfl
  | cons fmt rest ih =>
    have hne : ¬ ((-1 : Int) = i) := by omega
    by_cases hc : fmt.mbus_code = code
    · simp [find_fmt_loop, hc]
    · simp [find_fmt_loop, hc, hne, ih (i + 1) (by omega)]

theorem find_fmt_by_code (pad code : Nat)
    (hpad : pad = RKISP1_ISP_PAD_SINK ∨ pad = RKISP1_ISP_PAD_SOURCE_PATH) :
    rkisp1_isp_sd_find_fmt pad code (-1) =
      (pad_catalog pad).find? (fun e => decide (e.mbus_code = code)) := by
  unfold rkisp1_isp_sd_find_fmt pad_catalog
  have h1 : ¬ (pad ≠ RKISP1_ISP_PAD_SINK ∧ pad ≠ RKISP1_ISP_PAD_SOURCE_PATH) := by
    rcases hpad with h | h <;> simp [h]
  rw [if_neg h1]
  have h2 : ∀ tbl : List rkisp1_fmt, ¬ ((-1 : Int) ≥ (tbl.length : Int)) := by
    intro tbl; omega
  simp only [h2, if_false]
  exact find_fmt_loop_by_code _ _ 0 (le_refl 0)


theorem try_fmt_lookup (isp_sd : rkisp1_isp_subdev) (pad : Nat) (p : v4l2_mbus_framefmt)
    (hpad : pad = RKISP1_ISP_PAD_SINK ∨ pad = RKISP1_ISP_PAD_SOURCE_PATH) :
    ∃ c, rkisp1_isp_sd_find_fmt pad (rkisp1_isp_sd_try_fmt isp_sd pad p).2.code (-1) = some c ∧
      c.mbus_code = (rkisp1_isp_sd_try_fmt isp_sd pad p).2.code ∧
      c.colorspace = (rkisp1_isp_sd_try_fmt isp_sd pad p).2.colorspace := by
  rw [find_fmt_by_code pad _ hpad]
  unfold rkisp1_isp_sd_try_fmt
  rw [find_fmt_by_code pad _ hpad]
  cases hf : (pad_catalog pad).find? (fun e => decide (e.mbus_code = p.code)) with
  | none =>
    rcases hpad with h | h
    · subst h
      simp only [if_true]
      refine ⟨rkisp1_isp_input_formats.get ⟨5, by decide⟩, ?_, ?_, ?_⟩
      · decide
      · decide
      · decide
    · subst h
      have : ¬ (RKISP1_ISP_PAD_SOURCE_PATH = RKISP1_ISP_PAD_SINK) := by decide
      simp only [this, if_false, if_true]
      refine ⟨rkisp1_isp_output_formats.get ⟨0, by decide⟩, ?_, ?_, ?_⟩
      · decide
      · decide
      · decide
  | some c =>
    have hc : c.mbus_code = p.code := by
      have := List.find?_some hf
      simpa using this
    refine ⟨c, ?_, ?_, ?_⟩
    · rcases hpad with h | h
      · subst h
        simp only [if_true]
        rw [hc]; exact hf
      · subst h
        have : ¬ (RKISP1_ISP_PAD_SOURCE_PATH = RKISP1_ISP_PAD_SINK) := by decide
        simp only [this, if_false, if_true]
        rw [hc]; exact hf
    · rcases hpad with h | h
      · subst h; simp only [if_true]
      · subst h
        have : ¬ (RKISP1_ISP_PAD_SOURCE_PATH = RKISP1_ISP_PAD_SINK) := by decide
        simp only [this, if_false, if_true]
    · rcases hpad with h | h
      · subst h; simp only [if_true]
      · subst h
        have : ¬ (RKISP1_ISP_PAD_SOURCE_PATH = RKISP1_ISP_PAD_SINK) := by decide
        simp only [this, if_false, if_true]

/-- C2 (evaluation at the failing input): after an active sink `set_fmt` of
33x33 on the default state the sink bounding box `in_win` is 33 wide, and
`rkisp1_isp_sd_try_crop` then answers the CROP proposal (100, 0, 100, 100)
with the odd `left = 33`, and the proposal (0, 0, 100, 100) with the odd
`width = 33`. -/
theorem try_crop_odd_at_odd_bound :
    (run_ops isp_sd_default
        [.set_fmt cfg_zeroed (fmt_request RKISP1_ISP_PAD_SINK 33 33 MEDIA_BUS_FMT_SRGGB10_1X10)]).map
      (fun s => ((crop_bounds s RKISP1_ISP_PAD_SINK).width,
        (rkisp1_isp_sd_try_crop s (crop_request RKISP1_ISP_PAD_SINK ⟨100, 0, 100, 100⟩)).sel.r,
        (rkisp1_isp_sd_try_crop s (crop_request RKISP1_ISP_PAD_SINK ⟨0, 0, 100, 100⟩)).sel.r))
      = some (33, ⟨33, 0, 0, 33⟩, ⟨0, 0, 33, 33⟩) := by
  decide

/-- C3 (evaluation at the failing input): on the default state (sink bounding
box 800x600) `rkisp1_isp_sd_try_crop` answers the sink CROP proposal
(790, 590, 100, 100) with a 10x10 rectangle, and the proposal
(800, 600, 100, 100) with a 0x0 rectangle: both below the 32x32 minimum. -/
theorem try_crop_below_minimum :
    (rkisp1_isp_sd_try_crop isp_sd_default
        (crop_request RKISP1_ISP_PAD_SINK ⟨790, 590, 100, 100⟩)).sel.r = ⟨790, 590, 10, 10⟩ ∧
    (rkisp1_isp_sd_try_crop isp_sd_default
        (crop_request RKISP1_ISP_PAD_SINK ⟨800, 600, 100, 100⟩)).sel.r = ⟨800, 600, 0, 0⟩ := by
  decide

/-- On an even-width bounding box of at most 4032 pixels the rectangle
`rkisp1_isp_sd_try_crop` leaves has an even `left` and an even `width`. -/
theorem try_crop_even_of_even_bound (isp_sd : rkisp1_isp_subdev) (sel : v4l2_subdev_selection)
    (hpad : sel.pad = RKISP1_ISP_PAD_SINK ∨ sel.pad = RKISP1_ISP_PAD_SOURCE_PATH)
    (htgt : sel.target = V4L2_SEL_TGT_CROP)
    (hw : (crop_bounds isp_sd sel.pad).width ≤ 4032)
    (heven : (crop_bounds isp_sd sel.pad).width % 2 = 0) :
    (rkisp1_isp_sd_try_crop isp_sd sel).sel.r.left % 2 = 0 ∧
    (rkisp1_isp_sd_try_crop isp_sd sel).sel.r.width % 2 = 0 := by
  rw [try_crop_r isp_sd sel hpad htgt, ALIGN_s32_two, ALIGN_u32_two]
  generalize (crop_bounds isp_sd sel.pad).width = W at hw heven
  simp only [toS32, clamp_t_u32, toU32]
  constructor
  · split <;> split <;> omega
  · split <;> split <;> omega

/-- C4 (amended): for the sink pad and the source path, a bounding box whose
width fits a signed 32-bit integer, and a proposed rectangle with target CROP,
`left >= 0`, `width >= 34` and `left + width + 2 <= bound.width`,
`rkisp1_isp_sd_try_crop` rounds UP: the resulting `left` is the smallest even
number `>=` the proposed `left` and the resulting `width` is the smallest even
number `>=` the proposed `width`. -/
theorem try_crop_aligns_up (isp_sd : rkisp1_isp_subdev) (sel : v4l2_subdev_selection)
    (hpad : sel.pad = RKISP1_ISP_PAD_SINK ∨ sel.pad = RKISP1_ISP_PAD_SOURCE_PATH)
    (htgt : sel.target = V4L2_SEL_TGT_CROP)
    (hleft : 0 ≤ sel.r.left) (hwidth : 34 ≤ sel.r.width)
    (hfit : sel.r.left + sel.r.width + 2 ≤ (crop_bounds isp_sd sel.pad).width)
    (hbound : (crop_bounds isp_sd sel.pad).width < 2147483648) :
    IsSmallestEvenGE (rkisp1_isp_sd_try_crop isp_sd sel).sel.r.left sel.r.left ∧
    IsSmallestEvenGE (rkisp1_isp_sd_try_crop isp_sd sel).sel.r.width sel.r.width := by
  rw [try_crop_r isp_sd sel hpad htgt, ALIGN_s32_two, ALIGN_u32_two]
  generalize (crop_bounds isp_sd sel.pad).width = W at hfit hbound
  generalize sel.r.left = L at hleft hfit
  generalize sel.r.width = w at hwidth hfit
  simp only [toS32, clamp_t_u32, toU32, IsSmallestEvenGE]
  refine ⟨⟨?_, ?_, ?_⟩, ⟨?_, ?_, ?_⟩⟩
  · split <;> split <;> omega
  · split <;> split <;> omega
  · intro e he hle; split <;> split <;> omega
  · split <;> split <;> omega
  · split <;> split <;> omega
  · intro e he hle; split <;> split <;> omega

/-- C4 (counterexample): on the default state (sink bounding box 800 wide) the
sink CROP proposal (1, 0, 35, 100) meets the claim's conditions (`left >= 0`,
`width >= 34`, `left + width + 2 <= 800`), yet the result's `left` and `width`
are not the largest even numbers below the proposed ones: they are 2 and 36. -/
theorem try_crop_aligns_down_counterexample :
    ((crop_request RKISP1_ISP_PAD_SINK ⟨1, 0, 35, 100⟩).target = V4L2_SEL_TGT_CROP ∧
     (0 : Int) ≤ (crop_request RKISP1_ISP_PAD_SINK ⟨1, 0, 35, 100⟩).r.left ∧
     34 ≤ (crop_request RKISP1_ISP_PAD_SINK ⟨1, 0, 35, 100⟩).r.width ∧
     (1 : Int) + 35 + 2 ≤ (crop_bounds isp_sd_default RKISP1_ISP_PAD_SINK).width) ∧
    (rkisp1_isp_sd_try_crop isp_sd_default
      (crop_request RKISP1_ISP_PAD_SINK ⟨1, 0, 35, 100⟩)).sel.r = ⟨2, 0, 36, 100⟩ ∧
    ¬ (IsLargestEvenLE (rkisp1_isp_sd_try_crop isp_sd_default
          (crop_request RKISP1_ISP_PAD_SINK ⟨1, 0, 35, 100⟩)).sel.r.left 1 ∧
       IsLargestEvenLE (rkisp1_isp_sd_try_crop isp_sd_default
          (crop_request RKISP1_ISP_PAD_SINK ⟨1, 0, 35, 100⟩)).sel.r.width 35) := by
  refine ⟨by decide, by decide, ?_⟩
  intro h
  have h1 := h.1.2.1
  have h2 : (rkisp1_isp_sd_try_crop isp_sd_default
      (crop_request RKISP1_ISP_PAD_SINK ⟨1, 0, 35, 100⟩)).sel.r.left = 2 := by decide
  rw [h2] at h1
  exact absurd h1 (by decide)

theorem try_crop_aligns_up_witness :
    ((0 : Int) ≤ (crop_request RKISP1_ISP_PAD_SOURCE_PATH ⟨3, 0, 35, 100⟩).r.left ∧
     (3 : Int) + 35 + 2 ≤ (crop_bounds isp_sd_default RKISP1_ISP_PAD_SOURCE_PATH).width) ∧
    IsSmallestEvenGE (rkisp1_isp_sd_try_crop isp_sd_default
      (crop_request RKISP1_ISP_PAD_SOURCE_PATH ⟨3, 0, 35, 100⟩)).sel.r.left 3 ∧
    IsSmallestEvenGE (rkisp1_isp_sd_try_crop isp_sd_default
      (crop_request RKISP1_ISP_PAD_SOURCE_PATH ⟨3, 0, 35, 100⟩)).sel.r.width 35 :=
  ⟨by decide,
   try_crop_aligns_up isp_sd_default (crop_request RKISP1_ISP_PAD_SOURCE_PATH ⟨3, 0, 35, 100⟩)
     (by decide) (by decide) (by decide) (by decide) (by decide) (by decide)⟩

/-! ## Unfolding `rkisp1_isp_sd_try_fmt` -/

theorem clamp_t_u32_eq_clamp (v : Nat) (hv : v < 4294967296) :
    clamp_t_u32 v 32 4032 = clamp v 32 4032 ∧ clamp_t_u32 v 32 3024 = clamp v 32 3024 := by
  unfold clamp_t_u32 clamp toU32
  omega

theorem try_fmt_size (isp_sd : rkisp1_isp_subdev) (pad : Nat) (p : v4l2_mbus_framefmt)
    (hpad : pad = RKISP1_ISP_PAD_SINK ∨ pad = RKISP1_ISP_PAD_SOURCE_PATH) :
    (rkisp1_isp_sd_try_fmt isp_sd pad p).2.width = clamp_t_u32 p.width 32 4032 ∧
    (rkisp1_isp_sd_try_fmt isp_sd pad p).2.height = clamp_t_u32 p.height 32 3024 ∧
    (rkisp1_isp_sd_try_fmt isp_sd pad p).2.field = V4L2_FIELD_NONE ∧
    (rkisp1_isp_sd_try_fmt isp_sd pad p).1 = isp_sd := by
  unfold rkisp1_isp_sd_try_fmt
  rcases hpad with h | h
  · subst h
    cases rkisp1_isp_sd_find_fmt RKISP1_ISP_PAD_SINK p.code (-1) <;>
      simp [CIF_ISP_INPUT_W_MIN, CIF_ISP_INPUT_W_MAX, CIF_ISP_INPUT_H_MIN, CIF_ISP_INPUT_H_MAX]
  · subst h
    have : ¬ (RKISP1_ISP_PAD_SOURCE_PATH = RKISP1_ISP_PAD_SINK) := by decide
    cases rkisp1_isp_sd_find_fmt RKISP1_ISP_PAD_SOURCE_PATH p.code (-1) <;>
      simp [this, CIF_ISP_OUTPUT_W_MIN, CIF_ISP_OUTPUT_W_MAX, CIF_ISP_OUTPUT_H_MIN,
        CIF_ISP_OUTPUT_H_MAX, CIF_ISP_INPUT_W_MIN, CIF_ISP_INPUT_W_MAX, CIF_ISP_INPUT_H_MIN,
        CIF_ISP_INPUT_H_MAX]

/-- An ACTIVE `rkisp1_isp_sd_set_fmt` on the sink pad, unfolded. -/
theorem set_fmt_sink_active (isp_sd : rkisp1_isp_subdev) (cfg : Nat → v4l2_subdev_pad_config)
    (fmt : v4l2_subdev_format) (hpad : fmt.pad = RKISP1_ISP_PAD_SINK)
    (hact : fmt.which ≠ V4L2_SUBDEV_FORMAT_TRY) :
    ∃ c, rkisp1_isp_sd_find_fmt fmt.pad (rkisp1_isp_sd_try_fmt isp_sd fmt.pad fmt.format).2.code
          (-1) = some c ∧
      c.mbus_code = (rkisp1_isp_sd_try_fmt isp_sd fmt.pad fmt.format).2.code ∧
      c.colorspace = (rkisp1_isp_sd_try_fmt isp_sd fmt.pad fmt.format).2.colorspace ∧
      rkisp1_isp_sd_set_fmt isp_sd cfg fmt = some
        { ret := 0,
          isp_sd := { isp_sd with
            in_win := ⟨0, 0, (rkisp1_isp_sd_try_fmt isp_sd fmt.pad fmt.format).2.width,
              (rkisp1_isp_sd_try_fmt isp_sd fmt.pad fmt.format).2.height⟩
            in_fmt := c
            in_crop := ⟨0, 0, (rkisp1_isp_sd_try_fmt isp_sd fmt.pad fmt.format).2.width,
              (rkisp1_isp_sd_try_fmt isp_sd fmt.pad fmt.format).2.height⟩ },
          fmt := { fmt with format := (rkisp1_isp_sd_try_fmt isp_sd fmt.pad fmt.format).2 } } := by
  obtain ⟨c, hc, h1, h2⟩ := try_fmt_lookup isp_sd fmt.pad fmt.format (Or.inl hpad)
  refine ⟨c, hc, h1, h2, ?_⟩
  have hst := (try_fmt_size isp_sd fmt.pad fmt.format (Or.inl hpad)).2.2.2
  unfold rkisp1_isp_sd_set_fmt
  simp only [hc, hst]
  simp [hpad, hact]

/-- An ACTIVE `rkisp1_isp_sd_set_fmt` on the source path, unfolded. -/
theorem set_fmt_source_active (isp_sd : rkisp1_isp_subdev) (cfg : Nat → v4l2_subdev_pad_config)
    (fmt : v4l2_subdev_format) (hpad : fmt.pad = RKISP1_ISP_PAD_SOURCE_PATH)
    (hact : fmt.which ≠ V4L2_SUBDEV_FORMAT_TRY) :
    ∃ c, rkisp1_isp_sd_find_fmt fmt.pad (rkisp1_isp_sd_try_fmt isp_sd fmt.pad fmt.format).2.code
          (-1) = some c ∧
      c.mbus_code = (rkisp1_isp_sd_try_fmt isp_sd fmt.pad fmt.format).2.code ∧
      c.colorspace = (rkisp1_isp_sd_try_fmt isp_sd fmt.pad fmt.format).2.colorspace ∧
      rkisp1_isp_sd_set_fmt isp_sd cfg fmt = some
        { ret := 0,
          isp_sd := { isp_sd with
            out_win := ⟨0, 0, (rkisp1_isp_sd_try_fmt isp_sd fmt.pad fmt.format).2.width,
              (rkisp1_isp_sd_try_fmt isp_sd fmt.pad fmt.format).2.height⟩
            out_fmt := c },
          fmt := { fmt with format := (rkisp1_isp_sd_try_fmt isp_sd fmt.pad fmt.format).2 } } := by
  obtain ⟨c, hc, h1, h2⟩ := try_fmt_lookup isp_sd fmt.pad fmt.format (Or.inr hpad)
  refine ⟨c, hc, h1, h2, ?_⟩
  have hst := (try_fmt_size isp_sd fmt.pad fmt.format (Or.inr hpad)).2.2.2
  unfold rkisp1_isp_sd_set_fmt
  simp only [hc, hst]
  simp [hpad, hact, RKISP1_ISP_PAD_SOURCE_PATH, RKISP1_ISP_PAD_SINK]

/-- C5: for every prior state and every proposed format (u32 width and
height), an active (non-TRY) `rkisp1_isp_sd_set_fmt` on the sink pad returns 0
and leaves `in_win = (0, 0, clamp(w, 32, 4032), clamp(h, 32, 3024))` and
`in_crop` equal to that new `in_win`, whatever `in_crop` was before. -/
theorem set_fmt_sink_resets_crop (isp_sd : rkisp1_isp_subdev)
    (cfg : Nat → v4l2_subdev_pad_config) (fmt : v4l2_subdev_format)
    (hpad : fmt.pad = RKISP1_ISP_PAD_SINK) (hact : fmt.which ≠ V4L2_SUBDEV_FORMAT_TRY)
    (hw : fmt.format.width < 4294967296) (hh : fmt.format.height < 4294967296) :
    ∃ r, rkisp1_isp_sd_set_fmt isp_sd cfg fmt = some r ∧ r.ret = 0 ∧
      r.isp_sd.in_win =
        ⟨0, 0, clamp fmt.format.width 32 4032, clamp fmt.format.height 32 3024⟩ ∧
      r.isp_sd.in_crop = r.isp_sd.in_win := by
  obtain ⟨c, -, -, -, hset⟩ := set_fmt_sink_active isp_sd cfg fmt hpad hact
  obtain ⟨hwid, hhei, -, -⟩ := try_fmt_size isp_sd fmt.pad fmt.format (Or.inl hpad)
  refine ⟨_, hset, rfl, ?_, rfl⟩
  simp only [hwid, hhei]
  rw [(clamp_t_u32_eq_clamp _ hw).1, (clamp_t_u32_eq_clamp _ hh).2]

theorem set_fmt_sink_resets_crop_witness :
    (fmt_request RKISP1_ISP_PAD_SINK 5000 7 MEDIA_BUS_FMT_SRGGB10_1X10).pad = RKISP1_ISP_PAD_SINK ∧
    ∃ r, rkisp1_isp_sd_set_fmt isp_sd_default cfg_zeroed
        (fmt_request RKISP1_ISP_PAD_SINK 5000 7 MEDIA_BUS_FMT_SRGGB10_1X10) = some r ∧
      r.ret = 0 ∧
      r.isp_sd.in_win = ⟨0, 0, clamp 5000 32 4032, clamp 7 32 3024⟩ ∧
      r.isp_sd.in_crop = r.isp_sd.in_win :=
  ⟨by decide,
   set_fmt_sink_resets_crop isp_sd_default cfg_zeroed
     (fmt_request RKISP1_ISP_PAD_SINK 5000 7 MEDIA_BUS_FMT_SRGGB10_1X10)
     (by decide) (by decide) (by decide) (by decide)⟩

/-! ## Reachable pad states -/

theorem clamp_t_u32_le_hi (v lo : Int) (hi : Nat) (h : hi < 4294967296) :
    clamp_t_u32 v lo hi ≤ hi := by
  unfold clamp_t_u32 toU32
  omega

/-- Every `rkisp1_isp_sd_set_fmt` call returns, and changes the state in one of
three ways: not at all, a sink commit, or a source commit. -/
theorem set_fmt_cases (isp_sd : rkisp1_isp_subdev) (cfg : Nat → v4l2_subdev_pad_config)
    (fmt : v4l2_subdev_format) :
    ∃ r, rkisp1_isp_sd_set_fmt isp_sd cfg fmt = some r ∧
      (r.isp_sd = isp_sd ∨
       (∃ c, r.isp_sd = { isp_sd with
          in_win := ⟨0, 0, clamp_t_u32 fmt.format.width 32 4032,
            clamp_t_u32 fmt.format.height 32 3024⟩
          in_fmt := c
          in_crop := ⟨0, 0, clamp_t_u32 fmt.format.width 32 4032,
            clamp_t_u32 fmt.format.height 32 3024⟩ }) ∨
       (∃ c, r.isp_sd = { isp_sd with
          out_win := ⟨0, 0, clamp_t_u32 fmt.format.width 32 4032,
            clamp_t_u32 fmt.format.height 32 3024⟩
          out_fmt := c })) := by
  by_cases hbad : fmt.pad ≠ RKISP1_ISP_PAD_SINK ∧ fmt.pad ≠ RKISP1_ISP_PAD_SOURCE_PATH
  · exact ⟨_, by unfold rkisp1_isp_sd_set_fmt; rw [if_pos hbad], Or.inl rfl⟩
  · by_cases htry : fmt.which = V4L2_SUBDEV_FORMAT_TRY
    · exact ⟨_, by unfold rkisp1_isp_sd_set_fmt; rw [if_neg hbad, if_pos htry], Or.inl rfl⟩
    · have hpad : fmt.pad = RKISP1_ISP_PAD_SINK ∨ fmt.pad = RKISP1_ISP_PAD_SOURCE_PATH := by
        by_cases h : fmt.pad = RKISP1_ISP_PAD_SINK
        · exact Or.inl h
        · exact Or.inr (by_contra fun h2 => hbad ⟨h, h2⟩)
      obtain ⟨hwid, hhei, -, -⟩ := try_fmt_size isp_sd fmt.pad fmt.format hpad
      rcases hpad with h | h
      · obtain ⟨c, -, -, -, hset⟩ := set_fmt_sink_active isp_sd cfg fmt h htry
        rw [hwid, hhei] at hset
        exact ⟨_, hset, Or.inr (Or.inl ⟨c, rfl⟩)⟩
      · obtain ⟨c, -, -, -, hset⟩ := set_fmt_source_active isp_sd cfg fmt h htry
        rw [hwid, hhei] at hset
        exact ⟨_, hset, Or.inr (Or.inr ⟨c, rfl⟩)⟩

/-- Every `rkisp1_isp_sd_set_selection` call changes the state in one of three
ways: not at all, `in_crop` replaced by the `try_crop` rectangle of a sink CROP
request, or `out_win` replaced by the `try_crop` rectangle of a source CROP
request. -/
theorem set_selection_cases (isp_sd : rkisp1_isp_subdev) (cfg : Nat → v4l2_subdev_pad_config)
    (sel : v4l2_subdev_selection) :
    (rkisp1_isp_sd_set_selection isp_sd cfg sel).isp_sd = isp_sd ∨
    (sel.pad = RKISP1_ISP_PAD_SINK ∧ sel.target = V4L2_SEL_TGT_CROP ∧
      (rkisp1_isp_sd_set_selection isp_sd cfg sel).isp_sd =
        { isp_sd with in_crop := (rkisp1_isp_sd_try_crop isp_sd sel).sel.r }) ∨
    (sel.pad = RKISP1_ISP_PAD_SOURCE_PATH ∧ sel.target = V4L2_SEL_TGT_CROP ∧
      (rkisp1_isp_sd_set_selection isp_sd cfg sel).isp_sd =
        { isp_sd with out_win := (rkisp1_isp_sd_try_crop isp_sd sel).sel.r }) := by
  by_cases hbad : sel.pad ≠ RKISP1_ISP_PAD_SOURCE_PATH ∧ sel.pad ≠ RKISP1_ISP_PAD_SINK
  · left; unfold rkisp1_isp_sd_set_selection; rw [if_pos hbad]
  · by_cases htry : sel.which = V4L2_SUBDEV_FORMAT_TRY
    · left; unfold rkisp1_isp_sd_set_selection; rw [if_neg hbad, if_pos htry]
    · by_cases htgt : sel.target = V4L2_SEL_TGT_CROP
      · by_cases h : sel.pad = RKISP1_ISP_PAD_SINK
        · right; left
          refine ⟨h, htgt, ?_⟩
          simp [rkisp1_isp_sd_set_selection, rkisp1_isp_sd_try_crop, h, htgt, htry,
            RKISP1_ISP_PAD_SOURCE_PATH, RKISP1_ISP_PAD_SINK]
        · have h2 : sel.pad = RKISP1_ISP_PAD_SOURCE_PATH := by_contra fun h2 => hbad ⟨h2, h⟩
          right; right
          refine ⟨h2, htgt, ?_⟩
          simp [rkisp1_isp_sd_set_selection, rkisp1_isp_sd_try_crop, h2, htgt, htry,
            RKISP1_ISP_PAD_SOURCE_PATH, RKISP1_ISP_PAD_SINK]
      · left
        simp [rkisp1_isp_sd_set_selection, rkisp1_isp_sd_try_crop, htgt, htry, hbad]

theorem SinkCropInside_default (isp_sd : rkisp1_isp_subdev) :
    SinkCropInside (rkisp1_isp_sd_init_default_fmt isp_sd) := by
  simp [SinkCropInside, rkisp1_isp_sd_init_default_fmt, RKISP1_DEFAULT_WIDTH,
    RKISP1_DEFAULT_HEIGHT]

theorem SinkCropInside_apply_op (s : rkisp1_isp_subdev) (op : PadOp) (hs : SinkCropInside s) :
    ∃ s', apply_op s op = some s' ∧ SinkCropInside s' := by
  cases op with
  | set_fmt cfg fmt =>
    obtain ⟨r, hr, hcase⟩ := set_fmt_cases s cfg fmt
    refine ⟨r.isp_sd, by simp [apply_op, hr], ?_⟩
    rcases hcase with h | ⟨c, h⟩ | ⟨c, h⟩
    · rw [h]; exact hs
    · rw [h]
      have h1 := clamp_t_u32_le_hi fmt.format.width 32 4032 (by norm_num)
      have h2 := clamp_t_u32_le_hi fmt.format.height 32 3024 (by norm_num)
      simp only [SinkCropInside]
      refine ⟨h1, h2, le_refl _, le_refl _, ?_, ?_⟩ <;> omega
    · rw [h]; exact hs
  | set_selection cfg sel =>
    refine ⟨_, rfl, ?_⟩
    rcases set_selection_cases s cfg sel with h | ⟨hpad, htgt, h⟩ | ⟨hpad, htgt, h⟩
    · rw [h]; exact hs
    · rw [h, try_crop_r s sel (Or.inl hpad) htgt]
      obtain ⟨hw, hh, -⟩ := hs
      have hb : crop_bounds s sel.pad = s.in_win := by simp [crop_bounds, hpad]
      rw [hb]
      have hl := clamp_origin_bounds (ALIGN_s32 sel.r.left 2) s.in_win.width (by omega)
      have ht := clamp_origin_bounds sel.r.top s.in_win.height (by omega)
      exact ⟨hw, hh, hl.1, ht.1, clamp_extent_bound _ 32 _ _ hl.1 hl.2 (by omega),
        clamp_extent_bound _ 32 _ _ ht.1 ht.2 (by omega)⟩
    · rw [h]; exact hs

theorem SinkCropInside_run_ops (ops : List PadOp) (s : rkisp1_isp_subdev)
    (hs : SinkCropInside s) : ∃ s', run_ops s ops = some s' ∧ SinkCropInside s' := by
  induction ops generalizing s with
  | nil => exact ⟨s, rfl, hs⟩
  | cons op rest ih =>
    obtain ⟨s1, h1, hinv⟩ := SinkCropInside_apply_op s op hs
    obtain ⟨s2, h2, hinv2⟩ := ih s1 hinv
    exact ⟨s2, by simp [run_ops, h1, h2], hinv2⟩

/-- C6: from the default state (`rkisp1_isp_sd_init_default_fmt` applied to any
structure), every sequence of `rkisp1_isp_sd_set_fmt` and
`rkisp1_isp_sd_set_selection` calls (any pad, any `which`, any target, any
proposed values) runs to completion, and in the state it reaches the
acquisition crop lies inside the sensor window: `in_crop.left >= 0`,
`in_crop.top >= 0`, `in_crop.left + in_crop.width <= in_win.width` and
`in_crop.top + in_crop.height <= in_win.height`. -/
theorem in_crop_inside_in_win (isp_sd : rkisp1_isp_subdev) (ops : List PadOp) :
    ∃ s, run_ops (rkisp1_isp_sd_init_default_fmt isp_sd) ops = some s ∧
      0 ≤ s.in_crop.left ∧ 0 ≤ s.in_crop.top ∧
      s.in_crop.left + s.in_crop.width ≤ s.in_win.width ∧
      s.in_crop.top + s.in_crop.height ≤ s.in_win.height := by
  obtain ⟨s, hrun, -, -, h⟩ :=
    SinkCropInside_run_ops ops _ (SinkCropInside_default isp_sd)
  exact ⟨s, hrun, h⟩

/-- C7 (evaluation at the failing inputs): from the default state, an active
sink `set_fmt` of 32x32 leaves `in_crop` 32x32 and `out_win` 800x600; an active
source `set_fmt` of 4032x3024 leaves `in_crop` 800x600 and `out_win`
4032x3024.  In both states `out_win` is not inside `in_crop`. -/
theorem out_win_escapes_in_crop :
    (run_ops isp_sd_default
        [.set_fmt cfg_zeroed (fmt_request RKISP1_ISP_PAD_SINK 32 32 MEDIA_BUS_FMT_SRGGB10_1X10)]).map
      (fun s => (s.in_crop, s.out_win)) = some (⟨0, 0, 32, 32⟩, ⟨0, 0, 800, 600⟩) ∧
    (run_ops isp_sd_default
        [.set_fmt cfg_zeroed
          (fmt_request RKISP1_ISP_PAD_SOURCE_PATH 4032 3024 MEDIA_BUS_FMT_YUYV8_2X8)]).map
      (fun s => (s.in_crop, s.out_win)) = some (⟨0, 0, 800, 600⟩, ⟨0, 0, 4032, 3024⟩) := by
  decide

/-- C8: for the sink pad and the source path and every proposed format (u32
width and height), `rkisp1_isp_sd_try_fmt` hands the subdevice state back
unchanged and produces exactly the reference format: the proposed code if the
pad's catalog has it and the pad default otherwise, that catalog entry's
colorspace, width clamped to `[32, 4032]`, height clamped to `[32, 3024]`,
field `V4L2_FIELD_NONE`, all other members as proposed. -/
theorem try_fmt_matches_reference (isp_sd : rkisp1_isp_subdev) (pad : Nat)
    (p : v4l2_mbus_framefmt)
    (hpad : pad = RKISP1_ISP_PAD_SINK ∨ pad = RKISP1_ISP_PAD_SOURCE_PATH)
    (hw : p.width < 4294967296) (hh : p.height < 4294967296) :
    rkisp1_isp_sd_try_fmt isp_sd pad p = (isp_sd, try_fmt_reference pad p) := by
  have hcw := (clamp_t_u32_eq_clamp _ hw).1
  have hch := (clamp_t_u32_eq_clamp _ hh).2
  unfold rkisp1_isp_sd_try_fmt try_fmt_reference
  rw [find_fmt_by_code pad _ hpad]
  cases hf : (pad_catalog pad).find? (fun e => decide (e.mbus_code = p.code)) with
  | none =>
    have hnot : p.code ∉ (pad_catalog pad).map (fun e => e.mbus_code) := by
      intro hmem
      obtain ⟨e, he, hec⟩ := List.mem_map.mp hmem
      have := List.find?_eq_none.mp hf e he
      simp [hec] at this
    rw [if_neg hnot]
    rcases hpad with h | h
    · subst h
      have hd : (pad_catalog RKISP1_ISP_PAD_SINK).find?
          (fun e => decide (e.mbus_code = pad_default_code RKISP1_ISP_PAD_SINK)) =
          some (rkisp1_isp_input_formats.get ⟨5, by decide⟩) := by decide
      dsimp only
      rw [hd]
      simp only [if_true, CIF_ISP_INPUT_W_MIN, CIF_ISP_INPUT_W_MAX, CIF_ISP_INPUT_H_MIN,
        CIF_ISP_INPUT_H_MAX, Nat.cast_ofNat, hcw, hch]
      rfl
    · subst h
      have hd : (pad_catalog RKISP1_ISP_PAD_SOURCE_PATH).find?
          (fun e => decide (e.mbus_code = pad_default_code RKISP1_ISP_PAD_SOURCE_PATH)) =
          some (rkisp1_isp_output_formats.get ⟨0, by decide⟩) := by decide
      dsimp only
      rw [hd]
      have hne : ¬ (RKISP1_ISP_PAD_SOURCE_PATH = RKISP1_ISP_PAD_SINK) := by decide
      simp only [hne, if_false, if_true, CIF_ISP_OUTPUT_W_MIN, CIF_ISP_OUTPUT_W_MAX,
        CIF_ISP_OUTPUT_H_MIN, CIF_ISP_OUTPUT_H_MAX, CIF_ISP_INPUT_W_MIN, CIF_ISP_INPUT_W_MAX,
        CIF_ISP_INPUT_H_MIN, CIF_ISP_INPUT_H_MAX, Nat.cast_ofNat, hcw, hch]
      rfl
  | some c =>
    have hc : c.mbus_code = p.code := by
      have := List.find?_some hf
      simpa using this
    have hmem : p.code ∈ (pad_catalog pad).map (fun e => e.mbus_code) :=
      List.mem_map.mpr ⟨c, List.mem_of_find?_eq_some hf, hc⟩
    rw [if_pos hmem]
    dsimp only
    rw [hf]
    rcases hpad with h | h
    · subst h
      simp only [if_true, CIF_ISP_INPUT_W_MIN, CIF_ISP_INPUT_W_MAX, CIF_ISP_INPUT_H_MIN,
        CIF_ISP_INPUT_H_MAX, Nat.cast_ofNat, hcw, hch, hc]
    · subst h
      have hne : ¬ (RKISP1_ISP_PAD_SOURCE_PATH = RKISP1_ISP_PAD_SINK) := by decide
      simp only [hne, if_false, if_true, CIF_ISP_OUTPUT_W_MIN, CIF_ISP_OUTPUT_W_MAX,
        CIF_ISP_OUTPUT_H_MIN, CIF_ISP_OUTPUT_H_MAX, CIF_ISP_INPUT_W_MIN, CIF_ISP_INPUT_W_MAX,
        CIF_ISP_INPUT_H_MIN, CIF_ISP_INPUT_H_MAX, Nat.cast_ofNat, hcw, hch, hc]

theorem try_fmt_matches_reference_witness :
    (RKISP1_ISP_PAD_SOURCE_PATH = RKISP1_ISP_PAD_SINK ∨
      RKISP1_ISP_PAD_SOURCE_PATH = RKISP1_ISP_PAD_SOURCE_PATH) ∧
    try_fmt_reference RKISP1_ISP_PAD_SOURCE_PATH
        { width := 5000, height := 7, code := MEDIA_BUS_FMT_YUYV8_1X16, field := 4,
          colorspace := 3 } =
      { width := 4032, height := 32, code := MEDIA_BUS_FMT_YUYV8_2X8, field := V4L2_FIELD_NONE,
        colorspace := V4L2_COLORSPACE_JPEG } ∧
    rkisp1_isp_sd_try_fmt isp_sd_default RKISP1_ISP_PAD_SOURCE_PATH
        { width := 5000, height := 7, code := MEDIA_BUS_FMT_YUYV8_1X16, field := 4,
          colorspace := 3 } =
      (isp_sd_default, try_fmt_reference RKISP1_ISP_PAD_SOURCE_PATH
        { width := 5000, height := 7, code := MEDIA_BUS_FMT_YUYV8_1X16, field := 4,
          colorspace := 3 }) :=
  ⟨by decide, by decide,
   try_fmt_matches_reference isp_sd_default RKISP1_ISP_PAD_SOURCE_PATH
     { width := 5000, height := 7, code := MEDIA_BUS_FMT_YUYV8_1X16, field := 4, colorspace := 3 }
     (by decide) (by decide) (by decide)⟩

/-- An ACTIVE `rkisp1_isp_sd_get_fmt` on the sink pad or the source path,
unfolded. -/
theorem get_fmt_active (s : rkisp1_isp_subdev) (cfg : Nat → v4l2_subdev_pad_config)
    (g : v4l2_subdev_format)
    (hpad : g.pad = RKISP1_ISP_PAD_SINK ∨ g.pad = RKISP1_ISP_PAD_SOURCE_PATH)
    (hact : g.which ≠ V4L2_SUBDEV_FORMAT_TRY) :
    (rkisp1_isp_sd_get_fmt s cfg g).ret = 0 ∧
    (rkisp1_isp_sd_get_fmt s cfg g).isp_sd = s ∧
    (rkisp1_isp_sd_get_fmt s cfg g).fmt.format.field = V4L2_FIELD_NONE ∧
    (g.pad = RKISP1_ISP_PAD_SINK →
      (rkisp1_isp_sd_get_fmt s cfg g).fmt.format.width = s.in_win.width ∧
      (rkisp1_isp_sd_get_fmt s cfg g).fmt.format.height = s.in_win.height ∧
      (rkisp1_isp_sd_get_fmt s cfg g).fmt.format.code = s.in_fmt.mbus_code ∧
      (rkisp1_isp_sd_get_fmt s cfg g).fmt.format.colorspace = s.in_fmt.colorspace) ∧
    (g.pad = RKISP1_ISP_PAD_SOURCE_PATH →
      (rkisp1_isp_sd_get_fmt s cfg g).fmt.format.width = s.out_win.width ∧
      (rkisp1_isp_sd_get_fmt s cfg g).fmt.format.height = s.out_win.height ∧
      (rkisp1_isp_sd_get_fmt s cfg g).fmt.format.code = s.out_fmt.mbus_code ∧
      (rkisp1_isp_sd_get_fmt s cfg g).fmt.format.colorspace = s.out_fmt.colorspace) := by
  rcases hpad with h | h <;>
    simp [rkisp1_isp_sd_get_fmt, h, hact, RKISP1_ISP_PAD_SINK, RKISP1_ISP_PAD_SOURCE_PATH]

/-- C9: for the sink pad and the source path and every proposed format, an
active `rkisp1_isp_sd_set_fmt` returns 0 and hands back exactly the format
`rkisp1_isp_sd_try_fmt` computes; a following active `rkisp1_isp_sd_get_fmt`
on the same pad returns 0, reports the same width, height, code, colorspace
and field, and leaves the subdevice state (in_fmt, in_win, in_crop, out_fmt,
out_win) unchanged. -/
theorem set_fmt_get_fmt_round_trip (isp_sd : rkisp1_isp_subdev)
    (cfg cfg2 : Nat → v4l2_subdev_pad_config) (p g : v4l2_subdev_format)
    (hpad : p.pad = RKISP1_ISP_PAD_SINK ∨ p.pad = RKISP1_ISP_PAD_SOURCE_PATH)
    (hact : p.which ≠ V4L2_SUBDEV_FORMAT_TRY)
    (hgpad : g.pad = p.pad) (hgact : g.which ≠ V4L2_SUBDEV_FORMAT_TRY) :
    ∃ r, rkisp1_isp_sd_set_fmt isp_sd cfg p = some r ∧ r.ret = 0 ∧
      r.fmt.format = (rkisp1_isp_sd_try_fmt isp_sd p.pad p.format).2 ∧
      SameFrameFormat r.fmt.format (rkisp1_isp_sd_try_fmt isp_sd p.pad p.format).2 ∧
      (rkisp1_isp_sd_get_fmt r.isp_sd cfg2 g).ret = 0 ∧
      SameFrameFormat (rkisp1_isp_sd_get_fmt r.isp_sd cfg2 g).fmt.format
        (rkisp1_isp_sd_try_fmt isp_sd p.pad p.format).2 ∧
      (rkisp1_isp_sd_get_fmt r.isp_sd cfg2 g).isp_sd = r.isp_sd := by
  obtain ⟨-, -, hfield, -⟩ := try_fmt_size isp_sd p.pad p.format hpad
  rcases hpad with h | h
  · obtain ⟨c, -, hcode, hcs, hset⟩ := set_fmt_sink_active isp_sd cfg p h hact
    refine ⟨_, hset, rfl, rfl, ⟨rfl, rfl, rfl, rfl, rfl⟩, ?_⟩
    obtain ⟨hret, hst, hf, hsink, -⟩ :=
      get_fmt_active _ cfg2 g (Or.inl (hgpad.trans h)) hgact
    obtain ⟨h1, h2, h3, h4⟩ := hsink (hgpad.trans h)
    exact ⟨hret, ⟨h1, h2, h3.trans hcode, h4.trans hcs, hf.trans hfield.symm⟩, hst⟩
  · obtain ⟨c, -, hcode, hcs, hset⟩ := set_fmt_source_active isp_sd cfg p h hact
    refine ⟨_, hset, rfl, rfl, ⟨rfl, rfl, rfl, rfl, rfl⟩, ?_⟩
    obtain ⟨hret, hst, hf, -, hsrc⟩ :=
      get_fmt_active _ cfg2 g (Or.inr (hgpad.trans h)) hgact
    obtain ⟨h1, h2, h3, h4⟩ := hsrc (hgpad.trans h)
    exact ⟨hret, ⟨h1, h2, h3.trans hcode, h4.trans hcs, hf.trans hfield.symm⟩, hst⟩

theorem set_fmt_get_fmt_round_trip_witness :
    (fmt_request RKISP1_ISP_PAD_SINK 5000 7 77).which ≠ V4L2_SUBDEV_FORMAT_TRY ∧
    (rkisp1_isp_sd_try_fmt isp_sd_default RKISP1_ISP_PAD_SINK
        (fmt_request RKISP1_ISP_PAD_SINK 5000 7 77).format).2 =
      { width := 4032, height := 32, code := MEDIA_BUS_FMT_SRGGB10_1X10,
        field := V4L2_FIELD_NONE, colorspace := V4L2_COLORSPACE_SRGB } ∧
    ∃ r, rkisp1_isp_sd_set_fmt isp_sd_default cfg_zeroed
          (fmt_request RKISP1_ISP_PAD_SINK 5000 7 77) = some r ∧ r.ret = 0 ∧
      r.fmt.format = (rkisp1_isp_sd_try_fmt isp_sd_default
          (fmt_request RKISP1_ISP_PAD_SINK 5000 7 77).pad
          (fmt_request RKISP1_ISP_PAD_SINK 5000 7 77).format).2 ∧
      SameFrameFormat r.fmt.format (rkisp1_isp_sd_try_fmt isp_sd_default
          (fmt_request RKISP1_ISP_PAD_SINK 5000 7 77).pad
          (fmt_request RKISP1_ISP_PAD_SINK 5000 7 77).format).2 ∧
      (rkisp1_isp_sd_get_fmt r.isp_sd cfg_zeroed
          (fmt_request RKISP1_ISP_PAD_SINK 1 2 3)).ret = 0 ∧
      SameFrameFormat (rkisp1_isp_sd_get_fmt r.isp_sd cfg_zeroed
          (fmt_request RKISP1_ISP_PAD_SINK 1 2 3)).fmt.format
        (rkisp1_isp_sd_try_fmt isp_sd_default
          (fmt_request RKISP1_ISP_PAD_SINK 5000 7 77).pad
          (fmt_request RKISP1_ISP_PAD_SINK 5000 7 77).format).2 ∧
      (rkisp1_isp_sd_get_fmt r.isp_sd cfg_zeroed
          (fmt_request RKISP1_ISP_PAD_SINK 1 2 3)).isp_sd = r.isp_sd :=
  ⟨by decide, by decide,
   set_fmt_get_fmt_round_trip isp_sd_default cfg_zeroed cfg_zeroed
     (fmt_request RKISP1_ISP_PAD_SINK 5000 7 77) (fmt_request RKISP1_ISP_PAD_SINK 1 2 3)
     (by decide) (by decide) (by decide) (by decide)⟩

/-- C10: `rkisp1_isp_sd_set_selection` returns `-EINVAL` and leaves the
subdevice state (in_win, in_crop, out_win and the rest) and the caller's
selection, rectangle included, unchanged when the pad is neither the sink pad
nor the source path, and also when the request is active (not TRY) on one of
those two pads with a target other than `V4L2_SEL_TGT_CROP`. -/
theorem set_selection_rejects (isp_sd : rkisp1_isp_subdev)
    (cfg : Nat → v4l2_subdev_pad_config) (sel : v4l2_subdev_selection)
    (h : (sel.pad ≠ RKISP1_ISP_PAD_SINK ∧ sel.pad ≠ RKISP1_ISP_PAD_SOURCE_PATH) ∨
      (sel.which ≠ V4L2_SUBDEV_FORMAT_TRY ∧ sel.target ≠ V4L2_SEL_TGT_CROP)) :
    rkisp1_isp_sd_set_selection isp_sd cfg sel =
      { ret := -EINVAL, isp_sd := isp_sd, sel := sel } := by
  by_cases hbad : sel.pad ≠ RKISP1_ISP_PAD_SOURCE_PATH ∧ sel.pad ≠ RKISP1_ISP_PAD_SINK
  · unfold rkisp1_isp_sd_set_selection; rw [if_pos hbad]
  · rcases h with h | ⟨htry, htgt⟩
    · exact absurd ⟨h.2, h.1⟩ hbad
    · simp [rkisp1_isp_sd_set_selection, rkisp1_isp_sd_try_crop, htgt, htry, hbad]

theorem set_selection_rejects_witness :
    rkisp1_isp_sd_set_selection isp_sd_default cfg_zeroed
        { which := V4L2_SUBDEV_FORMAT_ACTIVE, pad := RKISP1_ISP_PAD_SINK,
          target := V4L2_SEL_TGT_CROP_BOUNDS, flags := 0, r := ⟨3, 5, 101, 77⟩ } =
      { ret := -22, isp_sd := isp_sd_default,
        sel := { which := V4L2_SUBDEV_FORMAT_ACTIVE, pad := RKISP1_ISP_PAD_SINK,
                 target := V4L2_SEL_TGT_CROP_BOUNDS, flags := 0, r := ⟨3, 5, 101, 77⟩ } } :=
  set_selection_rejects isp_sd_default cfg_zeroed
    { which := V4L2_SUBDEV_FORMAT_ACTIVE, pad := RKISP1_ISP_PAD_SINK,
      target := V4L2_SEL_TGT_CROP_BOUNDS, flags := 0, r := ⟨3, 5, 101, 77⟩ }
    (Or.inr ⟨by decide, by decide⟩)

/-! ## Catalog lookup by code and by position -/

theorem find_fmt_other_pad (pad code : Nat) (index : Int)
    (h : ¬ (pad = RKISP1_ISP_PAD_SINK ∨ pad = RKISP1_ISP_PAD_SOURCE_PATH)) :
    rkisp1_isp_sd_find_fmt pad code index = none := by
  unfold rkisp1_isp_sd_find_fmt
  have : pad ≠ RKISP1_ISP_PAD_SINK ∧ pad ≠ RKISP1_ISP_PAD_SOURCE_PATH := by
    constructor <;> intro hp <;> exact h (by simp [hp])
  rw [if_pos this]

theorem find_fmt_by_index_sink :
    ∀ i, i < 16 → rkisp1_isp_sd_find_fmt RKISP1_ISP_PAD_SINK 0 (i : Nat) =
      rkisp1_isp_input_formats[i]? := by
  decide

theorem find_fmt_by_index_source :
    ∀ i, i < 13 → rkisp1_isp_sd_find_fmt RKISP1_ISP_PAD_SOURCE_PATH 0 (i : Nat) =
      rkisp1_isp_output_formats[i]? := by
  decide

theorem find_fmt_index_past_end (pad code : Nat) (i : Nat)
    (h : (pad_catalog pad).length ≤ i) :
    rkisp1_isp_sd_find_fmt pad code (i : Nat) = none := by
  unfold rkisp1_isp_sd_find_fmt
  split
  · rfl
  · have h2 : ((i : Nat) : Int) ≥ ((pad_catalog pad).length : Int) := by exact_mod_cast h
    unfold pad_catalog at h2
    simp only [h2, if_true]

/-- C11: `rkisp1_isp_sd_find_fmt` equals the reference lookup.  With index -1
and bus code `c` it returns the entry of the pad's table whose `mbus_code` is
`c`, or not-found when `c` is not in the table; with bus code 0 and index `i`
it returns the `i`-th entry of the pad's table for `i` below the table size
(16 sink entries, 13 source-path entries) and not-found from the table size
on; for a pad other than the sink pad and the source path it returns
not-found. -/
theorem find_fmt_matches_reference :
    rkisp1_isp_input_formats.length = 16 ∧ rkisp1_isp_output_formats.length = 13 ∧
    (∀ pad c, rkisp1_isp_sd_find_fmt pad c (-1) = find_fmt_reference pad (some c) none) ∧
    (∀ pad (i : Nat), rkisp1_isp_sd_find_fmt pad 0 (i : Nat) =
      find_fmt_reference pad none (some i)) ∧
    (∀ pad c index, (pad = RKISP1_ISP_PAD_SINK ∨ pad = RKISP1_ISP_PAD_SOURCE_PATH) ∨
      rkisp1_isp_sd_find_fmt pad c index = none) := by
  refine ⟨by decide, by decide, ?_, ?_, ?_⟩
  · intro pad c
    by_cases hpad : pad = RKISP1_ISP_PAD_SINK ∨ pad = RKISP1_ISP_PAD_SOURCE_PATH
    · rw [find_fmt_by_code pad c hpad]
      simp [find_fmt_reference, hpad]
    · rw [find_fmt_other_pad pad c _ hpad]
      simp [find_fmt_reference, hpad]
  · intro pad i
    by_cases hpad : pad = RKISP1_ISP_PAD_SINK ∨ pad = RKISP1_ISP_PAD_SOURCE_PATH
    · simp only [find_fmt_reference, hpad, if_true]
      by_cases hi : i < (pad_catalog pad).length
      · rcases hpad with h | h
        · subst h
          exact find_fmt_by_index_sink i hi
        · subst h
          exact find_fmt_by_index_source i hi
      · rw [find_fmt_index_past_end pad 0 i (by omega)]
        exact (List.getElem?_eq_none (by omega)).symm
    · rw [find_fmt_other_pad pad 0 _ hpad]
      simp [find_fmt_reference, hpad]
  · intro pad c index
    by_cases hpad : pad = RKISP1_ISP_PAD_SINK ∨ pad = RKISP1_ISP_PAD_SOURCE_PATH
    · exact Or.inl hpad
    · exact Or.inr (find_fmt_other_pad pad c index hpad)

/-! ## Stream start and stop: what changes besides the hardware -/

theorem wrap_s32_id (x : Int) (h1 : -2147483648 ≤ x) (h2 : x < 2147483648) :
    wrap_s32 x = x := by
  unfold wrap_s32 toS32 toU32
  split <;> omega

/-- What `rkisp1_config_cif` leaves of the device besides the hardware: nothing
changes on an error return, and only the stream count, set to 0, on success. -/
theorem config_cif_frame (K : regs_h) (u : uninit_locals) (dev : rkisp1_device) :
    (rkisp1_config_cif K u dev).dev.isp_sdev = dev.isp_sdev ∧
    (rkisp1_config_cif K u dev).dev.sensor = dev.sensor ∧
    (rkisp1_config_cif K u dev).dev.stream = dev.stream ∧
    (rkisp1_config_cif K u dev).dev.stats_frame_id = dev.stats_frame_id ∧
    ((rkisp1_config_cif K u dev).ret < 0 →
      (rkisp1_config_cif K u dev).dev.cif_streamon_cnt = dev.cif_streamon_cnt) ∧
    (¬ (rkisp1_config_cif K u dev).ret < 0 →
      (rkisp1_config_cif K u dev).ret = 0 ∧
      (rkisp1_config_cif K u dev).dev.cif_streamon_cnt = 0) := by
  unfold rkisp1_config_cif
  simp only []
  split
  · simp_all
  · split
    · simp_all
    · simp

/-- What `rkisp1_isp_start` leaves of the device besides the hardware. -/
theorem isp_start_frame (K : regs_h) (dev : rkisp1_device) :
    (rkisp1_isp_start K dev).ret = 0 ∧
    (rkisp1_isp_start K dev).dev.cif_streamon_cnt = wrap_s32 (dev.cif_streamon_cnt + 1) ∧
    (rkisp1_isp_start K dev).dev.isp_sdev = dev.isp_sdev ∧
    (rkisp1_isp_start K dev).dev.sensor = dev.sensor ∧
    (rkisp1_isp_start K dev).dev.stream = dev.stream := by
  unfold rkisp1_isp_start
  simp only []
  split <;> simp

/-- What `rkisp1_isp_stop` leaves of the device. -/
theorem isp_stop_frame (K : regs_h) (polls : Nat) (dev : rkisp1_device) :
    (rkisp1_isp_stop K polls dev).ret = 0 ∧
    (rkisp1_isp_stop K polls dev).dev.cif_streamon_cnt = wrap_s32 (dev.cif_streamon_cnt - 1) ∧
    (rkisp1_isp_stop K polls dev).dev.isp_sdev = dev.isp_sdev ∧
    (rkisp1_isp_stop K polls dev).dev.sensor = dev.sensor ∧
    (rkisp1_isp_stop K polls dev).dev.stream = dev.stream ∧
    (rkisp1_isp_stop K polls dev).dev.stats_frame_id = dev.stats_frame_id ∧
    (rkisp1_isp_stop K polls dev).dev.hw =
      if wrap_s32 (dev.cif_streamon_cnt - 1) > 0 then dev.hw else isp_stop_hw K polls dev.hw := by
  unfold rkisp1_isp_stop
  simp only []
  split <;> simp_all

/-- A successful `rkisp1_isp_sd_s_stream` start leaves the stream count at 1,
whatever it was, and resets the frame-sync counter. -/
theorem s_stream_on_success (K : regs_h) (u : uninit_locals) (polls : Nat)
    (dev : rkisp1_device) (on_ : Int) (hon : on_ ≠ 0)
    (hret : ¬ (rkisp1_isp_sd_s_stream K u polls dev on_).ret < 0) :
    (rkisp1_isp_sd_s_stream K u polls dev on_).ret = 0 ∧
    (rkisp1_isp_sd_s_stream K u polls dev on_).dev.cif_streamon_cnt = 1 ∧
    (rkisp1_isp_sd_s_stream K u polls dev on_).dev.isp_sdev =
      { dev.isp_sdev with frm_sync_seq := 0 } ∧
    (rkisp1_isp_sd_s_stream K u polls dev on_).dev.sensor = dev.sensor ∧
    (rkisp1_isp_sd_s_stream K u polls dev on_).dev.stream = dev.stream := by
  unfold rkisp1_isp_sd_s_stream at hret ⊢
  rw [if_neg hon] at hret ⊢
  simp only [] at hret ⊢
  obtain ⟨h1, h2, h3, -, -, h6⟩ := config_cif_frame K u
    { dev with isp_sdev := { dev.isp_sdev with frm_sync_seq := 0 } }
  by_cases hc : (rkisp1_config_cif K u
      { dev with isp_sdev := { dev.isp_sdev with frm_sync_seq := 0 } }).ret < 0
  · rw [if_pos hc] at hret
    exact absurd hc hret
  · rw [if_neg hc]
    obtain ⟨-, hcnt⟩ := h6 hc
    obtain ⟨s1, s2, s3, s4, s5⟩ := isp_start_frame K (rkisp1_config_cif K u
      { dev with isp_sdev := { dev.isp_sdev with frm_sync_seq := 0 } }).dev
    refine ⟨s1, ?_, s3.trans h1, s4.trans h2, s5.trans h3⟩
    rw [s2, hcnt]
    decide

/-- With a Bayer sink format of 8, 10 or 12 bits and a sensor that is not on a
CSI2 bus, `rkisp1_config_cif` succeeds. -/
theorem config_cif_bayer_not_csi2 (K : regs_h) (u : uninit_locals) (dev : rkisp1_device)
    (hbus : dev.sensor.ep.bus_type ≠ V4L2_MBUS_CSI2)
    (hfmt : dev.isp_sdev.in_fmt.fmt_type = FMT_BAYER)
    (hbpp : bpp0 dev.isp_sdev.in_fmt = 8 ∨ bpp0 dev.isp_sdev.in_fmt = 10 ∨
      bpp0 dev.isp_sdev.in_fmt = 12) :
    (rkisp1_config_cif K u dev).ret = 0 := by
  have hpath : (rkisp1_config_path K u dev).ret = 0 := by
    unfold rkisp1_config_path get_active_sensor_info
    simp only []
    split
    · rfl
    · simp [hbus]
  have hsel : ∀ hw, (isp_select K u { dev with hw := hw }).isSome := by
    intro hw
    unfold isp_select get_active_sensor_info
    simp only [hfmt, if_true]
    rcases hbpp with h | h | h <;> simp [h, isp_input_sel_bayer]
  have hisp : ∀ hw, (rkisp1_config_isp K u { dev with hw := hw }).ret = 0 := by
    intro hw
    unfold rkisp1_config_isp
    simp only []
    have := hsel hw
    cases h : isp_select K u { dev with hw := hw } with
    | none => rw [h] at this; exact absurd this (by simp)
    | some s => rfl
  unfold rkisp1_config_cif
  simp [hpath, hisp]

/-! ## Counting register writes -/

@[simp] theorem count_writes_writel (reg r : Reg) (v : Nat) (hw : Hw) :
    count_writes reg (writel v r hw).log = count_writes reg hw.log + if r = reg then 1 else 0 := by
  have h : ∀ l : List Event, reg_writes (l ++ [Event.writel v r]) = reg_writes l ++ [(v, r)] := by
    intro l
    induction l with
    | nil => rfl
    | cons e rest ih => cases e <;> simp [reg_writes, ih]
  simp only [count_writes, writel, h, List.filter_append, List.length_append]
  by_cases hr : r = reg <;> simp [hr]

@[simp] theorem count_writes_call (reg : Reg) (e : Event) (hw : Hw)
    (he : ∀ v r, e ≠ Event.writel v r) :
    count_writes reg (call e hw).log = count_writes reg hw.log := by
  have h : ∀ l : List Event, reg_writes (l ++ [e]) = reg_writes l := by
    intro l
    induction l with
    | nil => cases e <;> simp_all [reg_writes]
    | cons e' rest ih => cases e' <;> simp [reg_writes, ih]
  simp only [count_writes, call, h]

theorem config_ism_count (K : regs_h) (dev : rkisp1_device) :
    count_writes .CIF_VI_DPCL (rkisp1_config_ism K dev).log =
      count_writes .CIF_VI_DPCL dev.hw.log ∧
    count_writes .CIF_ISP_IS_CTRL (rkisp1_config_ism K dev).log =
      count_writes .CIF_ISP_IS_CTRL dev.hw.log + 1 := by
  simp [rkisp1_config_ism]

theorem config_isp_count (K : regs_h) (u : uninit_locals) (dev : rkisp1_device) :
    count_writes .CIF_VI_DPCL (rkisp1_config_isp K u dev).hw.log =
      count_writes .CIF_VI_DPCL dev.hw.log ∧
    count_writes .CIF_ISP_IS_CTRL (rkisp1_config_isp K u dev).hw.log =
      count_writes .CIF_ISP_IS_CTRL dev.hw.log := by
  unfold rkisp1_config_isp
  simp only []
  split <;> split <;> (try split) <;> simp

theorem config_mipi_count (K : regs_h) (u : uninit_locals) (dev : rkisp1_device) :
    count_writes .CIF_VI_DPCL (rkisp1_config_mipi K u dev).hw.log =
      count_writes .CIF_VI_DPCL dev.hw.log ∧
    count_writes .CIF_ISP_IS_CTRL (rkisp1_config_mipi K u dev).hw.log =
      count_writes .CIF_ISP_IS_CTRL dev.hw.log := by
  unfold rkisp1_config_mipi
  simp only []
  split <;> split <;> simp

theorem config_path_count (K : regs_h) (u : uninit_locals) (dev : rkisp1_device) :
    count_writes .CIF_VI_DPCL (rkisp1_config_path K u dev).hw.log =
      count_writes .CIF_VI_DPCL dev.hw.log + 1 ∧
    count_writes .CIF_ISP_IS_CTRL (rkisp1_config_path K u dev).hw.log =
      count_writes .CIF_ISP_IS_CTRL dev.hw.log := by
  obtain ⟨m1, m2⟩ := config_mipi_count K u dev
  unfold rkisp1_config_path
  simp only []
  split
  · simp
  · split <;> simp [m1, m2]

theorem isp_start_count (K : regs_h) (dev : rkisp1_device) :
    count_writes .CIF_VI_DPCL (rkisp1_isp_start K dev).dev.hw.log =
      count_writes .CIF_VI_DPCL dev.hw.log ∧
    count_writes .CIF_ISP_IS_CTRL (rkisp1_isp_start K dev).dev.hw.log =
      count_writes .CIF_ISP_IS_CTRL dev.hw.log := by
  unfold rkisp1_isp_start isp_start_hw
  simp only []
  split <;> (try split) <;> simp

/-- Every successful start call of `rkisp1_isp_sd_s_stream` runs the whole of
`rkisp1_config_cif`: it writes the path selection register `CIF_VI_DPCL` (first
step, `rkisp1_config_path`) once and the crop enable register
`CIF_ISP_IS_CTRL` (last step, `rkisp1_config_ism`) once. -/
theorem s_stream_on_configures (K : regs_h) (u : uninit_locals) (polls : Nat)
    (dev : rkisp1_device) (on_ : Int) (hon : on_ ≠ 0)
    (hret : ¬ (rkisp1_isp_sd_s_stream K u polls dev on_).ret < 0) :
    count_writes .CIF_VI_DPCL (rkisp1_isp_sd_s_stream K u polls dev on_).dev.hw.log =
      count_writes .CIF_VI_DPCL dev.hw.log + 1 ∧
    count_writes .CIF_ISP_IS_CTRL (rkisp1_isp_sd_s_stream K u polls dev on_).dev.hw.log =
      count_writes .CIF_ISP_IS_CTRL dev.hw.log + 1 := by
  unfold rkisp1_isp_sd_s_stream at hret ⊢
  rw [if_neg hon] at hret ⊢
  simp only [] at hret ⊢
  generalize hd : ({ dev with isp_sdev := { dev.isp_sdev with frm_sync_seq := 0 } } :
    rkisp1_device) = d0 at hret ⊢
  have hlog : d0.hw = dev.hw := by rw [← hd]
  by_cases hc : (rkisp1_config_cif K u d0).ret < 0
  · rw [if_pos hc] at hret
    exact absurd hc hret
  · rw [if_neg hc]
    obtain ⟨s1, s2⟩ := isp_start_count K (rkisp1_config_cif K u d0).dev
    rw [s1, s2, ← hlog]
    unfold rkisp1_config_cif at hc ⊢
    simp only [] at hc ⊢
    obtain ⟨p1, p2⟩ := config_path_count K u d0
    by_cases hp : (rkisp1_config_path K u d0).ret < 0
    · rw [if_pos hp] at hc; exact absurd hp hc
    · rw [if_neg hp] at hc ⊢
      obtain ⟨i1, i2⟩ := config_isp_count K u { d0 with hw := (rkisp1_config_path K u d0).hw }
      by_cases hi : (rkisp1_config_isp K u
          { d0 with hw := (rkisp1_config_path K u d0).hw }).ret < 0
      · rw [if_pos hi] at hc; exact absurd hi hc
      · rw [if_neg hi]
        obtain ⟨m1, m2⟩ := config_ism_count K { d0 with hw := (rkisp1_config_isp K u
          { d0 with hw := (rkisp1_config_path K u d0).hw }).hw }
        exact ⟨by rw [m1, i1, p1], by rw [m2, i2, p2]⟩

/-- With a Bayer sink format of 8, 10 or 12 bits and a sensor that is not on a
CSI2 bus, a start call of `rkisp1_isp_sd_s_stream` succeeds. -/
theorem s_stream_on_bayer_not_csi2 (K : regs_h) (u : uninit_locals) (polls : Nat)
    (dev : rkisp1_device) (on_ : Int) (hon : on_ ≠ 0)
    (hbus : dev.sensor.ep.bus_type ≠ V4L2_MBUS_CSI2)
    (hfmt : dev.isp_sdev.in_fmt.fmt_type = FMT_BAYER)
    (hbpp : bpp0 dev.isp_sdev.in_fmt = 8 ∨ bpp0 dev.isp_sdev.in_fmt = 10 ∨
      bpp0 dev.isp_sdev.in_fmt = 12) :
    ¬ (rkisp1_isp_sd_s_stream K u polls dev on_).ret < 0 := by
  have hc := config_cif_bayer_not_csi2 K u
    { dev with isp_sdev := { dev.isp_sdev with frm_sync_seq := 0 } } hbus hfmt hbpp
  unfold rkisp1_isp_sd_s_stream
  rw [if_neg hon]
  simp only [hc]
  rw [if_neg (by decide)]
  rw [(isp_start_frame K _).1]
  decide

/-- The facts about a device that make a start call succeed, and that start and
stop calls keep. -/
theorem s_stream_step (K : regs_h) (u : uninit_locals) (polls : Nat)
    (dev : rkisp1_device)
    (hbus : dev.sensor.ep.bus_type ≠ V4L2_MBUS_CSI2)
    (hfmt : dev.isp_sdev.in_fmt.fmt_type = FMT_BAYER)
    (hbpp : bpp0 dev.isp_sdev.in_fmt = 10) :
    ((rkisp1_isp_sd_s_stream K u polls dev 1).ret = 0 ∧
     (rkisp1_isp_sd_s_stream K u polls dev 1).dev.cif_streamon_cnt = 1 ∧
     (rkisp1_isp_sd_s_stream K u polls dev 1).dev.sensor.ep.bus_type ≠ V4L2_MBUS_CSI2 ∧
     (rkisp1_isp_sd_s_stream K u polls dev 1).dev.isp_sdev.in_fmt.fmt_type = FMT_BAYER ∧
     bpp0 (rkisp1_isp_sd_s_stream K u polls dev 1).dev.isp_sdev.in_fmt = 10) ∧
    ((rkisp1_isp_sd_s_stream K u polls dev 0).ret = 0 ∧
     (rkisp1_isp_sd_s_stream K u polls dev 0).dev.cif_streamon_cnt =
       wrap_s32 (dev.cif_streamon_cnt - 1) ∧
     (rkisp1_isp_sd_s_stream K u polls dev 0).dev.sensor.ep.bus_type ≠ V4L2_MBUS_CSI2 ∧
     (rkisp1_isp_sd_s_stream K u polls dev 0).dev.isp_sdev.in_fmt.fmt_type = FMT_BAYER ∧
     bpp0 (rkisp1_isp_sd_s_stream K u polls dev 0).dev.isp_sdev.in_fmt = 10) := by
  constructor
  · have hok := s_stream_on_bayer_not_csi2 K u polls dev 1 (by decide) hbus hfmt
      (Or.inr (Or.inl hbpp))
    obtain ⟨h1, h2, h3, h4, -⟩ := s_stream_on_success K u polls dev 1 (by decide) hok
    rw [h3, h4]
    exact ⟨h1, h2, hbus, hfmt, hbpp⟩
  · obtain ⟨h1, h2, h3, h4, -⟩ := isp_stop_frame K polls dev
    have : rkisp1_isp_sd_s_stream K u polls dev 0 = rkisp1_isp_stop K polls dev := by
      unfold rkisp1_isp_sd_s_stream; rw [if_pos rfl]
    rw [this, h3, h4]
    exact ⟨h1, h2, hbus, hfmt, hbpp⟩

/-- C12 (evaluation at the failing input): on a freshly registered device
(stream count 0, default Bayer sink format, sensor on a parallel bus), for
every value of the register constants, the calls start, start, stop, stop all
return 0 and leave the stream count at 1, 1, 0 and -1: two matched start/stop
pairs end at -1, not 0. -/
theorem stream_count_goes_negative (K : regs_h) (u : uninit_locals) (polls : Nat) :
    s_stream_history K u polls (dev_fresh (sensor_parallel 8)) [1, 1, 0, 0] =
      [(0, 1), (0, 1), (0, 0), (0, -1)] := by
  have h0 : (dev_fresh (sensor_parallel 8)).sensor.ep.bus_type ≠ V4L2_MBUS_CSI2 ∧
      (dev_fresh (sensor_parallel 8)).isp_sdev.in_fmt.fmt_type = FMT_BAYER ∧
      bpp0 (dev_fresh (sensor_parallel 8)).isp_sdev.in_fmt = 10 := by decide
  obtain ⟨a1, a2, a3, a4, a5⟩ :=
    (s_stream_step K u polls _ h0.1 h0.2.1 h0.2.2).1
  obtain ⟨b1, b2, b3, b4, b5⟩ := (s_stream_step K u polls _ a3 a4 a5).1
  obtain ⟨c1, c2, c3, c4, c5⟩ := (s_stream_step K u polls _ b3 b4 b5).2
  obtain ⟨d1, d2, -, -, -⟩ := (s_stream_step K u polls _ c3 c4 c5).2
  rw [b2] at c2
  rw [c2] at d2
  simp only [s_stream_history, a1, a2, b1, b2, c1, c2, d1, d2]
  decide

/-- C13 (evaluation at the failing input): on a freshly registered device
(stream count 0, default Bayer sink format, sensor on a parallel bus), for
every value of the register constants, two consecutive start calls both return
0, but the stream count is 1 after each of them, and each of them runs the
configuration: `CIF_VI_DPCL` and `CIF_ISP_IS_CTRL` have been written once after
the first call and twice after the second. -/
theorem second_start_configures_again (K : regs_h) (u : uninit_locals) (polls : Nat) :
    s_stream_history K u polls (dev_fresh (sensor_parallel 8)) [1, 1] = [(0, 1), (0, 1)] ∧
    count_writes .CIF_VI_DPCL
      (run_s_stream K u polls (dev_fresh (sensor_parallel 8)) [1]).hw.log = 1 ∧
    count_writes .CIF_ISP_IS_CTRL
      (run_s_stream K u polls (dev_fresh (sensor_parallel 8)) [1]).hw.log = 1 ∧
    count_writes .CIF_VI_DPCL
      (run_s_stream K u polls (dev_fresh (sensor_parallel 8)) [1, 1]).hw.log = 2 ∧
    count_writes .CIF_ISP_IS_CTRL
      (run_s_stream K u polls (dev_fresh (sensor_parallel 8)) [1, 1]).hw.log = 2 := by
  have h0 : (dev_fresh (sensor_parallel 8)).sensor.ep.bus_type ≠ V4L2_MBUS_CSI2 ∧
      (dev_fresh (sensor_parallel 8)).isp_sdev.in_fmt.fmt_type = FMT_BAYER ∧
      bpp0 (dev_fresh (sensor_parallel 8)).isp_sdev.in_fmt = 10 := by decide
  obtain ⟨a1, a2, a3, a4, a5⟩ :=
    (s_stream_step K u polls _ h0.1 h0.2.1 h0.2.2).1
  obtain ⟨b1, b2, -, -, -⟩ := (s_stream_step K u polls _ a3 a4 a5).1
  obtain ⟨p1, p2⟩ := s_stream_on_configures K u polls (dev_fresh (sensor_parallel 8)) 1
    (by decide) (by rw [a1]; decide)
  obtain ⟨q1, q2⟩ := s_stream_on_configures K u polls
    (rkisp1_isp_sd_s_stream K u polls (dev_fresh (sensor_parallel 8)) 1).dev 1
    (by decide) (by rw [b1]; decide)
  have z1 : count_writes .CIF_VI_DPCL (dev_fresh (sensor_parallel 8)).hw.log = 0 := by decide
  have z2 : count_writes .CIF_ISP_IS_CTRL (dev_fresh (sensor_parallel 8)).hw.log = 0 := by
    decide
  refine ⟨?_, ?_, ?_, ?_, ?_⟩
  · simp only [s_stream_history, a1, a2, b1, b2]
  · simp only [run_s_stream, p1, z1]
  · simp only [run_s_stream, p2, z2]
  · simp only [run_s_stream, q1, p1, z1]
  · simp only [run_s_stream, q2, p2, z2]

/-! ## A failing configuration -/

@[simp] theorem readl_writel (v : Nat) (r r2 : Reg) (hw : Hw) :
    readl (writel v r hw) r2 = if r2 = r then v else readl hw r2 := rfl

@[simp] theorem readl_call (e : Event) (r : Reg) (hw : Hw) :
    readl (call e hw) r = readl hw r := rfl

@[simp] theorem mem_log_writel (e : Event) (v : Nat) (r : Reg) (hw : Hw) :
    e ∈ (writel v r hw).log ↔ e ∈ hw.log ∨ e = Event.writel v r := by
  simp [writel]

@[simp] theorem mem_log_call (e e2 : Event) (hw : Hw) :
    e ∈ (call e2 hw).log ↔ e ∈ hw.log ∨ e = e2 := by
  simp [call]

/-- The value `rkisp1_config_mipi` writes to `CIF_MIPI_CTRL` (lines 290-295). -/
theorem config_path_hw (K : regs_h) (u : uninit_locals) (dev : rkisp1_device) :
    count_writes .CIF_ISP_CTRL (rkisp1_config_path K u dev).hw.log =
      count_writes .CIF_ISP_CTRL dev.hw.log ∧
    readl (rkisp1_config_path K u dev).hw .CIF_ISP_CTRL = readl dev.hw .CIF_ISP_CTRL ∧
    ∀ v, Event.writel v .CIF_MIPI_CTRL ∈ (rkisp1_config_path K u dev).hw.log →
      Event.writel v .CIF_MIPI_CTRL ∈ dev.hw.log ∨
      v = K.CIF_MIPI_CTRL_NUM_LANES ((dev.sensor.ep.bus.mipi_csi2.num_data_lanes : Int) - 1) |||
        K.CIF_MIPI_CTRL_SHUTDOWNLANES 0xf ||| K.CIF_MIPI_CTRL_ERR_SOT_SYNC_HS_SKIP |||
        K.CIF_MIPI_CTRL_CLOCKLANE_ENA := by
  unfold rkisp1_config_path rkisp1_config_mipi get_active_sensor_info
  simp only []
  split
  · simp
    exact fun v h => Or.inl h
  · split
    · split <;> split <;> simp
    · simp
      exact fun v h => Or.inl h

/-- A failing `rkisp1_config_isp` has written neither `CIF_ISP_CTRL` nor
`CIF_MIPI_CTRL`. -/
theorem config_isp_fail_hw (K : regs_h) (u : uninit_locals) (dev : rkisp1_device)
    (hfail : (rkisp1_config_isp K u dev).ret < 0) :
    count_writes .CIF_ISP_CTRL (rkisp1_config_isp K u dev).hw.log =
      count_writes .CIF_ISP_CTRL dev.hw.log ∧
    readl (rkisp1_config_isp K u dev).hw .CIF_ISP_CTRL = readl dev.hw .CIF_ISP_CTRL ∧
    ∀ v, Event.writel v .CIF_MIPI_CTRL ∈ (rkisp1_config_isp K u dev).hw.log →
      Event.writel v .CIF_MIPI_CTRL ∈ dev.hw.log := by
  unfold rkisp1_config_isp at hfail ⊢
  simp only [] at hfail ⊢
  cases hs : isp_select K u dev with
  | none =>
    simp only [hs]
    split <;> simp
  | some s =>
    rw [hs] at hfail
    simp at hfail

/-- C14: whenever `rkisp1_config_cif` fails inside a start call of
`rkisp1_isp_sd_s_stream` (`on != 0`), the call returns that same negative
error, leaves the stream count as it was, and what it leaves is what
`rkisp1_config_cif` left (`rkisp1_isp_start` is not run): `CIF_ISP_CTRL` has
not been written and keeps its value, and any value the call wrote to
`CIF_MIPI_CTRL` has the output-enable bit clear, the lane and clock fields
written by `rkisp1_config_mipi` being disjoint from `CIF_MIPI_CTRL_OUTPUT_ENA`. -/
theorem start_config_failure (K : regs_h) (u : uninit_locals) (polls : Nat)
    (dev : rkisp1_device) (on_ : Int) (hon : on_ ≠ 0)
    (hfail : (rkisp1_config_cif K u
      { dev with isp_sdev := { dev.isp_sdev with frm_sync_seq := 0 } }).ret < 0)
    (hbits : ∀ n, (K.CIF_MIPI_CTRL_NUM_LANES n ||| K.CIF_MIPI_CTRL_SHUTDOWNLANES 0xf |||
      K.CIF_MIPI_CTRL_ERR_SOT_SYNC_HS_SKIP ||| K.CIF_MIPI_CTRL_CLOCKLANE_ENA) &&&
      K.CIF_MIPI_CTRL_OUTPUT_ENA = 0) :
    (rkisp1_isp_sd_s_stream K u polls dev on_).ret = (rkisp1_config_cif K u
      { dev with isp_sdev := { dev.isp_sdev with frm_sync_seq := 0 } }).ret ∧
    (rkisp1_isp_sd_s_stream K u polls dev on_).ret < 0 ∧
    (rkisp1_isp_sd_s_stream K u polls dev on_).dev.cif_streamon_cnt = dev.cif_streamon_cnt ∧
    (rkisp1_isp_sd_s_stream K u polls dev on_).dev.hw = (rkisp1_config_cif K u
      { dev with isp_sdev := { dev.isp_sdev with frm_sync_seq := 0 } }).dev.hw ∧
    count_writes .CIF_ISP_CTRL (rkisp1_isp_sd_s_stream K u polls dev on_).dev.hw.log =
      count_writes .CIF_ISP_CTRL dev.hw.log ∧
    readl (rkisp1_isp_sd_s_stream K u polls dev on_).dev.hw .CIF_ISP_CTRL =
      readl dev.hw .CIF_ISP_CTRL ∧
    ∀ v, Event.writel v .CIF_MIPI_CTRL ∈ (rkisp1_isp_sd_s_stream K u polls dev on_).dev.hw.log →
      Event.writel v .CIF_MIPI_CTRL ∈ dev.hw.log ∨ v &&& K.CIF_MIPI_CTRL_OUTPUT_ENA = 0 := by
  generalize hd : ({ dev with isp_sdev := { dev.isp_sdev with frm_sync_seq := 0 } } :
    rkisp1_device) = d0 at hfail ⊢
  have hhw : d0.hw = dev.hw := by rw [← hd]
  have hcnt : d0.cif_streamon_cnt = dev.cif_streamon_cnt := by rw [← hd]
  have hlanes : d0.sensor = dev.sensor := by rw [← hd]
  have hs : rkisp1_isp_sd_s_stream K u polls dev on_ =
      { ret := (rkisp1_config_cif K u d0).ret, dev := (rkisp1_config_cif K u d0).dev } := by
    unfold rkisp1_isp_sd_s_stream
    rw [if_neg hon]
    simp only [hd]
    rw [if_pos hfail]
  rw [hs]
  simp only []
  obtain ⟨-, -, -, -, hkeep, -⟩ := config_cif_frame K u d0
  refine ⟨trivial, hfail, (hkeep hfail).trans hcnt, trivial, ?_⟩
  obtain ⟨p1, p2, p3⟩ := config_path_hw K u d0
  rw [hhw] at p1 p2 p3
  have hp3 : ∀ v, Event.writel v .CIF_MIPI_CTRL ∈ (rkisp1_config_path K u d0).hw.log →
      Event.writel v .CIF_MIPI_CTRL ∈ dev.hw.log ∨ v &&& K.CIF_MIPI_CTRL_OUTPUT_ENA = 0 := by
    intro v hv
    rcases p3 v hv with h | h
    · exact Or.inl h
    · exact Or.inr (by rw [h]; exact hbits _)
  unfold rkisp1_config_cif at hfail ⊢
  simp only [] at hfail ⊢
  by_cases hp : (rkisp1_config_path K u d0).ret < 0
  · rw [if_pos hp]
    exact ⟨p1, p2, hp3⟩
  · rw [if_neg hp] at hfail ⊢
    by_cases hi : (rkisp1_config_isp K u
        { d0 with hw := (rkisp1_config_path K u d0).hw }).ret < 0
    · rw [if_pos hi]
      obtain ⟨i1, i2, i3⟩ := config_isp_fail_hw K u _ hi
      simp only [] at i1 i2 i3 ⊢
      exact ⟨i1.trans p1, i2.trans p2, fun v hv => hp3 v (i3 v hv)⟩
    · rw [if_neg hi] at hfail
      simp at hfail


theorem regs_h_example_mipi_ctrl (n : Int) :
    (regs_h_example.CIF_MIPI_CTRL_NUM_LANES n ||| regs_h_example.CIF_MIPI_CTRL_SHUTDOWNLANES 0xf |||
      regs_h_example.CIF_MIPI_CTRL_ERR_SOT_SYNC_HS_SKIP |||
      regs_h_example.CIF_MIPI_CTRL_CLOCKLANE_ENA) &&&
      regs_h_example.CIF_MIPI_CTRL_OUTPUT_ENA = 0 := by
  have h : toU32 n % 4 < 4 := Nat.mod_lt _ (by decide)
  simp only [regs_h_example]
  interval_cases toU32 n % 4 <;> decide

theorem start_config_failure_witness :
    (rkisp1_config_cif regs_h_example uninit_zero
      { dev_jpeg_csi2 with
        isp_sdev := { dev_jpeg_csi2.isp_sdev with frm_sync_seq := 0 } }).ret = -22 ∧
    (rkisp1_isp_sd_s_stream regs_h_example uninit_zero 3 dev_jpeg_csi2 1).ret = -22 ∧
    (rkisp1_isp_sd_s_stream regs_h_example uninit_zero 3 dev_jpeg_csi2 1).dev.cif_streamon_cnt
      = 0 :=
  ⟨by decide,
   ((start_config_failure regs_h_example uninit_zero 3 dev_jpeg_csi2 1 (by decide) (by decide)
      regs_h_example_mipi_ctrl).1).trans (by decide),
   (start_config_failure regs_h_example uninit_zero 3 dev_jpeg_csi2 1 (by decide) (by decide)
      regs_h_example_mipi_ctrl).2.2.1⟩

/-! ## Stream stop -/

/-- C15: for every state with stream count at least 2 (a C `int`),
`rkisp1_isp_stop` returns 0, lowers the stream count by exactly 1, and writes
no register: the register block and the log of writes and calls are
unchanged, as is the rest of the device. -/
theorem isp_stop_nested (K : regs_h) (polls : Nat) (dev : rkisp1_device)
    (hcnt : 2 ≤ dev.cif_streamon_cnt) (hint : dev.cif_streamon_cnt < 2147483648) :
    (rkisp1_isp_stop K polls dev).ret = 0 ∧
    (rkisp1_isp_stop K polls dev).dev.cif_streamon_cnt = dev.cif_streamon_cnt - 1 ∧
    (rkisp1_isp_stop K polls dev).dev.hw = dev.hw ∧
    (rkisp1_isp_stop K polls dev).dev.isp_sdev = dev.isp_sdev := by
  obtain ⟨h1, h2, h3, -, -, -, h7⟩ := isp_stop_frame K polls dev
  have hw : wrap_s32 (dev.cif_streamon_cnt - 1) = dev.cif_streamon_cnt - 1 :=
    wrap_s32_id _ (by omega) (by omega)
  rw [hw] at h2 h7
  rw [if_pos (by omega)] at h7
  exact ⟨h1, h2, h7, h3⟩

theorem isp_stop_nested_witness :
    (2 : Int) ≤ ({ dev_fresh (sensor_csi2 2) with cif_streamon_cnt := 2 } :
      rkisp1_device).cif_streamon_cnt ∧
    (rkisp1_isp_stop regs_h_example 3
      { dev_fresh (sensor_csi2 2) with cif_streamon_cnt := 2 }).ret = 0 ∧
    (rkisp1_isp_stop regs_h_example 3
      { dev_fresh (sensor_csi2 2) with cif_streamon_cnt := 2 }).dev.cif_streamon_cnt = 2 - 1 ∧
    (rkisp1_isp_stop regs_h_example 3
      { dev_fresh (sensor_csi2 2) with cif_streamon_cnt := 2 }).dev.hw =
      ({ dev_fresh (sensor_csi2 2) with cif_streamon_cnt := 2 } : rkisp1_device).hw ∧
    (rkisp1_isp_stop regs_h_example 3
      { dev_fresh (sensor_csi2 2) with cif_streamon_cnt := 2 }).dev.isp_sdev =
      ({ dev_fresh (sensor_csi2 2) with cif_streamon_cnt := 2 } : rkisp1_device).isp_sdev :=
  ⟨by decide,
   isp_stop_nested regs_h_example 3 { dev_fresh (sensor_csi2 2) with cif_streamon_cnt := 2 }
     (by decide) (by decide)⟩

/-! Bit facts for register values. -/

theorem testBit_not32 (x i : Nat) :
    (not32 x).testBit i = (decide (i < 32) && !x.testBit i) := by
  unfold not32
  have h : x % 4294967296 < 2 ^ 32 := Nat.mod_lt _ (by norm_num)
  have key := Nat.testBit_two_pow_sub_succ h i
  have e : (4294967295 - x % 4294967296 : Nat) = 2 ^ 32 - (x % 4294967296 + 1) := by
    norm_num
    omega
  rw [e, key]
  have hm : (x % 4294967296).testBit i = (decide (i < 32) && x.testBit i) := by
    have := Nat.testBit_mod_two_pow x 32 i
    norm_num at this
    simpa using this
  rw [hm]
  cases decide (i < 32) <;> simp

/-- Clearing: `~m & v` has no bit of `m`, nor of any `b` contained in `m`. -/
theorem not32_and_clears (m v b : Nat) (hb : b &&& m = b) : (not32 m &&& v) &&& b = 0 := by
  apply Nat.eq_of_testBit_eq
  intro i
  have hbi := congrArg (fun n => n.testBit i) hb
  simp only [Nat.testBit_and] at hbi
  simp only [Nat.testBit_and, testBit_not32, Nat.zero_testBit]
  cases hm : m.testBit i <;> cases hbb : b.testBit i <;> simp_all

theorem or_and_left_self (a b : Nat) : (a ||| b) &&& a = a := by
  apply Nat.eq_of_testBit_eq
  intro i
  simp only [Nat.testBit_and, Nat.testBit_or]
  cases a.testBit i <;> cases b.testBit i <;> rfl

theorem or_and_right_self (a b : Nat) : (a ||| b) &&& b = b := by
  apply Nat.eq_of_testBit_eq
  intro i
  simp only [Nat.testBit_and, Nat.testBit_or]
  cases a.testBit i <;> cases b.testBit i <;> rfl

theorem or_and_disjoint (a v b : Nat) (ha : a &&& b = 0) (hv : v &&& b = 0) :
    (a ||| v) &&& b = 0 := by
  apply Nat.eq_of_testBit_eq
  intro i
  have h1 := congrArg (fun n => n.testBit i) ha
  have h2 := congrArg (fun n => n.testBit i) hv
  simp only [Nat.testBit_and, Nat.zero_testBit] at h1 h2
  simp only [Nat.testBit_and, Nat.testBit_or, Nat.zero_testBit]
  cases hx : a.testBit i <;> cases hy : v.testBit i <;> cases hz : b.testBit i <;> simp_all

@[simp] theorem writes_to_writel (reg r : Reg) (v : Nat) (hw : Hw) :
    writes_to reg (writel v r hw).log = writes_to reg hw.log ++ if r = reg then [v] else [] := by
  have h : ∀ l : List Event, reg_writes (l ++ [Event.writel v r]) = reg_writes l ++ [(v, r)] := by
    intro l
    induction l with
    | nil => rfl
    | cons e rest ih => cases e <;> simp [reg_writes, ih]
  simp only [writes_to, writel, h, List.filter_append, List.map_append]
  by_cases hr : r = reg <;> simp [hr]

/-- The registers after the stop sequence `isp_stop_hw`. -/
theorem isp_stop_hw_regs (K : regs_h) (polls : Nat) (hw : Hw) :
    readl (isp_stop_hw K polls hw) .CIF_MIPI_IMSC = 0 ∧
    readl (isp_stop_hw K polls hw) .CIF_ISP_IMSC = 0 ∧
    readl (isp_stop_hw K polls hw) .CIF_MI_IMSC = 0 ∧
    readl (isp_stop_hw K polls hw) .CIF_MIPI_CTRL =
      not32 K.CIF_MIPI_CTRL_OUTPUT_ENA &&& readl hw .CIF_MIPI_CTRL ∧
    readl (isp_stop_hw K polls hw) .CIF_ISP_CTRL =
      K.CIF_ISP_CTRL_ISP_CFG_UPD |||
        (not32 (K.CIF_ISP_CTRL_ISP_INFORM_ENABLE ||| K.CIF_ISP_CTRL_ISP_ENABLE) &&&
          readl hw .CIF_ISP_CTRL) ∧
    readl (isp_stop_hw K polls hw) .CIF_IRCL = 0 ∧
    writes_to .CIF_IRCL (isp_stop_hw K polls hw).log =
      writes_to .CIF_IRCL hw.log ++ [K.CIF_IRCL_MIPI_SW_RST ||| K.CIF_IRCL_ISP_SW_RST, 0] := by
  simp [isp_stop_hw]

/-- C16 (amended): for every state with stream count at most 1 and above the
least C `int`, every register content (whether or not the ISP-off bit shows in
`CIF_ISP_RIS`) and every poll budget, `rkisp1_isp_stop` returns 0 and leaves
`MIPI_IMSC = ISP_IMSC = MI_IMSC = 0`, `MIPI_CTRL` with `OUTPUT_ENA` clear,
`ISP_CTRL` with `ISP_ENABLE` and `ISP_INFORM_ENABLE` clear and `ISP_CFG_UPD`
set, and the last two writes to `CIF_IRCL` are `MIPI_SW_RST | ISP_SW_RST` and
then 0.  The constant `ISP_CFG_UPD` shares no bit with the two enable
constants. -/
theorem isp_stop_last (K : regs_h) (polls : Nat) (dev : rkisp1_device)
    (hlo : -2147483648 < dev.cif_streamon_cnt) (hhi : dev.cif_streamon_cnt ≤ 1)
    (hc1 : K.CIF_ISP_CTRL_ISP_CFG_UPD &&& K.CIF_ISP_CTRL_ISP_ENABLE = 0)
    (hc2 : K.CIF_ISP_CTRL_ISP_CFG_UPD &&& K.CIF_ISP_CTRL_ISP_INFORM_ENABLE = 0) :
    (rkisp1_isp_stop K polls dev).ret = 0 ∧
    (rkisp1_isp_stop K polls dev).dev.cif_streamon_cnt = dev.cif_streamon_cnt - 1 ∧
    readl (rkisp1_isp_stop K polls dev).dev.hw .CIF_MIPI_IMSC = 0 ∧
    readl (rkisp1_isp_stop K polls dev).dev.hw .CIF_ISP_IMSC = 0 ∧
    readl (rkisp1_isp_stop K polls dev).dev.hw .CIF_MI_IMSC = 0 ∧
    readl (rkisp1_isp_stop K polls dev).dev.hw .CIF_MIPI_CTRL &&&
      K.CIF_MIPI_CTRL_OUTPUT_ENA = 0 ∧
    readl (rkisp1_isp_stop K polls dev).dev.hw .CIF_ISP_CTRL &&&
      K.CIF_ISP_CTRL_ISP_ENABLE = 0 ∧
    readl (rkisp1_isp_stop K polls dev).dev.hw .CIF_ISP_CTRL &&&
      K.CIF_ISP_CTRL_ISP_INFORM_ENABLE = 0 ∧
    readl (rkisp1_isp_stop K polls dev).dev.hw .CIF_ISP_CTRL &&&
      K.CIF_ISP_CTRL_ISP_CFG_UPD = K.CIF_ISP_CTRL_ISP_CFG_UPD ∧
    writes_to .CIF_IRCL (rkisp1_isp_stop K polls dev).dev.hw.log =
      writes_to .CIF_IRCL dev.hw.log ++ [K.CIF_IRCL_MIPI_SW_RST ||| K.CIF_IRCL_ISP_SW_RST, 0] := by
  obtain ⟨h1, h2, -, -, -, -, h7⟩ := isp_stop_frame K polls dev
  have hw : wrap_s32 (dev.cif_streamon_cnt - 1) = dev.cif_streamon_cnt - 1 :=
    wrap_s32_id _ (by omega) (by omega)
  rw [hw] at h2 h7
  rw [if_neg (by omega)] at h7
  obtain ⟨r1, r2, r3, r4, r5, -, r7⟩ := isp_stop_hw_regs K polls dev.hw
  rw [h7]
  refine ⟨h1, h2, r1, r2, r3, ?_, ?_, ?_, ?_, r7⟩
  · rw [r4]
    exact not32_and_clears _ _ _ (Nat.and_self _)
  · rw [r5]
    exact or_and_disjoint _ _ _ hc1 (not32_and_clears _ _ _ ((Nat.land_comm _ _).trans (or_and_right_self _ _)))
  · rw [r5]
    exact or_and_disjoint _ _ _ hc2 (not32_and_clears _ _ _ ((Nat.land_comm _ _).trans (or_and_left_self _ _)))
  · rw [r5]
    exact or_and_left_self _ _

theorem isp_stop_last_witness :
    ((dev_fresh (sensor_csi2 2)).cif_streamon_cnt ≤ 1 ∧
     regs_h_example.CIF_ISP_CTRL_ISP_CFG_UPD &&& regs_h_example.CIF_ISP_CTRL_ISP_ENABLE = 0) ∧
    (rkisp1_isp_stop regs_h_example 3 (dev_fresh (sensor_csi2 2))).ret = 0 ∧
    (rkisp1_isp_stop regs_h_example 3 (dev_fresh (sensor_csi2 2))).dev.cif_streamon_cnt =
      -1 :=
  ⟨by decide,
   (isp_stop_last regs_h_example 3 (dev_fresh (sensor_csi2 2)) (by decide) (by decide)
      (by decide) (by decide)).1,
   (isp_stop_last regs_h_example 3 (dev_fresh (sensor_csi2 2)) (by decide) (by decide)
      (by decide) (by decide)).2.1.trans (by decide)⟩

/-- C16 (counterexample): a state with stream count -2147483648 (at most 1) and
7 in `CIF_MIPI_IMSC`.  The decrement wraps to 2147483647, which is positive, so
`rkisp1_isp_stop` returns 0 without writing a register: `CIF_MIPI_IMSC` still
holds 7, not 0. -/
theorem isp_stop_at_int_min :
    dev_count_int_min.cif_streamon_cnt ≤ 1 ∧
    (rkisp1_isp_stop regs_h_example 3 dev_count_int_min).ret = 0 ∧
    (rkisp1_isp_stop regs_h_example 3 dev_count_int_min).dev.cif_streamon_cnt = 2147483647 ∧
    (rkisp1_isp_stop regs_h_example 3 dev_count_int_min).dev.hw.log = [] ∧
    readl (rkisp1_isp_stop regs_h_example 3 dev_count_int_min).dev.hw .CIF_MIPI_IMSC = 7 ∧
    ¬ (readl (rkisp1_isp_stop regs_h_example 3 dev_count_int_min).dev.hw .CIF_MIPI_IMSC = 0) := by
  decide

/-! ## The interrupt handler -/

theorem frame_sync_events_append (l : List Event) (e : Event) :
    frame_sync_events (l ++ [e]) = frame_sync_events l ++ frame_sync_events [e] := by
  induction l with
  | nil => simp [frame_sync_events]
  | cons a rest ih =>
    cases a <;> simp [frame_sync_events, ih]
    split <;> simp

@[simp] theorem frame_sync_events_writel (v : Nat) (r : Reg) (hw : Hw) :
    frame_sync_events (writel v r hw).log = frame_sync_events hw.log := by
  simp [writel, frame_sync_events_append, frame_sync_events]

@[simp] theorem frame_sync_events_call (e : Event) (hw : Hw) :
    frame_sync_events (call e hw).log = frame_sync_events hw.log ++ frame_sync_events [e] := by
  simp [call, frame_sync_events_append]

theorem hw_restart_events (K : regs_h) (hw : Hw) :
    frame_sync_events (rkisp1_hw_restart K hw).log = frame_sync_events hw.log := by
  simp [rkisp1_hw_restart]

/-- The part of the handler after the vertical-sync block queues no frame-sync
event. -/
theorem frame_sync_events_ite (c : Prop) [Decidable c] (a b : Hw) :
    frame_sync_events (if c then a else b).log =
      if c then frame_sync_events a.log else frame_sync_events b.log := by
  split <;> rfl

theorem isp_isr_rest_events (K : regs_h) (isp_mis : Nat) (stream : Nat → rkisp1_stream)
    (hw : Hw) :
    frame_sync_events (isp_isr_rest K isp_mis stream hw).log = frame_sync_events hw.log := by
  simp only [isp_isr_rest, frame_sync_events_call, frame_sync_events_writel, hw_restart_events,
    frame_sync_events_ite, frame_sync_events, List.append_nil, ite_self]

/-- What one `rkisp1_isp_isr` invocation leaves of the device besides the
hardware and the frame-sync counter. -/
theorem isp_isr_frame (K : regs_h) (isp_mis : Nat) (dev : rkisp1_device) :
    (rkisp1_isp_isr K isp_mis dev).cif_streamon_cnt = dev.cif_streamon_cnt ∧
    (rkisp1_isp_isr K isp_mis dev).isp_sdev.in_fmt = dev.isp_sdev.in_fmt ∧
    (rkisp1_isp_isr K isp_mis dev).isp_sdev.in_win = dev.isp_sdev.in_win ∧
    (rkisp1_isp_isr K isp_mis dev).isp_sdev.in_crop = dev.isp_sdev.in_crop ∧
    (rkisp1_isp_isr K isp_mis dev).isp_sdev.out_fmt = dev.isp_sdev.out_fmt ∧
    (rkisp1_isp_isr K isp_mis dev).isp_sdev.out_win = dev.isp_sdev.out_win ∧
    (rkisp1_isp_isr K isp_mis dev).sensor = dev.sensor ∧
    (rkisp1_isp_isr K isp_mis dev).stream = dev.stream ∧
    (rkisp1_isp_isr K isp_mis dev).stats_frame_id = dev.stats_frame_id := by
  unfold rkisp1_isp_isr
  split <;> simp [isp_isr_v_start, riksp1_isp_queue_event_sof]

/-- An invocation without `CIF_ISP_V_START` queues no frame-sync event and
leaves the counter as it is. -/
theorem isp_isr_without_v_start (K : regs_h) (isp_mis : Nat) (dev : rkisp1_device)
    (h : c_and isp_mis K.CIF_ISP_V_START = false) :
    frame_sync_events (rkisp1_isp_isr K isp_mis dev).hw.log = frame_sync_events dev.hw.log ∧
    (rkisp1_isp_isr K isp_mis dev).isp_sdev.frm_sync_seq = dev.isp_sdev.frm_sync_seq := by
  unfold rkisp1_isp_isr
  simp [h, isp_isr_rest_events]

/-- An invocation with `CIF_ISP_V_START` queues one frame-sync event carrying
the incremented counter less one, as a `u32`, and stores the incremented
counter. -/
theorem isp_isr_with_v_start (K : regs_h) (isp_mis : Nat) (dev : rkisp1_device)
    (h : c_and isp_mis K.CIF_ISP_V_START = true) :
    frame_sync_events (rkisp1_isp_isr K isp_mis dev).hw.log =
      frame_sync_events dev.hw.log ++
        [toU32 (wrap_s32 (dev.isp_sdev.frm_sync_seq + 1) - 1)] ∧
    (rkisp1_isp_isr K isp_mis dev).isp_sdev.frm_sync_seq =
      wrap_s32 (dev.isp_sdev.frm_sync_seq + 1) := by
  unfold rkisp1_isp_isr
  simp [h, isp_isr_rest_events, isp_isr_v_start, riksp1_isp_queue_event_sof,
    frame_sync_events]

theorem wrap_s32_add_wrap (a b : Int) : wrap_s32 (wrap_s32 a + b) = wrap_s32 (a + b) := by
  unfold wrap_s32 toS32 toU32
  split <;> split <;> omega

theorem run_isp_isr_append (K : regs_h) (dev : rkisp1_device) (pre : List Nat) (w : Nat) :
    run_isp_isr K dev (pre ++ [w]) = rkisp1_isp_isr K w (run_isp_isr K dev pre) := by
  induction pre generalizing dev with
  | nil => rfl
  | cons a rest ih => simp [run_isp_isr, ih]

theorem v_start_count_append (K : regs_h) (pre : List Nat) (w : Nat) :
    v_start_count K (pre ++ [w]) =
      v_start_count K pre + if c_and w K.CIF_ISP_V_START then 1 else 0 := by
  unfold v_start_count
  rw [List.filter_append, List.length_append]
  by_cases h : c_and w K.CIF_ISP_V_START = true <;> simp [List.filter, h]

/-- The counter after a sequence of invocations that starts with the counter
at 0: the number of words with `CIF_ISP_V_START`, in 32-bit arithmetic. -/
theorem run_isp_isr_seq (K : regs_h) (pre : List Nat) (dev : rkisp1_device)
    (h0 : dev.isp_sdev.frm_sync_seq = 0) :
    (run_isp_isr K dev pre).isp_sdev.frm_sync_seq = wrap_s32 (v_start_count K pre) := by
  induction pre using List.reverseRecOn with
  | nil => simp [run_isp_isr, v_start_count, h0, wrap_s32, toS32, toU32]
  | append_singleton pre w ih =>
    rw [run_isp_isr_append, v_start_count_append]
    by_cases h : c_and w K.CIF_ISP_V_START = true
    · rw [(isp_isr_with_v_start K w _ h).2, ih, wrap_s32_add_wrap]
      simp [h]
    · have h2 : c_and w K.CIF_ISP_V_START = false := by simpa using h
      rw [(isp_isr_without_v_start K w _ h2).2, ih]
      simp [h2]

theorem v_start_count_replicate (K : regs_h) (n w : Nat)
    (h : c_and w K.CIF_ISP_V_START = true) :
    v_start_count K (List.replicate n w) = n := by
  unfold v_start_count
  induction n with
  | zero => rfl
  | succ n ih => simp [List.replicate_succ, List.filter, h, ih]

/-- After a call with `on` not 0 the frame-sync counter is 0, whatever the call
returns. -/
theorem s_stream_on_seq (K : regs_h) (u : uninit_locals) (polls : Nat)
    (dev : rkisp1_device) (on_ : Int) (hon : on_ ≠ 0) :
    (rkisp1_isp_sd_s_stream K u polls dev on_).dev.isp_sdev.frm_sync_seq = 0 := by
  unfold rkisp1_isp_sd_s_stream
  rw [if_neg hon]
  dsimp only
  split
  · rw [(config_cif_frame K u _).1]
  · rw [(isp_start_frame K _).2.2.1, (config_cif_frame K u _).1]

/-- C17, as amended.  After a call of `rkisp1_isp_sd_s_stream` with `on` not 0
the counter `frm_sync_seq` is 0.  In every following sequence of
`rkisp1_isp_isr` invocations, as long as fewer than 2^31 of the status words
had `CIF_ISP_V_START` set, the invocation with the k-th such word queues
exactly one frame-sync event, with `frame_sequence` k - 1, and leaves the
counter at k; an invocation whose word has the bit clear queues no frame-sync
event and leaves the counter unchanged. -/
theorem frame_sync_sequence (K : regs_h) (u : uninit_locals) (polls : Nat)
    (dev : rkisp1_device) (on_ : Int) (pre : List Nat) (w : Nat) (hon : on_ ≠ 0)
    (hk : v_start_count K (pre ++ [w]) < 2147483648) :
    (rkisp1_isp_sd_s_stream K u polls dev on_).dev.isp_sdev.frm_sync_seq = 0 ∧
    (c_and w K.CIF_ISP_V_START = true →
      frame_sync_events (rkisp1_isp_isr K w
          (run_isp_isr K (rkisp1_isp_sd_s_stream K u polls dev on_).dev pre)).hw.log =
        frame_sync_events
          (run_isp_isr K (rkisp1_isp_sd_s_stream K u polls dev on_).dev pre).hw.log ++
          [v_start_count K (pre ++ [w]) - 1] ∧
      (rkisp1_isp_isr K w
          (run_isp_isr K (rkisp1_isp_sd_s_stream K u polls dev on_).dev pre)).isp_sdev.frm_sync_seq
        = v_start_count K (pre ++ [w])) ∧
    (c_and w K.CIF_ISP_V_START = false →
      frame_sync_events (rkisp1_isp_isr K w
          (run_isp_isr K (rkisp1_isp_sd_s_stream K u polls dev on_).dev pre)).hw.log =
        frame_sync_events
          (run_isp_isr K (rkisp1_isp_sd_s_stream K u polls dev on_).dev pre).hw.log ∧
      (rkisp1_isp_isr K w
          (run_isp_isr K (rkisp1_isp_sd_s_stream K u polls dev on_).dev pre)).isp_sdev.frm_sync_seq
        = (run_isp_isr K (rkisp1_isp_sd_s_stream K u polls dev on_).dev pre).isp_sdev.frm_sync_seq)
    := by
  have h0 := s_stream_on_seq K u polls dev on_ hon
  refine ⟨h0, fun h => ?_, fun h => isp_isr_without_v_start K w _ h⟩
  have hs := isp_isr_with_v_start K w
    (run_isp_isr K (rkisp1_isp_sd_s_stream K u polls dev on_).dev pre) h
  have hc := v_start_count_append K pre w
  rw [h] at hc
  simp only [if_true] at hc
  rw [run_isp_isr_seq K pre _ h0] at hs
  have hw : wrap_s32 (wrap_s32 (v_start_count K pre : Int) + 1) =
      ((v_start_count K (pre ++ [w]) : Nat) : Int) := by
    rw [wrap_s32_add_wrap, wrap_s32_id] <;> omega
  rw [hw] at hs
  refine ⟨?_, hs.2⟩
  rw [hs.1]
  congr 2
  unfold toU32
  omega

theorem frame_sync_sequence_witness :
    (1 : Int) ≠ 0 ∧ v_start_count regs_h_example ([64, 0, 64] ++ [64]) < 2147483648 ∧
    (rkisp1_isp_sd_s_stream regs_h_example uninit_zero 0 (dev_fresh (sensor_parallel 8))
        1).dev.isp_sdev.frm_sync_seq = 0 ∧
    frame_sync_events (rkisp1_isp_isr regs_h_example 64
        (run_isp_isr regs_h_example (rkisp1_isp_sd_s_stream regs_h_example uninit_zero 0
          (dev_fresh (sensor_parallel 8)) 1).dev [64, 0, 64])).hw.log =
      frame_sync_events
        (run_isp_isr regs_h_example (rkisp1_isp_sd_s_stream regs_h_example uninit_zero 0
          (dev_fresh (sensor_parallel 8)) 1).dev [64, 0, 64]).hw.log ++ [2] ∧
    (rkisp1_isp_isr regs_h_example 64
        (run_isp_isr regs_h_example (rkisp1_isp_sd_s_stream regs_h_example uninit_zero 0
          (dev_fresh (sensor_parallel 8)) 1).dev [64, 0, 64])).isp_sdev.frm_sync_seq = 3 :=
  have h := frame_sync_sequence regs_h_example uninit_zero 0 (dev_fresh (sensor_parallel 8)) 1
    [64, 0, 64] 64 (by decide) (by decide)
  ⟨by decide, by decide, h.1, (h.2.1 (by decide)).1, (h.2.1 (by decide)).2⟩

/-- C17, counterexample.  After a start on a fresh device, the 2^31-th
invocation whose status word has `CIF_ISP_V_START` set leaves the counter at
-2^31, not at 2^31. -/
theorem frame_counter_wraps :
    v_start_count regs_h_example (List.replicate 2147483648 64) = 2147483648 ∧
    (run_isp_isr regs_h_example
      (rkisp1_isp_sd_s_stream regs_h_example uninit_zero 0 (dev_fresh (sensor_parallel 8)) 1).dev
      (List.replicate 2147483648 64)).isp_sdev.frm_sync_seq = -2147483648 := by
  have hc := v_start_count_replicate regs_h_example 2147483648 64 (by decide)
  refine ⟨hc, ?_⟩
  rw [run_isp_isr_seq _ _ _ (s_stream_on_seq _ _ _ _ _ (by decide)), hc]
  decide

/-- C18.  For every device state and every status word, also one with
`CIF_ISP_DATA_LOSS` or `CIF_ISP_PIC_SIZE_ERROR` set, `rkisp1_isp_isr` leaves
`cif_streamon_cnt`, `in_fmt`, `in_win`, `in_crop`, `out_fmt` and `out_win`
unchanged. -/
theorem isp_isr_keeps_count_and_formats (K : regs_h) (isp_mis : Nat) (dev : rkisp1_device) :
    (rkisp1_isp_isr K isp_mis dev).cif_streamon_cnt = dev.cif_streamon_cnt ∧
    (rkisp1_isp_isr K isp_mis dev).isp_sdev.in_fmt = dev.isp_sdev.in_fmt ∧
    (rkisp1_isp_isr K isp_mis dev).isp_sdev.in_win = dev.isp_sdev.in_win ∧
    (rkisp1_isp_isr K isp_mis dev).isp_sdev.in_crop = dev.isp_sdev.in_crop ∧
    (rkisp1_isp_isr K isp_mis dev).isp_sdev.out_fmt = dev.isp_sdev.out_fmt ∧
    (rkisp1_isp_isr K isp_mis dev).isp_sdev.out_win = dev.isp_sdev.out_win := by
  have h := isp_isr_frame K isp_mis dev
  exact ⟨h.1, h.2.1, h.2.2.1, h.2.2.2.1, h.2.2.2.2.1, h.2.2.2.2.2.1⟩

/-! ## The resizer scale factors -/

theorem toU32_of_nonneg (q : Int) (h0 : 0 ≤ q) (h1 : q < 4294967296) : toU32 q = q.toNat := by
  unfold toU32
  omega

theorem toU32_wrap_s32 (x : Int) : toU32 (wrap_s32 x) = toU32 x := by
  unfold wrap_s32 toS32 toU32
  split <;> omega

theorem tdiv_bounds (n d : Int) (hn : 0 ≤ n) (hd : 0 ≤ d) :
    0 ≤ n.tdiv d ∧ n.tdiv d ≤ n := by
  rw [Int.tdiv_eq_ediv hn hd]
  exact ⟨Int.ediv_nonneg hn hd, Int.ediv_le_self d hn⟩

/-- The product of the axis blocks does not overflow for sizes up to 4032. -/
theorem scale_product (F a : Int) (hF : 0 ≤ F) (hmax : 4031 * F < 2147483648)
    (ha1 : 2 ≤ a) (ha2 : a ≤ 4032) :
    c_mul (wrap_s32 (a - 1)) F = (a - 1) * F ∧ 0 ≤ (a - 1) * F ∧ (a - 1) * F < 2147483648 := by
  have h1 : (a - 1) * F ≤ 4031 * F := Int.mul_le_mul_of_nonneg_right (by omega) hF
  have h2 : 0 ≤ (a - 1) * F := Int.mul_nonneg (by omega) hF
  unfold c_mul
  rw [wrap_s32_id (a - 1) (by omega) (by omega), wrap_s32_id _ (by omega) (by omega)]
  exact ⟨rfl, h2, by omega⟩

/-- The quotient of an axis block, for sizes from 2 to 4032. -/
theorem scale_quotient (F a b : Int) (hF : 0 ≤ F) (hmax : 4031 * F < 2147483648)
    (ha1 : 2 ≤ a) (ha2 : a ≤ 4032) (hb1 : 2 ≤ b) (hb2 : b ≤ 4032) :
    c_div (c_mul (wrap_s32 (a - 1)) F) (wrap_s32 (b - 1)) = some (((a - 1) * F).tdiv (b - 1)) ∧
    0 ≤ ((a - 1) * F).tdiv (b - 1) ∧ ((a - 1) * F).tdiv (b - 1) < 2147483648 := by
  obtain ⟨h1, h2, h3⟩ := scale_product F a hF hmax ha1 ha2
  have hq := tdiv_bounds ((a - 1) * F) (b - 1) h2 (by omega)
  unfold c_div
  rw [h1, wrap_s32_id (b - 1) (by omega) (by omega), if_neg (by omega),
    wrap_s32_id _ (by omega) (by omega)]
  exact ⟨rfl, hq.1, by omega⟩

/-- One axis block computes the reference factor and its flags, for sizes from
2 to 4032. -/
theorem scale_axis_reference (K : regs_h) (enable up : Nat) (a b : Int)
    (hF : 0 ≤ K.CIF_RSZ_SCALER_FACTOR) (hmax : 4031 * K.CIF_RSZ_SCALER_FACTOR < 2147483648)
    (ha1 : 2 ≤ a) (ha2 : a ≤ 4032) (hb1 : 2 ≤ b) (hb2 : b ≤ 4032) :
    scale_axis K enable up a b =
      some (axis_flags enable up a b, scale_factor_reference K.CIF_RSZ_SCALER_FACTOR a b) := by
  unfold scale_axis axis_flags scale_factor_reference
  by_cases h1 : a < b
  · obtain ⟨e, q0, q1⟩ := scale_quotient _ a b hF hmax ha1 ha2 hb1 hb2
    simp only [if_pos h1, e, Option.map_some']
    rw [toU32_of_nonneg _ q0 (by omega)]
  · by_cases h2 : a > b
    · obtain ⟨e, q0, q1⟩ := scale_quotient _ b a hF hmax hb1 hb2 ha1 ha2
      simp only [if_neg h1, if_pos h2, e, Option.map_some']
      rw [toU32_wrap_s32, toU32_of_nonneg _ (by omega) (by omega)]
    · simp only [if_neg h1, if_neg h2]

/-- One axis block returns, with its flags, and without a factor when the sizes
are equal. -/
theorem scale_axis_returns (K : regs_h) (enable up : Nat) (a b : Int) (h : sizes_divide a b) :
    ∃ fo, scale_axis K enable up a b = some (axis_flags enable up a b, fo) ∧
      (a = b → fo = none) := by
  unfold scale_axis axis_flags c_div
  by_cases h1 : a < b
  · have hb : ¬ wrap_s32 (b - 1) = 0 := by
      rcases h with h | h
      · omega
      · rw [wrap_s32_id _ (by omega) (by omega)]
        omega
    simp only [if_pos h1, if_neg hb, Option.map_some']
    exact ⟨_, rfl, fun e => by omega⟩
  · by_cases h2 : a > b
    · have ha : ¬ wrap_s32 (a - 1) = 0 := by
        rcases h with h | h
        · omega
        · rw [wrap_s32_id _ (by omega) (by omega)]
          omega
      simp only [if_neg h1, if_pos h2, if_neg ha, Option.map_some']
      exact ⟨_, rfl, fun e => by omega⟩
    · simp only [if_neg h1, if_neg h2]
      exact ⟨_, rfl, fun _ => rfl⟩

theorem replay_append (io : Mmio) (xs ys : List (Nat × Nat)) :
    io.replay (xs ++ ys) = (io.replay xs).replay ys := by
  simp [Mmio.replay, List.foldl_append]

theorem replay_log (ws : List (Nat × Nat)) (io : Mmio) : (io.replay ws).log = io.log ++ ws := by
  induction ws generalizing io with
  | nil => simp [Mmio.replay]
  | cons w rest ih =>
    have : io.replay (w :: rest) = (io.writel w.1 w.2).replay rest := rfl
    rw [this, ih]
    simp [Mmio.writel]

theorem replay_mem (ws : List (Nat × Nat)) (io : Mmio) (a : Nat)
    (h : ∀ w ∈ ws, w.2 ≠ a) : (io.replay ws).mem a = io.mem a := by
  induction ws generalizing io with
  | nil => simp [Mmio.replay]
  | cons w rest ih =>
    have e : io.replay (w :: rest) = (io.writel w.1 w.2).replay rest := rfl
    rw [e, ih _ (fun x hx => h x (List.mem_cons_of_mem _ hx))]
    have hw := h w (List.mem_cons_self _ _)
    simp [Mmio.writel, Ne.symm hw]

theorem write_factor_replay (f : Option Nat) (addrs : List Nat) (io : Mmio) :
    write_factor f addrs io = io.replay (factor_writes f addrs) := by
  cases f with
  | none => rfl
  | some v =>
    unfold write_factor factor_writes Mmio.replay
    simp only
    induction addrs generalizing io with
    | nil => rfl
    | cons a rest ih => simp [List.foldl, ih]

/-- The call as a list of writes, when the four axis blocks return. -/
theorem set_scale_of_axes (K : regs_h) (io : Mmio) (stream : rsz_stream)
    (in_y in_c out_y out_c : rkisp1_win) (hy hc vy vc : Nat × Option Nat)
    (h1 : scale_axis K K.CIF_RSZ_CTRL_SCALE_HY_ENABLE K.CIF_RSZ_CTRL_SCALE_HY_UP
      in_y.w out_y.w = some hy)
    (h2 : scale_axis K K.CIF_RSZ_CTRL_SCALE_HC_ENABLE K.CIF_RSZ_CTRL_SCALE_HC_UP
      in_c.w out_c.w = some hc)
    (h3 : scale_axis K K.CIF_RSZ_CTRL_SCALE_VY_ENABLE K.CIF_RSZ_CTRL_SCALE_VY_UP
      in_y.h out_y.h = some vy)
    (h4 : scale_axis K K.CIF_RSZ_CTRL_SCALE_VC_ENABLE K.CIF_RSZ_CTRL_SCALE_VC_UP
      in_c.h out_c.h = some vc) :
    set_scale K io stream in_y in_c out_y out_c =
      some (io.replay
        ((factor_writes hy.2 [stream.base_addr + stream.regs.scale_hy] ++
          factor_writes hc.2 [stream.base_addr + stream.regs.scale_hcb,
            stream.base_addr + stream.regs.scale_hcr] ++
          factor_writes vy.2 [stream.base_addr + stream.regs.scale_vy] ++
          factor_writes vc.2 [stream.base_addr + stream.regs.scale_vc]) ++
        [(0 ||| hy.1 ||| hc.1 ||| vy.1 ||| vc.1,
          stream.base_addr + stream.regs.rsz_ctrl)])) := by
  unfold set_scale
  simp only [h1, h2, h3, h4, Option.bind_eq_bind, Option.some_bind, Option.pure_def,
    write_factor_replay, replay_append]
  rfl

theorem or4_and (a b c d x : Nat) :
    (0 ||| a ||| b ||| c ||| d) &&& x = a &&& x ||| b &&& x ||| c &&& x ||| d &&& x := by
  simp [Nat.and_distrib_right]

/-- An axis block adds no bit of a flag that neither of its own flags
shares. -/
theorem axis_flags_and_zero (e u : Nat) (a b : Int) (x : Nat) (he : e &&& x = 0)
    (hu : u &&& x = 0) : axis_flags e u a b &&& x = 0 := by
  unfold axis_flags
  split
  · exact or_and_disjoint e u x he hu
  · split
    · exact he
    · simp

/-- The bits of its own two flags that an axis block adds. -/
theorem axis_flags_own (e u : Nat) (a b : Int) (heu : e &&& u = 0) :
    (a < b → axis_flags e u a b &&& e = e ∧ axis_flags e u a b &&& u = u) ∧
    (a > b → axis_flags e u a b &&& e = e ∧ axis_flags e u a b &&& u = 0) ∧
    (a = b → axis_flags e u a b &&& e = 0 ∧ axis_flags e u a b &&& u = 0) := by
  unfold axis_flags
  refine ⟨fun h => ?_, fun h => ?_, fun h => ?_⟩
  · rw [if_pos h]
    exact ⟨or_and_left_self e u, or_and_right_self e u⟩
  · rw [if_neg (by omega), if_pos h]
    exact ⟨Nat.and_self e, heu⟩
  · rw [if_neg (by omega), if_neg (by omega)]
    simp

/-- In the value written to `rsz_ctrl`, the bits of each flag are those its own
axis block added, when no two flags share a bit. -/
theorem rsz_ctrl_bits (K : regs_h) (a1 b1 a2 b2 a3 b3 a4 b4 : Int)
    (h : (rsz_ctrl_flags K).Pairwise (fun a b => a &&& b = 0)) (x : Nat) :
    (x = K.CIF_RSZ_CTRL_SCALE_HY_ENABLE ∨ x = K.CIF_RSZ_CTRL_SCALE_HY_UP →
      (0 ||| axis_flags K.CIF_RSZ_CTRL_SCALE_HY_ENABLE K.CIF_RSZ_CTRL_SCALE_HY_UP a1 b1 |||
        axis_flags K.CIF_RSZ_CTRL_SCALE_HC_ENABLE K.CIF_RSZ_CTRL_SCALE_HC_UP a2 b2 |||
        axis_flags K.CIF_RSZ_CTRL_SCALE_VY_ENABLE K.CIF_RSZ_CTRL_SCALE_VY_UP a3 b3 |||
        axis_flags K.CIF_RSZ_CTRL_SCALE_VC_ENABLE K.CIF_RSZ_CTRL_SCALE_VC_UP a4 b4) &&& x =
      axis_flags K.CIF_RSZ_CTRL_SCALE_HY_ENABLE K.CIF_RSZ_CTRL_SCALE_HY_UP a1 b1 &&& x) ∧
    (x = K.CIF_RSZ_CTRL_SCALE_HC_ENABLE ∨ x = K.CIF_RSZ_CTRL_SCALE_HC_UP →
      (0 ||| axis_flags K.CIF_RSZ_CTRL_SCALE_HY_ENABLE K.CIF_RSZ_CTRL_SCALE_HY_UP a1 b1 |||
        axis_flags K.CIF_RSZ_CTRL_SCALE_HC_ENABLE K.CIF_RSZ_CTRL_SCALE_HC_UP a2 b2 |||
        axis_flags K.CIF_RSZ_CTRL_SCALE_VY_ENABLE K.CIF_RSZ_CTRL_SCALE_VY_UP a3 b3 |||
        axis_flags K.CIF_RSZ_CTRL_SCALE_VC_ENABLE K.CIF_RSZ_CTRL_SCALE_VC_UP a4 b4) &&& x =
      axis_flags K.CIF_RSZ_CTRL_SCALE_HC_ENABLE K.CIF_RSZ_CTRL_SCALE_HC_UP a2 b2 &&& x) ∧
    (x = K.CIF_RSZ_CTRL_SCALE_VY_ENABLE ∨ x = K.CIF_RSZ_CTRL_SCALE_VY_UP →
      (0 ||| axis_flags K.CIF_RSZ_CTRL_SCALE_HY_ENABLE K.CIF_RSZ_CTRL_SCALE_HY_UP a1 b1 |||
        axis_flags K.CIF_RSZ_CTRL_SCALE_HC_ENABLE K.CIF_RSZ_CTRL_SCALE_HC_UP a2 b2 |||
        axis_flags K.CIF_RSZ_CTRL_SCALE_VY_ENABLE K.CIF_RSZ_CTRL_SCALE_VY_UP a3 b3 |||
        axis_flags K.CIF_RSZ_CTRL_SCALE_VC_ENABLE K.CIF_RSZ_CTRL_SCALE_VC_UP a4 b4) &&& x =
      axis_flags K.CIF_RSZ_CTRL_SCALE_VY_ENABLE K.CIF_RSZ_CTRL_SCALE_VY_UP a3 b3 &&& x) ∧
    (x = K.CIF_RSZ_CTRL_SCALE_VC_ENABLE ∨ x = K.CIF_RSZ_CTRL_SCALE_VC_UP →
      (0 ||| axis_flags K.CIF_RSZ_CTRL_SCALE_HY_ENABLE K.CIF_RSZ_CTRL_SCALE_HY_UP a1 b1 |||
        axis_flags K.CIF_RSZ_CTRL_SCALE_HC_ENABLE K.CIF_RSZ_CTRL_SCALE_HC_UP a2 b2 |||
        axis_flags K.CIF_RSZ_CTRL_SCALE_VY_ENABLE K.CIF_RSZ_CTRL_SCALE_VY_UP a3 b3 |||
        axis_flags K.CIF_RSZ_CTRL_SCALE_VC_ENABLE K.CIF_RSZ_CTRL_SCALE_VC_UP a4 b4) &&& x =
      axis_flags K.CIF_RSZ_CTRL_SCALE_VC_ENABLE K.CIF_RSZ_CTRL_SCALE_VC_UP a4 b4 &&& x) := by
  have h2 : (rsz_ctrl_flags K).Pairwise (fun a b => b &&& a = 0) :=
    h.imp (fun {a b} hab => by rw [Nat.land_comm]; exact hab)
  simp only [rsz_ctrl_flags, List.pairwise_cons, List.mem_cons, List.mem_singleton,
    forall_eq_or_imp, forall_eq, List.not_mem_nil, List.Pairwise.nil, and_true,
    IsEmpty.forall_iff, implies_true] at h h2
  obtain ⟨⟨p12, p13, p14, p15, p16, p17, p18⟩, ⟨p23, p24, p25, p26, p27, p28⟩,
    ⟨p34, p35, p36, p37, p38⟩, ⟨p45, p46, p47, p48⟩, ⟨p56, p57, p58⟩, ⟨p67, p68⟩, p78⟩ := h
  obtain ⟨⟨q12, q13, q14, q15, q16, q17, q18⟩, ⟨q23, q24, q25, q26, q27, q28⟩,
    ⟨q34, q35, q36, q37, q38⟩, ⟨q45, q46, q47, q48⟩, ⟨q56, q57, q58⟩, ⟨q67, q68⟩, q78⟩ := h2
  refine ⟨?_, ?_, ?_, ?_⟩ <;> rintro (rfl | rfl) <;> rw [or4_and] <;>
    simp [axis_flags_and_zero, *]

/-- C19.  For sizes from 2 to 4032 on all four axes (luma width, chroma width,
luma height, chroma height), a scaler factor constant F with 0 ≤ F and
4031 * F < 2^31, and flag constants that share no bit, `set_scale` returns and
its writes are, in order: for each axis with `in < out` the factor
`((in - 1) * F) / (out - 1)`, for each axis with `in > out` the factor
`((out - 1) * F) / (in - 1) + 1` (truncating division), to the factor register
of the axis, the chroma-width factor to both the Cb and the Cr horizontal
register; then `rsz_ctrl`, whose value contains the ENABLE and UP flags of each
axis with `in < out`, and the ENABLE flag without the UP flag of each axis with
`in > out`. -/
theorem set_scale_formulas (K : regs_h) (io : Mmio) (stream : rsz_stream)
    (in_y in_c out_y out_c : rkisp1_win)
    (hF : 0 ≤ K.CIF_RSZ_SCALER_FACTOR) (hmax : 4031 * K.CIF_RSZ_SCALER_FACTOR < 2147483648)
    (hflags : (rsz_ctrl_flags K).Pairwise (fun a b => a &&& b = 0))
    (hsz : ∀ x ∈ scale_sizes in_y in_c out_y out_c, 2 ≤ x ∧ x ≤ 4032) :
    ∃ ctrl,
      (set_scale K io stream in_y in_c out_y out_c).map Mmio.log =
        some (io.log ++
          (factor_writes (scale_factor_reference K.CIF_RSZ_SCALER_FACTOR in_y.w out_y.w)
              [stream.base_addr + stream.regs.scale_hy] ++
            factor_writes (scale_factor_reference K.CIF_RSZ_SCALER_FACTOR in_c.w out_c.w)
              [stream.base_addr + stream.regs.scale_hcb,
                stream.base_addr + stream.regs.scale_hcr] ++
            factor_writes (scale_factor_reference K.CIF_RSZ_SCALER_FACTOR in_y.h out_y.h)
              [stream.base_addr + stream.regs.scale_vy] ++
            factor_writes (scale_factor_reference K.CIF_RSZ_SCALER_FACTOR in_c.h out_c.h)
              [stream.base_addr + stream.regs.scale_vc]) ++
          [(ctrl, stream.base_addr + stream.regs.rsz_ctrl)]) ∧
      (in_y.w < out_y.w →
        ctrl &&& K.CIF_RSZ_CTRL_SCALE_HY_ENABLE = K.CIF_RSZ_CTRL_SCALE_HY_ENABLE ∧
        ctrl &&& K.CIF_RSZ_CTRL_SCALE_HY_UP = K.CIF_RSZ_CTRL_SCALE_HY_UP) ∧
      (in_y.w > out_y.w →
        ctrl &&& K.CIF_RSZ_CTRL_SCALE_HY_ENABLE = K.CIF_RSZ_CTRL_SCALE_HY_ENABLE ∧
        ctrl &&& K.CIF_RSZ_CTRL_SCALE_HY_UP = 0) ∧
      (in_c.w < out_c.w →
        ctrl &&& K.CIF_RSZ_CTRL_SCALE_HC_ENABLE = K.CIF_RSZ_CTRL_SCALE_HC_ENABLE ∧
        ctrl &&& K.CIF_RSZ_CTRL_SCALE_HC_UP = K.CIF_RSZ_CTRL_SCALE_HC_UP) ∧
      (in_c.w > out_c.w →
        ctrl &&& K.CIF_RSZ_CTRL_SCALE_HC_ENABLE = K.CIF_RSZ_CTRL_SCALE_HC_ENABLE ∧
        ctrl &&& K.CIF_RSZ_CTRL_SCALE_HC_UP = 0) ∧
      (in_y.h < out_y.h →
        ctrl &&& K.CIF_RSZ_CTRL_SCALE_VY_ENABLE = K.CIF_RSZ_CTRL_SCALE_VY_ENABLE ∧
        ctrl &&& K.CIF_RSZ_CTRL_SCALE_VY_UP = K.CIF_RSZ_CTRL_SCALE_VY_UP) ∧
      (in_y.h > out_y.h →
        ctrl &&& K.CIF_RSZ_CTRL_SCALE_VY_ENABLE = K.CIF_RSZ_CTRL_SCALE_VY_ENABLE ∧
        ctrl &&& K.CIF_RSZ_CTRL_SCALE_VY_UP = 0) ∧
      (in_c.h < out_c.h →
        ctrl &&& K.CIF_RSZ_CTRL_SCALE_VC_ENABLE = K.CIF_RSZ_CTRL_SCALE_VC_ENABLE ∧
        ctrl &&& K.CIF_RSZ_CTRL_SCALE_VC_UP = K.CIF_RSZ_CTRL_SCALE_VC_UP) ∧
      (in_c.h > out_c.h →
        ctrl &&& K.CIF_RSZ_CTRL_SCALE_VC_ENABLE = K.CIF_RSZ_CTRL_SCALE_VC_ENABLE ∧
        ctrl &&& K.CIF_RSZ_CTRL_SCALE_VC_UP = 0) := by
  simp only [scale_sizes, List.mem_cons, List.mem_singleton, forall_eq_or_imp, forall_eq,
    List.not_mem_nil, IsEmpty.forall_iff, implies_true, and_true] at hsz
  obtain ⟨s1, s2, s3, s4, s5, s6, s7, s8⟩ := hsz
  have e := set_scale_of_axes K io stream in_y in_c out_y out_c _ _ _ _
    (scale_axis_reference K _ _ in_y.w out_y.w hF hmax s1.1 s1.2 s5.1 s5.2)
    (scale_axis_reference K _ _ in_c.w out_c.w hF hmax s3.1 s3.2 s7.1 s7.2)
    (scale_axis_reference K _ _ in_y.h out_y.h hF hmax s2.1 s2.2 s6.1 s6.2)
    (scale_axis_reference K _ _ in_c.h out_c.h hF hmax s4.1 s4.2 s8.1 s8.2)
  have hb := fun x => rsz_ctrl_bits K in_y.w out_y.w in_c.w out_c.w in_y.h out_y.h
    in_c.h out_c.h hflags x
  simp only [rsz_ctrl_flags, List.pairwise_cons, List.mem_cons, List.mem_singleton,
    forall_eq_or_imp, forall_eq, List.not_mem_nil, List.Pairwise.nil, and_true,
    IsEmpty.forall_iff, implies_true] at hflags
  obtain ⟨⟨p12, -⟩, -, ⟨p34, -⟩, -, ⟨p56, -⟩, -, p78⟩ := hflags
  have o1 := axis_flags_own _ _ in_y.w out_y.w p12
  have o2 := axis_flags_own _ _ in_c.w out_c.w p34
  have o3 := axis_flags_own _ _ in_y.h out_y.h p56
  have o4 := axis_flags_own _ _ in_c.h out_c.h p78
  dsimp only at e
  refine ⟨0 ||| axis_flags K.CIF_RSZ_CTRL_SCALE_HY_ENABLE K.CIF_RSZ_CTRL_SCALE_HY_UP
      in_y.w out_y.w |||
    axis_flags K.CIF_RSZ_CTRL_SCALE_HC_ENABLE K.CIF_RSZ_CTRL_SCALE_HC_UP in_c.w out_c.w |||
    axis_flags K.CIF_RSZ_CTRL_SCALE_VY_ENABLE K.CIF_RSZ_CTRL_SCALE_VY_UP in_y.h out_y.h |||
    axis_flags K.CIF_RSZ_CTRL_SCALE_VC_ENABLE K.CIF_RSZ_CTRL_SCALE_VC_UP in_c.h out_c.h,
    ?_, ?_, ?_, ?_, ?_, ?_, ?_, ?_, ?_⟩
  · rw [e, Option.map_some', replay_log]
    simp only [List.append_assoc]
  · intro h
    rw [(hb _).1 (Or.inl rfl), (hb _).1 (Or.inr rfl)]
    exact o1.1 h
  · intro h
    rw [(hb _).1 (Or.inl rfl), (hb _).1 (Or.inr rfl)]
    exact o1.2.1 h
  · intro h
    rw [(hb _).2.1 (Or.inl rfl), (hb _).2.1 (Or.inr rfl)]
    exact o2.1 h
  · intro h
    rw [(hb _).2.1 (Or.inl rfl), (hb _).2.1 (Or.inr rfl)]
    exact o2.2.1 h
  · intro h
    rw [(hb _).2.2.1 (Or.inl rfl), (hb _).2.2.1 (Or.inr rfl)]
    exact o3.1 h
  · intro h
    rw [(hb _).2.2.1 (Or.inl rfl), (hb _).2.2.1 (Or.inr rfl)]
    exact o3.2.1 h
  · intro h
    rw [(hb _).2.2.2 (Or.inl rfl), (hb _).2.2.2 (Or.inr rfl)]
    exact o4.1 h
  · intro h
    rw [(hb _).2.2.2 (Or.inl rfl), (hb _).2.2.2 (Or.inr rfl)]
    exact o4.2.1 h

theorem set_scale_formulas_witness :
    (0 ≤ regs_h_example.CIF_RSZ_SCALER_FACTOR ∧
      4031 * regs_h_example.CIF_RSZ_SCALER_FACTOR < 2147483648 ∧
      (rsz_ctrl_flags regs_h_example).Pairwise (fun a b => a &&& b = 0) ∧
      ∀ x ∈ scale_sizes ⟨640, 480⟩ ⟨320, 480⟩ ⟨1280, 240⟩ ⟨640, 240⟩, 2 ≤ x ∧ x ≤ 4032) ∧
    ∃ ctrl,
      (set_scale regs_h_example io_zero stream_example ⟨640, 480⟩ ⟨320, 480⟩ ⟨1280, 240⟩
          ⟨640, 240⟩).map Mmio.log =
        some ([(32742, 4100), (32716, 4104), (32716, 4108), (32700, 4112), (32700, 4116)] ++
          [(ctrl, 4096)]) ∧
      (ctrl &&& 1 = 1 ∧ ctrl &&& 16 = 16) ∧ (ctrl &&& 4 = 4 ∧ ctrl &&& 64 = 0) := by
  have hs : ∀ x ∈ scale_sizes ⟨640, 480⟩ ⟨320, 480⟩ ⟨1280, 240⟩ ⟨640, 240⟩,
      2 ≤ x ∧ x ≤ 4032 := by
    unfold scale_sizes
    decide
  have hp : (rsz_ctrl_flags regs_h_example).Pairwise (fun a b => a &&& b = 0) := by
    unfold rsz_ctrl_flags
    decide
  obtain ⟨ctrl, h, hyu, -, -, -, -, vyd, -, -⟩ :=
    set_scale_formulas regs_h_example io_zero stream_example ⟨640, 480⟩ ⟨320, 480⟩
      ⟨1280, 240⟩ ⟨640, 240⟩ (by decide) (by decide) hp hs
  exact ⟨⟨by decide, by decide, hp, hs⟩, ctrl, h, hyu (by decide), vyd (by decide)⟩

theorem factor_writes_addr (f : Option Nat) (addrs : List Nat) (w : Nat × Nat)
    (h : w ∈ factor_writes f addrs) : f ≠ none ∧ w.2 ∈ addrs := by
  cases f with
  | none => simp [factor_writes] at h
  | some v =>
    simp only [factor_writes, List.mem_map] at h
    obtain ⟨a, ha, rfl⟩ := h
    exact ⟨by simp, ha⟩

/-- The writes of a call leave alone an address that is not the control
register and that belongs to no axis with a factor. -/
theorem writes_avoid (f1 f2 f3 f4 : Option Nat) (A1 A2 A3 A4 : List Nat) (c : Nat × Nat)
    (a : Nat) (h1 : f1 = none ∨ a ∉ A1) (h2 : f2 = none ∨ a ∉ A2) (h3 : f3 = none ∨ a ∉ A3)
    (h4 : f4 = none ∨ a ∉ A4) (hc : c.2 ≠ a) :
    ∀ w ∈ (factor_writes f1 A1 ++ factor_writes f2 A2 ++ factor_writes f3 A3 ++
      factor_writes f4 A4) ++ [c], w.2 ≠ a := by
  intro w hw
  simp only [List.mem_append, List.mem_singleton] at hw
  have key : ∀ (f : Option Nat) (A : List Nat), (f = none ∨ a ∉ A) → w ∈ factor_writes f A →
      w.2 ≠ a := by
    intro f A h hm e
    obtain ⟨n, m⟩ := factor_writes_addr f A w hm
    rcases h with h | h
    · exact n h
    · exact h (e ▸ m)
  rcases hw with (((hw | hw) | hw) | hw) | hw
  · exact key _ _ h1 hw
  · exact key _ _ h2 hw
  · exact key _ _ h3 hw
  · exact key _ _ h4 hw
  · rw [hw]
    exact hc

theorem scale_axis_equal (K : regs_h) (enable up : Nat) (a b : Int) (h : a = b) :
    scale_axis K enable up a b = some (0, none) := by
  subst h
  simp [scale_axis]

/-- C20.  Where the register offsets of the output path differ from each other,
no two flag constants share a bit, and each axis has equal sizes or two C `int`
sizes of at least 2, `set_scale` returns, and for every axis on which the input
size equals the output size: none of its writes goes to a factor register of
that axis, which keeps its prior value, and the value written to `rsz_ctrl`
contains neither the ENABLE nor the UP flag of that axis.  When the sizes are
equal on all four axes, for any sizes, offsets and constants, the call is the
single write of 0 to `rsz_ctrl`. -/
theorem set_scale_equal_axis (K : regs_h) (io : Mmio) (stream : rsz_stream)
    (in_y in_c out_y out_c : rkisp1_win) :
    ((rsz_offsets stream.regs).Nodup →
      (rsz_ctrl_flags K).Pairwise (fun a b => a &&& b = 0) →
      sizes_divide in_y.w out_y.w → sizes_divide in_c.w out_c.w →
      sizes_divide in_y.h out_y.h → sizes_divide in_c.h out_c.h →
      ∃ io' ws ctrl,
        set_scale K io stream in_y in_c out_y out_c = some io' ∧
        io'.log = io.log ++ (ws ++ [(ctrl, stream.base_addr + stream.regs.rsz_ctrl)]) ∧
        (in_y.w = out_y.w →
          (∀ w ∈ ws ++ [(ctrl, stream.base_addr + stream.regs.rsz_ctrl)],
            w.2 ≠ stream.base_addr + stream.regs.scale_hy) ∧
          io'.mem (stream.base_addr + stream.regs.scale_hy) =
            io.mem (stream.base_addr + stream.regs.scale_hy) ∧
          ctrl &&& K.CIF_RSZ_CTRL_SCALE_HY_ENABLE = 0 ∧
          ctrl &&& K.CIF_RSZ_CTRL_SCALE_HY_UP = 0) ∧
        (in_c.w = out_c.w →
          (∀ w ∈ ws ++ [(ctrl, stream.base_addr + stream.regs.rsz_ctrl)],
            w.2 ≠ stream.base_addr + stream.regs.scale_hcb ∧
            w.2 ≠ stream.base_addr + stream.regs.scale_hcr) ∧
          io'.mem (stream.base_addr + stream.regs.scale_hcb) =
            io.mem (stream.base_addr + stream.regs.scale_hcb) ∧
          io'.mem (stream.base_addr + stream.regs.scale_hcr) =
            io.mem (stream.base_addr + stream.regs.scale_hcr) ∧
          ctrl &&& K.CIF_RSZ_CTRL_SCALE_HC_ENABLE = 0 ∧
          ctrl &&& K.CIF_RSZ_CTRL_SCALE_HC_UP = 0) ∧
        (in_y.h = out_y.h →
          (∀ w ∈ ws ++ [(ctrl, stream.base_addr + stream.regs.rsz_ctrl)],
            w.2 ≠ stream.base_addr + stream.regs.scale_vy) ∧
          io'.mem (stream.base_addr + stream.regs.scale_vy) =
            io.mem (stream.base_addr + stream.regs.scale_vy) ∧
          ctrl &&& K.CIF_RSZ_CTRL_SCALE_VY_ENABLE = 0 ∧
          ctrl &&& K.CIF_RSZ_CTRL_SCALE_VY_UP = 0) ∧
        (in_c.h = out_c.h →
          (∀ w ∈ ws ++ [(ctrl, stream.base_addr + stream.regs.rsz_ctrl)],
            w.2 ≠ stream.base_addr + stream.regs.scale_vc) ∧
          io'.mem (stream.base_addr + stream.regs.scale_vc) =
            io.mem (stream.base_addr + stream.regs.scale_vc) ∧
          ctrl &&& K.CIF_RSZ_CTRL_SCALE_VC_ENABLE = 0 ∧
          ctrl &&& K.CIF_RSZ_CTRL_SCALE_VC_UP = 0)) ∧
    (in_y.w = out_y.w → in_c.w = out_c.w → in_y.h = out_y.h → in_c.h = out_c.h →
      set_scale K io stream in_y in_c out_y out_c =
        some (io.writel 0 (stream.base_addr + stream.regs.rsz_ctrl))) := by
  constructor
  · intro hnd hflags d1 d2 d3 d4
    obtain ⟨f1, e1, n1⟩ := scale_axis_returns K K.CIF_RSZ_CTRL_SCALE_HY_ENABLE
      K.CIF_RSZ_CTRL_SCALE_HY_UP in_y.w out_y.w d1
    obtain ⟨f2, e2, n2⟩ := scale_axis_returns K K.CIF_RSZ_CTRL_SCALE_HC_ENABLE
      K.CIF_RSZ_CTRL_SCALE_HC_UP in_c.w out_c.w d2
    obtain ⟨f3, e3, n3⟩ := scale_axis_returns K K.CIF_RSZ_CTRL_SCALE_VY_ENABLE
      K.CIF_RSZ_CTRL_SCALE_VY_UP in_y.h out_y.h d3
    obtain ⟨f4, e4, n4⟩ := scale_axis_returns K K.CIF_RSZ_CTRL_SCALE_VC_ENABLE
      K.CIF_RSZ_CTRL_SCALE_VC_UP in_c.h out_c.h d4
    clear d1 d2 d3 d4
    simp only [rsz_offsets, List.nodup_cons, List.mem_cons, List.mem_singleton, not_or,
      List.not_mem_nil, not_false_eq_true, List.nodup_nil, and_true] at hnd
    obtain ⟨⟨a12, a13, a14, a15, a16⟩, ⟨a23, a24, a25, a26⟩, ⟨a34, a35, a36⟩, ⟨a45, a46⟩,
      a56⟩ := hnd
    have a21 := Ne.symm a12
    have a31 := Ne.symm a13
    have a41 := Ne.symm a14
    have a51 := Ne.symm a15
    have a61 := Ne.symm a16
    have a32 := Ne.symm a23
    have a42 := Ne.symm a24
    have a52 := Ne.symm a25
    have a62 := Ne.symm a26
    have a43 := Ne.symm a34
    have a53 := Ne.symm a35
    have a63 := Ne.symm a36
    have a54 := Ne.symm a45
    have a64 := Ne.symm a46
    have a65 := Ne.symm a56
    have av := fun a h1 h2 h3 h4 hc => writes_avoid f1 f2 f3 f4
      [stream.base_addr + stream.regs.scale_hy]
      [stream.base_addr + stream.regs.scale_hcb, stream.base_addr + stream.regs.scale_hcr]
      [stream.base_addr + stream.regs.scale_vy] [stream.base_addr + stream.regs.scale_vc]
      (0 ||| axis_flags K.CIF_RSZ_CTRL_SCALE_HY_ENABLE K.CIF_RSZ_CTRL_SCALE_HY_UP
          in_y.w out_y.w |||
        axis_flags K.CIF_RSZ_CTRL_SCALE_HC_ENABLE K.CIF_RSZ_CTRL_SCALE_HC_UP in_c.w out_c.w |||
        axis_flags K.CIF_RSZ_CTRL_SCALE_VY_ENABLE K.CIF_RSZ_CTRL_SCALE_VY_UP in_y.h out_y.h |||
        axis_flags K.CIF_RSZ_CTRL_SCALE_VC_ENABLE K.CIF_RSZ_CTRL_SCALE_VC_UP in_c.h out_c.h,
        stream.base_addr + stream.regs.rsz_ctrl) a h1 h2 h3 h4 hc
    have m1 := fun (h : in_y.w = out_y.w) => av (stream.base_addr + stream.regs.scale_hy)
      (Or.inl (n1 h)) (Or.inr (by simp [*])) (Or.inr (by simp [*]))
        (Or.inr (by simp [*])) (by simp [*])
    have m2a := fun (h : in_c.w = out_c.w) => av (stream.base_addr + stream.regs.scale_hcb)
      (Or.inr (by simp [*])) (Or.inl (n2 h)) (Or.inr (by simp [*]))
        (Or.inr (by simp [*])) (by simp [*])
    have m2b := fun (h : in_c.w = out_c.w) => av (stream.base_addr + stream.regs.scale_hcr)
      (Or.inr (by simp [*])) (Or.inl (n2 h)) (Or.inr (by simp [*]))
        (Or.inr (by simp [*])) (by simp [*])
    have m3 := fun (h : in_y.h = out_y.h) => av (stream.base_addr + stream.regs.scale_vy)
      (Or.inr (by simp [*])) (Or.inr (by simp [*])) (Or.inl (n3 h))
        (Or.inr (by simp [*])) (by simp [*])
    have m4 := fun (h : in_c.h = out_c.h) => av (stream.base_addr + stream.regs.scale_vc)
      (Or.inr (by simp [*])) (Or.inr (by simp [*]))
        (Or.inr (by simp [*])) (Or.inl (n4 h)) (by simp [*])
    have e := set_scale_of_axes K io stream in_y in_c out_y out_c _ _ _ _ e1 e2 e3 e4
    dsimp only at e
    have hb := fun x => rsz_ctrl_bits K in_y.w out_y.w in_c.w out_c.w in_y.h out_y.h
      in_c.h out_c.h hflags x
    simp only [rsz_ctrl_flags, List.pairwise_cons, List.mem_cons, List.mem_singleton,
      forall_eq_or_imp, forall_eq, List.not_mem_nil, List.Pairwise.nil, and_true,
      IsEmpty.forall_iff, implies_true] at hflags
    obtain ⟨⟨p12, -⟩, -, ⟨p34, -⟩, -, ⟨p56, -⟩, -, p78⟩ := hflags
    have o1 := (axis_flags_own _ _ in_y.w out_y.w p12).2.2
    have o2 := (axis_flags_own _ _ in_c.w out_c.w p34).2.2
    have o3 := (axis_flags_own _ _ in_y.h out_y.h p56).2.2
    have o4 := (axis_flags_own _ _ in_c.h out_c.h p78).2.2
    refine ⟨_, _, _, e, replay_log _ _, fun h => ⟨m1 h, ?_, ?_, ?_⟩,
      fun h => ⟨fun w hw => ⟨m2a h w hw, m2b h w hw⟩, ?_, ?_, ?_, ?_⟩,
      fun h => ⟨m3 h, ?_, ?_, ?_⟩, fun h => ⟨m4 h, ?_, ?_, ?_⟩⟩
    · exact replay_mem _ _ _ (m1 h)
    · rw [(hb _).1 (Or.inl rfl)]
      exact (o1 h).1
    · rw [(hb _).1 (Or.inr rfl)]
      exact (o1 h).2
    · exact replay_mem _ _ _ (m2a h)
    · exact replay_mem _ _ _ (m2b h)
    · rw [(hb _).2.1 (Or.inl rfl)]
      exact (o2 h).1
    · rw [(hb _).2.1 (Or.inr rfl)]
      exact (o2 h).2
    · exact replay_mem _ _ _ (m3 h)
    · rw [(hb _).2.2.1 (Or.inl rfl)]
      exact (o3 h).1
    · rw [(hb _).2.2.1 (Or.inr rfl)]
      exact (o3 h).2
    · exact replay_mem _ _ _ (m4 h)
    · rw [(hb _).2.2.2 (Or.inl rfl)]
      exact (o4 h).1
    · rw [(hb _).2.2.2 (Or.inr rfl)]
      exact (o4 h).2
  · intro h1 h2 h3 h4
    rw [set_scale_of_axes K io stream in_y in_c out_y out_c _ _ _ _
      (scale_axis_equal K _ _ _ _ h1) (scale_axis_equal K _ _ _ _ h2)
      (scale_axis_equal K _ _ _ _ h3) (scale_axis_equal K _ _ _ _ h4)]
    rfl

theorem set_scale_equal_axis_witness :
    ((rsz_offsets stream_example.regs).Nodup ∧
      (rsz_ctrl_flags regs_h_example).Pairwise (fun a b => a &&& b = 0) ∧
      sizes_divide 640 640 ∧ sizes_divide 320 320 ∧ sizes_divide 480 240 ∧
      sizes_divide 240 240) ∧
    (∃ io' ws ctrl,
      set_scale regs_h_example io_zero stream_example ⟨640, 480⟩ ⟨320, 240⟩ ⟨640, 240⟩
        ⟨320, 240⟩ = some io' ∧
      io'.log = [] ++ (ws ++ [(ctrl, 4096)]) ∧
      (∀ w ∈ ws ++ [(ctrl, 4096)], w.2 ≠ 4100) ∧ io'.mem 4100 = 0 ∧
      ctrl &&& 1 = 0 ∧ ctrl &&& 16 = 0) ∧
    set_scale regs_h_example io_zero stream_example ⟨640, 480⟩ ⟨320, 240⟩ ⟨640, 480⟩
      ⟨320, 240⟩ = some (io_zero.writel 0 4096) := by
  have hn : (rsz_offsets stream_example.regs).Nodup := by
    unfold rsz_offsets
    decide
  have hp : (rsz_ctrl_flags regs_h_example).Pairwise (fun a b => a &&& b = 0) := by
    unfold rsz_ctrl_flags
    decide
  have d1 : sizes_divide 640 640 := Or.inl rfl
  have d2 : sizes_divide 320 320 := Or.inl rfl
  have d3 : sizes_divide 480 240 := Or.inr (by decide)
  have d4 : sizes_divide 240 240 := Or.inl rfl
  obtain ⟨io', ws, ctrl, e, hlog, hy, -⟩ :=
    (set_scale_equal_axis regs_h_example io_zero stream_example ⟨640, 480⟩ ⟨320, 240⟩
      ⟨640, 240⟩ ⟨320, 240⟩).1 hn hp d1 d2 d3 d4
  exact ⟨⟨hn, hp, d1, d2, d3, d4⟩, ⟨io', ws, ctrl, e, hlog, hy rfl⟩,
    (set_scale_equal_axis regs_h_example io_zero stream_example ⟨640, 480⟩ ⟨320, 240⟩
      ⟨640, 480⟩ ⟨320, 240⟩).2 rfl rfl rfl rfl⟩

/-! ## Sizes of 1 in the resizer -/

/-- The product of the axis blocks does not overflow for sizes from 1. -/
theorem scale_product_from_one (F a : Int) (hF : 0 ≤ F) (hmax : 4031 * F < 2147483648)
    (ha1 : 1 ≤ a) (ha2 : a ≤ 4032) :
    c_mul (wrap_s32 (a - 1)) F = (a - 1) * F ∧ 0 ≤ (a - 1) * F ∧ (a - 1) * F < 2147483648 := by
  have h1 : (a - 1) * F ≤ 4031 * F := Int.mul_le_mul_of_nonneg_right (by omega) hF
  have h2 : 0 ≤ (a - 1) * F := Int.mul_nonneg (by omega) hF
  unfold c_mul
  rw [wrap_s32_id (a - 1) (by omega) (by omega), wrap_s32_id _ (by omega) (by omega)]
  exact ⟨rfl, h2, by omega⟩

/-- The quotient of an axis block, the divisor being a size of at least 2 less
one. -/
theorem scale_quotient_from_one (F a b : Int) (hF : 0 ≤ F) (hmax : 4031 * F < 2147483648)
    (ha1 : 1 ≤ a) (ha2 : a ≤ 4032) (hb1 : 2 ≤ b) (hb2 : b ≤ 4032) :
    c_div (c_mul (wrap_s32 (a - 1)) F) (wrap_s32 (b - 1)) = some (((a - 1) * F).tdiv (b - 1)) ∧
    0 ≤ ((a - 1) * F).tdiv (b - 1) ∧ ((a - 1) * F).tdiv (b - 1) < 2147483648 := by
  obtain ⟨h1, h2, h3⟩ := scale_product_from_one F a hF hmax ha1 ha2
  have hq := tdiv_bounds ((a - 1) * F) (b - 1) h2 (by omega)
  unfold c_div
  rw [h1, wrap_s32_id (b - 1) (by omega) (by omega), if_neg (by omega),
    wrap_s32_id _ (by omega) (by omega)]
  exact ⟨rfl, hq.1, by omega⟩

/-- One axis block computes the reference factor and its flags, for sizes from
1 to 4032: the divisor is the larger size less one. -/
theorem scale_axis_reference_from_one (K : regs_h) (enable up : Nat) (a b : Int)
    (hF : 0 ≤ K.CIF_RSZ_SCALER_FACTOR) (hmax : 4031 * K.CIF_RSZ_SCALER_FACTOR < 2147483648)
    (ha1 : 1 ≤ a) (ha2 : a ≤ 4032) (hb1 : 1 ≤ b) (hb2 : b ≤ 4032) :
    scale_axis K enable up a b =
      some (axis_flags enable up a b, scale_factor_reference K.CIF_RSZ_SCALER_FACTOR a b) := by
  unfold scale_axis axis_flags scale_factor_reference
  by_cases h1 : a < b
  · obtain ⟨e, q0, q1⟩ := scale_quotient_from_one _ a b hF hmax ha1 ha2 (by omega) hb2
    simp only [if_pos h1, e, Option.map_some']
    rw [toU32_of_nonneg _ q0 (by omega)]
  · by_cases h2 : a > b
    · obtain ⟨e, q0, q1⟩ := scale_quotient_from_one _ b a hF hmax hb1 hb2 (by omega) ha2
      simp only [if_neg h1, if_pos h2, e, Option.map_some']
      rw [toU32_wrap_s32, toU32_of_nonneg _ (by omega) (by omega)]
    · simp only [if_neg h1, if_neg h2]

/-- C21, as amended.  `set_scale` has no error report.  For sizes from 1 to
4032 on all four axes (and a scaler factor constant F with 0 ≤ F and
4031 * F < 2^31) it returns, and a size of 1 goes through the same formulas as
any other size: the writes are the reference factors of the four axes, then
`rsz_ctrl`.  There the factor of an axis with `in = 1 < out` is 0, that of an
axis with `in > out = 1` is 1, and an axis with `in = out = 1` has no factor
write. -/
theorem set_scale_size_one (K : regs_h) (io : Mmio) (stream : rsz_stream)
    (in_y in_c out_y out_c : rkisp1_win)
    (hF : 0 ≤ K.CIF_RSZ_SCALER_FACTOR) (hmax : 4031 * K.CIF_RSZ_SCALER_FACTOR < 2147483648)
    (hsz : ∀ x ∈ scale_sizes in_y in_c out_y out_c, 1 ≤ x ∧ x ≤ 4032) :
    (∃ ctrl,
      (set_scale K io stream in_y in_c out_y out_c).map Mmio.log =
        some (io.log ++
          (factor_writes (scale_factor_reference K.CIF_RSZ_SCALER_FACTOR in_y.w out_y.w)
              [stream.base_addr + stream.regs.scale_hy] ++
            factor_writes (scale_factor_reference K.CIF_RSZ_SCALER_FACTOR in_c.w out_c.w)
              [stream.base_addr + stream.regs.scale_hcb,
                stream.base_addr + stream.regs.scale_hcr] ++
            factor_writes (scale_factor_reference K.CIF_RSZ_SCALER_FACTOR in_y.h out_y.h)
              [stream.base_addr + stream.regs.scale_vy] ++
            factor_writes (scale_factor_reference K.CIF_RSZ_SCALER_FACTOR in_c.h out_c.h)
              [stream.base_addr + stream.regs.scale_vc]) ++
          [(ctrl, stream.base_addr + stream.regs.rsz_ctrl)])) ∧
    (∀ out : Int, 1 < out → scale_factor_reference K.CIF_RSZ_SCALER_FACTOR 1 out = some 0) ∧
    (∀ in_ : Int, 1 < in_ → scale_factor_reference K.CIF_RSZ_SCALER_FACTOR in_ 1 = some 1) ∧
    scale_factor_reference K.CIF_RSZ_SCALER_FACTOR 1 1 = none := by
  simp only [scale_sizes, List.mem_cons, List.mem_singleton, forall_eq_or_imp, forall_eq,
    List.not_mem_nil, IsEmpty.forall_iff, implies_true, and_true] at hsz
  obtain ⟨s1, s2, s3, s4, s5, s6, s7, s8⟩ := hsz
  have e := set_scale_of_axes K io stream in_y in_c out_y out_c _ _ _ _
    (scale_axis_reference_from_one K _ _ in_y.w out_y.w hF hmax s1.1 s1.2 s5.1 s5.2)
    (scale_axis_reference_from_one K _ _ in_c.w out_c.w hF hmax s3.1 s3.2 s7.1 s7.2)
    (scale_axis_reference_from_one K _ _ in_y.h out_y.h hF hmax s2.1 s2.2 s6.1 s6.2)
    (scale_axis_reference_from_one K _ _ in_c.h out_c.h hF hmax s4.1 s4.2 s8.1 s8.2)
  dsimp only at e
  refine ⟨⟨0 ||| axis_flags K.CIF_RSZ_CTRL_SCALE_HY_ENABLE K.CIF_RSZ_CTRL_SCALE_HY_UP
      in_y.w out_y.w |||
    axis_flags K.CIF_RSZ_CTRL_SCALE_HC_ENABLE K.CIF_RSZ_CTRL_SCALE_HC_UP in_c.w out_c.w |||
    axis_flags K.CIF_RSZ_CTRL_SCALE_VY_ENABLE K.CIF_RSZ_CTRL_SCALE_VY_UP in_y.h out_y.h |||
    axis_flags K.CIF_RSZ_CTRL_SCALE_VC_ENABLE K.CIF_RSZ_CTRL_SCALE_VC_UP in_c.h out_c.h,
    ?_⟩, fun out h => ?_, fun in_ h => ?_, ?_⟩
  · rw [e, Option.map_some', replay_log]
    simp only [List.append_assoc]
  · simp [scale_factor_reference, h]
  · have h2 : ¬ in_ < 1 := by omega
    simp [scale_factor_reference, h, h2]
  · simp [scale_factor_reference]

theorem set_scale_size_one_witness :
    (0 ≤ regs_h_example.CIF_RSZ_SCALER_FACTOR ∧
      4031 * regs_h_example.CIF_RSZ_SCALER_FACTOR < 2147483648 ∧
      ∀ x ∈ scale_sizes ⟨1, 480⟩ ⟨320, 1⟩ ⟨640, 1⟩ ⟨320, 1⟩, 1 ≤ x ∧ x ≤ 4032) ∧
    ∃ ctrl,
      (set_scale regs_h_example io_zero stream_example ⟨1, 480⟩ ⟨320, 1⟩ ⟨640, 1⟩
          ⟨320, 1⟩).map Mmio.log =
        some ([(0, 4100), (1, 4112)] ++ [(ctrl, 4096)]) := by
  have hs : ∀ x ∈ scale_sizes ⟨1, 480⟩ ⟨320, 1⟩ ⟨640, 1⟩ ⟨320, 1⟩, 1 ≤ x ∧ x ≤ 4032 := by
    unfold scale_sizes
    decide
  obtain ⟨ctrl, h⟩ :=
    (set_scale_size_one regs_h_example io_zero stream_example ⟨1, 480⟩ ⟨320, 1⟩ ⟨640, 1⟩
      ⟨320, 1⟩ (by decide) (by decide) hs).1
  exact ⟨⟨by decide, by decide, hs⟩, ctrl, h⟩

/-- C21, counterexample.  With input luma width 1 the call reports nothing: it
returns, having written the factor 0 to the luma-width factor register and
`HY_ENABLE | HY_UP` to `rsz_ctrl`. -/
theorem set_scale_accepts_size_one :
    (set_scale regs_h_example io_zero stream_example ⟨1, 480⟩ ⟨320, 240⟩ ⟨640, 480⟩
      ⟨320, 240⟩).map Mmio.log = some [(0, 4100), (17, 4096)] := by
  decide

/-! ## Stream start -/

@[simp] theorem writes_to_call (reg : Reg) (e : Event) (hw : Hw)
    (h : ∀ v r, e ≠ Event.writel v r) : writes_to reg (call e hw).log = writes_to reg hw.log := by
  have h2 : ∀ l : List Event, reg_writes (l ++ [e]) = reg_writes l := by
    intro l
    induction l with
    | nil => cases e <;> simp_all [reg_writes]
    | cons a rest ih => cases a <;> simp [reg_writes, ih]
  simp only [writes_to, call, h2]

theorem readl_ite (c : Prop) [Decidable c] (a b : Hw) (r : Reg) :
    readl (if c then a else b) r = if c then readl a r else readl b r := by
  split <;> rfl

theorem writes_to_ite (c : Prop) [Decidable c] (a b : Hw) (r : Reg) :
    writes_to r (if c then a else b).log =
      if c then writes_to r a.log else writes_to r b.log := by
  split <;> rfl

theorem lor_eq_zero (x y : Nat) : x ||| y = 0 ↔ x = 0 ∧ y = 0 := by
  constructor
  · intro h
    constructor <;> apply Nat.eq_of_testBit_eq <;> intro i <;>
      have := congrArg (fun n => n.testBit i) h <;>
      simp only [Nat.testBit_or, Nat.zero_testBit, Bool.or_eq_false_iff] at this <;>
      simp [this]
  · rintro ⟨rfl, rfl⟩
    rfl

theorem c_and_or (m a b : Nat) : c_and m (a ||| b) = (c_and m a || c_and m b) := by
  unfold c_and
  rw [Nat.and_or_distrib_left]
  rw [Bool.eq_iff_iff]
  simp only [bne_iff_ne, ne_eq, lor_eq_zero, Bool.or_eq_true]
  tauto

/-- The hardware after an `rkisp1_isp_isr` invocation: the part after the
vertical-sync block, run on what that block left. -/
theorem isp_isr_hw (K : regs_h) (isp_mis : Nat) (dev : rkisp1_device) :
    (rkisp1_isp_isr K isp_mis dev).hw =
      isp_isr_rest K isp_mis dev.stream
        (if c_and isp_mis K.CIF_ISP_V_START then (isp_isr_v_start K dev).hw else dev.hw) := by
  unfold rkisp1_isp_isr
  split <;> simp [isp_isr_v_start, riksp1_isp_queue_event_sof]

theorem isp_isr_v_start_writes (K : regs_h) (dev : rkisp1_device) (reg : Reg)
    (h1 : reg ≠ .CIF_ISP_ICR) (h2 : reg ≠ .CIF_ISP_CTRL) :
    writes_to reg (isp_isr_v_start K dev).hw.log = writes_to reg dev.hw.log := by
  simp [isp_isr_v_start, riksp1_isp_queue_event_sof, Ne.symm h1, Ne.symm h2]

/-- The registers and the reset writes after the part of `rkisp1_isp_isr` that
follows the vertical-sync block, for a status word that triggers the
restart. -/
theorem isp_isr_rest_restart (K : regs_h) (isp_mis : Nat) (stream : Nat → rkisp1_stream)
    (hw : Hw)
    (h : c_and isp_mis (K.CIF_ISP_DATA_LOSS ||| K.CIF_ISP_PIC_SIZE_ERROR) = true) :
    writes_to .CIF_IRCL (isp_isr_rest K isp_mis stream hw).log =
      writes_to .CIF_IRCL hw.log ++
        [K.CIF_IRCL_MIPI_SW_RST ||| K.CIF_IRCL_ISP_SW_RST ||| K.CIF_IRCL_MI_SW_RST, 0] ∧
    readl (isp_isr_rest K isp_mis stream hw) .CIF_IRCL = 0 ∧
    readl (isp_isr_rest K isp_mis stream hw) .CIF_MI_MP_Y_OFFS_CNT_INIT = 0 ∧
    readl (isp_isr_rest K isp_mis stream hw) .CIF_MI_MP_CB_OFFS_CNT_INIT = 0 ∧
    readl (isp_isr_rest K isp_mis stream hw) .CIF_MI_MP_CR_OFFS_CNT_INIT = 0 ∧
    readl (isp_isr_rest K isp_mis stream hw) .CIF_MI_SP_Y_OFFS_CNT_INIT = 0 ∧
    readl (isp_isr_rest K isp_mis stream hw) .CIF_MI_SP_CB_OFFS_CNT_INIT = 0 ∧
    readl (isp_isr_rest K isp_mis stream hw) .CIF_MI_SP_CR_OFFS_CNT_INIT = 0 ∧
    readl (isp_isr_rest K isp_mis stream hw) .CIF_MI_CTRL &&& K.CIF_MI_CTRL_INIT_OFFSET_EN =
      K.CIF_MI_CTRL_INIT_OFFSET_EN ∧
    readl (isp_isr_rest K isp_mis stream hw) .CIF_ISP_CTRL &&&
        (K.CIF_ISP_CTRL_ISP_CFG_UPD ||| K.CIF_ISP_CTRL_ISP_ENABLE |||
          K.CIF_ISP_CTRL_ISP_INFORM_ENABLE) =
      K.CIF_ISP_CTRL_ISP_CFG_UPD ||| K.CIF_ISP_CTRL_ISP_ENABLE |||
        K.CIF_ISP_CTRL_ISP_INFORM_ENABLE ∧
    readl (isp_isr_rest K isp_mis stream hw) .CIF_MIPI_CTRL &&& K.CIF_MIPI_CTRL_OUTPUT_ENA =
      K.CIF_MIPI_CTRL_OUTPUT_ENA := by
  simp only [isp_isr_rest, h, if_true, rkisp1_hw_restart, readl_writel, readl_call, readl_ite,
    writes_to_ite, writes_to_writel, writes_to_call, ne_eq, not_false_eq_true, implies_true,
    reduceCtorEq, if_false, ite_self, or_and_left_self,
    List.append_nil, List.append_assoc, List.singleton_append, List.nil_append, List.cons_append,
    and_self, true_and]

/-- Without the restart no reset is written. -/
theorem isp_isr_rest_no_restart (K : regs_h) (isp_mis : Nat) (stream : Nat → rkisp1_stream)
    (hw : Hw)
    (h : c_and isp_mis (K.CIF_ISP_DATA_LOSS ||| K.CIF_ISP_PIC_SIZE_ERROR) = false) :
    writes_to .CIF_IRCL (isp_isr_rest K isp_mis stream hw).log = writes_to .CIF_IRCL hw.log := by
  simp only [isp_isr_rest, h, if_true, readl_writel, readl_call, readl_ite,
    writes_to_ite, writes_to_writel, writes_to_call, ne_eq, not_false_eq_true, implies_true,
    reduceCtorEq, if_false, ite_self, List.append_nil, Bool.false_eq_true]

/-- The writes to `CIF_MI_ISR` of the part of `rkisp1_isp_isr` that follows the
vertical-sync block. -/
theorem isp_isr_rest_mi_isr (K : regs_h) (isp_mis : Nat) (stream : Nat → rkisp1_stream)
    (hw : Hw) :
    writes_to .CIF_MI_ISR (isp_isr_rest K isp_mis stream hw).log =
      writes_to .CIF_MI_ISR hw.log ++
        if c_and isp_mis K.CIF_ISP_FRAME_IN = true ∧
            (stream RKISP1_STREAM_SP).next_buf = none ∧
            (stream RKISP1_STREAM_MP).next_buf = none then
          [(if (stream RKISP1_STREAM_SP).state = RKISP1_STATE_STREAMING then K.CIF_MI_SP_FRAME
              else 0) |||
            (if (stream RKISP1_STREAM_MP).state = RKISP1_STATE_STREAMING then K.CIF_MI_MP_FRAME
              else 0)]
        else [] := by
  simp only [isp_isr_rest, rkisp1_hw_restart, readl_writel, readl_call, readl_ite,
    writes_to_ite, writes_to_writel, writes_to_call, ne_eq, not_false_eq_true, implies_true,
    reduceCtorEq, if_false, if_true, ite_self, List.append_nil, Option.isNone_iff_eq_none]
  by_cases h1 : c_and isp_mis K.CIF_ISP_FRAME_IN = true
  · by_cases h2 : (stream RKISP1_STREAM_SP).next_buf = none ∧
        (stream RKISP1_STREAM_MP).next_buf = none
    · by_cases h3 : (stream RKISP1_STREAM_SP).state = RKISP1_STATE_STREAMING <;>
        by_cases h4 : (stream RKISP1_STREAM_MP).state = RKISP1_STATE_STREAMING <;>
        simp [h1, h2, h3, h4]
    · simp [h1, h2]
  · simp [h1]

theorem land_all_ones (v : Nat) : 4294967295 &&& v = v % 4294967296 := by
  have := Nat.and_pow_two_sub_one_eq_mod v 32
  rw [Nat.land_comm]
  simpa using this

/-- C27 (evaluation at the failing input): with `ISP_ENABLE` bit 0 and
`ISP_INFORM_ENABLE` bit 4, a status word that is `CIF_ISP_DATA_LOSS` alone, and
any prior value `v` of `CIF_ISP_CTRL`, the three values `rkisp1_isp_isr` writes
to `CIF_ISP_CTRL` are `v` itself (the stop step, which clears no bit), then `v`
with `ISP_CFG_UPD`, then `v` with `ISP_CFG_UPD`, `ISP_ENABLE` and
`ISP_INFORM_ENABLE` (the restart).  For `v = 17`, both enable bits set, the
stop step writes 17. -/
theorem isr_stop_step_clears_nothing (v : Nat) :
    writes_to .CIF_ISP_CTRL (rkisp1_isp_isr regs_h_example 4
      { dev_fresh (sensor_csi2 2) with
        hw := hw_of (fun r => if r = .CIF_ISP_CTRL then v else 0) }).hw.log =
      [v % 4294967296, 512 ||| v % 4294967296, 529 ||| (512 ||| v % 4294967296)] ∧
    writes_to .CIF_ISP_CTRL (rkisp1_isp_isr regs_h_example 4
      { dev_fresh (sensor_csi2 2) with
        hw := hw_of (fun r => if r = .CIF_ISP_CTRL then 17 else 0) }).hw.log =
      [17, 529, 529] := by
  constructor
  · rw [isp_isr_hw]
    have h1 : c_and 4 regs_h_example.CIF_ISP_V_START = false := by decide
    have h2 : c_and 4 (regs_h_example.CIF_ISP_DATA_LOSS |||
      regs_h_example.CIF_ISP_PIC_SIZE_ERROR) = true := by decide
    have h3 : c_and 4 regs_h_example.CIF_ISP_PIC_SIZE_ERROR = false := by decide
    have h4 : c_and 4 regs_h_example.CIF_ISP_DATA_LOSS = true := by decide
    have h5 : c_and 4 regs_h_example.CIF_ISP_FRAME_IN = false := by decide
    have h6 : c_and 4 regs_h_example.CIF_ISP_FRAME = false := by decide
    simp only [h1, Bool.false_eq_true, if_false]
    simp only [isp_isr_rest, h2, h3, h4, h5, h6, if_true, rkisp1_hw_restart, readl_writel,
      readl_call, writes_to_writel, writes_to_call, ne_eq, not_false_eq_true, implies_true,
      reduceCtorEq, if_false, Bool.false_eq_true, List.append_nil]
    simp [hw_of, writes_to, reg_writes, readl, regs_h_example, not32, land_all_ones]
  · decide

/-- C28.  For every status word with `CIF_ISP_DATA_LOSS` or
`CIF_ISP_PIC_SIZE_ERROR` set, every device state and register content, the
invocation writes `MIPI_SW_RST | ISP_SW_RST | MI_SW_RST` and then 0 to
`CIF_IRCL` and ends with `CIF_IRCL = 0`, the six `OFFS_CNT_INIT` registers 0,
`INIT_OFFSET_EN` in `CIF_MI_CTRL`, `ISP_CFG_UPD | ISP_ENABLE |
ISP_INFORM_ENABLE` in `CIF_ISP_CTRL` and `OUTPUT_ENA` in `CIF_MIPI_CTRL`.  For
a status word with neither bit set `CIF_IRCL` is not written. -/
theorem isp_isr_restart (K : regs_h) (isp_mis : Nat) (dev : rkisp1_device) :
    (c_and isp_mis K.CIF_ISP_DATA_LOSS = true ∨ c_and isp_mis K.CIF_ISP_PIC_SIZE_ERROR = true →
      writes_to .CIF_IRCL (rkisp1_isp_isr K isp_mis dev).hw.log =
        writes_to .CIF_IRCL dev.hw.log ++
          [K.CIF_IRCL_MIPI_SW_RST ||| K.CIF_IRCL_ISP_SW_RST ||| K.CIF_IRCL_MI_SW_RST, 0] ∧
      readl (rkisp1_isp_isr K isp_mis dev).hw .CIF_IRCL = 0 ∧
      readl (rkisp1_isp_isr K isp_mis dev).hw .CIF_MI_MP_Y_OFFS_CNT_INIT = 0 ∧
      readl (rkisp1_isp_isr K isp_mis dev).hw .CIF_MI_MP_CB_OFFS_CNT_INIT = 0 ∧
      readl (rkisp1_isp_isr K isp_mis dev).hw .CIF_MI_MP_CR_OFFS_CNT_INIT = 0 ∧
      readl (rkisp1_isp_isr K isp_mis dev).hw .CIF_MI_SP_Y_OFFS_CNT_INIT = 0 ∧
      readl (rkisp1_isp_isr K isp_mis dev).hw .CIF_MI_SP_CB_OFFS_CNT_INIT = 0 ∧
      readl (rkisp1_isp_isr K isp_mis dev).hw .CIF_MI_SP_CR_OFFS_CNT_INIT = 0 ∧
      readl (rkisp1_isp_isr K isp_mis dev).hw .CIF_MI_CTRL &&& K.CIF_MI_CTRL_INIT_OFFSET_EN =
        K.CIF_MI_CTRL_INIT_OFFSET_EN ∧
      readl (rkisp1_isp_isr K isp_mis dev).hw .CIF_ISP_CTRL &&&
          (K.CIF_ISP_CTRL_ISP_CFG_UPD ||| K.CIF_ISP_CTRL_ISP_ENABLE |||
            K.CIF_ISP_CTRL_ISP_INFORM_ENABLE) =
        K.CIF_ISP_CTRL_ISP_CFG_UPD ||| K.CIF_ISP_CTRL_ISP_ENABLE |||
          K.CIF_ISP_CTRL_ISP_INFORM_ENABLE ∧
      readl (rkisp1_isp_isr K isp_mis dev).hw .CIF_MIPI_CTRL &&& K.CIF_MIPI_CTRL_OUTPUT_ENA =
        K.CIF_MIPI_CTRL_OUTPUT_ENA) ∧
    (c_and isp_mis K.CIF_ISP_DATA_LOSS = false →
      c_and isp_mis K.CIF_ISP_PIC_SIZE_ERROR = false →
      writes_to .CIF_IRCL (rkisp1_isp_isr K isp_mis dev).hw.log =
        writes_to .CIF_IRCL dev.hw.log) := by
  have hv : writes_to .CIF_IRCL
      (if c_and isp_mis K.CIF_ISP_V_START then (isp_isr_v_start K dev).hw else dev.hw).log =
      writes_to .CIF_IRCL dev.hw.log := by
    split
    · exact isp_isr_v_start_writes K dev _ (by decide) (by decide)
    · rfl
  rw [isp_isr_hw]
  constructor
  · intro h
    have hf : c_and isp_mis (K.CIF_ISP_DATA_LOSS ||| K.CIF_ISP_PIC_SIZE_ERROR) = true := by
      rw [c_and_or]
      rcases h with h | h <;> simp [h]
    have r := isp_isr_rest_restart K isp_mis dev.stream
      (if c_and isp_mis K.CIF_ISP_V_START then (isp_isr_v_start K dev).hw else dev.hw) hf
    rw [hv] at r
    exact r
  · intro h1 h2
    have hf : c_and isp_mis (K.CIF_ISP_DATA_LOSS ||| K.CIF_ISP_PIC_SIZE_ERROR) = false := by
      rw [c_and_or, h1, h2]
      rfl
    rw [isp_isr_rest_no_restart K isp_mis dev.stream _ hf, hv]

theorem isp_isr_restart_witness :
    c_and 4 regs_h_example.CIF_ISP_DATA_LOSS = true ∧
    writes_to .CIF_IRCL
      (rkisp1_isp_isr regs_h_example 4 (dev_fresh (sensor_csi2 2))).hw.log = [2113, 0] ∧
    readl (rkisp1_isp_isr regs_h_example 4 (dev_fresh (sensor_csi2 2))).hw .CIF_IRCL = 0 ∧
    (c_and 2 regs_h_example.CIF_ISP_DATA_LOSS = false ∧
      c_and 2 regs_h_example.CIF_ISP_PIC_SIZE_ERROR = false) ∧
    writes_to .CIF_IRCL
      (rkisp1_isp_isr regs_h_example 2 (dev_fresh (sensor_csi2 2))).hw.log = [] :=
  have h := (isp_isr_restart regs_h_example 4 (dev_fresh (sensor_csi2 2))).1
    (Or.inl (by decide))
  ⟨by decide, h.1, h.2.1, by decide,
    (isp_isr_restart regs_h_example 2 (dev_fresh (sensor_csi2 2))).2 (by decide) (by decide)⟩

/-- C29.  In every `rkisp1_isp_isr` invocation, `CIF_MI_ISR` is written, once,
exactly when the status word has `CIF_ISP_FRAME_IN` set and both the self-path
and the main-path `next_buf` are empty, and the value written is
`CIF_MI_SP_FRAME` if the self path is in state STREAMING ORed with
`CIF_MI_MP_FRAME` if the main path is in state STREAMING; otherwise, in
particular when `CIF_ISP_FRAME_IN` is not set, `CIF_MI_ISR` is not written. -/
theorem isp_isr_mi_isr (K : regs_h) (isp_mis : Nat) (dev : rkisp1_device) :
    writes_to .CIF_MI_ISR (rkisp1_isp_isr K isp_mis dev).hw.log =
      writes_to .CIF_MI_ISR dev.hw.log ++
        if c_and isp_mis K.CIF_ISP_FRAME_IN = true ∧
            (dev.stream RKISP1_STREAM_SP).next_buf = none ∧
            (dev.stream RKISP1_STREAM_MP).next_buf = none then
          [(if (dev.stream RKISP1_STREAM_SP).state = RKISP1_STATE_STREAMING then
              K.CIF_MI_SP_FRAME else 0) |||
            (if (dev.stream RKISP1_STREAM_MP).state = RKISP1_STATE_STREAMING then
              K.CIF_MI_MP_FRAME else 0)]
        else [] := by
  have hv : writes_to .CIF_MI_ISR
      (if c_and isp_mis K.CIF_ISP_V_START then (isp_isr_v_start K dev).hw else dev.hw).log =
      writes_to .CIF_MI_ISR dev.hw.log := by
    split
    · exact isp_isr_v_start_writes K dev _ (by decide) (by decide)
    · rfl
  rw [isp_isr_hw, isp_isr_rest_mi_isr, hv]

/-- C30 (evaluation at the failing input): with `CIF_MIPI_ERR_CTRL(3)` the bits
12 and 13 (`0x3000`), a masked status `CIF_MIPI_MIS = 0x1000` (one control
error) and any prior value `m` of `CIF_MIPI_IMSC`, `rkisp1_mipi_isr` leaves
`CIF_MIPI_IMSC = ~0x3000 | m`: every bit outside `0x3000` is set and the two
control-error bits keep their prior value.  From `m = 0x1003000` (frame end and
both control errors enabled) the result is `0xffffffff`, not `0x1000000`. -/
theorem mipi_isr_sets_other_bits (m : Nat) :
    readl (rkisp1_mipi_isr regs_h_example 0
      (hw_of (fun r => if r = .CIF_MIPI_MIS then 4096 else
        if r = .CIF_MIPI_IMSC then m else 0))) .CIF_MIPI_IMSC = 4294955007 ||| m ∧
    readl (rkisp1_mipi_isr regs_h_example 0
      (hw_of (fun r => if r = .CIF_MIPI_MIS then 4096 else
        if r = .CIF_MIPI_IMSC then 16789504 else 0))) .CIF_MIPI_IMSC = 4294967295 := by
  constructor
  · have h1 : c_and 4096 (regs_h_example.CIF_MIPI_ERR_CTRL 3) = true := by decide
    have h2 : ¬ (4096 = regs_h_example.CIF_MIPI_FRAME_END) := by decide
    have h3 : not32 (regs_h_example.CIF_MIPI_ERR_CTRL 3) = 4294955007 := by decide
    have e1 : readl (hw_of (fun r => if r = .CIF_MIPI_MIS then 4096 else
        if r = .CIF_MIPI_IMSC then m else 0)) .CIF_MIPI_MIS = 4096 := rfl
    have e2 : readl (hw_of (fun r => if r = .CIF_MIPI_MIS then 4096 else
        if r = .CIF_MIPI_IMSC then m else 0)) .CIF_MIPI_IMSC = m := rfl
    simp only [rkisp1_mipi_isr, e1, h1, h2, h3, if_true, if_false, readl_writel, reduceCtorEq, e2]
  · decide

/-! ## The register writes of the pipeline configuration -/

@[simp] theorem reg_writes_writel (v : Nat) (r : Reg) (hw : Hw) :
    reg_writes (writel v r hw).log = reg_writes hw.log ++ [(v, r)] := by
  have h : ∀ l : List Event, reg_writes (l ++ [Event.writel v r]) = reg_writes l ++ [(v, r)] := by
    intro l
    induction l with
    | nil => rfl
    | cons e rest ih => cases e <;> simp [reg_writes, ih]
  simp only [writel, h]

@[simp] theorem reg_writes_call (e : Event) (hw : Hw) (h : ∀ v r, e ≠ Event.writel v r) :
    reg_writes (call e hw).log = reg_writes hw.log := by
  have h2 : ∀ l : List Event, reg_writes (l ++ [e]) = reg_writes l := by
    intro l
    induction l with
    | nil => cases e <;> simp_all [reg_writes]
    | cons a rest ih => cases a <;> simp [reg_writes, ih]
  simp only [call, h2]

theorem reg_writes_ite (c : Prop) [Decidable c] (a b : Hw) :
    reg_writes (if c then a else b).log = if c then reg_writes a.log else reg_writes b.log := by
  split <;> rfl

/-- The values written to a register, from the register writes. -/
theorem writes_to_of_reg_writes (reg : Reg) (old new : List Event) (ws : List (Nat × Reg))
    (h : reg_writes new = reg_writes old ++ ws) :
    writes_to reg new = writes_to reg old ++ ((ws.filter (fun w => w.2 = reg)).map (fun w => w.1))
    := by
  simp only [writes_to, h, List.filter_append, List.map_append]

theorem config_ism_reg_writes (K : regs_h) (dev : rkisp1_device) :
    reg_writes (rkisp1_config_ism K dev).log = reg_writes dev.hw.log ++ config_ism_writes K dev := by
  simp [rkisp1_config_ism, config_ism_writes, Nat.lor_comm]

theorem config_isp_ok (K : regs_h) (u : uninit_locals) (dev : rkisp1_device) (s : isp_selection)
    (hs : isp_select K u dev = some s) :
    (rkisp1_config_isp K u dev).ret = 0 ∧
    readl (rkisp1_config_isp K u dev).hw .CIF_ISP_CTRL = s.isp_ctrl ∧
    reg_writes (rkisp1_config_isp K u dev).hw.log =
      reg_writes dev.hw.log ++ (config_isp_head_writes K dev ++ config_isp_tail_writes K dev s)
    := by
  unfold rkisp1_config_isp
  simp only [hs, get_active_sensor_info]
  refine ⟨trivial, ?_, ?_⟩
  · split <;> simp [readl_ite]
  · simp only [config_isp_head_writes, config_isp_tail_writes]
    by_cases h1 : dev.isp_sdev.in_fmt.fmt_type = FMT_BAYER <;>
      by_cases h2 : dev.isp_sdev.out_fmt.fmt_type = FMT_BAYER <;>
      simp [h1, h2]

theorem config_isp_fail (K : regs_h) (u : uninit_locals) (dev : rkisp1_device)
    (hs : isp_select K u dev = none) :
    (rkisp1_config_isp K u dev).ret = -EINVAL ∧
    (rkisp1_config_isp K u dev).hw.log =
      dev.hw.log ++ (config_isp_head_writes K dev).map (fun w => Event.writel w.1 w.2) := by
  unfold rkisp1_config_isp
  simp only [hs, config_isp_head_writes]
  refine ⟨trivial, ?_⟩
  split <;> simp [writel]

theorem config_mipi_ok (K : regs_h) (u : uninit_locals) (dev : rkisp1_device)
    (hdt : mipi_data_type K u.data_type dev.isp_sdev.in_fmt ≠ 0) :
    (rkisp1_config_mipi K u dev).ret = 0 ∧
    readl (rkisp1_config_mipi K u dev).hw .CIF_ICCL =
      K.CIF_ICCL_MIPI_CLK ||| readl dev.hw .CIF_ICCL ∧
    reg_writes (rkisp1_config_mipi K u dev).hw.log =
      reg_writes dev.hw.log ++ (config_mipi_head_writes K dev ++
        config_mipi_tail_writes K (mipi_data_type K u.data_type dev.isp_sdev.in_fmt)) := by
  unfold rkisp1_config_mipi
  simp only [if_neg hdt, get_active_sensor_info]
  refine ⟨trivial, ?_, ?_⟩
  · split <;> simp
  · simp only [config_mipi_head_writes, config_mipi_tail_writes]
    split <;> simp

theorem config_mipi_fail (K : regs_h) (u : uninit_locals) (dev : rkisp1_device)
    (hdt : mipi_data_type K u.data_type dev.isp_sdev.in_fmt = 0) :
    (rkisp1_config_mipi K u dev).ret = -EINVAL ∧
    reg_writes (rkisp1_config_mipi K u dev).hw.log =
      reg_writes dev.hw.log ++ config_mipi_head_writes K dev := by
  unfold rkisp1_config_mipi
  simp only [if_pos hdt, get_active_sensor_info]
  refine ⟨trivial, ?_⟩
  simp only [config_mipi_head_writes]
  split <;> simp

theorem config_path_csi2 (K : regs_h) (u : uninit_locals) (dev : rkisp1_device)
    (hbus : dev.sensor.ep.bus_type = V4L2_MBUS_CSI2) :
    (rkisp1_config_path K u dev).ret = (rkisp1_config_mipi K u dev).ret ∧
    (rkisp1_config_path K u dev).hw =
      writel (readl dev.hw .CIF_VI_DPCL ||| K.CIF_VI_DPCL_IF_SEL_MIPI) .CIF_VI_DPCL
        (rkisp1_config_mipi K u dev).hw := by
  unfold rkisp1_config_path
  have h1 : ¬ (dev.sensor.ep.bus_type = V4L2_MBUS_BT656 ∨
      dev.sensor.ep.bus_type = V4L2_MBUS_PARALLEL) := by
    rw [hbus]
    decide
  simp only [get_active_sensor_info, if_neg h1, if_pos hbus, and_self]

/-- The first block of `rkisp1_config_isp` for a Bayer sink format. -/
theorem isp_select_bayer (K : regs_h) (u : uninit_locals) (dev : rkisp1_device)
    (hfmt : dev.isp_sdev.in_fmt.fmt_type = FMT_BAYER) :
    isp_select K u dev =
      (isp_input_sel_bayer K (bpp0 dev.isp_sdev.in_fmt)).map (fun sel =>
        { isp_ctrl :=
            if dev.isp_sdev.out_fmt.fmt_type = FMT_BAYER then
              if dev.sensor.ep.bus_type = V4L2_MBUS_BT656 then
                K.CIF_ISP_CTRL_ISP_MODE_RAW_PICT_ITU656
              else K.CIF_ISP_CTRL_ISP_MODE_RAW_PICT
            else
              if dev.sensor.ep.bus_type = V4L2_MBUS_BT656 then
                K.CIF_ISP_CTRL_ISP_MODE_BAYER_ITU656
              else K.CIF_ISP_CTRL_ISP_MODE_BAYER_ITU601,
          isp_input_sel := sel,
          isp_bayer_pat := isp_bayer_pat_of K dev.isp_sdev.in_fmt.bayer_pat,
          yuv_seq := 0, irq_mask := 0, acq_mult := 1 }) := by
  unfold isp_select
  simp only [hfmt, if_true, get_active_sensor_info]
  cases isp_input_sel_bayer K (bpp0 dev.isp_sdev.in_fmt) <;> rfl

/-- With a Bayer sink format and an input selection `sel` for `bpp[0]`,
`rkisp1_config_isp` returns 0 and writes `sel` into `CIF_ISP_ACQ_PROP`. -/
theorem config_isp_bayer_sel (K : regs_h) (u : uninit_locals) (dev : rkisp1_device) (sel : Nat)
    (hfmt : dev.isp_sdev.in_fmt.fmt_type = FMT_BAYER)
    (hsel : isp_input_sel_bayer K (bpp0 dev.isp_sdev.in_fmt) = some sel) :
    (rkisp1_config_isp K u dev).ret = 0 ∧
    writes_to .CIF_ISP_ACQ_PROP (rkisp1_config_isp K u dev).hw.log =
      writes_to .CIF_ISP_ACQ_PROP dev.hw.log ++
        [isp_signal K dev.sensor ||| sel |||
          isp_bayer_pat_of K dev.isp_sdev.in_fmt.bayer_pat |||
          K.CIF_ISP_ACQ_PROP_FIELD_SEL_ALL] := by
  have hs := isp_select_bayer K u dev hfmt
  rw [hsel, Option.map_some'] at hs
  obtain ⟨h1, -, h3⟩ := config_isp_ok K u dev _ hs
  refine ⟨h1, ?_⟩
  rw [writes_to_of_reg_writes _ _ _ _ h3]
  simp only [config_isp_head_writes, config_isp_tail_writes]
  split <;> simp

/-- C23.  For a Bayer sink format `rkisp1_config_isp` takes the input selection
from `bpp[0]`: with 8, 10 and 12 it returns 0 and the value it writes to
`CIF_ISP_ACQ_PROP` carries `IN_SEL_8B_MSB`, `IN_SEL_10B_MSB` and `IN_SEL_12B`;
with any other `bpp[0]` it returns `-EINVAL`, and all it has done is the clock
write to `CIF_ICCL` and, for a source format that is not Bayer, the write to
`CIF_ISP_DEMOSAIC`: none of `CIF_ISP_CTRL`, `CIF_ISP_ACQ_PROP`, the acquisition
and output window registers or `CIF_ISP_IMSC` is written, and no collaborator
is called. -/
theorem config_isp_bayer_bpp (K : regs_h) (u : uninit_locals) (dev : rkisp1_device)
    (hfmt : dev.isp_sdev.in_fmt.fmt_type = FMT_BAYER) :
    (bpp0 dev.isp_sdev.in_fmt = 8 →
      (rkisp1_config_isp K u dev).ret = 0 ∧
      writes_to .CIF_ISP_ACQ_PROP (rkisp1_config_isp K u dev).hw.log =
        writes_to .CIF_ISP_ACQ_PROP dev.hw.log ++
          [isp_signal K dev.sensor ||| K.CIF_ISP_ACQ_PROP_IN_SEL_8B_MSB |||
            isp_bayer_pat_of K dev.isp_sdev.in_fmt.bayer_pat |||
            K.CIF_ISP_ACQ_PROP_FIELD_SEL_ALL]) ∧
    (bpp0 dev.isp_sdev.in_fmt = 10 →
      (rkisp1_config_isp K u dev).ret = 0 ∧
      writes_to .CIF_ISP_ACQ_PROP (rkisp1_config_isp K u dev).hw.log =
        writes_to .CIF_ISP_ACQ_PROP dev.hw.log ++
          [isp_signal K dev.sensor ||| K.CIF_ISP_ACQ_PROP_IN_SEL_10B_MSB |||
            isp_bayer_pat_of K dev.isp_sdev.in_fmt.bayer_pat |||
            K.CIF_ISP_ACQ_PROP_FIELD_SEL_ALL]) ∧
    (bpp0 dev.isp_sdev.in_fmt = 12 →
      (rkisp1_config_isp K u dev).ret = 0 ∧
      writes_to .CIF_ISP_ACQ_PROP (rkisp1_config_isp K u dev).hw.log =
        writes_to .CIF_ISP_ACQ_PROP dev.hw.log ++
          [isp_signal K dev.sensor ||| K.CIF_ISP_ACQ_PROP_IN_SEL_12B |||
            isp_bayer_pat_of K dev.isp_sdev.in_fmt.bayer_pat |||
            K.CIF_ISP_ACQ_PROP_FIELD_SEL_ALL]) ∧
    (bpp0 dev.isp_sdev.in_fmt ≠ 8 → bpp0 dev.isp_sdev.in_fmt ≠ 10 →
      bpp0 dev.isp_sdev.in_fmt ≠ 12 →
      (rkisp1_config_isp K u dev).ret = -EINVAL ∧
      (rkisp1_config_isp K u dev).hw.log =
        dev.hw.log ++
          Event.writel (K.CIF_ICCL_ISP_CLK ||| readl dev.hw .CIF_ICCL) .CIF_ICCL ::
            (if dev.isp_sdev.out_fmt.fmt_type ≠ FMT_BAYER then
              [Event.writel (K.CIF_ISP_DEMOSAIC_TH 0xc) .CIF_ISP_DEMOSAIC]
            else []) ∧
      (∀ reg ∈ [Reg.CIF_ISP_CTRL, .CIF_ISP_ACQ_PROP, .CIF_ISP_ACQ_H_OFFS, .CIF_ISP_ACQ_V_OFFS,
          .CIF_ISP_ACQ_H_SIZE, .CIF_ISP_ACQ_V_SIZE, .CIF_ISP_OUT_H_OFFS, .CIF_ISP_OUT_V_OFFS,
          .CIF_ISP_OUT_H_SIZE, .CIF_ISP_OUT_V_SIZE, .CIF_ISP_IMSC],
        writes_to reg (rkisp1_config_isp K u dev).hw.log = writes_to reg dev.hw.log) ∧
      (∀ e ∈ (rkisp1_config_isp K u dev).hw.log,
        e ∈ dev.hw.log ∨ ∃ v r, e = Event.writel v r)) := by
  refine ⟨fun h => ?_, fun h => ?_, fun h => ?_, fun h8 h10 h12 => ?_⟩
  · exact config_isp_bayer_sel K u dev _ hfmt (by simp [isp_input_sel_bayer, h])
  · exact config_isp_bayer_sel K u dev _ hfmt (by simp [isp_input_sel_bayer, h])
  · exact config_isp_bayer_sel K u dev _ hfmt (by simp [isp_input_sel_bayer, h])
  · have hs := isp_select_bayer K u dev hfmt
    have hn : isp_input_sel_bayer K (bpp0 dev.isp_sdev.in_fmt) = none := by
      simp [isp_input_sel_bayer, h8, h10, h12]
    rw [hn, Option.map_none'] at hs
    obtain ⟨h1, h2⟩ := config_isp_fail K u dev hs
    have hlog : (rkisp1_config_isp K u dev).hw.log =
        dev.hw.log ++
          Event.writel (K.CIF_ICCL_ISP_CLK ||| readl dev.hw .CIF_ICCL) .CIF_ICCL ::
            (if dev.isp_sdev.out_fmt.fmt_type ≠ FMT_BAYER then
              [Event.writel (K.CIF_ISP_DEMOSAIC_TH 0xc) .CIF_ISP_DEMOSAIC]
            else []) := by
      rw [h2]
      simp only [config_isp_head_writes, hfmt, true_and]
      split <;> simp
    refine ⟨h1, hlog, ?_, ?_⟩
    · intro reg hreg
      have e1 : (rkisp1_config_isp K u dev).hw.log =
          (if dev.isp_sdev.out_fmt.fmt_type ≠ FMT_BAYER then
            writel (K.CIF_ISP_DEMOSAIC_TH 0xc) .CIF_ISP_DEMOSAIC
              (writel (K.CIF_ICCL_ISP_CLK ||| readl dev.hw .CIF_ICCL) .CIF_ICCL dev.hw)
          else writel (K.CIF_ICCL_ISP_CLK ||| readl dev.hw .CIF_ICCL) .CIF_ICCL dev.hw).log := by
        rw [hlog]
        split <;> simp [writel]
      rw [e1, writes_to_ite]
      simp only [List.mem_cons, List.mem_singleton, List.not_mem_nil, or_false] at hreg
      rcases hreg with h | h | h | h | h | h | h | h | h | h | h <;> subst h <;> simp
    · intro e he
      rw [hlog] at he
      simp only [List.mem_append, List.mem_cons] at he
      rcases he with he | he | he
      · exact Or.inl he
      · exact Or.inr ⟨_, _, he⟩
      · right
        split at he
        · simp only [List.mem_singleton] at he
          exact ⟨_, _, he⟩
        · simp at he

theorem config_isp_bayer_bpp_witness :
    ((dev_fresh (sensor_parallel 8)).isp_sdev.in_fmt.fmt_type = FMT_BAYER ∧
      bpp0 (dev_fresh (sensor_parallel 8)).isp_sdev.in_fmt = 10) ∧
    ((rkisp1_config_isp regs_h_example uninit_zero (dev_fresh (sensor_parallel 8))).ret = 0 ∧
      writes_to .CIF_ISP_ACQ_PROP
        (rkisp1_config_isp regs_h_example uninit_zero (dev_fresh (sensor_parallel 8))).hw.log =
        [8216]) ∧
    (rkisp1_config_isp regs_h_example uninit_zero
      { dev_fresh (sensor_parallel 8) with
        isp_sdev := { isp_sd_default with
          in_fmt := { fmt_type := FMT_BAYER, bpp := [14] } } }).ret = -22 :=
  ⟨by decide,
   (config_isp_bayer_bpp regs_h_example uninit_zero (dev_fresh (sensor_parallel 8))
      (by decide)).2.1 (by decide),
   ((config_isp_bayer_bpp regs_h_example uninit_zero
      { dev_fresh (sensor_parallel 8) with
        isp_sdev := { isp_sd_default with
          in_fmt := { fmt_type := FMT_BAYER, bpp := [14] } } }
      (by decide)).2.2.2 (by decide) (by decide) (by decide)).1⟩

/-- A successful `rkisp1_config_cif` on a CSI2 bus: the register writes of
`rkisp1_config_mipi`, the path selection, `rkisp1_config_isp` and
`rkisp1_config_ism`, in this order; `rkisp1_config_ism` finds in `CIF_ISP_CTRL`
the mode `rkisp1_config_isp` wrote. -/
theorem config_cif_csi2_ok (K : regs_h) (u : uninit_locals) (dev : rkisp1_device)
    (s : isp_selection)
    (hbus : dev.sensor.ep.bus_type = V4L2_MBUS_CSI2)
    (hdt : mipi_data_type K u.data_type dev.isp_sdev.in_fmt ≠ 0)
    (hs : isp_select K u dev = some s) :
    (rkisp1_config_cif K u dev).ret = 0 ∧
    reg_writes (rkisp1_config_cif K u dev).dev.hw.log =
      reg_writes dev.hw.log ++
        (config_mipi_head_writes K dev ++
          config_mipi_tail_writes K (mipi_data_type K u.data_type dev.isp_sdev.in_fmt) ++
          [(readl dev.hw .CIF_VI_DPCL ||| K.CIF_VI_DPCL_IF_SEL_MIPI, .CIF_VI_DPCL)] ++
          config_isp_head_writes K { dev with hw := (rkisp1_config_path K u dev).hw } ++
          config_isp_tail_writes K dev s ++
          config_ism_writes K { dev with hw := hw_of (fun _ => s.isp_ctrl) }) := by
  obtain ⟨m1, -, m3⟩ := config_mipi_ok K u dev hdt
  obtain ⟨p1, p2⟩ := config_path_csi2 K u dev hbus
  have hs1 : isp_select K u { dev with hw := (rkisp1_config_path K u dev).hw } = some s := hs
  obtain ⟨i1, i2, i3⟩ := config_isp_ok K u _ s hs1
  have hp : ¬ (rkisp1_config_path K u dev).ret < 0 := by
    rw [p1, m1]
    decide
  have hi : ¬ (rkisp1_config_isp K u { dev with hw := (rkisp1_config_path K u dev).hw }).ret < 0
      := by
    rw [i1]
    decide
  unfold rkisp1_config_cif
  simp only [if_neg hp, if_neg hi]
  refine ⟨trivial, ?_⟩
  rw [config_ism_reg_writes]
  simp only [i3]
  rw [p2, reg_writes_writel, m3]
  rw [p2] at i2
  simp only [config_ism_writes, config_isp_tail_writes, readl, hw_of] at i2 ⊢
  simp [i2]

theorem set_fmt_rggb10_720p (cfg : Nat → v4l2_subdev_pad_config) :
    run_ops isp_sd_default [PadOp.set_fmt cfg
      (fmt_request RKISP1_ISP_PAD_SINK 1280 720 MEDIA_BUS_FMT_SRGGB10_1X10)] =
      some isp_sd_rggb10_720p := rfl

/-- C22.  On a device in the default pad state with a sensor on a CSI2 bus with
2 data lanes, for every register content: the active `set_fmt` on the sink pad
with `MEDIA_BUS_FMT_SRGGB10_1X10` at 1280x720 succeeds, and `rkisp1_config_cif`
on the resulting state returns 0 and writes `ISP_MODE_BAYER_ITU601` to
`CIF_ISP_CTRL` (and then, in `rkisp1_config_ism`, the same with `ISP_CFG_UPD`),
`IN_SEL_10B_MSB | BAYER_PAT_RGGB | FIELD_SEL_ALL` to `CIF_ISP_ACQ_PROP`,
0, 0, 1280 and 720 to the acquisition offset and size registers, a value with
`CIF_MIPI_CTRL_NUM_LANES(1)` to `CIF_MIPI_CTRL`, and
`CIF_MIPI_DATA_SEL_DT(CIF_CSI2_DT_RAW10) | CIF_MIPI_DATA_SEL_VC(0)` to
`CIF_MIPI_IMG_DATA_SEL`.  The data type constant `CIF_CSI2_DT_RAW10` is not
0. -/
theorem config_cif_rggb10_csi2 (K : regs_h) (u : uninit_locals) (dev : rkisp1_device)
    (cfg : Nat → v4l2_subdev_pad_config)
    (hraw : K.CIF_CSI2_DT_RAW10 ≠ 0)
    (hbus : dev.sensor.ep.bus_type = V4L2_MBUS_CSI2)
    (hlanes : dev.sensor.ep.bus.mipi_csi2.num_data_lanes = 2)
    (hdef : dev.isp_sdev = isp_sd_default) :
    ∃ s, run_ops dev.isp_sdev [PadOp.set_fmt cfg
        (fmt_request RKISP1_ISP_PAD_SINK 1280 720 MEDIA_BUS_FMT_SRGGB10_1X10)] = some s ∧
      (rkisp1_config_cif K u { dev with isp_sdev := s }).ret = 0 ∧
      writes_to .CIF_ISP_CTRL (rkisp1_config_cif K u { dev with isp_sdev := s }).dev.hw.log =
        writes_to .CIF_ISP_CTRL dev.hw.log ++
          [K.CIF_ISP_CTRL_ISP_MODE_BAYER_ITU601,
            K.CIF_ISP_CTRL_ISP_MODE_BAYER_ITU601 ||| K.CIF_ISP_CTRL_ISP_CFG_UPD] ∧
      writes_to .CIF_ISP_ACQ_PROP (rkisp1_config_cif K u { dev with isp_sdev := s }).dev.hw.log =
        writes_to .CIF_ISP_ACQ_PROP dev.hw.log ++
          [K.CIF_ISP_ACQ_PROP_IN_SEL_10B_MSB ||| K.CIF_ISP_ACQ_PROP_BAYER_PAT_RGGB |||
            K.CIF_ISP_ACQ_PROP_FIELD_SEL_ALL] ∧
      writes_to .CIF_ISP_ACQ_H_OFFS (rkisp1_config_cif K u { dev with isp_sdev := s }).dev.hw.log =
        writes_to .CIF_ISP_ACQ_H_OFFS dev.hw.log ++ [0] ∧
      writes_to .CIF_ISP_ACQ_V_OFFS (rkisp1_config_cif K u { dev with isp_sdev := s }).dev.hw.log =
        writes_to .CIF_ISP_ACQ_V_OFFS dev.hw.log ++ [0] ∧
      writes_to .CIF_ISP_ACQ_H_SIZE (rkisp1_config_cif K u { dev with isp_sdev := s }).dev.hw.log =
        writes_to .CIF_ISP_ACQ_H_SIZE dev.hw.log ++ [1280] ∧
      writes_to .CIF_ISP_ACQ_V_SIZE (rkisp1_config_cif K u { dev with isp_sdev := s }).dev.hw.log =
        writes_to .CIF_ISP_ACQ_V_SIZE dev.hw.log ++ [720] ∧
      writes_to .CIF_MIPI_CTRL (rkisp1_config_cif K u { dev with isp_sdev := s }).dev.hw.log =
        writes_to .CIF_MIPI_CTRL dev.hw.log ++
          [K.CIF_MIPI_CTRL_NUM_LANES 1 ||| K.CIF_MIPI_CTRL_SHUTDOWNLANES 0xf |||
            K.CIF_MIPI_CTRL_ERR_SOT_SYNC_HS_SKIP ||| K.CIF_MIPI_CTRL_CLOCKLANE_ENA] ∧
      writes_to .CIF_MIPI_IMG_DATA_SEL
          (rkisp1_config_cif K u { dev with isp_sdev := s }).dev.hw.log =
        writes_to .CIF_MIPI_IMG_DATA_SEL dev.hw.log ++
          [K.CIF_MIPI_DATA_SEL_DT K.CIF_CSI2_DT_RAW10 ||| K.CIF_MIPI_DATA_SEL_VC 0] := by
  refine ⟨isp_sd_rggb10_720p, by rw [hdef]; exact set_fmt_rggb10_720p cfg, ?_⟩
  have hdt : mipi_data_type K u.data_type isp_sd_rggb10_720p.in_fmt = K.CIF_CSI2_DT_RAW10 := rfl
  have hnb : ¬ dev.sensor.ep.bus_type = V4L2_MBUS_BT656 := by
    rw [hbus]
    decide
  have e1 : isp_input_sel_bayer K (bpp0 isp_sd_rggb10_720p.in_fmt) =
      some K.CIF_ISP_ACQ_PROP_IN_SEL_10B_MSB := rfl
  have e2 : isp_bayer_pat_of K isp_sd_rggb10_720p.in_fmt.bayer_pat =
      K.CIF_ISP_ACQ_PROP_BAYER_PAT_RGGB := rfl
  have e3 : ¬ isp_sd_rggb10_720p.out_fmt.fmt_type = FMT_BAYER := by decide
  have e4 : isp_sd_rggb10_720p.in_fmt.fmt_type = FMT_BAYER := rfl
  have c1 : isp_sd_rggb10_720p.in_crop = ⟨0, 0, 1280, 720⟩ := rfl
  have hs : isp_select K u { dev with isp_sdev := isp_sd_rggb10_720p } =
      some { isp_ctrl := K.CIF_ISP_CTRL_ISP_MODE_BAYER_ITU601,
             isp_input_sel := K.CIF_ISP_ACQ_PROP_IN_SEL_10B_MSB,
             isp_bayer_pat := K.CIF_ISP_ACQ_PROP_BAYER_PAT_RGGB,
             yuv_seq := 0, irq_mask := 0, acq_mult := 1 } := by
    rw [isp_select_bayer K u _ e4]
    dsimp only
    rw [e1, e2, Option.map_some']
    simp only [if_neg e3, if_neg hnb]
  have hsig : isp_signal K dev.sensor = 0 := by
    unfold isp_signal
    rw [hbus]
    rfl
  obtain ⟨r, w⟩ := config_cif_csi2_ok K u { dev with isp_sdev := isp_sd_rggb10_720p } _ hbus
    (by rw [← hdt] at hraw; exact hraw) hs
  dsimp only at w
  have hw := fun reg => writes_to_of_reg_writes reg _ _ _ w
  refine ⟨r, ?_, ?_, ?_, ?_, ?_, ?_, ?_, ?_⟩ <;> rw [hw] <;>
    simp only [config_mipi_head_writes, config_mipi_tail_writes, config_isp_head_writes,
      config_isp_tail_writes, config_ism_writes, hdt, hsig, hlanes, c1, e3, e4, readl, hw_of,
      ne_eq, not_false_eq_true, and_self, if_true] <;>
    simp [toU32, Nat.lor_comm]

theorem config_cif_rggb10_csi2_witness :
    (regs_h_example.CIF_CSI2_DT_RAW10 ≠ 0 ∧
      (dev_fresh (sensor_csi2 2)).sensor.ep.bus_type = V4L2_MBUS_CSI2 ∧
      (dev_fresh (sensor_csi2 2)).sensor.ep.bus.mipi_csi2.num_data_lanes = 2 ∧
      (dev_fresh (sensor_csi2 2)).isp_sdev = isp_sd_default) ∧
    ∃ s, run_ops (dev_fresh (sensor_csi2 2)).isp_sdev [PadOp.set_fmt cfg_zeroed
        (fmt_request RKISP1_ISP_PAD_SINK 1280 720 MEDIA_BUS_FMT_SRGGB10_1X10)] = some s ∧
      (rkisp1_config_cif regs_h_example uninit_zero
        { dev_fresh (sensor_csi2 2) with isp_sdev := s }).ret = 0 ∧
      writes_to .CIF_ISP_CTRL (rkisp1_config_cif regs_h_example uninit_zero
        { dev_fresh (sensor_csi2 2) with isp_sdev := s }).dev.hw.log = [4, 516] ∧
      writes_to .CIF_ISP_ACQ_PROP (rkisp1_config_cif regs_h_example uninit_zero
        { dev_fresh (sensor_csi2 2) with isp_sdev := s }).dev.hw.log = [8192] ∧
      writes_to .CIF_MIPI_IMG_DATA_SEL (rkisp1_config_cif regs_h_example uninit_zero
        { dev_fresh (sensor_csi2 2) with isp_sdev := s }).dev.hw.log = [43] := by
  obtain ⟨s, h1, h2, h3, h4, -, -, -, -, -, h10⟩ :=
    config_cif_rggb10_csi2 regs_h_example uninit_zero (dev_fresh (sensor_csi2 2)) cfg_zeroed
      (by decide) (by decide) (by decide) rfl
  exact ⟨⟨by decide, by decide, by decide, rfl⟩, s, h1, h2, h3, h4, h10⟩

/-! ## Unmapped data types and bus widths -/

/-- The MIPI configuration evaluated at a sink format of the JPEG family, which
is in neither catalog table and which the pad operations never commit, on a
CSI2 bus with 2 lanes, all registers 0.  With 0 on the stack for the
uninitialised `data_type`, `rkisp1_config_mipi`, `rkisp1_config_path` and
`rkisp1_config_cif` return `-EINVAL`, and after the check `rkisp1_config_path`
still writes `CIF_VI_DPCL`: the register writes are `CIF_ICCL`,
`CIF_MIPI_CTRL`, `CIF_VI_DPCL`.  With 1 on the stack the check passes:
`rkisp1_config_mipi` and `rkisp1_config_cif` return 0 and
`CIF_MIPI_IMG_DATA_SEL` is written with the data type 1. -/
theorem config_mipi_unmapped_data_type :
    (rkisp1_config_mipi regs_h_example uninit_zero dev_jpeg_csi2).ret = -22 ∧
    (rkisp1_config_path regs_h_example uninit_zero dev_jpeg_csi2).ret = -22 ∧
    (rkisp1_config_cif regs_h_example uninit_zero dev_jpeg_csi2).ret = -22 ∧
    reg_writes (rkisp1_config_cif regs_h_example uninit_zero dev_jpeg_csi2).dev.hw.log =
      [(2048, .CIF_ICCL), (401152, .CIF_MIPI_CTRL), (256, .CIF_VI_DPCL)] ∧
    (rkisp1_config_mipi regs_h_example { uninit_zero with data_type := 1 }
      dev_jpeg_csi2).ret = 0 ∧
    (rkisp1_config_cif regs_h_example { uninit_zero with data_type := 1 }
      dev_jpeg_csi2).ret = 0 ∧
    writes_to .CIF_MIPI_IMG_DATA_SEL
      (rkisp1_config_cif regs_h_example { uninit_zero with data_type := 1 }
        dev_jpeg_csi2).dev.hw.log = [1] := by
  decide

/-- C25 (evaluation at the failing input): the sink format
`MEDIA_BUS_FMT_YUYV8_1X16` (YUV) on a parallel bus of width 16, default
800x600 windows, for every value of the register constants and of the
uninitialised locals.  `rkisp1_config_isp` returns 0 and programs the
acquisition registers: `CIF_ISP_ACQ_PROP` gets the stack value of
`isp_input_sel` ORed with the sequence and field bits, and the acquisition size
registers get 1600 and 600. -/
theorem config_isp_invalid_bus_width (K : regs_h) (u : uninit_locals) :
    (dev_yuv_parallel 16).isp_sdev.in_fmt.fmt_type = FMT_YUV ∧
    (dev_yuv_parallel 16).sensor.ep.bus_type = V4L2_MBUS_PARALLEL ∧
    (dev_yuv_parallel 16).sensor.ep.bus.parallel.bus_width = 16 ∧
    (rkisp1_config_isp K u (dev_yuv_parallel 16)).ret = 0 ∧
    writes_to .CIF_ISP_ACQ_PROP (rkisp1_config_isp K u (dev_yuv_parallel 16)).hw.log =
      [0 ||| K.CIF_ISP_ACQ_PROP_YCBYCR ||| u.isp_input_sel ||| 0 |||
        K.CIF_ISP_ACQ_PROP_FIELD_SEL_ALL] ∧
    writes_to .CIF_ISP_ACQ_H_SIZE (rkisp1_config_isp K u (dev_yuv_parallel 16)).hw.log =
      [1600] ∧
    writes_to .CIF_ISP_ACQ_V_SIZE (rkisp1_config_isp K u (dev_yuv_parallel 16)).hw.log =
      [600] := by
  have hs : isp_select K u (dev_yuv_parallel 16) =
      some { isp_ctrl := K.CIF_ISP_CTRL_ISP_MODE_ITU601, isp_input_sel := u.isp_input_sel,
             isp_bayer_pat := 0, yuv_seq := K.CIF_ISP_ACQ_PROP_YCBYCR,
             irq_mask := 0 ||| K.CIF_ISP_DATA_LOSS, acq_mult := 2 } := rfl
  obtain ⟨r, -, w⟩ := config_isp_ok K u _ _ hs
  have hw := fun reg => writes_to_of_reg_writes reg _ _ _ w
  have hsig : isp_signal K (dev_yuv_parallel 16).sensor = 0 := rfl
  have hc : (dev_yuv_parallel 16).isp_sdev.in_crop = ⟨0, 0, 800, 600⟩ := rfl
  have hl : (dev_yuv_parallel 16).hw.log = [] := rfl
  have hf : ¬ (dev_yuv_parallel 16).isp_sdev.in_fmt.fmt_type = FMT_BAYER := by decide
  refine ⟨rfl, rfl, rfl, r, ?_, ?_, ?_⟩ <;> rw [hw] <;>
    simp only [config_isp_head_writes, config_isp_tail_writes, hsig, hc, hl, hf, false_and,
      if_false] <;>
    simp [writes_to, reg_writes]

/-! ## Acquisition window and signal bits -/

/-- The first block of `rkisp1_config_isp` sets the horizontal multiplier to 2
in the YUV branch (line 188) and leaves it at its initial 1 otherwise. -/
theorem isp_select_acq_mult (K : regs_h) (u : uninit_locals) (dev : rkisp1_device)
    (s : isp_selection) (hs : isp_select K u dev = some s) :
    s.acq_mult = if dev.isp_sdev.in_fmt.fmt_type = FMT_YUV then 2 else 1 := by
  unfold isp_select at hs
  dsimp only at hs
  by_cases h1 : dev.isp_sdev.in_fmt.fmt_type = FMT_BAYER
  · have h2 : ¬ dev.isp_sdev.in_fmt.fmt_type = FMT_YUV := by
      rw [h1]
      decide
    rw [if_pos h1] at hs
    rw [if_neg h2]
    cases h3 : isp_input_sel_bayer K (bpp0 dev.isp_sdev.in_fmt) with
    | none => simp [h3] at hs
    | some v =>
      simp only [h3, Option.some.injEq] at hs
      rw [← hs]
  · by_cases h2 : dev.isp_sdev.in_fmt.fmt_type = FMT_YUV
    · rw [if_neg h1, if_pos h2, Option.some.injEq] at hs
      rw [if_pos h2, ← hs]
    · rw [if_neg h1, if_neg h2, Option.some.injEq] at hs
      rw [if_neg h2, ← hs]

/-- A return value of 0 from `rkisp1_config_isp` means its first block settled
a selection. -/
theorem config_isp_ret_zero (K : regs_h) (u : uninit_locals) (dev : rkisp1_device)
    (hret : (rkisp1_config_isp K u dev).ret = 0) :
    ∃ s, isp_select K u dev = some s := by
  cases h : isp_select K u dev with
  | some s => exact ⟨s, rfl⟩
  | none =>
    have h2 := (config_isp_fail K u dev h).1
    rw [hret] at h2
    exact absurd h2 (by decide)

/-- C31, as amended.  For every configuration on which `rkisp1_config_isp`
returns 0, the call writes each of the four acquisition registers once, with
(m * in_crop.left, in_crop.top, m * in_crop.width, in_crop.height) modulo 2^32,
where m is 2 when the sink format is of type YUV, on every bus type, and 1
otherwise. -/
theorem config_isp_acquisition (K : regs_h) (u : uninit_locals) (dev : rkisp1_device)
    (hret : (rkisp1_config_isp K u dev).ret = 0) :
    writes_to .CIF_ISP_ACQ_H_OFFS (rkisp1_config_isp K u dev).hw.log =
      writes_to .CIF_ISP_ACQ_H_OFFS dev.hw.log ++
        [toU32 ((if dev.isp_sdev.in_fmt.fmt_type = FMT_YUV then 2 else 1 : Nat) *
          dev.isp_sdev.in_crop.left)] ∧
    writes_to .CIF_ISP_ACQ_V_OFFS (rkisp1_config_isp K u dev).hw.log =
      writes_to .CIF_ISP_ACQ_V_OFFS dev.hw.log ++ [toU32 dev.isp_sdev.in_crop.top] ∧
    writes_to .CIF_ISP_ACQ_H_SIZE (rkisp1_config_isp K u dev).hw.log =
      writes_to .CIF_ISP_ACQ_H_SIZE dev.hw.log ++
        [((if dev.isp_sdev.in_fmt.fmt_type = FMT_YUV then 2 else 1) *
          dev.isp_sdev.in_crop.width) % 4294967296] ∧
    writes_to .CIF_ISP_ACQ_V_SIZE (rkisp1_config_isp K u dev).hw.log =
      writes_to .CIF_ISP_ACQ_V_SIZE dev.hw.log ++
        [dev.isp_sdev.in_crop.height % 4294967296] := by
  obtain ⟨s, hs⟩ := config_isp_ret_zero K u dev hret
  have hm := isp_select_acq_mult K u dev s hs
  obtain ⟨-, -, w⟩ := config_isp_ok K u dev s hs
  have hw := fun reg => writes_to_of_reg_writes reg _ _ _ w
  refine ⟨?_, ?_, ?_, ?_⟩ <;> rw [hw] <;>
    simp only [config_isp_head_writes, config_isp_tail_writes, ← hm] <;>
    split <;> simp

/-- C31, witness: the YUV sink format on an 8-bit parallel bus, default 800x600
crop; the acquisition registers get (0, 0, 1600, 600). -/
theorem config_isp_acquisition_witness :
    (rkisp1_config_isp regs_h_example uninit_zero (dev_yuv_parallel 8)).ret = 0 ∧
    writes_to .CIF_ISP_ACQ_H_OFFS
      (rkisp1_config_isp regs_h_example uninit_zero (dev_yuv_parallel 8)).hw.log = [0] ∧
    writes_to .CIF_ISP_ACQ_V_OFFS
      (rkisp1_config_isp regs_h_example uninit_zero (dev_yuv_parallel 8)).hw.log = [0] ∧
    writes_to .CIF_ISP_ACQ_H_SIZE
      (rkisp1_config_isp regs_h_example uninit_zero (dev_yuv_parallel 8)).hw.log = [1600] ∧
    writes_to .CIF_ISP_ACQ_V_SIZE
      (rkisp1_config_isp regs_h_example uninit_zero (dev_yuv_parallel 8)).hw.log = [600] :=
  ⟨by decide,
   config_isp_acquisition regs_h_example uninit_zero (dev_yuv_parallel 8) (by decide)⟩

/-- C31, counterexample.  The sink format is YUV and the bus is parallel, not
CSI2; `rkisp1_config_isp` returns 0 and the horizontal acquisition size written
is 1600, twice the crop width 800. -/
theorem config_isp_doubles_on_parallel :
    (dev_yuv_parallel 8).isp_sdev.in_fmt.fmt_type = FMT_YUV ∧
    (dev_yuv_parallel 8).sensor.ep.bus_type = V4L2_MBUS_PARALLEL ∧
    (dev_yuv_parallel 8).sensor.ep.bus_type ≠ V4L2_MBUS_CSI2 ∧
    (dev_yuv_parallel 8).isp_sdev.in_crop.width = 800 ∧
    (rkisp1_config_isp regs_h_example uninit_zero (dev_yuv_parallel 8)).ret = 0 ∧
    writes_to .CIF_ISP_ACQ_H_SIZE
      (rkisp1_config_isp regs_h_example uninit_zero (dev_yuv_parallel 8)).hw.log = [1600] := by
  decide

/-- C32, as amended.  When `rkisp1_config_isp` returns 0 it writes
`CIF_ISP_ACQ_PROP` once, with the value `signal | yuv_seq | isp_input_sel |
isp_bayer_pat | FIELD_SEL_ALL`, and `signal` is: on a parallel bus, the OR of
`POS_EDGE` when the flags have `V4L2_MBUS_PCLK_SAMPLE_RISING`, `VSYNC_LOW` when
they have `V4L2_MBUS_VSYNC_ACTIVE_LOW` and `HSYNC_LOW` when they have
`V4L2_MBUS_HSYNC_ACTIVE_LOW`, each absent otherwise; on a BT.656 bus,
`POS_EDGE` when the flags have `V4L2_MBUS_PCLK_SAMPLE_RISING` and nothing else,
whatever the sync flags; on a CSI2 bus, 0. -/
theorem config_isp_signal_bits (K : regs_h) (u : uninit_locals) (dev : rkisp1_device) :
    ((rkisp1_config_isp K u dev).ret = 0 →
      ∃ s, isp_select K u dev = some s ∧
        writes_to .CIF_ISP_ACQ_PROP (rkisp1_config_isp K u dev).hw.log =
          writes_to .CIF_ISP_ACQ_PROP dev.hw.log ++
            [isp_signal K dev.sensor ||| s.yuv_seq ||| s.isp_input_sel ||| s.isp_bayer_pat |||
              K.CIF_ISP_ACQ_PROP_FIELD_SEL_ALL]) ∧
    (dev.sensor.ep.bus_type = V4L2_MBUS_PARALLEL →
      isp_signal K dev.sensor =
        (if c_and dev.sensor.ep.bus.parallel.flags V4L2_MBUS_PCLK_SAMPLE_RISING then
          K.CIF_ISP_ACQ_PROP_POS_EDGE else 0) |||
        (if c_and dev.sensor.ep.bus.parallel.flags V4L2_MBUS_VSYNC_ACTIVE_LOW then
          K.CIF_ISP_ACQ_PROP_VSYNC_LOW else 0) |||
        (if c_and dev.sensor.ep.bus.parallel.flags V4L2_MBUS_HSYNC_ACTIVE_LOW then
          K.CIF_ISP_ACQ_PROP_HSYNC_LOW else 0)) ∧
    (dev.sensor.ep.bus_type = V4L2_MBUS_BT656 →
      isp_signal K dev.sensor =
        if c_and dev.sensor.ep.bus.parallel.flags V4L2_MBUS_PCLK_SAMPLE_RISING then
          K.CIF_ISP_ACQ_PROP_POS_EDGE else 0) ∧
    (dev.sensor.ep.bus_type = V4L2_MBUS_CSI2 → isp_signal K dev.sensor = 0) := by
  refine ⟨?_, ?_, ?_, ?_⟩
  · intro hret
    obtain ⟨s, hs⟩ := config_isp_ret_zero K u dev hret
    obtain ⟨-, -, w⟩ := config_isp_ok K u dev s hs
    refine ⟨s, hs, ?_⟩
    rw [writes_to_of_reg_writes _ _ _ _ w]
    simp only [config_isp_head_writes, config_isp_tail_writes]
    split <;> simp
  · intro hb
    unfold isp_signal
    simp only [hb, or_true, if_true]
    split <;> split <;> split <;> simp
  · intro hb
    have h1 : ¬ V4L2_MBUS_BT656 = V4L2_MBUS_PARALLEL := by decide
    unfold isp_signal
    simp only [hb, true_or, if_true, h1, if_false]
  · intro hb
    have h1 : ¬ (V4L2_MBUS_CSI2 = V4L2_MBUS_BT656 ∨ V4L2_MBUS_CSI2 = V4L2_MBUS_PARALLEL) := by
      decide
    unfold isp_signal
    simp only [hb, h1, if_false]

/-- C32, witness: the default Bayer pad state with a sensor whose flags are
`PCLK_SAMPLE_RISING | VSYNC_ACTIVE_LOW`.  On a parallel bus `signal` is
`POS_EDGE | VSYNC_LOW` (5), on a BT.656 bus it is `POS_EDGE` (1), on CSI2 0. -/
theorem config_isp_signal_bits_witness :
    (rkisp1_config_isp regs_h_example uninit_zero
      (dev_fresh (sensor_parallel_flags 96 8))).ret = 0 ∧
    (sensor_parallel_flags 96 8).ep.bus_type = V4L2_MBUS_PARALLEL ∧
    isp_signal regs_h_example (sensor_parallel_flags 96 8) = 5 ∧
    (sensor_bt656 96 8).ep.bus_type = V4L2_MBUS_BT656 ∧
    isp_signal regs_h_example (sensor_bt656 96 8) = 1 ∧
    (sensor_csi2 2).ep.bus_type = V4L2_MBUS_CSI2 ∧
    isp_signal regs_h_example (sensor_csi2 2) = 0 ∧
    (∃ s, isp_select regs_h_example uninit_zero (dev_fresh (sensor_parallel_flags 96 8)) =
        some s ∧
      writes_to .CIF_ISP_ACQ_PROP (rkisp1_config_isp regs_h_example uninit_zero
          (dev_fresh (sensor_parallel_flags 96 8))).hw.log =
        writes_to .CIF_ISP_ACQ_PROP (dev_fresh (sensor_parallel_flags 96 8)).hw.log ++
          [isp_signal regs_h_example (dev_fresh (sensor_parallel_flags 96 8)).sensor |||
            s.yuv_seq ||| s.isp_input_sel ||| s.isp_bayer_pat |||
            regs_h_example.CIF_ISP_ACQ_PROP_FIELD_SEL_ALL]) :=
  ⟨by decide, by decide,
   ((config_isp_signal_bits regs_h_example uninit_zero
      (dev_fresh (sensor_parallel_flags 96 8))).2.1 (by decide)).trans (by decide),
   by decide,
   ((config_isp_signal_bits regs_h_example uninit_zero
      (dev_fresh (sensor_bt656 96 8))).2.2.1 (by decide)).trans (by decide),
   by decide,
   (config_isp_signal_bits regs_h_example uninit_zero
      (dev_fresh (sensor_csi2 2))).2.2.2 (by decide),
   (config_isp_signal_bits regs_h_example uninit_zero
      (dev_fresh (sensor_parallel_flags 96 8))).1 (by decide)⟩

/-- C32, counterexample.  A BT.656 sensor with both `V4L2_MBUS_VSYNC_ACTIVE_LOW`
and `V4L2_MBUS_HSYNC_ACTIVE_LOW` in its flags: `rkisp1_config_isp` returns 0 and
the value it writes to `CIF_ISP_ACQ_PROP` has neither `VSYNC_LOW` nor
`HSYNC_LOW`. -/
theorem config_isp_bt656_ignores_sync_flags :
    (sensor_bt656 40 8).ep.bus_type = V4L2_MBUS_BT656 ∧
    c_and (sensor_bt656 40 8).ep.bus.parallel.flags V4L2_MBUS_VSYNC_ACTIVE_LOW = true ∧
    c_and (sensor_bt656 40 8).ep.bus.parallel.flags V4L2_MBUS_HSYNC_ACTIVE_LOW = true ∧
    (rkisp1_config_isp regs_h_example uninit_zero (dev_fresh (sensor_bt656 40 8))).ret = 0 ∧
    writes_to .CIF_ISP_ACQ_PROP
      (rkisp1_config_isp regs_h_example uninit_zero (dev_fresh (sensor_bt656 40 8))).hw.log =
      [8216] ∧
    8216 &&& regs_h_example.CIF_ISP_ACQ_PROP_VSYNC_LOW = 0 ∧
    8216 &&& regs_h_example.CIF_ISP_ACQ_PROP_HSYNC_LOW = 0 ∧
    isp_signal regs_h_example (sensor_bt656 40 8) = 0 := by
  decide

/-! ## Catalog membership of the committed format -/

/-- A catalog entry found by bus code is a member of the pad's table. -/
theorem find_fmt_mem (pad code : Nat) (c : rkisp1_fmt)
    (hpad : pad = RKISP1_ISP_PAD_SINK ∨ pad = RKISP1_ISP_PAD_SOURCE_PATH)
    (h : rkisp1_isp_sd_find_fmt pad code (-1) = some c) : c ∈ pad_catalog pad := by
  rw [find_fmt_by_code pad code hpad] at h
  exact List.mem_of_find?_eq_some h

/-- C33.  For the sink and the source-path pad, the bus code
`rkisp1_isp_sd_try_fmt` returns is the `mbus_code` of an entry of the pad's
catalog table, for every pad state and proposal; both fallback codes are in
their tables.  An active `rkisp1_isp_sd_set_fmt` (any `which` other than TRY)
therefore finds an entry in its second lookup, returns 0, and commits that
entry, a member of the pad's table whose `mbus_code` is the code returned to
the caller, as `in_fmt` on the sink pad and as `out_fmt` on the source path. -/
theorem set_fmt_commits_catalog_entry (isp_sd : rkisp1_isp_subdev)
    (cfg : Nat → v4l2_subdev_pad_config) (fmt : v4l2_subdev_format)
    (hpad : fmt.pad = RKISP1_ISP_PAD_SINK ∨ fmt.pad = RKISP1_ISP_PAD_SOURCE_PATH) :
    (rkisp1_isp_sd_try_fmt isp_sd fmt.pad fmt.format).2.code ∈
      (pad_catalog fmt.pad).map (fun e => e.mbus_code) ∧
    MEDIA_BUS_FMT_SRGGB10_1X10 ∈ rkisp1_isp_input_formats.map (fun e => e.mbus_code) ∧
    MEDIA_BUS_FMT_YUYV8_2X8 ∈ rkisp1_isp_output_formats.map (fun e => e.mbus_code) ∧
    (fmt.which ≠ V4L2_SUBDEV_FORMAT_TRY →
      ∃ c r,
        rkisp1_isp_sd_find_fmt fmt.pad (rkisp1_isp_sd_try_fmt isp_sd fmt.pad fmt.format).2.code
          (-1) = some c ∧
        rkisp1_isp_sd_set_fmt isp_sd cfg fmt = some r ∧
        r.ret = 0 ∧
        c ∈ pad_catalog fmt.pad ∧
        c.mbus_code = r.fmt.format.code ∧
        (fmt.pad = RKISP1_ISP_PAD_SINK → r.isp_sd.in_fmt = c) ∧
        (fmt.pad = RKISP1_ISP_PAD_SOURCE_PATH → r.isp_sd.out_fmt = c)) := by
  refine ⟨?_, by decide, by decide, ?_⟩
  · obtain ⟨c, hc, h1, -⟩ := try_fmt_lookup isp_sd fmt.pad fmt.format hpad
    exact List.mem_map.mpr ⟨c, find_fmt_mem _ _ c hpad hc, h1⟩
  · intro hact
    rcases hpad with hp | hp
    · obtain ⟨c, hc, h1, -, hset⟩ := set_fmt_sink_active isp_sd cfg fmt hp hact
      have hne : ¬ fmt.pad = RKISP1_ISP_PAD_SOURCE_PATH := by
        rw [hp]
        decide
      exact ⟨c, _, hc, hset, rfl, find_fmt_mem _ _ c (Or.inl hp) hc, h1, fun _ => rfl,
        fun h => absurd h hne⟩
    · obtain ⟨c, hc, h1, -, hset⟩ := set_fmt_source_active isp_sd cfg fmt hp hact
      have hne : ¬ fmt.pad = RKISP1_ISP_PAD_SINK := by
        rw [hp]
        decide
      exact ⟨c, _, hc, hset, rfl, find_fmt_mem _ _ c (Or.inr hp) hc, h1,
        fun h => absurd h hne, fun _ => rfl⟩

/-- C33, witness: an active request on the sink pad with the bus code 77, which
is in no table.  `rkisp1_isp_sd_try_fmt` falls back to
`MEDIA_BUS_FMT_SRGGB10_1X10` and `rkisp1_isp_sd_set_fmt` commits the entry of
that code. -/
theorem set_fmt_commits_catalog_entry_witness :
    (fmt_request RKISP1_ISP_PAD_SINK 5000 7 77).pad = RKISP1_ISP_PAD_SINK ∧
    (fmt_request RKISP1_ISP_PAD_SINK 5000 7 77).which ≠ V4L2_SUBDEV_FORMAT_TRY ∧
    (rkisp1_isp_sd_try_fmt isp_sd_default RKISP1_ISP_PAD_SINK
      (fmt_request RKISP1_ISP_PAD_SINK 5000 7 77).format).2.code = MEDIA_BUS_FMT_SRGGB10_1X10 ∧
    ∃ c r,
      rkisp1_isp_sd_find_fmt (fmt_request RKISP1_ISP_PAD_SINK 5000 7 77).pad
        (rkisp1_isp_sd_try_fmt isp_sd_default (fmt_request RKISP1_ISP_PAD_SINK 5000 7 77).pad
          (fmt_request RKISP1_ISP_PAD_SINK 5000 7 77).format).2.code (-1) = some c ∧
      rkisp1_isp_sd_set_fmt isp_sd_default cfg_zeroed
        (fmt_request RKISP1_ISP_PAD_SINK 5000 7 77) = some r ∧
      r.ret = 0 ∧
      c ∈ pad_catalog (fmt_request RKISP1_ISP_PAD_SINK 5000 7 77).pad ∧
      c.mbus_code = r.fmt.format.code ∧
      ((fmt_request RKISP1_ISP_PAD_SINK 5000 7 77).pad = RKISP1_ISP_PAD_SINK →
        r.isp_sd.in_fmt = c) ∧
      ((fmt_request RKISP1_ISP_PAD_SINK 5000 7 77).pad = RKISP1_ISP_PAD_SOURCE_PATH →
        r.isp_sd.out_fmt = c) :=
  ⟨by decide, by decide, by decide,
   (set_fmt_commits_catalog_entry isp_sd_default cfg_zeroed
     (fmt_request RKISP1_ISP_PAD_SINK 5000 7 77) (Or.inl (by decide))).2.2.2 (by decide)⟩

/-! ## Stream count after a start -/

/-- The hardware after a successful start: `rkisp1_isp_start` finds the count
`rkisp1_config_cif` has just set to 0 and runs its register sequence. -/
theorem s_stream_on_hw (K : regs_h) (u : uninit_locals) (polls : Nat)
    (dev : rkisp1_device) (on_ : Int) (hon : on_ ≠ 0)
    (hret : ¬ (rkisp1_isp_sd_s_stream K u polls dev on_).ret < 0) :
    (rkisp1_config_cif K u
      { dev with isp_sdev := { dev.isp_sdev with frm_sync_seq := 0 } }).ret = 0 ∧
    (rkisp1_isp_sd_s_stream K u polls dev on_).dev.hw =
      isp_start_hw K dev.sensor (rkisp1_config_cif K u
        { dev with isp_sdev := { dev.isp_sdev with frm_sync_seq := 0 } }).dev.hw := by
  unfold rkisp1_isp_sd_s_stream at hret ⊢
  rw [if_neg hon] at hret ⊢
  simp only [] at hret ⊢
  generalize hd : ({ dev with isp_sdev := { dev.isp_sdev with frm_sync_seq := 0 } } :
    rkisp1_device) = d0 at hret ⊢
  have hsen : d0.sensor = dev.sensor := by rw [← hd]
  by_cases hc : (rkisp1_config_cif K u d0).ret < 0
  · rw [if_pos hc] at hret
    exact absurd hc hret
  · rw [if_neg hc]
    obtain ⟨-, c2, -, -, -, c6⟩ := config_cif_frame K u d0
    obtain ⟨c7, c8⟩ := c6 hc
    refine ⟨c7, ?_⟩
    unfold rkisp1_isp_start
    have h0 : ¬ (rkisp1_config_cif K u d0).dev.cif_streamon_cnt > 0 := by
      rw [c8]
      decide
    simp only [if_neg h0, get_active_sensor_info, c2, hsen]

/-- The register sequence of `rkisp1_isp_start` leaves the three enable bits
set in `CIF_ISP_CTRL`. -/
theorem isp_start_hw_ctrl (K : regs_h) (sensor : rkisp1_sensor_info) (hw : Hw) :
    readl (isp_start_hw K sensor hw) .CIF_ISP_CTRL =
      (K.CIF_ISP_CTRL_ISP_CFG_UPD ||| K.CIF_ISP_CTRL_ISP_INFORM_ENABLE |||
        K.CIF_ISP_CTRL_ISP_ENABLE) ||| readl hw .CIF_ISP_CTRL := by
  unfold isp_start_hw
  simp only [readl_writel, if_true]
  split
  · rw [readl_writel, if_neg (by decide)]
  · rfl

/-- C34.  For every device state, whatever its stream count, a call of
`rkisp1_isp_sd_s_stream` with `on != 0` that returns 0 has run
`rkisp1_config_cif` to its end (it returned 0; `CIF_VI_DPCL` and
`CIF_ISP_IS_CTRL` were each written once), has `frm_sync_seq` at 0, has run the
register sequence of `rkisp1_isp_start` on the configured hardware, so that
`CIF_ISP_CTRL` holds `ISP_CFG_UPD | ISP_INFORM_ENABLE | ISP_ENABLE` ORed into
the configured value, and leaves the stream count at exactly 1. -/
theorem s_stream_on_leaves_one (K : regs_h) (u : uninit_locals) (polls : Nat)
    (dev : rkisp1_device) (on_ : Int) (hon : on_ ≠ 0)
    (hret : (rkisp1_isp_sd_s_stream K u polls dev on_).ret = 0) :
    (rkisp1_config_cif K u
      { dev with isp_sdev := { dev.isp_sdev with frm_sync_seq := 0 } }).ret = 0 ∧
    count_writes .CIF_VI_DPCL (rkisp1_isp_sd_s_stream K u polls dev on_).dev.hw.log =
      count_writes .CIF_VI_DPCL dev.hw.log + 1 ∧
    count_writes .CIF_ISP_IS_CTRL (rkisp1_isp_sd_s_stream K u polls dev on_).dev.hw.log =
      count_writes .CIF_ISP_IS_CTRL dev.hw.log + 1 ∧
    (rkisp1_isp_sd_s_stream K u polls dev on_).dev.isp_sdev.frm_sync_seq = 0 ∧
    (rkisp1_isp_sd_s_stream K u polls dev on_).dev.hw =
      isp_start_hw K dev.sensor (rkisp1_config_cif K u
        { dev with isp_sdev := { dev.isp_sdev with frm_sync_seq := 0 } }).dev.hw ∧
    readl (rkisp1_isp_sd_s_stream K u polls dev on_).dev.hw .CIF_ISP_CTRL =
      (K.CIF_ISP_CTRL_ISP_CFG_UPD ||| K.CIF_ISP_CTRL_ISP_INFORM_ENABLE |||
        K.CIF_ISP_CTRL_ISP_ENABLE) |||
      readl (rkisp1_config_cif K u
        { dev with isp_sdev := { dev.isp_sdev with frm_sync_seq := 0 } }).dev.hw
        .CIF_ISP_CTRL ∧
    (rkisp1_isp_sd_s_stream K u polls dev on_).dev.cif_streamon_cnt = 1 := by
  have hok : ¬ (rkisp1_isp_sd_s_stream K u polls dev on_).ret < 0 := by
    rw [hret]
    decide
  obtain ⟨-, h2, h3, -, -⟩ := s_stream_on_success K u polls dev on_ hon hok
  obtain ⟨w1, w2⟩ := s_stream_on_configures K u polls dev on_ hon hok
  obtain ⟨c1, c2⟩ := s_stream_on_hw K u polls dev on_ hon hok
  refine ⟨c1, w1, w2, ?_, c2, ?_, h2⟩
  · rw [h3]
  · rw [c2, isp_start_hw_ctrl]

/-- C34, witness: a device whose stream count is -3 (sensor on a 10-bit
parallel bus, default Bayer pad state, frame counter at 7).  The start returns
0, the count after it is 1, the frame counter 0, and `CIF_ISP_CTRL` holds 533,
the enable bits `ISP_CFG_UPD | ISP_INFORM_ENABLE | ISP_ENABLE` (529) ORed into
the configured value 516. -/
theorem s_stream_on_leaves_one_witness :
    (rkisp1_isp_sd_s_stream regs_h_example uninit_zero 0 dev_count_negative 1).ret = 0 ∧
    dev_count_negative.cif_streamon_cnt = -3 ∧
    dev_count_negative.isp_sdev.frm_sync_seq = 7 ∧
    (rkisp1_isp_sd_s_stream regs_h_example uninit_zero 0 dev_count_negative
      1).dev.isp_sdev.frm_sync_seq = 0 ∧
    readl (rkisp1_isp_sd_s_stream regs_h_example uninit_zero 0 dev_count_negative 1).dev.hw
      .CIF_ISP_CTRL = 533 ∧
    (rkisp1_isp_sd_s_stream regs_h_example uninit_zero 0 dev_count_negative
      1).dev.cif_streamon_cnt = 1 :=
  have h := s_stream_on_leaves_one regs_h_example uninit_zero 0 dev_count_negative 1
    (by decide) (by decide)
  ⟨by decide, by decide, by decide, h.2.2.2.1, h.2.2.2.2.2.1.trans (by decide), h.2.2.2.2.2.2⟩

/-! ## Catalog completeness -/

/-- Every entry of the sink table is either a Bayer entry with `bpp[0]` 8, 10
or 12, or a YUV entry with 2x1 subsampling and `bpp[0]` 16. -/
theorem input_formats_kinds :
    ∀ f ∈ rkisp1_isp_input_formats,
      (f.fmt_type = FMT_BAYER ∧ (bpp0 f = 8 ∨ bpp0 f = 10 ∨ bpp0 f = 12)) ∨
      (f.fmt_type = FMT_YUV ∧ f.xsubs = 2 ∧ f.ysubs = 1 ∧ bpp0 f = 16) := by
  decide

/-- The locals `rkisp1_config_isp` declares without a value reach its result
only through its first block. -/
theorem config_isp_of_select (K : regs_h) (u u' : uninit_locals) (dev : rkisp1_device)
    (h : isp_select K u' dev = isp_select K u dev) :
    rkisp1_config_isp K u' dev = rkisp1_config_isp K u dev := by
  unfold rkisp1_config_isp
  simp only [h]

/-- For a sink-table entry on one of the listed buses, the first block of
`rkisp1_config_isp` settles a selection, the same for every initial value of
the uninitialised locals. -/
theorem isp_select_catalog (K : regs_h) (u : uninit_locals) (dev : rkisp1_device)
    (hin : dev.isp_sdev.in_fmt ∈ rkisp1_isp_input_formats)
    (hbus : dev.sensor.ep.bus_type = V4L2_MBUS_CSI2 ∨
      dev.sensor.ep.bus.parallel.bus_width = 8 ∨
      dev.sensor.ep.bus.parallel.bus_width = 10 ∨
      dev.sensor.ep.bus.parallel.bus_width = 12) :
    (∃ s, isp_select K u dev = some s) ∧
    ∀ u', isp_select K u' dev = isp_select K u dev := by
  rcases input_formats_kinds _ hin with ⟨hb, hbpp⟩ | ⟨hy, -, -, -⟩
  · constructor
    · rw [isp_select_bayer K u dev hb]
      unfold isp_input_sel_bayer
      rcases hbpp with h | h | h <;> simp [h]
    · intro u'
      rw [isp_select_bayer K u dev hb, isp_select_bayer K u' dev hb]
  · have hnb : ¬ dev.isp_sdev.in_fmt.fmt_type = FMT_BAYER := by
      rw [hy]
      decide
    constructor
    · unfold isp_select
      simp only [if_neg hnb, if_pos hy]
      exact ⟨_, rfl⟩
    · intro u'
      unfold isp_select
      simp only [if_neg hnb, if_pos hy, get_active_sensor_info]
      rcases hbus with h | h | h | h <;> simp [h]

/-- C35.  For every device state whose sink format is an entry of
`rkisp1_isp_input_formats`, whatever the source format, on a CSI2 bus or on a
parallel or BT.656 bus of width 8, 10 or 12: `rkisp1_config_isp` returns 0 and
its result does not depend on the initial values of its uninitialised locals
(no switch falls through to a default case); the data type `rkisp1_config_mipi`
selects is assigned, whatever the initial value of the local: `RAW8`, `RAW10` or
`RAW12` by `bpp[0]` for a Bayer entry, `YUV422_8b` for a YUV entry; and every
table entry is of one of these two kinds, four of them YUV.  When the assigned
data-type constant is not 0, `rkisp1_config_mipi` returns 0. -/
theorem catalog_config_complete (K : regs_h) (u : uninit_locals) (dev : rkisp1_device)
    (hin : dev.isp_sdev.in_fmt ∈ rkisp1_isp_input_formats)
    (hbus : ((dev.sensor.ep.bus_type = V4L2_MBUS_PARALLEL ∨
          dev.sensor.ep.bus_type = V4L2_MBUS_BT656) ∧
        (dev.sensor.ep.bus.parallel.bus_width = 8 ∨
          dev.sensor.ep.bus.parallel.bus_width = 10 ∨
          dev.sensor.ep.bus.parallel.bus_width = 12)) ∨
      dev.sensor.ep.bus_type = V4L2_MBUS_CSI2) :
    (rkisp1_config_isp K u dev).ret = 0 ∧
    (∀ u', rkisp1_config_isp K u' dev = rkisp1_config_isp K u dev) ∧
    (dev.isp_sdev.in_fmt.fmt_type = FMT_BAYER ∨ dev.isp_sdev.in_fmt.fmt_type = FMT_YUV) ∧
    (rkisp1_isp_input_formats.filter (fun f => decide (f.fmt_type = FMT_YUV))).length = 4 ∧
    (∀ x, mipi_data_type K x dev.isp_sdev.in_fmt = catalog_data_type K dev.isp_sdev.in_fmt) ∧
    (catalog_data_type K dev.isp_sdev.in_fmt ≠ 0 → (rkisp1_config_mipi K u dev).ret = 0) := by
  have hb : dev.sensor.ep.bus_type = V4L2_MBUS_CSI2 ∨
      dev.sensor.ep.bus.parallel.bus_width = 8 ∨
      dev.sensor.ep.bus.parallel.bus_width = 10 ∨
      dev.sensor.ep.bus.parallel.bus_width = 12 := by
    rcases hbus with ⟨-, h⟩ | h
    · exact Or.inr h
    · exact Or.inl h
  obtain ⟨⟨s, hs⟩, hu⟩ := isp_select_catalog K u dev hin hb
  have hdt : ∀ x, mipi_data_type K x dev.isp_sdev.in_fmt =
      catalog_data_type K dev.isp_sdev.in_fmt := by
    intro x
    unfold mipi_data_type catalog_data_type
    rcases input_formats_kinds _ hin with ⟨h1, h2⟩ | ⟨h1, h2, h3, h4⟩
    · have hny : ¬ dev.isp_sdev.in_fmt.fmt_type = FMT_YUV := by
        rw [h1]
        decide
      simp only [if_neg hny, if_pos h1]
      rcases h2 with h | h | h <;> simp [h]
    · have hne : ¬ FMT_YUV = FMT_BAYER := by decide
      simp [h1, h2, h3, h4, hne]
  refine ⟨(config_isp_ok K u dev s hs).1, fun u' => config_isp_of_select K u u' dev (hu u'), ?_,
    by decide, hdt, ?_⟩
  · rcases input_formats_kinds _ hin with ⟨h1, -⟩ | ⟨h1, -⟩
    · exact Or.inl h1
    · exact Or.inr h1
  · intro hne
    have h0 : mipi_data_type K u.data_type dev.isp_sdev.in_fmt ≠ 0 := by
      rw [hdt]
      exact hne
    exact (config_mipi_ok K u dev h0).1

/-- C35, witness: the sink-table entry of `MEDIA_BUS_FMT_YUYV8_1X16` on an
8-bit parallel bus.  `rkisp1_config_isp` returns 0 and the data type
`rkisp1_config_mipi` would select is `YUV422_8b` (30). -/
theorem catalog_config_complete_witness :
    (dev_yuv_parallel 8).isp_sdev.in_fmt ∈ rkisp1_isp_input_formats ∧
    (dev_yuv_parallel 8).sensor.ep.bus_type = V4L2_MBUS_PARALLEL ∧
    (dev_yuv_parallel 8).sensor.ep.bus.parallel.bus_width = 8 ∧
    (rkisp1_config_isp regs_h_example uninit_zero (dev_yuv_parallel 8)).ret = 0 ∧
    mipi_data_type regs_h_example 0 (dev_yuv_parallel 8).isp_sdev.in_fmt = 30 ∧
    (rkisp1_config_mipi regs_h_example uninit_zero (dev_yuv_parallel 8)).ret = 0 :=
  have h := catalog_config_complete regs_h_example uninit_zero (dev_yuv_parallel 8)
    (by decide) (Or.inl ⟨Or.inl (by decide), Or.inl (by decide)⟩)
  ⟨by decide, by decide, by decide, h.1, (h.2.2.2.2.1 0).trans (by decide),
    h.2.2.2.2.2 (by decide)⟩

/-! ## Idempotence of the crop adjustment -/

theorem toU32_toS32 (n : Nat) : toU32 (toS32 n) = n % 4294967296 := by
  unfold toS32 toU32
  split <;> omega

theorem toS32_small (n : Nat) (h : n < 2147483648) : toS32 n = n := by
  unfold toS32
  split <;> omega

theorem toU32_natCast (n : Nat) : toU32 (n : Int) = n % 4294967296 := by
  unfold toU32
  omega

/-- The origin step of `rkisp1_isp_sd_try_crop` with alignment (the left
edge) gives back its own result. -/
theorem crop_left_fixed (x : Int) (B : Nat) (hB : B ≤ 4032) :
    toS32 (clamp_t_u32 (ALIGN_s32 (toS32 (clamp_t_u32 (ALIGN_s32 x 2) 0 B)) 2) 0 B) =
      toS32 (clamp_t_u32 (ALIGN_s32 x 2) 0 B) := by
  have h1 : ∀ v : Int, clamp_t_u32 (ALIGN_s32 v 2) 0 B =
      min (2 * (((toU32 v + 1) % 4294967296) / 2)) B := by
    intro v
    rw [ALIGN_s32_two]
    unfold clamp_t_u32
    rw [toU32_toS32, toU32_natCast]
    have : toU32 0 = 0 := rfl
    omega
  rw [h1 x]
  generalize (toU32 x + 1) % 4294967296 / 2 = m
  have h2 : toS32 (min (2 * m) B) = ((min (2 * m) B : Nat) : Int) := toS32_small _ (by omega)
  rw [h2, h1, toU32_natCast]
  have h3 : min (2 * (((min (2 * m) B) % 4294967296 + 1) % 4294967296 / 2)) B =
      min (2 * m) B := by omega
  rw [h3, h2]

/-- The origin step without alignment (the top edge) gives back its own
result. -/
theorem crop_top_fixed (y : Int) (H : Nat) (hH : H ≤ 4032) :
    toS32 (clamp_t_u32 (toS32 (clamp_t_u32 y 0 H)) 0 H) = toS32 (clamp_t_u32 y 0 H) := by
  have h1 : ∀ v : Int, clamp_t_u32 v 0 H = min (toU32 v) H := by
    intro v
    unfold clamp_t_u32
    rw [toU32_natCast]
    have : toU32 0 = 0 := rfl
    omega
  rw [h1 y]
  have h2 : toS32 (min (toU32 y) H) = ((min (toU32 y) H : Nat) : Int) :=
    toS32_small _ (by omega)
  rw [h2, h1, toU32_natCast]
  have h3 : min ((min (toU32 y) H) % 4294967296) H = min (toU32 y) H := by omega
  rw [h3, h2]

/-- The extent step with alignment (the width) gives back its own result. -/
theorem crop_width_fixed (w : Nat) (B : Nat) (l : Int) (h0 : 0 ≤ l) (h1 : l ≤ B)
    (hB : B ≤ 4032) :
    clamp_t_u32 (ALIGN_u32 (clamp_t_u32 (ALIGN_u32 w 2) 32 (B - l)) 2) 32 (B - l) =
      clamp_t_u32 (ALIGN_u32 w 2) 32 (B - l) := by
  have h2 : ∀ v : Nat, clamp_t_u32 (ALIGN_u32 v 2) 32 (B - l) =
      min (max (2 * (((v % 4294967296 + 1) % 4294967296) / 2)) 32) (B - l).toNat := by
    intro v
    rw [ALIGN_u32_two]
    unfold clamp_t_u32
    rw [toU32_natCast]
    have e1 : toU32 32 = 32 := rfl
    have e2 : toU32 (B - l) = (B - l).toNat := toU32_of_nonneg _ (by omega) (by omega)
    rw [e1, e2]
    omega
  rw [h2 w]
  generalize (w % 4294967296 + 1) % 4294967296 / 2 = m
  rw [h2]
  omega

/-- The extent step without alignment (the height) gives back its own
result. -/
theorem crop_height_fixed (h : Nat) (H : Nat) (t : Int) (h0 : 0 ≤ t) (h1 : t ≤ H)
    (hH : H ≤ 4032) :
    clamp_t_u32 (clamp_t_u32 h 32 (H - t)) 32 (H - t) = clamp_t_u32 h 32 (H - t) := by
  have e1 : toU32 32 = 32 := rfl
  have e2 : toU32 (H - t) = (H - t).toNat := toU32_of_nonneg _ (by omega) (by omega)
  unfold clamp_t_u32
  rw [e1, e2, toU32_natCast, toU32_natCast]
  omega

/-- With target CROP, `rkisp1_isp_sd_try_crop` returns 0, leaves the subdevice
state alone and changes only the rectangle of the request. -/
theorem try_crop_shape (isp_sd : rkisp1_isp_subdev) (sel : v4l2_subdev_selection)
    (htgt : sel.target = V4L2_SEL_TGT_CROP) :
    rkisp1_isp_sd_try_crop isp_sd sel =
      { ret := 0, isp_sd := isp_sd,
        sel := { sel with r := (rkisp1_isp_sd_try_crop isp_sd sel).sel.r } } := by
  unfold rkisp1_isp_sd_try_crop
  simp only [htgt, ne_eq, not_true_eq_false, if_false]

/-- C36.  For the sink and the source-path pad, every pad state whose bounding
box is at most 4032 wide and high, and every request with target CROP:
`rkisp1_isp_sd_try_crop` applied to the request it returned gives back the same
return value, state and request. -/
theorem try_crop_idempotent (isp_sd : rkisp1_isp_subdev) (sel : v4l2_subdev_selection)
    (hpad : sel.pad = RKISP1_ISP_PAD_SINK ∨ sel.pad = RKISP1_ISP_PAD_SOURCE_PATH)
    (htgt : sel.target = V4L2_SEL_TGT_CROP)
    (hw : (crop_bounds isp_sd sel.pad).width ≤ 4032)
    (hh : (crop_bounds isp_sd sel.pad).height ≤ 4032) :
    rkisp1_isp_sd_try_crop isp_sd (rkisp1_isp_sd_try_crop isp_sd sel).sel =
      rkisp1_isp_sd_try_crop isp_sd sel ∧
    (rkisp1_isp_sd_try_crop isp_sd sel).ret = 0 := by
  have e1 := try_crop_shape isp_sd sel htgt
  have r1 := try_crop_r isp_sd sel hpad htgt
  generalize rkisp1_isp_sd_try_crop isp_sd sel = res at e1 r1 ⊢
  rw [e1]
  refine ⟨?_, rfl⟩
  dsimp only
  have e2 := try_crop_shape isp_sd { sel with r := res.sel.r } htgt
  have r2 := try_crop_r isp_sd { sel with r := res.sel.r } hpad htgt
  rw [e2]
  dsimp only at r2 ⊢
  rw [r2, r1]
  dsimp only
  obtain ⟨l0, l1⟩ := clamp_origin_bounds (ALIGN_s32 sel.r.left 2)
    (crop_bounds isp_sd sel.pad).width (by omega)
  obtain ⟨t0, t1⟩ := clamp_origin_bounds sel.r.top (crop_bounds isp_sd sel.pad).height
    (by omega)
  rw [crop_left_fixed _ _ hw, crop_top_fixed _ _ hh, crop_width_fixed _ _ _ l0 l1 hw,
    crop_height_fixed _ _ _ t0 t1 hh]

/-- C36, witness: the default 800x600 sink pad and the request (-5, 7,
4294967295, 9000).  The first call gives (800, 7, 0, 593); the second call
gives the same. -/
theorem try_crop_idempotent_witness :
    (crop_request RKISP1_ISP_PAD_SINK ⟨-5, 7, 4294967295, 9000⟩).target = V4L2_SEL_TGT_CROP ∧
    (crop_bounds isp_sd_default RKISP1_ISP_PAD_SINK).width = 800 ∧
    (crop_bounds isp_sd_default RKISP1_ISP_PAD_SINK).height = 600 ∧
    (rkisp1_isp_sd_try_crop isp_sd_default
      (crop_request RKISP1_ISP_PAD_SINK ⟨-5, 7, 4294967295, 9000⟩)).sel.r = ⟨800, 7, 0, 593⟩ ∧
    rkisp1_isp_sd_try_crop isp_sd_default (rkisp1_isp_sd_try_crop isp_sd_default
      (crop_request RKISP1_ISP_PAD_SINK ⟨-5, 7, 4294967295, 9000⟩)).sel =
    rkisp1_isp_sd_try_crop isp_sd_default
      (crop_request RKISP1_ISP_PAD_SINK ⟨-5, 7, 4294967295, 9000⟩) :=
  ⟨by decide, by decide, by decide, by decide,
   (try_crop_idempotent isp_sd_default
     (crop_request RKISP1_ISP_PAD_SINK ⟨-5, 7, 4294967295, 9000⟩)
     (Or.inl (by decide)) (by decide) (by decide) (by decide)).1⟩

/-! ## Divisors and factor bounds of the resizer -/

/-- The divisor of an axis block is the larger size less one, which is at least
1 when both sizes are C `int` values of at least 1. -/
theorem scale_axis_divisor (a b : Int) (ha : 1 ≤ a) (hb : 1 ≤ b) (hb2 : b ≤ 2147483647)
    (h : a < b) : wrap_s32 (b - 1) = b - 1 ∧ 1 ≤ wrap_s32 (b - 1) := by
  rw [wrap_s32_id (b - 1) (by omega) (by omega)]
  exact ⟨rfl, by omega⟩

/-- One axis block returns for C `int` sizes of at least 1, with the flags of
its branch. -/
theorem scale_axis_returns_from_one (K : regs_h) (enable up : Nat) (a b : Int)
    (ha1 : 1 ≤ a) (ha2 : a ≤ 2147483647) (hb1 : 1 ≤ b) (hb2 : b ≤ 2147483647) :
    ∃ fo, scale_axis K enable up a b = some (axis_flags enable up a b, fo) := by
  unfold scale_axis axis_flags c_div
  by_cases h1 : a < b
  · have hd : ¬ wrap_s32 (b - 1) = 0 := by
      have := (scale_axis_divisor a b ha1 hb1 hb2 h1).2
      omega
    simp only [if_pos h1, if_neg hd, Option.map_some']
    exact ⟨_, rfl⟩
  · by_cases h2 : a > b
    · have hd : ¬ wrap_s32 (a - 1) = 0 := by
        have := (scale_axis_divisor b a hb1 ha1 ha2 h2).2
        omega
      simp only [if_neg h1, if_pos h2, if_neg hd, Option.map_some']
      exact ⟨_, rfl⟩
    · simp only [if_neg h1, if_neg h2]
      exact ⟨_, rfl⟩

/-- An axis block with input size 1 and a larger output size computes the
up-scale factor 0, whatever the scaler constant. -/
theorem scale_axis_in_one (K : regs_h) (enable up : Nat) (b : Int) (h1 : 1 < b)
    (h2 : b ≤ 2147483647) : scale_axis K enable up 1 b = some (enable ||| up, some 0) := by
  have hd : ¬ wrap_s32 (b - 1) = 0 := by
    rw [wrap_s32_id (b - 1) (by omega) (by omega)]
    omega
  have hn : c_mul (wrap_s32 (1 - 1)) K.CIF_RSZ_SCALER_FACTOR = 0 := by
    have e : wrap_s32 (1 - 1) = 0 := by decide
    unfold c_mul
    rw [e, Int.zero_mul]
    decide
  unfold scale_axis c_div
  rw [if_pos h1, hn, if_neg hd, Int.zero_tdiv]
  rfl

/-- An axis block with output size 1 and a larger input size computes the
down-scale factor 1, whatever the scaler constant. -/
theorem scale_axis_out_one (K : regs_h) (enable up : Nat) (a : Int) (h1 : 1 < a)
    (h2 : a ≤ 2147483647) : scale_axis K enable up a 1 = some (enable, some 1) := by
  have hd : ¬ wrap_s32 (a - 1) = 0 := by
    rw [wrap_s32_id (a - 1) (by omega) (by omega)]
    omega
  have hn : c_mul (wrap_s32 (1 - 1)) K.CIF_RSZ_SCALER_FACTOR = 0 := by
    have e : wrap_s32 (1 - 1) = 0 := by decide
    unfold c_mul
    rw [e, Int.zero_mul]
    decide
  have h3 : ¬ a < 1 := by omega
  unfold scale_axis c_div
  rw [if_neg h3, if_pos h1, hn, if_neg hd, Int.zero_tdiv]
  rfl

/-- C37.  When all eight sizes are C `int` values of at least 1, `set_scale`
divides by zero on no axis: it returns, having written `rsz_ctrl` last.  On
every axis of such sizes the up-scale branch (in < out) divides by out - 1,
which is at least 1, and the down-scale branch (in > out) by in - 1, which is at
least 1; an axis with in = 1 < out gets the factor 0 and an axis with
in > out = 1 the factor 1, for every value of the scaler constant. -/
theorem set_scale_divides_by_nonzero (K : regs_h) (io : Mmio) (stream : rsz_stream)
    (in_y in_c out_y out_c : rkisp1_win)
    (hsz : ∀ x ∈ scale_sizes in_y in_c out_y out_c, 1 ≤ x ∧ x ≤ 2147483647) :
    (∃ io', set_scale K io stream in_y in_c out_y out_c = some io' ∧
      ∃ ws ctrl, io'.log = io.log ++ ws ++ [(ctrl, stream.base_addr + stream.regs.rsz_ctrl)]) ∧
    (∀ a b : Int, 1 ≤ a → a ≤ 2147483647 → 1 ≤ b → b ≤ 2147483647 →
      (a < b → 1 ≤ wrap_s32 (b - 1)) ∧ (a > b → 1 ≤ wrap_s32 (a - 1)) ∧
      ∀ enable up, ∃ fo, scale_axis K enable up a b = some (axis_flags enable up a b, fo)) ∧
    (∀ enable up (out : Int), 1 < out → out ≤ 2147483647 →
      scale_axis K enable up 1 out = some (enable ||| up, some 0)) ∧
    (∀ enable up (in_ : Int), 1 < in_ → in_ ≤ 2147483647 →
      scale_axis K enable up in_ 1 = some (enable, some 1)) := by
  simp only [scale_sizes, List.mem_cons, List.mem_singleton, forall_eq_or_imp, forall_eq,
    List.not_mem_nil, IsEmpty.forall_iff, implies_true, and_true] at hsz
  obtain ⟨s1, s2, s3, s4, s5, s6, s7, s8⟩ := hsz
  refine ⟨?_, fun a b ha1 ha2 hb1 hb2 => ⟨fun h => (scale_axis_divisor a b ha1 hb1 hb2 h).2,
    fun h => (scale_axis_divisor b a hb1 ha1 ha2 h).2,
    fun e u => scale_axis_returns_from_one K e u a b ha1 ha2 hb1 hb2⟩,
    fun e u b h1 h2 => scale_axis_in_one K e u b h1 h2,
    fun e u a h1 h2 => scale_axis_out_one K e u a h1 h2⟩
  obtain ⟨f1, e1⟩ := scale_axis_returns_from_one K K.CIF_RSZ_CTRL_SCALE_HY_ENABLE
    K.CIF_RSZ_CTRL_SCALE_HY_UP in_y.w out_y.w s1.1 s1.2 s5.1 s5.2
  obtain ⟨f2, e2⟩ := scale_axis_returns_from_one K K.CIF_RSZ_CTRL_SCALE_HC_ENABLE
    K.CIF_RSZ_CTRL_SCALE_HC_UP in_c.w out_c.w s3.1 s3.2 s7.1 s7.2
  obtain ⟨f3, e3⟩ := scale_axis_returns_from_one K K.CIF_RSZ_CTRL_SCALE_VY_ENABLE
    K.CIF_RSZ_CTRL_SCALE_VY_UP in_y.h out_y.h s2.1 s2.2 s6.1 s6.2
  obtain ⟨f4, e4⟩ := scale_axis_returns_from_one K K.CIF_RSZ_CTRL_SCALE_VC_ENABLE
    K.CIF_RSZ_CTRL_SCALE_VC_UP in_c.h out_c.h s4.1 s4.2 s8.1 s8.2
  have e := set_scale_of_axes K io stream in_y in_c out_y out_c _ _ _ _ e1 e2 e3 e4
  refine ⟨_, e, ?_⟩
  rw [replay_log]
  exact ⟨_, _, (List.append_assoc _ _ _).symm⟩

/-- C37, witness: luma 1x2147483647 to 2147483647x1, chroma 1x1 to 1x3.  The
call returns; the luma width gets the factor 0, the luma height the factor 1,
the chroma width nothing and the chroma height the factor 0. -/
theorem set_scale_divides_by_nonzero_witness :
    (∀ x ∈ scale_sizes ⟨1, 2147483647⟩ ⟨1, 1⟩ ⟨2147483647, 1⟩ ⟨1, 3⟩,
      1 ≤ x ∧ x ≤ 2147483647) ∧
    (∃ io', set_scale regs_h_example io_zero stream_example ⟨1, 2147483647⟩ ⟨1, 1⟩
        ⟨2147483647, 1⟩ ⟨1, 3⟩ = some io' ∧
      ∃ ws ctrl, io'.log = io_zero.log ++ ws ++
        [(ctrl, stream_example.base_addr + stream_example.regs.rsz_ctrl)]) ∧
    (set_scale regs_h_example io_zero stream_example ⟨1, 2147483647⟩ ⟨1, 1⟩
      ⟨2147483647, 1⟩ ⟨1, 3⟩).map Mmio.log =
      some [(0, 4100), (1, 4112), (0, 4116), (157, 4096)] :=
  have hs : ∀ x ∈ scale_sizes ⟨1, 2147483647⟩ ⟨1, 1⟩ ⟨2147483647, 1⟩ ⟨1, 3⟩,
      1 ≤ x ∧ x ≤ 2147483647 := by
    unfold scale_sizes
    decide
  ⟨hs, (set_scale_divides_by_nonzero regs_h_example io_zero stream_example ⟨1, 2147483647⟩
    ⟨1, 1⟩ ⟨2147483647, 1⟩ ⟨1, 3⟩ hs).1, by decide⟩

/-- The two branches of an axis block on swapped sizes share the quotient
`((b - 1) * F) / (a - 1)`; the down-scale branch adds 1. -/
theorem scale_axis_swap (K : regs_h) (enable up : Nat) (a b : Int)
    (hF : 0 ≤ K.CIF_RSZ_SCALER_FACTOR) (hb : 1 ≤ b) (hab : b < a) (ha : a ≤ 2147483647)
    (hov : (b - 1) * K.CIF_RSZ_SCALER_FACTOR < 2147483648) :
    ∃ f, scale_axis K enable up b a = some (enable ||| up, some f) ∧
      scale_axis K enable up a b = some (enable, some (f + 1)) := by
  have h0 : 0 ≤ (b - 1) * K.CIF_RSZ_SCALER_FACTOR := Int.mul_nonneg (by omega) hF
  have hq := tdiv_bounds ((b - 1) * K.CIF_RSZ_SCALER_FACTOR) (a - 1) h0 (by omega)
  have hn : c_mul (wrap_s32 (b - 1)) K.CIF_RSZ_SCALER_FACTOR =
      (b - 1) * K.CIF_RSZ_SCALER_FACTOR := by
    unfold c_mul
    rw [wrap_s32_id (b - 1) (by omega) (by omega), wrap_s32_id _ (by omega) hov]
  have hd : wrap_s32 (a - 1) = a - 1 := wrap_s32_id (a - 1) (by omega) (by omega)
  have hd0 : ¬ a - 1 = 0 := by omega
  have hw : wrap_s32 (((b - 1) * K.CIF_RSZ_SCALER_FACTOR).tdiv (a - 1)) =
      ((b - 1) * K.CIF_RSZ_SCALER_FACTOR).tdiv (a - 1) :=
    wrap_s32_id _ (by omega) (by omega)
  have hna : ¬ a < b := by omega
  refine ⟨(((b - 1) * K.CIF_RSZ_SCALER_FACTOR).tdiv (a - 1)).toNat, ?_, ?_⟩
  · unfold scale_axis c_div
    rw [if_pos hab, hn, hd, if_neg hd0, hw, Option.map_some',
      toU32_of_nonneg _ hq.1 (by omega)]
  · unfold scale_axis c_div
    rw [if_neg hna, if_pos hab, hn, hd, if_neg hd0, hw, Option.map_some', toU32_wrap_s32,
      toU32_of_nonneg _ (by omega) (by omega)]
    have e : (((b - 1) * K.CIF_RSZ_SCALER_FACTOR).tdiv (a - 1) + 1).toNat =
        (((b - 1) * K.CIF_RSZ_SCALER_FACTOR).tdiv (a - 1)).toNat + 1 := by omega
    rw [e]

/-- C38.  Take the scaler constant F non-negative.  For C `int` sizes
a > b >= 1 with (b - 1) * F below 2^31, the axis block with in = b, out = a
computes an up-scale factor f and the axis block with in = a, out = b computes
the down-scale factor f + 1.  For a call of `set_scale` that scales all four
axes down, the factors written are each 1 more than the factors the call with
the input and output windows swapped writes to the same registers. -/
theorem set_scale_down_is_up_plus_one (K : regs_h) (io : Mmio) (stream : rsz_stream)
    (in_y in_c out_y out_c : rkisp1_win)
    (hF : 0 ≤ K.CIF_RSZ_SCALER_FACTOR)
    (hyw : 1 ≤ out_y.w ∧ out_y.w < in_y.w ∧ in_y.w ≤ 2147483647 ∧
      (out_y.w - 1) * K.CIF_RSZ_SCALER_FACTOR < 2147483648)
    (hcw : 1 ≤ out_c.w ∧ out_c.w < in_c.w ∧ in_c.w ≤ 2147483647 ∧
      (out_c.w - 1) * K.CIF_RSZ_SCALER_FACTOR < 2147483648)
    (hyh : 1 ≤ out_y.h ∧ out_y.h < in_y.h ∧ in_y.h ≤ 2147483647 ∧
      (out_y.h - 1) * K.CIF_RSZ_SCALER_FACTOR < 2147483648)
    (hch : 1 ≤ out_c.h ∧ out_c.h < in_c.h ∧ in_c.h ≤ 2147483647 ∧
      (out_c.h - 1) * K.CIF_RSZ_SCALER_FACTOR < 2147483648) :
    (∀ (enable up : Nat) (a b : Int), 1 ≤ b → b < a → a ≤ 2147483647 →
      (b - 1) * K.CIF_RSZ_SCALER_FACTOR < 2147483648 →
      ∃ f, scale_axis K enable up b a = some (enable ||| up, some f) ∧
        scale_axis K enable up a b = some (enable, some (f + 1))) ∧
    ∃ f1 f2 f3 f4 down up,
      (set_scale K io stream in_y in_c out_y out_c).map Mmio.log =
        some (io.log ++
          [(f1 + 1, stream.base_addr + stream.regs.scale_hy),
           (f2 + 1, stream.base_addr + stream.regs.scale_hcb),
           (f2 + 1, stream.base_addr + stream.regs.scale_hcr),
           (f3 + 1, stream.base_addr + stream.regs.scale_vy),
           (f4 + 1, stream.base_addr + stream.regs.scale_vc),
           (down, stream.base_addr + stream.regs.rsz_ctrl)]) ∧
      (set_scale K io stream out_y out_c in_y in_c).map Mmio.log =
        some (io.log ++
          [(f1, stream.base_addr + stream.regs.scale_hy),
           (f2, stream.base_addr + stream.regs.scale_hcb),
           (f2, stream.base_addr + stream.regs.scale_hcr),
           (f3, stream.base_addr + stream.regs.scale_vy),
           (f4, stream.base_addr + stream.regs.scale_vc),
           (up, stream.base_addr + stream.regs.rsz_ctrl)]) := by
  refine ⟨fun e u a b hb hab ha hov => scale_axis_swap K e u a b hF hb hab ha hov, ?_⟩
  obtain ⟨f1, u1, d1⟩ := scale_axis_swap K K.CIF_RSZ_CTRL_SCALE_HY_ENABLE
    K.CIF_RSZ_CTRL_SCALE_HY_UP in_y.w out_y.w hF hyw.1 hyw.2.1 hyw.2.2.1 hyw.2.2.2
  obtain ⟨f2, u2, d2⟩ := scale_axis_swap K K.CIF_RSZ_CTRL_SCALE_HC_ENABLE
    K.CIF_RSZ_CTRL_SCALE_HC_UP in_c.w out_c.w hF hcw.1 hcw.2.1 hcw.2.2.1 hcw.2.2.2
  obtain ⟨f3, u3, d3⟩ := scale_axis_swap K K.CIF_RSZ_CTRL_SCALE_VY_ENABLE
    K.CIF_RSZ_CTRL_SCALE_VY_UP in_y.h out_y.h hF hyh.1 hyh.2.1 hyh.2.2.1 hyh.2.2.2
  obtain ⟨f4, u4, d4⟩ := scale_axis_swap K K.CIF_RSZ_CTRL_SCALE_VC_ENABLE
    K.CIF_RSZ_CTRL_SCALE_VC_UP in_c.h out_c.h hF hch.1 hch.2.1 hch.2.2.1 hch.2.2.2
  have ed := set_scale_of_axes K io stream in_y in_c out_y out_c _ _ _ _ d1 d2 d3 d4
  have eu := set_scale_of_axes K io stream out_y out_c in_y in_c _ _ _ _ u1 u2 u3 u4
  refine ⟨f1, f2, f3, f4,
    0 ||| K.CIF_RSZ_CTRL_SCALE_HY_ENABLE ||| K.CIF_RSZ_CTRL_SCALE_HC_ENABLE |||
      K.CIF_RSZ_CTRL_SCALE_VY_ENABLE ||| K.CIF_RSZ_CTRL_SCALE_VC_ENABLE,
    0 ||| (K.CIF_RSZ_CTRL_SCALE_HY_ENABLE ||| K.CIF_RSZ_CTRL_SCALE_HY_UP) |||
      (K.CIF_RSZ_CTRL_SCALE_HC_ENABLE ||| K.CIF_RSZ_CTRL_SCALE_HC_UP) |||
      (K.CIF_RSZ_CTRL_SCALE_VY_ENABLE ||| K.CIF_RSZ_CTRL_SCALE_VY_UP) |||
      (K.CIF_RSZ_CTRL_SCALE_VC_ENABLE ||| K.CIF_RSZ_CTRL_SCALE_VC_UP), ?_, ?_⟩
  · rw [ed, Option.map_some', replay_log]
    rfl
  · rw [eu, Option.map_some', replay_log]
    rfl

/-- C38, witness: luma 640x480 to 320x240 and chroma 320x480 to 160x240, against
the swapped call.  The down-scale factors are 32717, 32666, 32700, 32700; the
up-scale factors of the swapped call are each 1 less. -/
theorem set_scale_down_is_up_plus_one_witness :
    0 ≤ regs_h_example.CIF_RSZ_SCALER_FACTOR ∧
    (320 - 1) * regs_h_example.CIF_RSZ_SCALER_FACTOR < 2147483648 ∧
    (set_scale regs_h_example io_zero stream_example ⟨640, 480⟩ ⟨320, 480⟩ ⟨320, 240⟩
      ⟨160, 240⟩).map Mmio.log =
      some [(32717, 4100), (32666, 4104), (32666, 4108), (32700, 4112), (32700, 4116),
        (15, 4096)] ∧
    (set_scale regs_h_example io_zero stream_example ⟨320, 240⟩ ⟨160, 240⟩ ⟨640, 480⟩
      ⟨320, 480⟩).map Mmio.log =
      some [(32716, 4100), (32665, 4104), (32665, 4108), (32699, 4112), (32699, 4116),
        (255, 4096)] ∧
    ∃ f1 f2 f3 f4 down up,
      (set_scale regs_h_example io_zero stream_example ⟨640, 480⟩ ⟨320, 480⟩ ⟨320, 240⟩
        ⟨160, 240⟩).map Mmio.log =
        some (io_zero.log ++
          [(f1 + 1, stream_example.base_addr + stream_example.regs.scale_hy),
           (f2 + 1, stream_example.base_addr + stream_example.regs.scale_hcb),
           (f2 + 1, stream_example.base_addr + stream_example.regs.scale_hcr),
           (f3 + 1, stream_example.base_addr + stream_example.regs.scale_vy),
           (f4 + 1, stream_example.base_addr + stream_example.regs.scale_vc),
           (down, stream_example.base_addr + stream_example.regs.rsz_ctrl)]) ∧
      (set_scale regs_h_example io_zero stream_example ⟨320, 240⟩ ⟨160, 240⟩ ⟨640, 480⟩
        ⟨320, 480⟩).map Mmio.log =
        some (io_zero.log ++
          [(f1, stream_example.base_addr + stream_example.regs.scale_hy),
           (f2, stream_example.base_addr + stream_example.regs.scale_hcb),
           (f2, stream_example.base_addr + stream_example.regs.scale_hcr),
           (f3, stream_example.base_addr + stream_example.regs.scale_vy),
           (f4, stream_example.base_addr + stream_example.regs.scale_vc),
           (up, stream_example.base_addr + stream_example.regs.rsz_ctrl)]) :=
  ⟨by decide, by decide, by decide, by decide,
   (set_scale_down_is_up_plus_one regs_h_example io_zero stream_example ⟨640, 480⟩ ⟨320, 480⟩
     ⟨320, 240⟩ ⟨160, 240⟩ (by decide) (by decide) (by decide) (by decide) (by decide)).2⟩

/-- The truncated quotient `((a - 1) * F) / (b - 1)` is below F when a < b. -/
theorem scale_quotient_lt (F a b : Int) (hF : 0 < F) (ha : 1 ≤ a) (hab : a < b) :
    0 ≤ ((a - 1) * F).tdiv (b - 1) ∧ ((a - 1) * F).tdiv (b - 1) < F := by
  have h0 : 0 ≤ (a - 1) * F := Int.mul_nonneg (by omega) (le_of_lt hF)
  have hq := tdiv_bounds ((a - 1) * F) (b - 1) h0 (by omega)
  refine ⟨hq.1, ?_⟩
  rw [Int.tdiv_eq_ediv h0 (by omega)]
  apply Int.ediv_lt_of_lt_mul (by omega)
  have h1 : (a - 1) * F < (b - 1) * F := Int.mul_lt_mul_of_pos_right (by omega) hF
  rw [Int.mul_comm F (b - 1)]
  exact h1

/-- The factor of an axis is bounded by the scaler constant: below it when
scaling up, from 1 to it when scaling down. -/
theorem factor_reference_bounds (F a b : Int) (hF : 0 < F) (ha : 1 ≤ a) (hb : 1 ≤ b) :
    (a < b → ∃ f, scale_factor_reference F a b = some f ∧ (f : Int) < F) ∧
    (a > b → ∃ f, scale_factor_reference F a b = some f ∧ 1 ≤ f ∧ (f : Int) ≤ F) ∧
    ∀ f, scale_factor_reference F a b = some f → (f : Int) ≤ F := by
  unfold scale_factor_reference
  by_cases h1 : a < b
  · obtain ⟨q0, q1⟩ := scale_quotient_lt F a b hF ha h1
    simp only [if_pos h1, Option.some.injEq]
    refine ⟨fun _ => ⟨_, rfl, by omega⟩, fun h => absurd h (by omega), ?_⟩
    intro f hf
    omega
  · by_cases h2 : a > b
    · obtain ⟨q0, q1⟩ := scale_quotient_lt F b a hF hb h2
      simp only [if_neg h1, if_pos h2, Option.some.injEq]
      refine ⟨fun h => absurd h h1, fun _ => ⟨_, rfl, by omega, by omega⟩, ?_⟩
      intro f hf
      omega
    · simp only [if_neg h1, if_neg h2]
      exact ⟨fun h => absurd h h1, fun h => absurd h h2, fun f hf => by simp at hf⟩

theorem factor_writes_le (F : Int) (fo : Option Nat) (addrs : List Nat)
    (h : ∀ f, fo = some f → (f : Int) ≤ F) :
    ∀ w ∈ factor_writes fo addrs, (w.1 : Int) ≤ F := by
  intro w hw
  cases fo with
  | none => simp [factor_writes] at hw
  | some f =>
    simp only [factor_writes, List.mem_map] at hw
    obtain ⟨a, -, rfl⟩ := hw
    exact h f rfl

/-- C39.  Take the scaler constant F positive with 4031 * F < 2^31.  For sizes
from 1 to 4032, an axis block that scales up (in < out) computes a factor f with
0 <= f < F, and one that scales down (in > out) a factor f with 1 <= f <= F.
A call of `set_scale` with all eight sizes from 1 to 4032 returns, and every
write it makes before the final one to `rsz_ctrl` has a value of at most F. -/
theorem set_scale_factor_bounds (K : regs_h) (io : Mmio) (stream : rsz_stream)
    (in_y in_c out_y out_c : rkisp1_win)
    (hF : 0 < K.CIF_RSZ_SCALER_FACTOR) (hmax : 4031 * K.CIF_RSZ_SCALER_FACTOR < 2147483648)
    (hsz : ∀ x ∈ scale_sizes in_y in_c out_y out_c, 1 ≤ x ∧ x ≤ 4032) :
    (∀ (enable up : Nat) (a b : Int), 1 ≤ a → a ≤ 4032 → 1 ≤ b → b ≤ 4032 →
      (a < b → ∃ f : Nat, scale_axis K enable up a b = some (enable ||| up, some f) ∧
        0 ≤ f ∧ (f : Int) < K.CIF_RSZ_SCALER_FACTOR) ∧
      (a > b → ∃ f : Nat, scale_axis K enable up a b = some (enable, some f) ∧
        1 ≤ f ∧ (f : Int) ≤ K.CIF_RSZ_SCALER_FACTOR)) ∧
    ∃ ws ctrl,
      (set_scale K io stream in_y in_c out_y out_c).map Mmio.log =
        some (io.log ++ ws ++ [(ctrl, stream.base_addr + stream.regs.rsz_ctrl)]) ∧
      ∀ w ∈ ws, (w.1 : Int) ≤ K.CIF_RSZ_SCALER_FACTOR := by
  have hF0 : 0 ≤ K.CIF_RSZ_SCALER_FACTOR := le_of_lt hF
  constructor
  · intro e u a b ha1 ha2 hb1 hb2
    have hr := scale_axis_reference_from_one K e u a b hF0 hmax ha1 ha2 hb1 hb2
    obtain ⟨b1, b2, -⟩ := factor_reference_bounds K.CIF_RSZ_SCALER_FACTOR a b hF ha1 hb1
    constructor
    · intro h
      obtain ⟨f, hf, hlt⟩ := b1 h
      refine ⟨f, ?_, Nat.zero_le f, hlt⟩
      rw [hr, hf]
      simp only [axis_flags, if_pos h]
    · intro h
      obtain ⟨f, hf, h1, hle⟩ := b2 h
      have hn : ¬ a < b := by omega
      refine ⟨f, ?_, h1, hle⟩
      rw [hr, hf]
      simp only [axis_flags, if_neg hn, if_pos h]
  · simp only [scale_sizes, List.mem_cons, List.mem_singleton, forall_eq_or_imp, forall_eq,
      List.not_mem_nil, IsEmpty.forall_iff, implies_true, and_true] at hsz
    obtain ⟨s1, s2, s3, s4, s5, s6, s7, s8⟩ := hsz
    have e := set_scale_of_axes K io stream in_y in_c out_y out_c _ _ _ _
      (scale_axis_reference_from_one K _ _ in_y.w out_y.w hF0 hmax s1.1 s1.2 s5.1 s5.2)
      (scale_axis_reference_from_one K _ _ in_c.w out_c.w hF0 hmax s3.1 s3.2 s7.1 s7.2)
      (scale_axis_reference_from_one K _ _ in_y.h out_y.h hF0 hmax s2.1 s2.2 s6.1 s6.2)
      (scale_axis_reference_from_one K _ _ in_c.h out_c.h hF0 hmax s4.1 s4.2 s8.1 s8.2)
    dsimp only at e
    refine ⟨factor_writes (scale_factor_reference K.CIF_RSZ_SCALER_FACTOR in_y.w out_y.w)
          [stream.base_addr + stream.regs.scale_hy] ++
        factor_writes (scale_factor_reference K.CIF_RSZ_SCALER_FACTOR in_c.w out_c.w)
          [stream.base_addr + stream.regs.scale_hcb, stream.base_addr + stream.regs.scale_hcr] ++
        factor_writes (scale_factor_reference K.CIF_RSZ_SCALER_FACTOR in_y.h out_y.h)
          [stream.base_addr + stream.regs.scale_vy] ++
        factor_writes (scale_factor_reference K.CIF_RSZ_SCALER_FACTOR in_c.h out_c.h)
          [stream.base_addr + stream.regs.scale_vc],
      0 ||| axis_flags K.CIF_RSZ_CTRL_SCALE_HY_ENABLE K.CIF_RSZ_CTRL_SCALE_HY_UP in_y.w out_y.w |||
        axis_flags K.CIF_RSZ_CTRL_SCALE_HC_ENABLE K.CIF_RSZ_CTRL_SCALE_HC_UP in_c.w out_c.w |||
        axis_flags K.CIF_RSZ_CTRL_SCALE_VY_ENABLE K.CIF_RSZ_CTRL_SCALE_VY_UP in_y.h out_y.h |||
        axis_flags K.CIF_RSZ_CTRL_SCALE_VC_ENABLE K.CIF_RSZ_CTRL_SCALE_VC_UP in_c.h out_c.h,
      ?_, ?_⟩
    · rw [e, Option.map_some', replay_log, ← List.append_assoc]
    · intro w hw
      simp only [List.mem_append] at hw
      rcases hw with ((hw | hw) | hw) | hw
      · exact factor_writes_le _ _ _
          (factor_reference_bounds K.CIF_RSZ_SCALER_FACTOR _ _ hF s1.1 s5.1).2.2 w hw
      · exact factor_writes_le _ _ _
          (factor_reference_bounds K.CIF_RSZ_SCALER_FACTOR _ _ hF s3.1 s7.1).2.2 w hw
      · exact factor_writes_le _ _ _
          (factor_reference_bounds K.CIF_RSZ_SCALER_FACTOR _ _ hF s2.1 s6.1).2.2 w hw
      · exact factor_writes_le _ _ _
          (factor_reference_bounds K.CIF_RSZ_SCALER_FACTOR _ _ hF s4.1 s8.1).2.2 w hw

/-- C39, witness: luma 4032x1 to 1x4032 and chroma 4031x4032 to 4032x4031, with
the scaler constant 65536.  The factors written are 1, 65519 (twice), 0 and
65520, none above 65536. -/
theorem set_scale_factor_bounds_witness :
    0 < regs_h_example.CIF_RSZ_SCALER_FACTOR ∧
    4031 * regs_h_example.CIF_RSZ_SCALER_FACTOR < 2147483648 ∧
    (∀ x ∈ scale_sizes ⟨4032, 1⟩ ⟨4031, 4032⟩ ⟨1, 4032⟩ ⟨4032, 4031⟩, 1 ≤ x ∧ x ≤ 4032) ∧
    (set_scale regs_h_example io_zero stream_example ⟨4032, 1⟩ ⟨4031, 4032⟩ ⟨1, 4032⟩
      ⟨4032, 4031⟩).map Mmio.log =
      some [(1, 4100), (65519, 4104), (65519, 4108), (0, 4112), (65520, 4116), (111, 4096)] ∧
    ∃ ws ctrl,
      (set_scale regs_h_example io_zero stream_example ⟨4032, 1⟩ ⟨4031, 4032⟩ ⟨1, 4032⟩
        ⟨4032, 4031⟩).map Mmio.log =
        some (io_zero.log ++ ws ++
          [(ctrl, stream_example.base_addr + stream_example.regs.rsz_ctrl)]) ∧
      ∀ w ∈ ws, (w.1 : Int) ≤ regs_h_example.CIF_RSZ_SCALER_FACTOR :=
  have hs : ∀ x ∈ scale_sizes ⟨4032, 1⟩ ⟨4031, 4032⟩ ⟨1, 4032⟩ ⟨4032, 4031⟩,
      1 ≤ x ∧ x ≤ 4032 := by
    unfold scale_sizes
    decide
  ⟨by decide, by decide, hs, by decide,
   (set_scale_factor_bounds regs_h_example io_zero stream_example ⟨4032, 1⟩ ⟨4031, 4032⟩
     ⟨1, 4032⟩ ⟨4032, 4031⟩ (by decide) (by decide) hs).2⟩

end Rkisp1
